import Mathlib

/-!
# Beetle Saturn input layer (`input.cpp`): shallow embedding and verified properties

The embedding follows `src/input.cpp` function by function.

Conventions of the embedding
* C integers are `Int`/`Nat` with the reductions of the C conversions made explicit
  (`uint16`, `int16`); an operation whose behaviour the C++ standard leaves undefined
  (conversion of a non-finite or out-of-range floating value to `int`, signed overflow)
  yields `none`.
* `float` is IEEE-754 binary32 with round-to-nearest-even, every operation rounded once
  (FLT_EVAL_METHOD = 0, as on x86-64/SSE and ARM): a finite value is the rational it
  denotes, `F32.ofRat` is the rounding. Signed zeros are not distinguished.
* The host is little-endian: the `buttons` member of the `INPUT_DATA` union is bytes 0-1.
* The identifiers `RETRO_DEVICE_*` come from `libretro.h`, which is not part of the sources
  under study; their numeric values are those of the public libretro API.
* The two multitap settings are declared in `libretro_settings.h`, also outside the sources
  under study; they start out false, the value that goes with the initial player count 2.
* The lookups of `src/mednafen/ss/db.cpp` are embedded with their four tables; the named
  constants of the tables come from headers outside the sources under study and are
  parameters (`DbConstants`). C strings are `String`s without a NUL character.
* The save-state layer behind `input_StateAction` is outside the sources under study and is
  modelled from the specification.
-/

namespace BeetleSaturn

/-! ## Machine integers -/

/-- Conversion of a C `int` to `uint16_t`: reduction modulo 2^16. -/
def uint16 (z : Int) : Nat := (z % 65536).toNat

/-- Conversion to `int16_t` (two's complement), the return type of `retro_input_state_t`. -/
def int16 (z : Int) : Int :=
  let r := z % 65536
  if r < 32768 then r else r - 65536

/-- Largest value of a 32-bit `int`. -/
def INT_MAX : Int := 2147483647

/-- Smallest value of a 32-bit `int`. -/
def INT_MIN : Int := -2147483648

/-- A 32-bit signed arithmetic result: defined only when it is representable. -/
def checked_int (z : Int) : Option Int :=
  if INT_MIN ≤ z ∧ z ≤ INT_MAX then some z else none

/-! ## IEEE-754 binary32 -/

/-- Nearest integer to a rational, ties to the even integer. -/
def roundHalfEven (q : ℚ) : Int :=
  let f := Rat.floor q
  let r := q - f
  if r < 1 / 2 then f else if 1 / 2 < r then f + 1 else if f % 2 = 0 then f else f + 1

/-- Nearest integer to a rational, ties away from zero: the C functions `round`/`roundf`. -/
def roundHalfAway (q : ℚ) : Int :=
  if 0 ≤ q then Rat.floor (q + 1 / 2) else -Rat.floor (-q + 1 / 2)

/-- Integer part of a rational, rounding toward zero: the C conversion to an integer type. -/
def truncQ (q : ℚ) : Int :=
  if 0 ≤ q then Rat.floor q else -Rat.floor (-q)

/-- Floor of the base-2 logarithm of `n` by repeated halving, at most `fuel` times. -/
def log2Fuel : Nat → Nat → Nat
  | 0, _ => 0
  | fuel + 1, n => if n < 2 then 0 else log2Fuel fuel (n / 2) + 1

/-- Floor of the base-2 logarithm of a natural number (0 at 0). -/
def natLog2 (n : Nat) : Nat := log2Fuel n n

/-- Floor of the base-2 logarithm of `|q|`, for `q ≠ 0`. -/
def ilog2 (q : ℚ) : Int :=
  let e : Int := (natLog2 q.num.natAbs : Int) - (natLog2 q.den : Int)
  if (2 : ℚ) ^ e ≤ |q| then e else e - 1

/-- Unit in the last place of binary32 at `q ≠ 0`: 24 significant bits, the exponent never
below that of the smallest normal number. -/
def ulp32 (q : ℚ) : ℚ := (2 : ℚ) ^ (max (ilog2 q) (-126) - 23)

/-- Rounding of a rational to the binary32 grid (round to nearest, ties to even), with the
exponent unbounded above. -/
def roundBinary32 (q : ℚ) : ℚ :=
  if q = 0 then 0 else (roundHalfEven (q / ulp32 q) : ℚ) * ulp32 q

/-- A binary32 value: a finite number, an infinity or a NaN. -/
inductive F32 where
  | fin (q : ℚ)
  | inf (neg : Bool)
  | nan
deriving DecidableEq

namespace F32

/-- The binary32 value nearest to a rational; overflow gives an infinity. -/
def ofRat (q : ℚ) : F32 :=
  let r := roundBinary32 q
  if |r| < (2 : ℚ) ^ (128 : Nat) then fin r else inf (decide (q < 0))

/-- Conversion of a C `int` to `float`. -/
def ofInt (z : Int) : F32 := ofRat (z : ℚ)

/-- Product `a * b` in binary32. -/
def mul : F32 → F32 → F32
  | fin x, fin y => ofRat (x * y)
  | fin x, inf s => if x = 0 then nan else inf (xor s (decide (x < 0)))
  | inf s, fin y => if y = 0 then nan else inf (xor s (decide (y < 0)))
  | inf s, inf t => inf (xor s t)
  | _, _ => nan

/-- Quotient `a / b` in binary32; a non-zero finite value divided by zero is an infinity. -/
def div : F32 → F32 → F32
  | fin x, fin y =>
    if y = 0 then (if x = 0 then nan else inf (decide (x < 0))) else ofRat (x / y)
  | fin _, inf _ => fin 0
  | inf s, fin y => inf (xor s (decide (y < 0)))
  | _, _ => nan

/-- Negation. -/
def neg : F32 → F32
  | fin x => fin (-x)
  | inf s => inf (!s)
  | nan => nan

/-- The C functions `round`/`roundf`: nearest integral value, ties away from zero. -/
def round : F32 → F32
  | fin x => fin (roundHalfAway x)
  | x => x

/-- The C conversion `(int)x`: truncation toward zero, undefined when the value is not
finite or its integer part is not representable in `int`. -/
def toInt : F32 → Option Int
  | fin x => checked_int (truncQ x)
  | _ => none

end F32

/-! ## Deadzone settings and trigger shaping -/

/-- The constant `TRIGGER_MAX`. -/
def TRIGGER_MAX : Int := 0x8000

/-- The constant `ASTICK_MAX`. -/
def ASTICK_MAX : Int := 0x8000

/-- The expression `(int)( percent * 0.01f * 0x8000 )` of `input_set_deadzone_stick` and
`input_set_deadzone_trigger`. -/
def deadzone_of_percent (percent : Int) : Option Int :=
  F32.toInt (F32.mul (F32.mul (F32.ofInt percent) (F32.ofRat (1 / 100))) (F32.ofInt 0x8000))

/-- The function `apply_trigger_deadzone`; `trigger_deadzone` is the file-level variable, `input`
the `uint16_t` argument. -/
def apply_trigger_deadzone (trigger_deadzone : Int) (input : Nat) : Option Nat :=
  if trigger_deadzone > 0 then
    let scale := F32.div (F32.ofInt TRIGGER_MAX) (F32.ofInt (TRIGGER_MAX - trigger_deadzone))
    if (input : Int) > trigger_deadzone then
      let scaled := F32.mul (F32.ofInt ((input : Int) - trigger_deadzone)) scale
      (F32.toInt (F32.round scaled)).map fun z =>
        let input := uint16 z
        if input > 32767 then 32767 else input
    else
      some 0
  else
    some input

/-! ## libretro identifiers used by `input.cpp`

These come from the header `libretro.h`, which is not among the sources: the values below
are those of the public libretro API. The properties proved depend on them only through
their being pairwise distinct within each group (device types, joypad buttons). -/

/-- The macro `RETRO_DEVICE_SUBCLASS( base, id )` of `libretro.h`. -/
def RETRO_DEVICE_SUBCLASS (base id : Nat) : Nat := ((id + 1) <<< 8) ||| base

def RETRO_DEVICE_NONE : Nat := 0
def RETRO_DEVICE_JOYPAD : Nat := 1
def RETRO_DEVICE_MOUSE : Nat := 2
def RETRO_DEVICE_LIGHTGUN : Nat := 4
def RETRO_DEVICE_ANALOG : Nat := 5

def RETRO_DEVICE_SS_PAD : Nat := RETRO_DEVICE_SUBCLASS RETRO_DEVICE_JOYPAD 0
def RETRO_DEVICE_SS_3D_PAD : Nat := RETRO_DEVICE_SUBCLASS RETRO_DEVICE_ANALOG 0
def RETRO_DEVICE_SS_WHEEL : Nat := RETRO_DEVICE_SUBCLASS RETRO_DEVICE_ANALOG 1
def RETRO_DEVICE_SS_MOUSE : Nat := RETRO_DEVICE_SUBCLASS RETRO_DEVICE_MOUSE 0
def RETRO_DEVICE_SS_GUN : Nat := RETRO_DEVICE_SUBCLASS RETRO_DEVICE_LIGHTGUN 0

def RETRO_DEVICE_ID_JOYPAD_B : Nat := 0
def RETRO_DEVICE_ID_JOYPAD_Y : Nat := 1
def RETRO_DEVICE_ID_JOYPAD_SELECT : Nat := 2
def RETRO_DEVICE_ID_JOYPAD_START : Nat := 3
def RETRO_DEVICE_ID_JOYPAD_UP : Nat := 4
def RETRO_DEVICE_ID_JOYPAD_DOWN : Nat := 5
def RETRO_DEVICE_ID_JOYPAD_LEFT : Nat := 6
def RETRO_DEVICE_ID_JOYPAD_RIGHT : Nat := 7
def RETRO_DEVICE_ID_JOYPAD_A : Nat := 8
def RETRO_DEVICE_ID_JOYPAD_X : Nat := 9
def RETRO_DEVICE_ID_JOYPAD_L : Nat := 10
def RETRO_DEVICE_ID_JOYPAD_R : Nat := 11
def RETRO_DEVICE_ID_JOYPAD_L2 : Nat := 12
def RETRO_DEVICE_ID_JOYPAD_R2 : Nat := 13

def RETRO_DEVICE_INDEX_ANALOG_LEFT : Nat := 0
def RETRO_DEVICE_INDEX_ANALOG_BUTTON : Nat := 2
def RETRO_DEVICE_ID_ANALOG_X : Nat := 0
def RETRO_DEVICE_ID_ANALOG_Y : Nat := 1

def RETRO_DEVICE_ID_MOUSE_X : Nat := 0
def RETRO_DEVICE_ID_MOUSE_Y : Nat := 1
def RETRO_DEVICE_ID_MOUSE_LEFT : Nat := 2
def RETRO_DEVICE_ID_MOUSE_RIGHT : Nat := 3
def RETRO_DEVICE_ID_MOUSE_MIDDLE : Nat := 6
def RETRO_DEVICE_ID_MOUSE_BUTTON_4 : Nat := 9
def RETRO_DEVICE_ID_MOUSE_BUTTON_5 : Nat := 10

def RETRO_DEVICE_ID_LIGHTGUN_TRIGGER : Nat := 2
def RETRO_DEVICE_ID_LIGHTGUN_START : Nat := 6
def RETRO_DEVICE_ID_LIGHTGUN_SCREEN_X : Nat := 13
def RETRO_DEVICE_ID_LIGHTGUN_SCREEN_Y : Nat := 14
def RETRO_DEVICE_ID_LIGHTGUN_IS_OFFSCREEN : Nat := 15
def RETRO_DEVICE_ID_LIGHTGUN_RELOAD : Nat := 16

/-- The host's poll callback `retro_input_state_t`, called as
`input_state_cb( port, device, index, id )`. -/
abbrev InputStateCb := Nat → Nat → Nat → Nat → Int

/-- One call of the poll callback; its C return type is `int16_t`. -/
def input_state (input_state_cb : InputStateCb) (port device index id : Nat) : Int :=
  int16 (input_state_cb port device index id)

/-! ## Locals of `input.cpp` -/

def MAX_CONTROLLERS : Nat := 12

/-- The union `INPUT_DATA`: 32 bytes, `u8[k]` is byte `k`. -/
abbrev INPUT_DATA := Fin 32 → Nat

/-- Read of the `uint16_t buttons` member (bytes 0-1, little-endian). -/
def get_buttons (p : INPUT_DATA) : Nat := p 0 + 256 * p 1

/-- Store of a 16-bit value at byte offset `off` (two bytes, little-endian). -/
def set_u16 (p : INPUT_DATA) (off : Fin 32) (v : Nat) : INPUT_DATA :=
  Function.update (Function.update p off (v % 256)) (off + 1) (v / 256 % 256)

/-- Store to the `uint16_t buttons` member. -/
def set_buttons (p : INPUT_DATA) (v : Nat) : INPUT_DATA := set_u16 p 0 v

/-- The statement `p_input->buttons |= x`. -/
def or_buttons (p : INPUT_DATA) (x : Nat) : INPUT_DATA := set_buttons p (get_buttons p ||| x)

/-- The statement `p_input->u8[ k ] |= x`. -/
def or_u8 (p : INPUT_DATA) (k : Fin 32) (x : Nat) : INPUT_DATA :=
  Function.update p k ((p k ||| x) % 256)

/-- Store of a C `int` at byte offset `off` (four bytes, little-endian, two's complement):
the writes through `int *delta`. -/
def set_i32 (p : INPUT_DATA) (off : Fin 32) (z : Int) : INPUT_DATA :=
  let v := (z % 4294967296).toNat
  Function.update (Function.update (Function.update (Function.update p
    off (v % 256)) (off + 1) (v / 256 % 256)) (off + 2) (v / 65536 % 256))
    (off + 3) (v / 16777216 % 256)

def INPUT_MODE_3D_PAD_ANALOG : Nat := 1 <<< 0
def INPUT_MODE_3D_PAD_PREVIOUS_MASK : Nat := 1 <<< 1
def INPUT_MODE_DEFAULT : Nat := 0
def INPUT_MODE_DEFAULT_3D_PAD : Nat := INPUT_MODE_3D_PAD_ANALOG

/-- What the input layer sends to its collaborators:
* `message text frames`: the call `environ_cb( RETRO_ENVIRONMENT_SET_MESSAGE, &msg )` with
  a `retro_message` holding `text` and `frames`;
* `log warn text`: the call `log_cb( level, text )`, level RETRO_LOG_WARN or RETRO_LOG_INFO;
* `smpc_set_input port type`: the call `SMPC_SetInput( port, type, &input_data[ port ] )`;
* `smpc_set_multitap port enabled`: the call `SMPC_SetMultitap( port, enabled )`. -/
inductive Event where
  | message (text : String) (frames : Nat)
  | log (warn : Bool) (text : String)
  | smpc_set_input (port : Nat) (type : String)
  | smpc_set_multitap (port : Nat) (enabled : Bool)
deriving DecidableEq

/-- The file-level variables of `input.cpp` (with the two multitap settings it shares with
the core), and the trace of calls made to the collaborators. -/
structure State where
  players : Nat
  astick_deadzone : Int
  trigger_deadzone : Int
  mouse_sensitivity : F32
  input_data : Nat → INPUT_DATA
  input_type : Nat → Nat
  input_mode : Nat → Nat
  setting_multitap_port1 : Bool
  setting_multitap_port2 : Bool
  events : List Event

/-- The values the variables are initialised with. -/
def State.initial : State where
  players := 2
  astick_deadzone := 0
  trigger_deadzone := 0
  mouse_sensitivity := F32.fin 1
  input_data := fun _ _ => 0
  input_type := fun _ => 0
  input_mode := fun _ => 0
  setting_multitap_port1 := false
  setting_multitap_port2 := false
  events := []

/-! ## Mapping helpers -/

def INPUT_MAP_PAD_SIZE : Nat := 12

def input_map_pad : List Nat :=
  [ RETRO_DEVICE_ID_JOYPAD_L,
    RETRO_DEVICE_ID_JOYPAD_X,
    RETRO_DEVICE_ID_JOYPAD_Y,
    RETRO_DEVICE_ID_JOYPAD_R2,
    RETRO_DEVICE_ID_JOYPAD_UP,
    RETRO_DEVICE_ID_JOYPAD_DOWN,
    RETRO_DEVICE_ID_JOYPAD_LEFT,
    RETRO_DEVICE_ID_JOYPAD_RIGHT,
    RETRO_DEVICE_ID_JOYPAD_A,
    RETRO_DEVICE_ID_JOYPAD_R,
    RETRO_DEVICE_ID_JOYPAD_B,
    RETRO_DEVICE_ID_JOYPAD_START ]

def input_map_pad_left_shoulder : Nat := RETRO_DEVICE_ID_JOYPAD_L2

def INPUT_MAP_3D_PAD_SIZE : Nat := 11

def input_map_3d_pad : List Nat :=
  [ RETRO_DEVICE_ID_JOYPAD_UP,
    RETRO_DEVICE_ID_JOYPAD_DOWN,
    RETRO_DEVICE_ID_JOYPAD_LEFT,
    RETRO_DEVICE_ID_JOYPAD_RIGHT,
    RETRO_DEVICE_ID_JOYPAD_A,
    RETRO_DEVICE_ID_JOYPAD_R,
    RETRO_DEVICE_ID_JOYPAD_B,
    RETRO_DEVICE_ID_JOYPAD_START,
    RETRO_DEVICE_ID_JOYPAD_L,
    RETRO_DEVICE_ID_JOYPAD_X,
    RETRO_DEVICE_ID_JOYPAD_Y ]

def input_map_3d_pad_mode_switch : Nat := RETRO_DEVICE_ID_JOYPAD_SELECT

def INPUT_MAP_WHEEL_BITSHIFT : Nat := 4

def INPUT_MAP_WHEEL_SIZE : Nat := 7

def input_map_wheel : List Nat :=
  [ RETRO_DEVICE_ID_JOYPAD_A,
    RETRO_DEVICE_ID_JOYPAD_R,
    RETRO_DEVICE_ID_JOYPAD_B,
    RETRO_DEVICE_ID_JOYPAD_START,
    RETRO_DEVICE_ID_JOYPAD_L,
    RETRO_DEVICE_ID_JOYPAD_X,
    RETRO_DEVICE_ID_JOYPAD_Y ]

def input_map_wheel_shift_left : Nat := RETRO_DEVICE_ID_JOYPAD_L2

def input_map_wheel_shift_right : Nat := RETRO_DEVICE_ID_JOYPAD_R2

/-! ## Local functions -/

/-- The function `get_analog_trigger`. -/
def get_analog_trigger (trigger_deadzone : Int) (input_state_cb : InputStateCb)
    (player_index id : Nat) : Option Nat :=
  let trigger := uint16 (input_state input_state_cb player_index RETRO_DEVICE_ANALOG
    RETRO_DEVICE_INDEX_ANALOG_BUTTON id)
  if trigger = 0 then
    some (if input_state input_state_cb player_index RETRO_DEVICE_JOYPAD 0 id ≠ 0
      then 0x7FFF else 0)
  else
    apply_trigger_deadzone trigger_deadzone trigger

/-! ## Global functions -/

/-- The function `input_set_deadzone_stick`. -/
def input_set_deadzone_stick (percent : Int) (s : State) : Option State :=
  if percent ≥ 0 ∧ percent ≤ 100 then
    (deadzone_of_percent percent).map fun d => { s with astick_deadzone := d }
  else
    some s

/-- The function `input_set_deadzone_trigger`. -/
def input_set_deadzone_trigger (percent : Int) (s : State) : Option State :=
  if percent ≥ 0 ∧ percent ≤ 100 then
    (deadzone_of_percent percent).map fun d => { s with trigger_deadzone := d }
  else
    some s

/-- The function `input_set_mouse_sensitivity`. -/
def input_set_mouse_sensitivity (percent : Int) (s : State) : State :=
  if percent > 0 ∧ percent ≤ 200 then
    { s with mouse_sensitivity := F32.div (F32.ofInt percent) (F32.ofRat 100) }
  else
    s

/-- The double-precision part of the stick deadzone of the 3D Control Pad, whose functions
(`sqrt`, `atan2`, `cos`, `sin` of `<math.h>`) are outside the sources: for the deadzone and
the raw stick reading it gives the two values
`(int)round(radius * cos(angle))` and `(int)round(radius * sin(angle))` computed from the
re-scaled radius, or nothing when a conversion to `int` is undefined. -/
abbrev PolarRescale := Int → Int → Int → Option (Int × Int)

/-- The four statements headed `// Clamp to correct range`. -/
def clamp_axis (v : Int) : Int :=
  let v := if v > 32767 then 32767 else v
  if v < -32767 then -32767 else v

/-- The block `// Analog stick deadzone (borrowed code from parallel-n64 core)` of the 3D
Control Pad. The test `radius > astick_deadzone` compares the correctly rounded square root
of the `int` value `analog_x * analog_x + analog_y * analog_y` with an integer; as rounding is
monotone and integers of this size are exact in double precision, it holds exactly when that
value exceeds the square of the deadzone. -/
def stick_deadzone (rescale : PolarRescale) (astick_deadzone analog_x analog_y : Int) :
    Option (Int × Int) :=
  if astick_deadzone > 0 then
    (checked_int (analog_x * analog_x + analog_y * analog_y)).bind fun radius_sq =>
      if radius_sq > astick_deadzone * astick_deadzone then
        (rescale astick_deadzone analog_x analog_y).map fun r =>
          (clamp_axis r.1, clamp_axis r.2)
      else
        some (0, 0)
  else
    some (analog_x, analog_y)

/-- The block `// Analog stick deadzone` of the Arcade Racer. -/
def wheel_deadzone (astick_deadzone analog_x : Int) : Option Int :=
  if astick_deadzone > 0 then
    let scale := F32.div (F32.ofInt ASTICK_MAX) (F32.ofInt (ASTICK_MAX - astick_deadzone))
    if analog_x < -astick_deadzone then
      let scaled := F32.mul (F32.ofInt (-analog_x - astick_deadzone)) scale
      (F32.toInt (F32.round (F32.neg scaled))).map fun analog_x =>
        if analog_x < -32767 then -32767 else analog_x
    else if analog_x > astick_deadzone then
      let scaled := F32.mul (F32.ofInt (analog_x - astick_deadzone)) scale
      (F32.toInt (F32.round scaled)).map fun analog_x =>
        if analog_x > 32767 then 32767 else analog_x
    else
      some 0
  else
    some analog_x

/-- What one iteration of the loop of `input_update` leaves for its port: the register
image, the mode word and the notifications sent. -/
structure PortResult where
  data : INPUT_DATA
  mode : Nat
  events : List Event

/-- The case `RETRO_DEVICE_JOYPAD` / `RETRO_DEVICE_SS_PAD` of `input_update`. -/
def update_pad (input_state_cb : InputStateCb) (iplayer : Nat) (p_input : INPUT_DATA) :
    INPUT_DATA :=
  let p_input := (List.range INPUT_MAP_PAD_SIZE).foldl (fun p i =>
    or_buttons p (if input_state input_state_cb iplayer RETRO_DEVICE_JOYPAD 0
      (input_map_pad.getD i 0) ≠ 0 then 1 <<< i else 0)) p_input
  or_buttons p_input (if input_state input_state_cb iplayer RETRO_DEVICE_JOYPAD 0
    input_map_pad_left_shoulder ≠ 0 then 1 <<< 15 else 0)

/-- The block `// -- mode switch` of the 3D Control Pad: the new mode word and the
notifications sent. -/
def mode_switch (input_state_cb : InputStateCb) (iplayer : Nat) (input_mode : Nat) :
    Nat × List Event :=
  let prev := input_mode &&& INPUT_MODE_3D_PAD_PREVIOUS_MASK
  let held := if input_state input_state_cb iplayer RETRO_DEVICE_JOYPAD 0
    input_map_3d_pad_mode_switch ≠ 0 then INPUT_MODE_3D_PAD_PREVIOUS_MASK else 0
  let toggled : Nat × List Event :=
    if prev = 0 ∧ held ≠ 0 then
      let input_mode := input_mode ^^^ INPUT_MODE_3D_PAD_ANALOG
      let text :=
        if input_mode &&& INPUT_MODE_3D_PAD_ANALOG ≠ 0 then
          "Controller " ++ toString (iplayer + 1) ++ ": Analog Mode"
        else
          "Controller " ++ toString (iplayer + 1) ++ ": Digital Mode"
      (input_mode, [Event.message text 180])
    else
      (input_mode, [])
  ((toggled.1 &&& (65535 - INPUT_MODE_3D_PAD_PREVIOUS_MASK)) ||| held, toggled.2)

/-- The case `RETRO_DEVICE_SS_3D_PAD` of `input_update`. -/
def update_3d_pad (rescale : PolarRescale) (astick_deadzone trigger_deadzone : Int)
    (input_state_cb : InputStateCb) (iplayer : Nat) (p_input : INPUT_DATA) (input_mode : Nat) :
    Option PortResult :=
  let p_input := (List.range INPUT_MAP_3D_PAD_SIZE).foldl (fun p i =>
    or_buttons p (if input_state input_state_cb iplayer RETRO_DEVICE_JOYPAD 0
      (input_map_3d_pad.getD i 0) ≠ 0 then 1 <<< i else 0)) p_input
  let analog_x := input_state input_state_cb iplayer RETRO_DEVICE_ANALOG
    RETRO_DEVICE_INDEX_ANALOG_LEFT RETRO_DEVICE_ID_ANALOG_X
  let analog_y := input_state input_state_cb iplayer RETRO_DEVICE_ANALOG
    RETRO_DEVICE_INDEX_ANALOG_LEFT RETRO_DEVICE_ID_ANALOG_Y
  (stick_deadzone rescale astick_deadzone analog_x analog_y).bind fun analog =>
  (get_analog_trigger trigger_deadzone input_state_cb iplayer RETRO_DEVICE_ID_JOYPAD_L2).bind
    fun l_trigger =>
  (get_analog_trigger trigger_deadzone input_state_cb iplayer RETRO_DEVICE_ID_JOYPAD_R2).bind
    fun r_trigger =>
  let switched := mode_switch input_state_cb iplayer input_mode
  let input_mode := switched.1
  let right := uint16 (if analog.1 > 0 then analog.1 else 0)
  let left := uint16 (if analog.1 < 0 then -analog.1 else 0)
  let down := uint16 (if analog.2 > 0 then analog.2 else 0)
  let up := uint16 (if analog.2 < 0 then -analog.2 else 0)
  let p_input :=
    if input_mode &&& INPUT_MODE_3D_PAD_ANALOG ≠ 0 then or_buttons p_input 0x1000 else p_input
  let p_input := set_u16 p_input 0x2 left
  let p_input := set_u16 p_input 0x4 right
  let p_input := set_u16 p_input 0x6 up
  let p_input := set_u16 p_input 0x8 down
  let p_input := set_u16 p_input 0xa r_trigger
  let p_input := set_u16 p_input 0xc l_trigger
  some { data := p_input, mode := input_mode, events := switched.2 }

/-- The case `RETRO_DEVICE_SS_WHEEL` of `input_update`. -/
def update_wheel (astick_deadzone : Int) (input_state_cb : InputStateCb) (iplayer : Nat)
    (p_input : INPUT_DATA) : Option INPUT_DATA :=
  let p_input := (List.range INPUT_MAP_WHEEL_SIZE).foldl (fun p i =>
    let bit := 1 <<< (i + INPUT_MAP_WHEEL_BITSHIFT)
    or_buttons p (if input_state input_state_cb iplayer RETRO_DEVICE_JOYPAD 0
      (input_map_wheel.getD i 0) ≠ 0 then bit else 0)) p_input
  let p_input := or_buttons p_input (if input_state input_state_cb iplayer RETRO_DEVICE_JOYPAD 0
    input_map_wheel_shift_left ≠ 0 then 1 <<< 0 else 0)
  let p_input := or_buttons p_input (if input_state input_state_cb iplayer RETRO_DEVICE_JOYPAD 0
    input_map_wheel_shift_right ≠ 0 then 1 <<< 1 else 0)
  let analog_x := input_state input_state_cb iplayer RETRO_DEVICE_ANALOG
    RETRO_DEVICE_INDEX_ANALOG_LEFT RETRO_DEVICE_ID_ANALOG_X
  (wheel_deadzone astick_deadzone analog_x).map fun analog_x =>
  let right := uint16 (if analog_x > 0 then analog_x else 0)
  let left := uint16 (if analog_x < 0 then -analog_x else 0)
  let p_input := set_u16 p_input 0x2 left
  set_u16 p_input 0x4 right

/-- The case `RETRO_DEVICE_SS_MOUSE` of `input_update`. -/
def update_mouse (mouse_sensitivity : F32) (input_state_cb : InputStateCb) (iplayer : Nat)
    (p_input : INPUT_DATA) : Option INPUT_DATA :=
  let p_input := Function.update p_input 0x8 0
  let p_input :=
    if input_state input_state_cb iplayer RETRO_DEVICE_MOUSE 0 RETRO_DEVICE_ID_MOUSE_LEFT ≠ 0
    then or_u8 p_input 0x8 (1 <<< 0) else p_input
  let p_input :=
    if input_state input_state_cb iplayer RETRO_DEVICE_MOUSE 0 RETRO_DEVICE_ID_MOUSE_RIGHT ≠ 0
    then or_u8 p_input 0x8 (1 <<< 1) else p_input
  let p_input :=
    if input_state input_state_cb iplayer RETRO_DEVICE_MOUSE 0 RETRO_DEVICE_ID_MOUSE_MIDDLE ≠ 0
    then or_u8 p_input 0x8 (1 <<< 2) else p_input
  let p_input :=
    if input_state input_state_cb iplayer RETRO_DEVICE_JOYPAD 0 RETRO_DEVICE_ID_JOYPAD_START ≠ 0
      ∨ input_state input_state_cb iplayer RETRO_DEVICE_MOUSE 0 RETRO_DEVICE_ID_MOUSE_BUTTON_4 ≠ 0
      ∨ input_state input_state_cb iplayer RETRO_DEVICE_MOUSE 0 RETRO_DEVICE_ID_MOUSE_BUTTON_5 ≠ 0
    then or_u8 p_input 0x8 (1 <<< 3) else p_input
  let dx_raw := input_state input_state_cb iplayer RETRO_DEVICE_MOUSE 0 RETRO_DEVICE_ID_MOUSE_X
  let dy_raw := input_state input_state_cb iplayer RETRO_DEVICE_MOUSE 0 RETRO_DEVICE_ID_MOUSE_Y
  (F32.toInt (F32.round (F32.mul (F32.ofInt dx_raw) mouse_sensitivity))).bind fun delta0 =>
  (F32.toInt (F32.round (F32.mul (F32.ofInt dy_raw) mouse_sensitivity))).map fun delta1 =>
  set_i32 (set_i32 p_input 0 delta0) 4 delta1

/-- The case `RETRO_DEVICE_SS_GUN` of `input_update`. -/
def update_gun (input_state_cb : InputStateCb) (iplayer : Nat) (p_input : INPUT_DATA) :
    INPUT_DATA :=
  let forced_reload := input_state input_state_cb iplayer RETRO_DEVICE_LIGHTGUN 0
    RETRO_DEVICE_ID_LIGHTGUN_RELOAD
  let aim : Nat × Int × Int :=
    if input_state input_state_cb iplayer RETRO_DEVICE_LIGHTGUN 0
        RETRO_DEVICE_ID_LIGHTGUN_IS_OFFSCREEN ≠ 0 ∨ forced_reload ≠ 0 then
      (0x4, -16384, -16384)
    else
      let gun_x_raw := input_state input_state_cb iplayer RETRO_DEVICE_LIGHTGUN 0
        RETRO_DEVICE_ID_LIGHTGUN_SCREEN_X
      let gun_y_raw := input_state input_state_cb iplayer RETRO_DEVICE_LIGHTGUN 0
        RETRO_DEVICE_ID_LIGHTGUN_SCREEN_Y
      let scale_x : Int := 21472
      let offset_x : Int := 60
      let scale_y : Int := 240
      (0x1, Int.tdiv ((gun_x_raw + offset_x + 0x7fff) * scale_x) (0x7fff * 2),
        Int.tdiv ((gun_y_raw + 0x7fff) * scale_y) (0x7fff * 2))
  let shot_type := aim.1
  let p_input := set_u16 p_input 0 (uint16 aim.2.1)
  let p_input := set_u16 p_input 2 (uint16 aim.2.2)
  let p_input := Function.update p_input 4 0
  let p_input :=
    if input_state input_state_cb iplayer RETRO_DEVICE_LIGHTGUN 0
        RETRO_DEVICE_ID_LIGHTGUN_TRIGGER ≠ 0 ∨ forced_reload ≠ 0
    then or_u8 p_input 4 shot_type else p_input
  if input_state input_state_cb iplayer RETRO_DEVICE_LIGHTGUN 0
      RETRO_DEVICE_ID_LIGHTGUN_START ≠ 0
  then or_u8 p_input 4 0x2 else p_input

/-- The body of the loop of `input_update` for the port `iplayer`: reset of the buttons, then
the `switch` on the controller type. -/
def update_port (rescale : PolarRescale) (astick_deadzone trigger_deadzone : Int)
    (mouse_sensitivity : F32) (input_state_cb : InputStateCb) (iplayer : Nat)
    (input_type : Nat) (p_input : INPUT_DATA) (input_mode : Nat) : Option PortResult :=
  let p_input := set_buttons p_input 0
  if input_type = RETRO_DEVICE_JOYPAD ∨ input_type = RETRO_DEVICE_SS_PAD then
    some { data := update_pad input_state_cb iplayer p_input, mode := input_mode, events := [] }
  else if input_type = RETRO_DEVICE_SS_3D_PAD then
    update_3d_pad rescale astick_deadzone trigger_deadzone input_state_cb iplayer p_input
      input_mode
  else if input_type = RETRO_DEVICE_SS_WHEEL then
    (update_wheel astick_deadzone input_state_cb iplayer p_input).map fun p =>
      { data := p, mode := input_mode, events := [] }
  else if input_type = RETRO_DEVICE_SS_MOUSE then
    (update_mouse mouse_sensitivity input_state_cb iplayer p_input).map fun p =>
      { data := p, mode := input_mode, events := [] }
  else if input_type = RETRO_DEVICE_SS_GUN then
    some { data := update_gun input_state_cb iplayer p_input, mode := input_mode, events := [] }
  else
    some { data := p_input, mode := input_mode, events := [] }

/-- One iteration of the loop of `input_update` on the state. -/
def input_update_player (rescale : PolarRescale) (input_state_cb : InputStateCb) (s : State)
    (iplayer : Nat) : Option State :=
  (update_port rescale s.astick_deadzone s.trigger_deadzone s.mouse_sensitivity input_state_cb
    iplayer (s.input_type iplayer) (s.input_data iplayer) (s.input_mode iplayer)).map fun r =>
    { s with
      input_data := Function.update s.input_data iplayer r.data
      input_mode := Function.update s.input_mode iplayer r.mode
      events := s.events ++ r.events }

/-- The function `input_update`: the ports `0 .. players - 1` in turn. -/
def input_update (rescale : PolarRescale) (input_state_cb : InputStateCb) (s : State) :
    Option State :=
  (List.range s.players).foldlM (input_update_player rescale input_state_cb) s

/-- Consecutive polls of the port `iplayer`, one per poll callback of the list, each the
loop body of `input_update` for that port. -/
def poll_sequence (rescale : PolarRescale) (iplayer : Nat) (cbs : List InputStateCb) (s : State) :
    Option State :=
  cbs.foldlM (fun s cb => input_update_player rescale cb s iplayer) s

/-- The trigger shaping as the specification words it, in exact arithmetic: 0 up to the
deadzone `d`, above it `round((t - d) * 0x8000 / (0x8000 - d))` clamped to 32767. -/
def spec_trigger_deadzone (d t : Int) : Int :=
  if t ≤ d then 0
  else min 32767 (roundHalfAway (((t : ℚ) - d) * 0x8000 / (0x8000 - d)))

/-! ## Sample inputs -/

/-- A stick re-scaling that is never defined; it is not consulted while the stick deadzone
is 0. -/
def sample_rescale : PolarRescale := fun _ _ _ => none

/-- The variables as initialised, with every port given the controller type `type`. -/
def sample_state (type : Nat) : State :=
  { State.initial with input_type := fun _ => type }

/-- A poll in which the only held button is the joypad button `id`; every analog
read is 0. -/
def sample_cb_button (id : Nat) : InputStateCb :=
  fun _ device _ i => if device = RETRO_DEVICE_JOYPAD ∧ i = id then 1 else 0

/-- A poll in which no button is held and every analog read is 0. -/
def sample_cb_idle : InputStateCb := fun _ _ _ _ => 0

/-- A poll in which no button is held and every analog read (stick axes and analog
buttons alike) returns `v`. -/
def sample_cb_analog (v : Int) : InputStateCb :=
  fun _ device _ _ => if device = RETRO_DEVICE_ANALOG then v else 0

/-! ## Readers of the register image and further sample inputs -/

/-- Read of a 16-bit little-endian value at byte offset `off`. -/
def get_u16 (p : INPUT_DATA) (off : Fin 32) : Nat := p off + 256 * p (off + 1)

/-- Read of a C `int` at byte offset `off` (four bytes, little-endian, two's complement). -/
def get_i32 (p : INPUT_DATA) (off : Fin 32) : Int :=
  let v : Int := ((p off + 256 * p (off + 1) + 65536 * p (off + 2)
    + 16777216 * p (off + 3) : Nat) : Int)
  if v < 2147483648 then v else v - 4294967296

/-- A poll in which no button is held and the mouse moved by `(dx, dy)`. -/
def sample_cb_mouse (dx dy : Int) : InputStateCb :=
  fun _ device _ id =>
    if device = RETRO_DEVICE_MOUSE ∧ id = RETRO_DEVICE_ID_MOUSE_X then dx
    else if device = RETRO_DEVICE_MOUSE ∧ id = RETRO_DEVICE_ID_MOUSE_Y then dy
    else 0

/-- A light-gun poll: the off-screen flag `off`, the reload flag `reload`, the trigger
`trigger`, and the screen coordinates `(x, y)`; start is not held. -/
def sample_cb_gun (off reload trigger x y : Int) : InputStateCb :=
  fun _ device _ id =>
    if device = RETRO_DEVICE_LIGHTGUN then
      if id = RETRO_DEVICE_ID_LIGHTGUN_IS_OFFSCREEN then off
      else if id = RETRO_DEVICE_ID_LIGHTGUN_RELOAD then reload
      else if id = RETRO_DEVICE_ID_LIGHTGUN_TRIGGER then trigger
      else if id = RETRO_DEVICE_ID_LIGHTGUN_SCREEN_X then x
      else if id = RETRO_DEVICE_ID_LIGHTGUN_SCREEN_Y then y
      else 0
    else 0

/-! ## Port topology and device assignment -/

/-- The function `input_init`: every port becomes a Control Pad in the default mode and
its buffer is bound under the key "gamepad". -/
def input_init (s : State) : State :=
  (List.range MAX_CONTROLLERS).foldl (fun s i =>
    { s with
      input_type := Function.update s.input_type i RETRO_DEVICE_JOYPAD
      input_mode := Function.update s.input_mode i INPUT_MODE_DEFAULT
      events := s.events ++ [Event.smpc_set_input i "gamepad"] }) s

/-- The `switch ( device )` of `retro_set_controller_port_device`: the text logged (a
warning or not), the key handed to `SMPC_SetInput`, and the mode word stored by the case
when it stores one. -/
def device_binding (in_port device : Nat) : (Bool × String) × String × Option Nat :=
  if device = RETRO_DEVICE_NONE then
    ((false, "Controller " ++ toString (in_port + 1) ++ ": Unplugged\n"), "none", none)
  else if device = RETRO_DEVICE_JOYPAD ∨ device = RETRO_DEVICE_SS_PAD then
    ((false, "Controller " ++ toString (in_port + 1) ++ ": Control Pad\n"), "gamepad", none)
  else if device = RETRO_DEVICE_SS_3D_PAD then
    ((false, "Controller " ++ toString (in_port + 1) ++ ": 3D Control Pad\n"), "3dpad",
      some INPUT_MODE_DEFAULT_3D_PAD)
  else if device = RETRO_DEVICE_SS_WHEEL then
    ((false, "Controller " ++ toString (in_port + 1) ++ ": Arcade Racer\n"), "wheel", none)
  else if device = RETRO_DEVICE_SS_MOUSE then
    ((false, "Controller " ++ toString (in_port + 1) ++ ": Mouse\n"), "mouse", none)
  else if device = RETRO_DEVICE_SS_GUN then
    ((false, "Controller " ++ toString (in_port + 1) ++ ": Virtua Gun\n"), "gun", none)
  else
    ((true, "Controller " ++ toString (in_port + 1) ++ ": Unsupported Device ("
      ++ toString device ++ ")\n"), "none", none)

/-- The function `retro_set_controller_port_device`; both arguments are `unsigned`. -/
def retro_set_controller_port_device (in_port device : Nat) (s : State) : State :=
  if in_port < MAX_CONTROLLERS then
    let s := { s with input_type := Function.update s.input_type in_port device }
    let s := { s with input_mode := Function.update s.input_mode in_port INPUT_MODE_DEFAULT }
    let b := device_binding in_port device
    let s := { s with events := s.events
      ++ [Event.log b.1.1 b.1.2, Event.smpc_set_input in_port b.2.1] }
    match b.2.2 with
    | some mode => { s with input_mode := Function.update s.input_mode in_port mode }
    | none => s
  else
    s

/-- The function `input_multitap`; `port` is an `int`. -/
def input_multitap (port : Int) (enabled : Bool) (s : State) : State :=
  let s :=
    if port = 1 then
      if enabled ≠ s.setting_multitap_port1 then
        let s := { s with setting_multitap_port1 := enabled }
        { s with events := s.events
          ++ [Event.log false (if s.setting_multitap_port1
                then "Connected 6Player Adaptor to Port 1\n"
                else "Removed 6Player Adaptor from Port 1\n"),
              Event.smpc_set_multitap 0 s.setting_multitap_port1] }
      else s
    else if port = 2 then
      if enabled ≠ s.setting_multitap_port2 then
        let s := { s with setting_multitap_port2 := enabled }
        { s with events := s.events
          ++ [Event.log false (if s.setting_multitap_port2
                then "Connected 6Player Adaptor to Port 2\n"
                else "Removed 6Player Adaptor from Port 2\n"),
              Event.smpc_set_multitap 1 s.setting_multitap_port2] }
      else s
    else s
  let players := 2
  let players := if s.setting_multitap_port1 then players + 5 else players
  let players := if s.setting_multitap_port2 then players + 5 else players
  { s with players := players }

/-- A call of one of the global functions of `input.cpp` that change its variables. -/
inductive Call where
  | init
  | set_deadzone_stick (percent : Int)
  | set_deadzone_trigger (percent : Int)
  | set_mouse_sensitivity (percent : Int)
  | update (input_state_cb : InputStateCb)
  | set_controller_port_device (in_port device : Nat)
  | multitap (port : Int) (enabled : Bool)

/-- The effect of a call on the variables; `none` when the call has no defined result. -/
def Call.run (rescale : PolarRescale) : Call → State → Option State
  | Call.init, s => some (input_init s)
  | Call.set_deadzone_stick percent, s => input_set_deadzone_stick percent s
  | Call.set_deadzone_trigger percent, s => input_set_deadzone_trigger percent s
  | Call.set_mouse_sensitivity percent, s => some (input_set_mouse_sensitivity percent s)
  | Call.update cb, s => input_update rescale cb s
  | Call.set_controller_port_device in_port device, s =>
    some (retro_set_controller_port_device in_port device s)
  | Call.multitap port enabled, s => some (input_multitap port enabled s)

/-- A sequence of calls, from the state `s`. -/
def run_calls (rescale : PolarRescale) (calls : List Call) (s : State) : Option State :=
  calls.foldlM (fun s c => Call.run rescale c s) s

/-- The number of `SMPC_SetMultitap` calls in a trace. -/
def count_set_multitap (events : List Event) : Nat :=
  (events.filter fun e => match e with
    | Event.smpc_set_multitap _ _ => true
    | _ => false).length

/-- The `SMPC_SetInput` calls in a trace, in order. -/
def set_input_calls (events : List Event) : List (Nat × String) :=
  events.filterMap fun e => match e with
    | Event.smpc_set_input port type => some (port, type)
    | _ => none

/-- The register image of port `iplayer` with its buttons field replaced by `v`. -/
def with_buttons (s : State) (iplayer v : Nat) : State :=
  { s with
    input_data := Function.update s.input_data iplayer (set_buttons (s.input_data iplayer) v) }

/-- A poll in which every analog read returns `analog` and every other read `digital`. -/
def sample_cb_trigger (analog digital : Int) : InputStateCb :=
  fun _ device _ _ => if device = RETRO_DEVICE_ANALOG then analog else digital

/-- A stick re-scaling that is always defined (it returns the raw vector). -/
def sample_rescale_total : PolarRescale := fun _ x y => some (x, y)

/-! ## Save states

`input_StateAction` hands the array `input_mode` to the save-state layer of the core, whose
sources (`state.h`, `state.cpp`) are not among the sources under study. -/

/-- Modelled from the spec: the save-state store `StateMem`, whose type is declared outside
the sources under study: the named records it holds, newest first, each with the name of
its section, the name of its entry and its bytes. -/
abbrev StateMem := List (String × String × List Nat)

/-- The bytes of the first `count` entries of an array of `uint16_t`, little-endian. -/
def encode_u16s (regs : Nat → Nat) : Nat → List Nat
  | 0 => []
  | count + 1 => encode_u16s regs count ++ [regs count % 256, regs count / 256 % 256]

/-- Entry `i` of an array of `uint16_t` stored little-endian in `bytes`. -/
def decode_u16 (bytes : List Nat) (i : Nat) : Nat :=
  bytes.getD (2 * i) 0 + 256 * bytes.getD (2 * i + 1) 0

set_option linter.unusedVariables false in
/-- Modelled from the spec: the function `MDFNSS_StateAction` of the save-state layer, which
is not among the sources under study, called with one `SFARRAY16N( regs, count, name )`
entry and the section name `sname`; the spec has it serialize and deserialize the array
"under a fixed named record" that "must round-trip byte-for-byte". With `load = 0` the
array is written as the record of that section and entry name, replacing an older one;
with `load ≠ 0` the record of that name is looked up and, when it has the size of the
array, copied into the array. The result is 1 on success and 0 otherwise; `data_only`
selects the framing of the store, which the spec does not describe, and is not used. -/
def MDFNSS_StateAction (sm : StateMem) (load : Nat) (data_only : Bool) (regs : Nat → Nat)
    (count : Nat) (name sname : String) : StateMem × (Nat → Nat) × Int :=
  if load = 0 then
    ((sname, name, encode_u16s regs count)
      :: sm.filter (fun r => !(r.1 = sname && r.2.1 = name)), regs, 1)
  else
    match sm.find? (fun r => r.1 = sname && r.2.1 = name) with
    | some r =>
      if r.2.2.length = 2 * count then
        (sm, fun i => if i < count then decode_u16 r.2.2 i else regs i, 1)
      else
        (sm, regs, 0)
    | none => (sm, regs, 0)

/-- The function `input_StateAction`: the array `input_mode`, as `MAX_CONTROLLERS` values
of 16 bits named "pad-mode", in the section "LIBRETRO-INPUT". -/
def input_StateAction (sm : StateMem) (load : Nat) (data_only : Bool) (s : State) :
    StateMem × State × Int :=
  let r := MDFNSS_StateAction sm load data_only s.input_mode MAX_CONTROLLERS "pad-mode"
    "LIBRETRO-INPUT"
  (r.1, { s with input_mode := r.2.1 }, r.2.2)

/-! ## Compatibility database (`db.cpp`) -/

/-- The constants of `smpc.h`, `cart.h` and `ss.h` that the tables of `db.cpp` name. These
headers are not among the sources under study, so the values are parameters. -/
structure DbConstants where
  SMPC_AREA_JP : Nat
  SMPC_AREA_EU_PAL : Nat
  SMPC_AREA_CSA_NTSC : Nat
  CART_NONE : Int
  CART_BACKUP_MEM : Int
  CART_EXTRAM_1M : Int
  CART_EXTRAM_4M : Int
  CART_KOF95 : Int
  CART_ULTRAMAN : Int
  CART_CS1RAM_16M : Int
  CPUCACHE_EMUMODE_DATA_CB : Nat
  CPUCACHE_EMUMODE_FULL : Nat
  HORRIBLEHACK_NOSH2DMALINE106 : Nat
  HORRIBLEHACK_NOSH2DMAPENALTY : Nat
  HORRIBLEHACK_VDP1VRAM5000FIX : Nat
  HORRIBLEHACK_VDP1RWDRAWSLOWDOWN : Nat
  HORRIBLEHACK_VDP1INSTANT : Nat

/-- An entry of `regiondb`. -/
structure RegionEntry where
  id : List Nat
  area : Nat

/-- An entry of `cartdb`; `sgid` is `none` for a null pointer. The members `game_name` and
`purpose`, which no lookup reads, are left out here and in the other tables. -/
structure CartEntry where
  sgid : Option String
  cart_type : Int
  fd_id : List Nat

/-- An entry of `cemdb`. -/
structure CemEntry where
  sgid : Option String
  mode : Nat
  fd_id : List Nat

/-- An entry of `hhdb`. -/
structure HhEntry where
  sgid : Option String
  horrible_hacks : Nat
  fd_id : List Nat

/-- The table `regiondb`: the 16-byte disc id and the area of each entry (the game name,
which no lookup reads, is left out). -/
def regiondb (k : DbConstants) : List RegionEntry :=
  [ { id := [0x10, 0x8f, 0xe1, 0xaf, 0x55, 0x5a, 0x95, 0x42,
        0x04, 0x85, 0x7e, 0x98, 0x8c, 0x53, 0x6a, 0x31],
      area := k.SMPC_AREA_EU_PAL },
    { id := [0xed, 0x4c, 0x0b, 0x87, 0x35, 0x37, 0x86, 0x76,
        0xa0, 0xf6, 0x32, 0xc6, 0xa4, 0xc3, 0x99, 0x88],
      area := k.SMPC_AREA_EU_PAL },
    { id := [0x15, 0xfc, 0x3a, 0x82, 0x16, 0xa9, 0x85, 0xa5,
        0xa8, 0xad, 0x30, 0xaf, 0x9a, 0xff, 0x03, 0xa9],
      area := k.SMPC_AREA_JP },
    { id := [0xe1, 0xdd, 0xfd, 0xa1, 0x8b, 0x47, 0x02, 0x21,
        0x36, 0x1e, 0x5a, 0xae, 0x20, 0xc0, 0x59, 0x9f],
      area := k.SMPC_AREA_CSA_NTSC },
    { id := [0xbf, 0x5f, 0xf8, 0x5f, 0xf2, 0x0c, 0x35, 0xf6,
        0xc9, 0x8d, 0x03, 0xbc, 0x34, 0xd9, 0xda, 0x7f],
      area := k.SMPC_AREA_CSA_NTSC },
    { id := [0x98, 0xb6, 0x6e, 0x09, 0xe6, 0xdc, 0x30, 0xe6,
        0x55, 0xdb, 0x85, 0x01, 0x33, 0x0c, 0x0b, 0x9c],
      area := k.SMPC_AREA_CSA_NTSC },
    { id := [0xa2, 0x34, 0xb0, 0xb9, 0xaa, 0x47, 0x74, 0x1f,
        0xd4, 0x1e, 0x35, 0xda, 0x3d, 0xe7, 0x4d, 0xe3],
      area := k.SMPC_AREA_CSA_NTSC },
    { id := [0xf7, 0xe9, 0x23, 0x0a, 0x9e, 0x92, 0xf1, 0x93,
        0x16, 0x43, 0xf8, 0x6c, 0xe8, 0x21, 0x50, 0x66],
      area := k.SMPC_AREA_JP },
    { id := [0x64, 0x75, 0x25, 0x0c, 0xa1, 0x9b, 0x6c, 0x5e,
        0x4e, 0xa0, 0x6d, 0x69, 0xd9, 0x0f, 0x32, 0xca],
      area := k.SMPC_AREA_EU_PAL },
    { id := [0x0d, 0xe3, 0xfa, 0xfb, 0x2b, 0xb9, 0x6d, 0x79,
        0xe0, 0x3a, 0xb7, 0x6d, 0xcc, 0xbf, 0xb0, 0x2c],
      area := k.SMPC_AREA_JP },
    { id := [0x6b, 0x29, 0x33, 0xfc, 0xdd, 0xad, 0x8e, 0x0d,
        0x95, 0x81, 0xa6, 0xee, 0xfd, 0x90, 0x4b, 0x43],
      area := k.SMPC_AREA_EU_PAL },
    { id := [0x73, 0x91, 0x4b, 0xe1, 0xad, 0x4d, 0xaf, 0x69,
        0xc3, 0xeb, 0xb8, 0x43, 0xee, 0x3e, 0xb5, 0x09],
      area := k.SMPC_AREA_EU_PAL } ]

/-- The table `cartdb` (the entries inside `#if 0` are not compiled): game id, cart type and
disc id of each entry; an entry written without a disc id has it zero-filled. -/
def cartdb (k : DbConstants) : List CartEntry :=
  [ { sgid := some "MK-81218", cart_type := k.CART_NONE, fd_id := List.replicate 16 0 },
    { sgid := some "MK-81071", cart_type := k.CART_NONE, fd_id := List.replicate 16 0 },
    { sgid := some "T-319-01H", cart_type := k.CART_NONE, fd_id := List.replicate 16 0 },
    { sgid := some "MK-81070", cart_type := k.CART_NONE, fd_id := List.replicate 16 0 },
    { sgid := some "MK-81215", cart_type := k.CART_NONE, fd_id := List.replicate 16 0 },
    { sgid := some "MK-81072", cart_type := k.CART_NONE, fd_id := List.replicate 16 0 },
    { sgid := some "GS-7106", cart_type := k.CART_NONE, fd_id := List.replicate 16 0 },
    { sgid := some "GS-7114", cart_type := k.CART_NONE, fd_id := List.replicate 16 0 },
    { sgid := some "GS-7105", cart_type := k.CART_NONE, fd_id := List.replicate 16 0 },
    { sgid := some "GS-7101", cart_type := k.CART_NONE, fd_id := List.replicate 16 0 },
    { sgid := some "GS-7113", cart_type := k.CART_NONE, fd_id := List.replicate 16 0 },
    { sgid := some "T-14305G", cart_type := k.CART_NONE, fd_id := List.replicate 16 0 },
    { sgid := some "T-31301G", cart_type := k.CART_NONE, fd_id := List.replicate 16 0 },
    { sgid := some "MK-81088", cart_type := k.CART_KOF95, fd_id := List.replicate 16 0 },
    { sgid := some "T-3101G", cart_type := k.CART_KOF95, fd_id := List.replicate 16 0 },
    { sgid := some "T-13308G", cart_type := k.CART_ULTRAMAN, fd_id := List.replicate 16 0 },
    { sgid := some "T-1521G", cart_type := k.CART_EXTRAM_1M, fd_id := List.replicate 16 0 },
    { sgid := some "T-9904G", cart_type := k.CART_EXTRAM_1M, fd_id := List.replicate 16 0 },
    { sgid := some "T-1217G", cart_type := k.CART_EXTRAM_1M, fd_id := List.replicate 16 0 },
    { sgid := some "GS-9107", cart_type := k.CART_EXTRAM_1M, fd_id := List.replicate 16 0 },
    { sgid := some "T-20109G", cart_type := k.CART_EXTRAM_1M, fd_id := List.replicate 16 0 },
    { sgid := some "T-14411G", cart_type := k.CART_EXTRAM_1M, fd_id := List.replicate 16 0 },
    { sgid := some "T-7032H-50", cart_type := k.CART_EXTRAM_1M, fd_id := List.replicate 16 0 },
    { sgid := some "T-1215G", cart_type := k.CART_EXTRAM_1M, fd_id := List.replicate 16 0 },
    { sgid := some "T-3111G", cart_type := k.CART_EXTRAM_1M, fd_id := List.replicate 16 0 },
    { sgid := some "T-22205G", cart_type := k.CART_EXTRAM_1M, fd_id := List.replicate 16 0 },
    { sgid := some "T-20114G", cart_type := k.CART_EXTRAM_1M, fd_id := List.replicate 16 0 },
    { sgid := some "T-3105G", cart_type := k.CART_EXTRAM_1M, fd_id := List.replicate 16 0 },
    { sgid := some "T-3119G", cart_type := k.CART_EXTRAM_1M, fd_id := List.replicate 16 0 },
    { sgid := some "T-3116G", cart_type := k.CART_EXTRAM_1M, fd_id := List.replicate 16 0 },
    { sgid := some "T-3104G", cart_type := k.CART_EXTRAM_1M, fd_id := List.replicate 16 0 },
    { sgid := some "610636008", cart_type := k.CART_EXTRAM_1M, fd_id := List.replicate 16 0 },
    { sgid := some "T-16509G", cart_type := k.CART_EXTRAM_1M, fd_id := List.replicate 16 0 },
    { sgid := some "T-16510G", cart_type := k.CART_EXTRAM_1M, fd_id := List.replicate 16 0 },
    { sgid := some "T-3108G", cart_type := k.CART_EXTRAM_1M, fd_id := List.replicate 16 0 },
    { sgid := some "T-3121G", cart_type := k.CART_EXTRAM_1M, fd_id := List.replicate 16 0 },
    { sgid := some "T-1515G", cart_type := k.CART_EXTRAM_1M, fd_id := List.replicate 16 0 },
    { sgid := some "T-1245G", cart_type := k.CART_EXTRAM_4M, fd_id := List.replicate 16 0 },
    { sgid := some "T-1248G", cart_type := k.CART_EXTRAM_4M, fd_id := List.replicate 16 0 },
    { sgid := some "T-1238G", cart_type := k.CART_EXTRAM_4M, fd_id := List.replicate 16 0 },
    { sgid := some "T-1230G", cart_type := k.CART_EXTRAM_4M, fd_id := List.replicate 16 0 },
    { sgid := some "T-1246G", cart_type := k.CART_EXTRAM_4M, fd_id := List.replicate 16 0 },
    { sgid := some "T-1229G", cart_type := k.CART_EXTRAM_4M, fd_id := List.replicate 16 0 },
    { sgid := some "T-1226G", cart_type := k.CART_EXTRAM_4M, fd_id := List.replicate 16 0 },
    { sgid := none, cart_type := k.CART_CS1RAM_16M,
      fd_id := [0x4a, 0xf9, 0xff, 0x30, 0xea, 0x54, 0xfe, 0x3a,
        0x79, 0xa7, 0x68, 0x69, 0xae, 0xde, 0x55, 0xbb] },
    { sgid := none, cart_type := k.CART_CS1RAM_16M,
      fd_id := [0xf1, 0x71, 0xc3, 0xe4, 0x69, 0xd5, 0x99, 0x93,
        0x94, 0x09, 0x05, 0xfc, 0x29, 0xd3, 0x8a, 0x59] },
    { sgid := some "T-16804G", cart_type := k.CART_BACKUP_MEM, fd_id := List.replicate 16 0 },
    { sgid := some "GS-9123", cart_type := k.CART_BACKUP_MEM, fd_id := List.replicate 16 0 },
    { sgid := some "T-16103H", cart_type := k.CART_BACKUP_MEM, fd_id := List.replicate 16 0 },
    { sgid := some "T-26104G", cart_type := k.CART_BACKUP_MEM, fd_id := List.replicate 16 0 },
    { sgid := some "GS-9197", cart_type := k.CART_BACKUP_MEM, fd_id := List.replicate 16 0 } ]

/-- The table `cemdb`: game id, cache emulation mode and disc id of each entry. -/
def cemdb (k : DbConstants) : List CemEntry :=
  [ { sgid := some "T-9705H", mode := k.CPUCACHE_EMUMODE_DATA_CB, fd_id := List.replicate 16 0 },
    { sgid := some "T-25408H", mode := k.CPUCACHE_EMUMODE_DATA_CB, fd_id := List.replicate 16 0 },
    { sgid := some "MK-81036", mode := k.CPUCACHE_EMUMODE_DATA_CB, fd_id := List.replicate 16 0 },
    { sgid := some "T-30304G", mode := k.CPUCACHE_EMUMODE_DATA_CB, fd_id := List.replicate 16 0 },
    { sgid := some "GS-9184", mode := k.CPUCACHE_EMUMODE_DATA_CB, fd_id := List.replicate 16 0 },
    { sgid := some "T-18504G", mode := k.CPUCACHE_EMUMODE_DATA_CB, fd_id := List.replicate 16 0 },
    { sgid := some "GS-9101", mode := k.CPUCACHE_EMUMODE_DATA_CB, fd_id := List.replicate 16 0 },
    { sgid := some "MK-81041", mode := k.CPUCACHE_EMUMODE_DATA_CB, fd_id := List.replicate 16 0 },
    { sgid := some "T-7309G", mode := k.CPUCACHE_EMUMODE_DATA_CB, fd_id := List.replicate 16 0 },
    { sgid := some "MK-81045", mode := k.CPUCACHE_EMUMODE_DATA_CB, fd_id := List.replicate 16 0 },
    { sgid := some "GS-9041", mode := k.CPUCACHE_EMUMODE_DATA_CB, fd_id := List.replicate 16 0 },
    { sgid := some "GS-9173", mode := k.CPUCACHE_EMUMODE_DATA_CB, fd_id := List.replicate 16 0 },
    { sgid := some "GS-9055", mode := k.CPUCACHE_EMUMODE_DATA_CB, fd_id := List.replicate 16 0 },
    { sgid := some "T-14415G", mode := k.CPUCACHE_EMUMODE_DATA_CB, fd_id := List.replicate 16 0 },
    { sgid := some "81600", mode := k.CPUCACHE_EMUMODE_DATA_CB, fd_id := List.replicate 16 0 },
    { sgid := some "610680501", mode := k.CPUCACHE_EMUMODE_DATA_CB, fd_id := List.replicate 16 0 },
    { sgid := some "T-18703G", mode := k.CPUCACHE_EMUMODE_DATA_CB, fd_id := List.replicate 16 0 },
    { sgid := some "T-7001H", mode := k.CPUCACHE_EMUMODE_DATA_CB, fd_id := List.replicate 16 0 },
    { sgid := some "T-7014G", mode := k.CPUCACHE_EMUMODE_DATA_CB, fd_id := List.replicate 16 0 },
    { sgid := some "T-1206G", mode := k.CPUCACHE_EMUMODE_DATA_CB, fd_id := List.replicate 16 0 },
    { sgid := some "T-1246G", mode := k.CPUCACHE_EMUMODE_DATA_CB, fd_id := List.replicate 16 0 },
    { sgid := some "T-1215H", mode := k.CPUCACHE_EMUMODE_DATA_CB, fd_id := List.replicate 16 0 },
    { sgid := some "T-5001H", mode := k.CPUCACHE_EMUMODE_DATA_CB, fd_id := List.replicate 16 0 },
    { sgid := some "T-1807G", mode := k.CPUCACHE_EMUMODE_DATA_CB, fd_id := List.replicate 16 0 },
    { sgid := some "T-1808G", mode := k.CPUCACHE_EMUMODE_DATA_CB, fd_id := List.replicate 16 0 },
    { sgid := some "GS-9113", mode := k.CPUCACHE_EMUMODE_DATA_CB, fd_id := List.replicate 16 0 },
    { sgid := some "T-2206G", mode := k.CPUCACHE_EMUMODE_DATA_CB, fd_id := List.replicate 16 0 },
    { sgid := some "T-15005G", mode := k.CPUCACHE_EMUMODE_DATA_CB, fd_id := List.replicate 16 0 },
    { sgid := some "T-18601H", mode := k.CPUCACHE_EMUMODE_DATA_CB, fd_id := List.replicate 16 0 },
    { sgid := some "T-18603G", mode := k.CPUCACHE_EMUMODE_DATA_CB, fd_id := List.replicate 16 0 },
    { sgid := some "T-11301H", mode := k.CPUCACHE_EMUMODE_DATA_CB, fd_id := List.replicate 16 0 },
    { sgid := some "GS-9061", mode := k.CPUCACHE_EMUMODE_DATA_CB, fd_id := List.replicate 16 0 },
    { sgid := some "MK-81109", mode := k.CPUCACHE_EMUMODE_DATA_CB, fd_id := List.replicate 16 0 },
    { sgid := some "T-1507G", mode := k.CPUCACHE_EMUMODE_FULL, fd_id := List.replicate 16 0 },
    { sgid := some "T-12705H", mode := k.CPUCACHE_EMUMODE_FULL, fd_id := List.replicate 16 0 },
    { sgid := some "GS-9123", mode := k.CPUCACHE_EMUMODE_FULL, fd_id := List.replicate 16 0 },
    { sgid := some "T-16103H", mode := k.CPUCACHE_EMUMODE_FULL, fd_id := List.replicate 16 0 },
    { sgid := some "T-13331G", mode := k.CPUCACHE_EMUMODE_FULL, fd_id := List.replicate 16 0 },
    { sgid := some "T-13310G", mode := k.CPUCACHE_EMUMODE_FULL, fd_id := List.replicate 16 0 },
    { sgid := some "T-15904G", mode := k.CPUCACHE_EMUMODE_FULL, fd_id := List.replicate 16 0 },
    { sgid := some "T-15904H", mode := k.CPUCACHE_EMUMODE_FULL, fd_id := List.replicate 16 0 },
    { sgid := some "T-15904H50", mode := k.CPUCACHE_EMUMODE_FULL, fd_id := List.replicate 16 0 },
    { sgid := some "T-27901G", mode := k.CPUCACHE_EMUMODE_FULL, fd_id := List.replicate 16 0 },
    { sgid := some "T-7664G", mode := k.CPUCACHE_EMUMODE_FULL, fd_id := List.replicate 16 0 },
    { sgid := some "T-9510G", mode := k.CPUCACHE_EMUMODE_FULL, fd_id := List.replicate 16 0 },
    { sgid := some "T-25416H50", mode := k.CPUCACHE_EMUMODE_FULL, fd_id := List.replicate 16 0 },
    { sgid := some "T-159056", mode := k.CPUCACHE_EMUMODE_FULL, fd_id := List.replicate 16 0 },
    { sgid := some "T-159028H", mode := k.CPUCACHE_EMUMODE_FULL, fd_id := List.replicate 16 0 },
    { sgid := some "T-15902H50", mode := k.CPUCACHE_EMUMODE_FULL, fd_id := List.replicate 16 0 },
    { sgid := some "T-8119G", mode := k.CPUCACHE_EMUMODE_FULL, fd_id := List.replicate 16 0 },
    { sgid := some "T-8125H", mode := k.CPUCACHE_EMUMODE_FULL, fd_id := List.replicate 16 0 },
    { sgid := some "T-8125H-50", mode := k.CPUCACHE_EMUMODE_FULL, fd_id := List.replicate 16 0 },
    { sgid := some "T-36102G", mode := k.CPUCACHE_EMUMODE_FULL, fd_id := List.replicate 16 0 },
    { sgid := some "T-9515H-50", mode := k.CPUCACHE_EMUMODE_FULL, fd_id := List.replicate 16 0 } ]

/-- The table `hhdb`: game id, hack flags and disc id of each entry. -/
def hhdb (k : DbConstants) : List HhEntry :=
  [ { sgid := some "GS-9126", horrible_hacks := k.HORRIBLEHACK_NOSH2DMAPENALTY,
      fd_id := List.replicate 16 0 },
    { sgid := some "MK-81073", horrible_hacks := k.HORRIBLEHACK_NOSH2DMAPENALTY,
      fd_id := List.replicate 16 0 },
    { sgid := some "T-22403G", horrible_hacks := k.HORRIBLEHACK_NOSH2DMAPENALTY,
      fd_id := List.replicate 16 0 },
    { sgid := some "T-4507G", horrible_hacks := k.HORRIBLEHACK_VDP1VRAM5000FIX,
      fd_id := List.replicate 16 0 },
    { sgid := some "T-1507G", horrible_hacks := k.HORRIBLEHACK_VDP1RWDRAWSLOWDOWN,
      fd_id := List.replicate 16 0 },
    { sgid := some "T-12705H", horrible_hacks := k.HORRIBLEHACK_VDP1RWDRAWSLOWDOWN,
      fd_id := List.replicate 16 0 },
    { sgid := some "T-8150H", horrible_hacks := k.HORRIBLEHACK_VDP1RWDRAWSLOWDOWN,
      fd_id := List.replicate 16 0 },
    { sgid := some "T-9703H", horrible_hacks := k.HORRIBLEHACK_VDP1RWDRAWSLOWDOWN,
      fd_id := List.replicate 16 0 },
    { sgid := some "T-9706H", horrible_hacks := k.HORRIBLEHACK_VDP1RWDRAWSLOWDOWN,
      fd_id := List.replicate 16 0 },
    { sgid := some "6106856", horrible_hacks := k.HORRIBLEHACK_VDP1RWDRAWSLOWDOWN,
      fd_id := List.replicate 16 0 },
    { sgid := some "GS-9174", horrible_hacks := k.HORRIBLEHACK_VDP1RWDRAWSLOWDOWN,
      fd_id := List.replicate 16 0 },
    { sgid := some "MK-81803", horrible_hacks := k.HORRIBLEHACK_VDP1RWDRAWSLOWDOWN,
      fd_id := List.replicate 16 0 },
    { sgid := some "T-8111G", horrible_hacks := k.HORRIBLEHACK_VDP1RWDRAWSLOWDOWN,
      fd_id := List.replicate 16 0 },
    { sgid := some "T-8138H", horrible_hacks := k.HORRIBLEHACK_VDP1RWDRAWSLOWDOWN,
      fd_id := List.replicate 16 0 },
    { sgid := some "T-36102G", horrible_hacks := k.HORRIBLEHACK_VDP1RWDRAWSLOWDOWN,
      fd_id := List.replicate 16 0 },
    { sgid := some "T-9515H-50", horrible_hacks := k.HORRIBLEHACK_VDP1RWDRAWSLOWDOWN,
      fd_id := List.replicate 16 0 },
    { sgid := some "T-6006G", horrible_hacks := k.HORRIBLEHACK_NOSH2DMALINE106 ||| k.HORRIBLEHACK_VDP1INSTANT,
      fd_id := List.replicate 16 0 },
    { sgid := some "T-11501H00", horrible_hacks := k.HORRIBLEHACK_NOSH2DMALINE106 ||| k.HORRIBLEHACK_VDP1INSTANT,
      fd_id := List.replicate 16 0 } ]

/-- The test `!memcmp( a, b, 16 )`: the first 16 bytes agree. -/
def memcmp16 (a b : List Nat) : Bool := decide (a.take 16 = b.take 16)

/-- The test `!strcmp( a, b )` on strings without a NUL character. -/
def strcmp_eq (a b : String) : Bool := decide (a = b)

/-- The condition `(e.sgid && !strcmp(e.sgid, sgid)) || (!e.sgid && !memcmp(e.fd_id, fd_id, 16))`
of the scans of `cartdb`, `cemdb` and `hhdb`. -/
def entry_matches (e_sgid : Option String) (e_fd_id : List Nat) (sgid : String)
    (fd_id : List Nat) : Bool :=
  (match e_sgid with
    | some s => strcmp_eq s sgid
    | none => false)
  || (e_sgid.isNone && memcmp16 e_fd_id fd_id)

/-- The first loop of `DB_Lookup`, over the remaining entries of `regiondb`: the value of
`*region` when the loop ends. -/
def scan_regiondb (fd_id : List Nat) : List RegionEntry → Nat → Nat
  | [], region => region
  | re :: rest, region => if memcmp16 re.id fd_id then re.area else scan_regiondb fd_id rest region

/-- The second loop of `DB_Lookup`, over the remaining entries of `cartdb`. -/
def scan_cartdb (sgid : String) (fd_id : List Nat) : List CartEntry → Int → Int
  | [], cart_type => cart_type
  | ca :: rest, cart_type =>
    if entry_matches ca.sgid ca.fd_id sgid fd_id then ca.cart_type
    else scan_cartdb sgid fd_id rest cart_type

/-- The third loop of `DB_Lookup`, over the remaining entries of `cemdb`. -/
def scan_cemdb (sgid : String) (fd_id : List Nat) : List CemEntry → Nat → Nat
  | [], cpucache_emumode => cpucache_emumode
  | c :: rest, cpucache_emumode =>
    if entry_matches c.sgid c.fd_id sgid fd_id then c.mode
    else scan_cemdb sgid fd_id rest cpucache_emumode

set_option linter.unusedVariables false in
/-- The function `DB_Lookup`; the three in-out arguments `*region`, `*cart_type` and
`*cpucache_emumode` are given as values and returned. -/
def DB_Lookup (k : DbConstants) (path sgid : String) (fd_id : List Nat) (region : Nat)
    (cart_type : Int) (cpucache_emumode : Nat) : Nat × Int × Nat :=
  let region := scan_regiondb fd_id (regiondb k) region
  let cart_type := scan_cartdb sgid fd_id (cartdb k) cart_type
  let cpucache_emumode := scan_cemdb sgid fd_id (cemdb k) cpucache_emumode
  (region, cart_type, cpucache_emumode)

/-- The loop of `DB_LookupHH`, over the remaining entries of `hhdb`, with the `return 0`
after it. -/
def scan_hhdb (sgid : String) (fd_id : List Nat) : List HhEntry → Nat
  | [] => 0
  | hh :: rest =>
    if entry_matches hh.sgid hh.fd_id sgid fd_id then hh.horrible_hacks
    else scan_hhdb sgid fd_id rest

/-- The function `DB_LookupHH`. -/
def DB_LookupHH (k : DbConstants) (sgid : String) (fd_id : List Nat) : Nat :=
  scan_hhdb sgid fd_id (hhdb k)

/-- Sample values for the constants of the database: distinct numbers, not taken from the
headers. -/
def sample_db_constants : DbConstants where
  SMPC_AREA_JP := 1
  SMPC_AREA_EU_PAL := 12
  SMPC_AREA_CSA_NTSC := 5
  CART_NONE := 0
  CART_BACKUP_MEM := 1
  CART_EXTRAM_1M := 2
  CART_EXTRAM_4M := 3
  CART_KOF95 := 4
  CART_ULTRAMAN := 5
  CART_CS1RAM_16M := 7
  CPUCACHE_EMUMODE_DATA_CB := 0
  CPUCACHE_EMUMODE_FULL := 2
  HORRIBLEHACK_NOSH2DMALINE106 := 1
  HORRIBLEHACK_NOSH2DMAPENALTY := 2
  HORRIBLEHACK_VDP1VRAM5000FIX := 4
  HORRIBLEHACK_VDP1RWDRAWSLOWDOWN := 8
  HORRIBLEHACK_VDP1INSTANT := 16

/-- The match of a table entry as the specification words it: exact string equality of the
game id when the entry has one, equality of the 16-byte disc id when it has none. -/
def spec_entry_matches (e_sgid : Option String) (e_fd_id : List Nat) (sgid : String)
    (fd_id : List Nat) : Bool :=
  match e_sgid with
  | some s => decide (s = sgid)
  | none => decide (e_fd_id.take 16 = fd_id.take 16)

/-! ## Theorems -/

theorem log2Fuel_spec (fuel : Nat) : ∀ n : Nat, n ≤ fuel → 1 ≤ n →
    2 ^ log2Fuel fuel n ≤ n ∧ n < 2 ^ (log2Fuel fuel n + 1) := by
  induction fuel with
  | zero => intro n h0 h1; omega
  | succ f ih =>
    intro n hn h1
    unfold log2Fuel
    by_cases h2 : n < 2
    · simp only [h2, if_true]
      have : n = 1 := by omega
      subst this
      simp
    · simp only [h2, if_false]
      have ih1 := ih (n / 2) (by omega) (by omega)
      obtain ⟨ha, hb⟩ := ih1
      rw [pow_succ] at hb
      constructor
      · rw [pow_succ]; omega
      · rw [pow_succ, pow_succ]; omega

theorem natLog2_spec (n : Nat) (h : 1 ≤ n) :
    2 ^ natLog2 n ≤ n ∧ n < 2 ^ (natLog2 n + 1) :=
  log2Fuel_spec n n le_rfl h

theorem ilog2_spec (q : ℚ) (hq : q ≠ 0) :
    (2 : ℚ) ^ ilog2 q ≤ |q| ∧ |q| < (2 : ℚ) ^ (ilog2 q + 1) := by
  have hnum : q.num ≠ 0 := Rat.num_ne_zero.mpr hq
  have ha1 : 1 ≤ q.num.natAbs := Nat.one_le_iff_ne_zero.mpr (Int.natAbs_ne_zero.mpr hnum)
  have hb1 : 1 ≤ q.den := q.den_pos
  obtain ⟨ha, ha'⟩ := natLog2_spec _ ha1
  obtain ⟨hb, hb'⟩ := natLog2_spec _ hb1
  have habs : |q| = (q.num.natAbs : ℚ) / (q.den : ℚ) := by
    conv_lhs => rw [← Rat.num_div_den q]
    rw [abs_div, Nat.abs_cast, Nat.cast_natAbs, Int.cast_abs]
  have hbpos : (0 : ℚ) < q.den := by exact_mod_cast q.den_pos
  have haq : (2 : ℚ) ^ natLog2 q.num.natAbs ≤ (q.num.natAbs : ℚ) := by exact_mod_cast ha
  have haq' : (q.num.natAbs : ℚ) < (2 : ℚ) ^ (natLog2 q.num.natAbs + 1) := by exact_mod_cast ha'
  have hbq : (2 : ℚ) ^ natLog2 q.den ≤ (q.den : ℚ) := by exact_mod_cast hb
  have hbq' : (q.den : ℚ) < (2 : ℚ) ^ (natLog2 q.den + 1) := by exact_mod_cast hb'
  have h2 : (0 : ℚ) < 2 := by norm_num
  have h2' : (2 : ℚ) ≠ 0 := by norm_num
  unfold ilog2
  simp only
  split_ifs with hc
  · refine ⟨hc, ?_⟩
    rw [habs, div_lt_iff₀ hbpos]
    have : (2 : ℚ) ^ ((natLog2 q.num.natAbs : Int) - (natLog2 q.den : Int) + 1)
        = (2 : ℚ) ^ (natLog2 q.num.natAbs + 1) / (2 : ℚ) ^ natLog2 q.den := by
      rw [sub_add_eq_add_sub, zpow_sub₀ h2']
      norm_cast
    rw [this, div_mul_eq_mul_div, lt_div_iff₀ (by positivity)]
    calc (q.num.natAbs : ℚ) * 2 ^ natLog2 q.den
        ≤ (q.num.natAbs : ℚ) * q.den := by gcongr
      _ < 2 ^ (natLog2 q.num.natAbs + 1) * q.den := by gcongr
  · refine ⟨?_, ?_⟩
    · rw [habs, le_div_iff₀ hbpos]
      have : (2 : ℚ) ^ ((natLog2 q.num.natAbs : Int) - (natLog2 q.den : Int) - 1)
          = (2 : ℚ) ^ natLog2 q.num.natAbs / (2 : ℚ) ^ (natLog2 q.den + 1) := by
        rw [sub_sub, zpow_sub₀ h2']
        norm_cast
      rw [this, div_mul_eq_mul_div, div_le_iff₀ (by positivity)]
      calc (2 : ℚ) ^ natLog2 q.num.natAbs * q.den
          ≤ (q.num.natAbs : ℚ) * q.den := by gcongr
        _ ≤ (q.num.natAbs : ℚ) * 2 ^ (natLog2 q.den + 1) := by gcongr
    · rw [sub_add_cancel]
      exact lt_of_not_le hc

theorem ratFloor_eq (q : ℚ) : Rat.floor q = ⌊q⌋ := by
  rw [Rat.floor_def', Rat.floor_def]

theorem roundHalfEven_err (x : ℚ) : |(roundHalfEven x : ℚ) - x| ≤ 1 / 2 := by
  have h1 := Int.floor_le x
  have h2 := Int.lt_floor_add_one x
  unfold roundHalfEven
  simp only [ratFloor_eq]
  split_ifs with ha hb hc
  · rw [abs_le]; constructor <;> linarith
  · rw [abs_le]; push_cast; constructor <;> linarith
  · rw [abs_le]; constructor <;> linarith
  · rw [abs_le]; push_cast; constructor <;> linarith

theorem roundHalfEven_intCast (z : Int) : roundHalfEven (z : ℚ) = z := by
  unfold roundHalfEven
  simp only [ratFloor_eq, Int.floor_intCast, sub_self]
  norm_num

theorem roundHalfAway_err (x : ℚ) : |(roundHalfAway x : ℚ) - x| ≤ 1 / 2 := by
  unfold roundHalfAway
  simp only [ratFloor_eq]
  split_ifs with h
  · have h1 := Int.floor_le (x + 1 / 2)
    have h2 := Int.lt_floor_add_one (x + 1 / 2)
    rw [abs_le]; constructor <;> linarith
  · have h1 := Int.floor_le (-x + 1 / 2)
    have h2 := Int.lt_floor_add_one (-x + 1 / 2)
    rw [abs_le]; push_cast; constructor <;> linarith

theorem truncQ_intCast (z : Int) : truncQ (z : ℚ) = z := by
  unfold truncQ
  simp only [ratFloor_eq]
  split_ifs with h
  · exact Int.floor_intCast z
  · rw [← Int.cast_neg, Int.floor_intCast]; ring

theorem ulp32_pos (q : ℚ) : 0 < ulp32 q := by
  unfold ulp32; positivity

/-- Relative error of the binary32 rounding in the normal range: at most 2^-24. -/
theorem roundBinary32_err (q : ℚ) (hq : (2 : ℚ) ^ (-126 : Int) ≤ |q|) :
    |roundBinary32 q - q| ≤ |q| * (2 : ℚ) ^ (-24 : Int) := by
  have hq0 : q ≠ 0 := by
    intro h; rw [h, abs_zero] at hq
    have : (0 : ℚ) < 2 ^ (-126 : Int) := by positivity
    linarith
  obtain ⟨hlo, hhi⟩ := ilog2_spec q hq0
  have he : (-126 : Int) ≤ ilog2 q := by
    by_contra hlt
    push_neg at hlt
    have : (2 : ℚ) ^ (ilog2 q + 1) ≤ 2 ^ (-126 : Int) :=
      zpow_le_zpow_right₀ (by norm_num) (by omega)
    linarith
  have hulp : ulp32 q = (2 : ℚ) ^ (ilog2 q - 23) := by
    unfold ulp32; rw [max_eq_left he]
  have hu := ulp32_pos q
  unfold roundBinary32
  rw [if_neg hq0]
  have herr := roundHalfEven_err (q / ulp32 q)
  have key : (roundHalfEven (q / ulp32 q) : ℚ) * ulp32 q - q
      = ((roundHalfEven (q / ulp32 q) : ℚ) - q / ulp32 q) * ulp32 q := by
    field_simp
  rw [key, abs_mul, abs_of_pos hu]
  calc |(roundHalfEven (q / ulp32 q) : ℚ) - q / ulp32 q| * ulp32 q
      ≤ 1 / 2 * ulp32 q := by gcongr
    _ = (2 : ℚ) ^ ilog2 q * 2 ^ (-24 : Int) := by
        rw [hulp, ← zpow_add₀ (by norm_num : (2 : ℚ) ≠ 0)]
        have : ilog2 q + -24 = (ilog2 q - 23) + (-1) := by ring
        rw [this, zpow_add₀ (by norm_num : (2 : ℚ) ≠ 0)]
        norm_num; ring
    _ ≤ |q| * 2 ^ (-24 : Int) := by gcongr

theorem roundBinary32_intCast (z : Int) (h : |z| < 2 ^ 24) : roundBinary32 (z : ℚ) = z := by
  by_cases hz : z = 0
  · subst hz; simp [roundBinary32]
  have hq0 : (z : ℚ) ≠ 0 := by exact_mod_cast hz
  obtain ⟨hlo, hhi⟩ := ilog2_spec (z : ℚ) hq0
  have habs1 : (1 : ℚ) ≤ |(z : ℚ)| := by
    have : 1 ≤ |z| := Int.one_le_abs hz
    exact_mod_cast this
  have habs2 : |(z : ℚ)| < (2 : ℚ) ^ (24 : Int) := by
    have : ((|z| : Int) : ℚ) < ((2 ^ 24 : Int) : ℚ) := by exact_mod_cast h
    rw [Int.cast_abs] at this
    norm_num at this ⊢
    exact this
  have he0 : 0 ≤ ilog2 (z : ℚ) := by
    by_contra hlt
    push_neg at hlt
    have : (2 : ℚ) ^ (ilog2 (z : ℚ) + 1) ≤ 2 ^ (0 : Int) :=
      zpow_le_zpow_right₀ (by norm_num) (by omega)
    rw [zpow_zero] at this
    linarith
  have he1 : ilog2 (z : ℚ) ≤ 23 := by
    by_contra hlt
    push_neg at hlt
    have : (2 : ℚ) ^ (24 : Int) ≤ 2 ^ ilog2 (z : ℚ) :=
      zpow_le_zpow_right₀ (by norm_num) (by omega)
    linarith
  obtain ⟨j, hj⟩ : ∃ j : Nat, (j : Int) = 23 - ilog2 (z : ℚ) := ⟨(23 - ilog2 (z : ℚ)).toNat, by omega⟩
  have hulp : ulp32 (z : ℚ) = ((2 : ℚ) ^ j)⁻¹ := by
    unfold ulp32
    rw [max_eq_left (by omega)]
    have : ilog2 (z : ℚ) - 23 = -(j : Int) := by omega
    rw [this, zpow_neg, zpow_natCast]
  unfold roundBinary32
  rw [if_neg hq0, hulp, div_inv_eq_mul]
  have : (z : ℚ) * 2 ^ j = ((z * 2 ^ j : Int) : ℚ) := by push_cast; ring
  rw [this, roundHalfEven_intCast]
  push_cast
  field_simp

theorem F32.ofInt_small (z : Int) (h : |z| < 2 ^ 24) : F32.ofInt z = F32.fin z := by
  unfold F32.ofInt F32.ofRat
  simp only [roundBinary32_intCast z h]
  rw [if_pos]
  have : ((|z| : Int) : ℚ) < ((2 ^ 24 : Int) : ℚ) := by exact_mod_cast h
  rw [Int.cast_abs] at this
  calc |(z : ℚ)| < ((2 ^ 24 : Int) : ℚ) := this
    _ ≤ 2 ^ 128 := by norm_num


/-! ### Register image: bytes and the buttons field -/

theorem get_buttons_set_buttons (p : INPUT_DATA) (v : Nat) :
    get_buttons (set_buttons p v) = v % 65536 := by
  unfold get_buttons set_buttons set_u16
  have h01 : ((0 : Fin 32) + 1) = 1 := by decide
  have hne : (0 : Fin 32) ≠ 1 := by decide
  rw [h01, Function.update_same, Function.update_noteq hne, Function.update_same]
  omega

theorem set_buttons_other (p : INPUT_DATA) (v : Nat) (k : Fin 32) (hk : 2 ≤ k.val) :
    set_buttons p v k = p k := by
  unfold set_buttons set_u16
  have h01 : ((0 : Fin 32) + 1) = 1 := by decide
  have h1 : k ≠ 1 := by intro h; rw [h] at hk; simp at hk
  have h0 : k ≠ 0 := by intro h; rw [h] at hk; simp at hk
  rw [h01, Function.update_noteq h1, Function.update_noteq h0]

theorem get_buttons_or_buttons (p : INPUT_DATA) (x : Nat) :
    get_buttons (or_buttons p x) = (get_buttons p ||| x) % 65536 := by
  unfold or_buttons; exact get_buttons_set_buttons _ _

theorem or_buttons_other (p : INPUT_DATA) (x : Nat) (k : Fin 32) (hk : 2 ≤ k.val) :
    or_buttons p x k = p k := by
  unfold or_buttons; exact set_buttons_other _ _ k hk

theorem lor_lt_65536 {a b : Nat} (ha : a < 65536) (hb : b < 65536) : a ||| b < 65536 :=
  @Nat.or_lt_two_pow a b 16 ha hb

theorem mod_lor_mod (a b : Nat) : (a % 65536 ||| b) % 65536 = (a ||| b) % 65536 := by
  apply Nat.eq_of_testBit_eq
  intro i
  have h : (65536 : Nat) = 2 ^ 16 := by norm_num
  rw [h]
  simp only [Nat.testBit_mod_two_pow, Nat.testBit_lor]
  by_cases hi : i < 16 <;> simp [hi]

/-- A mapping loop of `input_update` leaves in the buttons field the OR of what it held
and of the bits added, reduced to 16 bits. -/
theorem get_buttons_foldl_or (f : Nat → Nat) (l : List Nat) (p : INPUT_DATA)
    (hp : get_buttons p < 65536) :
    get_buttons (l.foldl (fun p i => or_buttons p (f i)) p)
      = (l.foldl (fun acc i => acc ||| f i) (get_buttons p)) % 65536 := by
  induction l using List.reverseRecOn generalizing p with
  | nil =>
    simp only [List.foldl_nil]
    exact (Nat.mod_eq_of_lt hp).symm
  | append_singleton l a ih =>
    simp only [List.foldl_append, List.foldl_cons, List.foldl_nil]
    rw [get_buttons_or_buttons, ih p hp, mod_lor_mod]

theorem foldl_or_buttons_other (f : Nat → Nat) (l : List Nat) (p : INPUT_DATA) (k : Fin 32)
    (hk : 2 ≤ k.val) : (l.foldl (fun p i => or_buttons p (f i)) p) k = p k := by
  induction l generalizing p with
  | nil => rfl
  | cons a l ih =>
    simp only [List.foldl_cons]
    rw [ih, or_buttons_other _ _ k hk]

/-- Bit `k` of the OR of the bits `i + sh`, `i < n`, selected by `P`. -/
theorem testBit_foldl_or (P : Nat → Prop) [DecidablePred P] (sh n a k : Nat) :
    ((List.range n).foldl (fun acc i => acc ||| (if P i then 1 <<< (i + sh) else 0)) a).testBit k
      = (a.testBit k || decide (sh ≤ k ∧ k < n + sh ∧ P (k - sh))) := by
  induction n with
  | zero =>
    have : ¬ (sh ≤ k ∧ k < 0 + sh ∧ P (k - sh)) := by omega
    rw [List.range_zero, List.foldl_nil, decide_eq_false this, Bool.or_false]
  | succ n ih =>
    rw [List.range_succ, List.foldl_append, List.foldl_cons, List.foldl_nil, Nat.testBit_lor, ih]
    by_cases hP : P n
    · rw [if_pos hP, Nat.one_shiftLeft, Nat.testBit_two_pow]
      by_cases hk : n + sh = k
      · have h1 : sh ≤ k ∧ k < n + 1 + sh ∧ P (k - sh) := by
          refine ⟨by omega, by omega, ?_⟩
          have : k - sh = n := by omega
          rw [this]; exact hP
        simp [hk, h1]
      · have h1 : (sh ≤ k ∧ k < n + 1 + sh ∧ P (k - sh)) ↔ (sh ≤ k ∧ k < n + sh ∧ P (k - sh)) := by
          constructor
          · rintro ⟨a1, a2, a3⟩; exact ⟨a1, by omega, a3⟩
          · rintro ⟨a1, a2, a3⟩; exact ⟨a1, by omega, a3⟩
        simp [hk, h1]
    · rw [if_neg hP]
      have h1 : (sh ≤ k ∧ k < n + 1 + sh ∧ P (k - sh)) ↔ (sh ≤ k ∧ k < n + sh ∧ P (k - sh)) := by
        constructor
        · rintro ⟨a1, a2, a3⟩
          refine ⟨a1, ?_, a3⟩
          by_contra hc
          have : k - sh = n := by omega
          rw [this] at a3; exact hP a3
        · rintro ⟨a1, a2, a3⟩; exact ⟨a1, by omega, a3⟩
      simp [h1]

/-- The OR of bits below bit 16 fits the 16-bit buttons field. -/
theorem foldl_or_lt (P : Nat → Prop) [DecidablePred P] (sh n a : Nat) (ha : a < 65536)
    (hn : n + sh ≤ 16) :
    (List.range n).foldl (fun acc i => acc ||| (if P i then 1 <<< (i + sh) else 0)) a < 65536 := by
  induction n with
  | zero => simpa using ha
  | succ n ih =>
    rw [List.range_succ, List.foldl_append, List.foldl_cons, List.foldl_nil]
    apply lor_lt_65536 (ih (by omega))
    split_ifs
    · rw [Nat.one_shiftLeft]
      calc 2 ^ (n + sh) ≤ 2 ^ 15 := Nat.pow_le_pow_right (by norm_num) (by omega)
        _ < 65536 := by norm_num
    · norm_num

/-! ### The loop of `input_update` -/

/-- The result of the loop body for port `i`, on the variables as they are in `s`. -/
theorem input_update_player_spec (rescale : PolarRescale) (cb : InputStateCb) (s s' : State)
    (i : Nat) (h : input_update_player rescale cb s i = some s') :
    ∃ r, update_port rescale s.astick_deadzone s.trigger_deadzone s.mouse_sensitivity cb i
        (s.input_type i) (s.input_data i) (s.input_mode i) = some r
      ∧ s' = { s with
          input_data := Function.update s.input_data i r.data
          input_mode := Function.update s.input_mode i r.mode
          events := s.events ++ r.events } := by
  unfold input_update_player at h
  rcases hr : update_port rescale s.astick_deadzone s.trigger_deadzone s.mouse_sensitivity cb i
      (s.input_type i) (s.input_data i) (s.input_mode i) with _ | r
  · rw [hr] at h; simp at h
  · rw [hr] at h
    simp only [Option.map_some', Option.some.injEq] at h
    exact ⟨r, rfl, h.symm⟩

/-- Invariant of the loop of `input_update` after the ports below `n`: the settings and
the controller types are untouched, each port below `n` holds the result of its own loop
body on its own initial contents, and the ports from `n` on are untouched. -/
theorem input_update_loop (rescale : PolarRescale) (cb : InputStateCb) (s : State) :
    ∀ (n : Nat) (s' : State),
      (List.range n).foldlM (input_update_player rescale cb) s = some s' →
      s'.players = s.players ∧ s'.astick_deadzone = s.astick_deadzone
      ∧ s'.trigger_deadzone = s.trigger_deadzone ∧ s'.mouse_sensitivity = s.mouse_sensitivity
      ∧ s'.input_type = s.input_type
      ∧ s'.setting_multitap_port1 = s.setting_multitap_port1
      ∧ s'.setting_multitap_port2 = s.setting_multitap_port2
      ∧ (∀ i, i < n → ∃ r, update_port rescale s.astick_deadzone s.trigger_deadzone
            s.mouse_sensitivity cb i (s.input_type i) (s.input_data i) (s.input_mode i) = some r
          ∧ s'.input_data i = r.data ∧ s'.input_mode i = r.mode)
      ∧ (∀ i, n ≤ i → s'.input_data i = s.input_data i ∧ s'.input_mode i = s.input_mode i) := by
  intro n
  induction n with
  | zero =>
    intro s' h
    simp only [List.range_zero, List.foldlM_nil, pure, Option.some.injEq] at h
    subst h
    refine ⟨rfl, rfl, rfl, rfl, rfl, rfl, rfl, ?_, ?_⟩
    · intro i hi; omega
    · intro i _; exact ⟨rfl, rfl⟩
  | succ n ih =>
    intro s' h
    rw [List.range_succ, List.foldlM_append] at h
    rcases hm : (List.range n).foldlM (input_update_player rescale cb) s with _ | t
    · rw [hm] at h; simp at h
    · rw [hm] at h
      simp only [Option.some_bind, List.foldlM_cons, List.foldlM_nil, Option.bind_eq_bind] at h
      obtain ⟨a1, a2, a3, a4, a5, a6, a7, a8, a9⟩ := ih t hm
      rcases hp : input_update_player rescale cb t n with _ | u
      · rw [hp] at h; simp at h
      · rw [hp] at h
        simp only [Option.some_bind, pure, Option.some.injEq] at h
        subst h
        obtain ⟨r, hr, hu⟩ := input_update_player_spec rescale cb t u n hp
        rw [a2, a3, a4, a5, (a9 n le_rfl).1, (a9 n le_rfl).2] at hr
        subst hu
        refine ⟨a1, a2, a3, a4, a5, a6, a7, ?_, ?_⟩
        · intro i hi
          by_cases hin : i = n
          · subst hin
            exact ⟨r, hr, by simp, by simp⟩
          · obtain ⟨r', hr', hd, hmo⟩ := a8 i (by omega)
            refine ⟨r', hr', ?_, ?_⟩
            · simp only [Function.update_noteq hin]; exact hd
            · simp only [Function.update_noteq hin]; exact hmo
        · intro i hi
          have hin : i ≠ n := by omega
          simp only [Function.update_noteq hin]
          exact a9 i (by omega)

/-- After `input_update`, every polled port holds the result of its own loop body. -/
theorem input_update_port (rescale : PolarRescale) (cb : InputStateCb) (s s' : State)
    (h : input_update rescale cb s = some s') (i : Nat) (hi : i < s.players) :
    ∃ r, update_port rescale s.astick_deadzone s.trigger_deadzone s.mouse_sensitivity cb i
        (s.input_type i) (s.input_data i) (s.input_mode i) = some r
      ∧ s'.input_data i = r.data ∧ s'.input_mode i = r.mode :=
  (input_update_loop rescale cb s s.players s' h).2.2.2.2.2.2.2.1 i hi


/-! ### Control Pad -/

/-- The buttons field the Control Pad case leaves, when the field was zero before. -/
theorem get_buttons_update_pad (cb : InputStateCb) (i : Nat) (p : INPUT_DATA)
    (hp : get_buttons p = 0) :
    get_buttons (update_pad cb i p)
      = ((List.range 12).foldl (fun acc b => acc |||
            (if input_state cb i RETRO_DEVICE_JOYPAD 0 (input_map_pad.getD b 0) ≠ 0
              then 1 <<< b else 0)) 0)
        ||| (if input_state cb i RETRO_DEVICE_JOYPAD 0 input_map_pad_left_shoulder ≠ 0
              then 1 <<< 15 else 0) := by
  unfold update_pad
  simp only [INPUT_MAP_PAD_SIZE]
  rw [get_buttons_or_buttons, get_buttons_foldl_or _ _ _ (by rw [hp]; norm_num), hp,
    mod_lor_mod]
  apply Nat.mod_eq_of_lt
  apply lor_lt_65536
  · exact foldl_or_lt
      (fun b => input_state cb i RETRO_DEVICE_JOYPAD 0 (input_map_pad.getD b 0) ≠ 0) 0 12 0
      (by norm_num) (by norm_num)
  · split_ifs <;> decide

/-- C1: on a polled Control Pad port, after `input_update` the buttons field is exactly the
OR of `1 << i` over the held buttons `input_map_pad[i]`, `i` in 0..11, and of bit 15 when
the left shoulder button (L2) is held: bit `i < 12` is set exactly when `input_map_pad[i]` is
held, bit 15 exactly when L2 is held, bits 12, 13 and 14 are clear; when only the button
mapped to bit 1 is held the field is `0b10`. -/
theorem pad_buttons_exact (rescale : PolarRescale) (cb : InputStateCb) (s s' : State) (i : Nat)
    (h : input_update rescale cb s = some s') (hi : i < s.players)
    (ht : s.input_type i = RETRO_DEVICE_JOYPAD ∨ s.input_type i = RETRO_DEVICE_SS_PAD) :
    get_buttons (s'.input_data i)
        = ((List.range 12).foldl (fun acc b => acc |||
              (if input_state cb i RETRO_DEVICE_JOYPAD 0 (input_map_pad.getD b 0) ≠ 0
                then 1 <<< b else 0)) 0)
          ||| (if input_state cb i RETRO_DEVICE_JOYPAD 0 RETRO_DEVICE_ID_JOYPAD_L2 ≠ 0
                then 1 <<< 15 else 0)
    ∧ (∀ b, b < 12 → ((get_buttons (s'.input_data i)).testBit b = true
          ↔ input_state cb i RETRO_DEVICE_JOYPAD 0 (input_map_pad.getD b 0) ≠ 0))
    ∧ ((get_buttons (s'.input_data i)).testBit 15 = true
          ↔ input_state cb i RETRO_DEVICE_JOYPAD 0 RETRO_DEVICE_ID_JOYPAD_L2 ≠ 0)
    ∧ (get_buttons (s'.input_data i)).testBit 12 = false
    ∧ (get_buttons (s'.input_data i)).testBit 13 = false
    ∧ (get_buttons (s'.input_data i)).testBit 14 = false
    ∧ get_buttons (s'.input_data i) < 65536
    ∧ ((∀ id, input_state cb i RETRO_DEVICE_JOYPAD 0 id ≠ 0 ↔ id = input_map_pad.getD 1 0) →
        get_buttons (s'.input_data i) = 0b10) := by
  obtain ⟨r, hr, hd, _⟩ := input_update_port rescale cb s s' h i hi
  unfold update_port at hr
  simp only [if_pos ht, Option.some.injEq] at hr
  have hv := get_buttons_update_pad cb i (set_buttons (s.input_data i) 0)
    (by rw [get_buttons_set_buttons])
  rw [← hr] at hd
  simp only at hd
  rw [← hd] at hv
  have hL : input_map_pad_left_shoulder = RETRO_DEVICE_ID_JOYPAD_L2 := rfl
  rw [hL] at hv
  have hbit : ∀ k, (get_buttons (s'.input_data i)).testBit k
      = (decide (k < 12 ∧ input_state cb i RETRO_DEVICE_JOYPAD 0 (input_map_pad.getD k 0) ≠ 0)
        || decide (k = 15 ∧ input_state cb i RETRO_DEVICE_JOYPAD 0 RETRO_DEVICE_ID_JOYPAD_L2 ≠ 0)) := by
    intro k
    rw [hv, Nat.testBit_lor]
    have h1 := testBit_foldl_or
      (fun b => input_state cb i RETRO_DEVICE_JOYPAD 0 (input_map_pad.getD b 0) ≠ 0) 0 12 0 k
    simp only [Nat.add_zero, Nat.sub_zero, Nat.zero_testBit, Bool.false_or, Nat.zero_le,
      true_and, Nat.zero_add] at h1
    rw [h1]
    congr 1
    by_cases hc : input_state cb i RETRO_DEVICE_JOYPAD 0 RETRO_DEVICE_ID_JOYPAD_L2 ≠ 0
    · rw [if_pos hc, Nat.one_shiftLeft, Nat.testBit_two_pow]
      by_cases hk : k = 15
      · subst hk; simp [hc]
      · have : ¬ (15 = k) := fun h => hk h.symm
        simp [hk, this]
    · rw [if_neg hc]
      simp [hc]
  refine ⟨hv, ?_, ?_, ?_, ?_, ?_, ?_, ?_⟩
  · intro b hb
    rw [hbit b]
    have : ¬ b = 15 := by omega
    simp [hb, this]
  · rw [hbit 15]; simp
  · rw [hbit 12]; simp
  · rw [hbit 13]; simp
  · rw [hbit 14]; simp
  · rw [hv]
    apply lor_lt_65536
    · exact foldl_or_lt
        (fun b => input_state cb i RETRO_DEVICE_JOYPAD 0 (input_map_pad.getD b 0) ≠ 0) 0 12 0
        (by norm_num) (by norm_num)
    · split_ifs <;> decide
  · intro honly
    rw [hv]
    simp only [honly]
    decide

/-! ### 3D Control Pad -/

theorem set_u16_other (p : INPUT_DATA) (off k : Fin 32) (v : Nat) (h1 : k ≠ off)
    (h2 : k ≠ off + 1) : set_u16 p off v k = p k := by
  unfold set_u16
  rw [Function.update_noteq h2, Function.update_noteq h1]

theorem set_u16_lo (p : INPUT_DATA) (off : Fin 32) (v : Nat) :
    set_u16 p off v off = v % 256 := by
  unfold set_u16
  have h : off ≠ off + 1 := by
    intro h
    have := congrArg Fin.val h
    rw [Fin.val_add] at this
    have h32 := off.isLt
    simp at this
    omega
  rw [Function.update_noteq h, Function.update_same]

theorem set_u16_hi (p : INPUT_DATA) (off : Fin 32) (v : Nat) :
    set_u16 p off v (off + 1) = v / 256 % 256 := by
  unfold set_u16
  rw [Function.update_same]

theorem get_buttons_set_u16 (p : INPUT_DATA) (off : Fin 32) (v : Nat) (h1 : 2 ≤ off.val)
    (h2 : off.val ≤ 30) : get_buttons (set_u16 p off v) = get_buttons p := by
  unfold get_buttons
  have hv : (off + 1).val = off.val + 1 := by
    rw [Fin.val_add]; simp; omega
  have e0 : (0 : Fin 32) ≠ off := by
    intro h; have h' := congrArg Fin.val h; simp at h'; omega
  have e0' : (0 : Fin 32) ≠ off + 1 := by
    intro h; have h' := congrArg Fin.val h; rw [hv] at h'; simp at h'
  have e1 : (1 : Fin 32) ≠ off := by
    intro h; have h' := congrArg Fin.val h; simp at h'; omega
  have e1' : (1 : Fin 32) ≠ off + 1 := by
    intro h; have h' := congrArg Fin.val h; rw [hv] at h'; simp at h'; omega
  rw [set_u16_other _ _ _ _ e0 e0', set_u16_other _ _ _ _ e1 e1']

/-- What the 3D Control Pad case computes, when it is defined: the shaped stick, the two
triggers, the mode word of `mode_switch`, and the register image assembled from them. -/
theorem update_3d_pad_spec (rescale : PolarRescale) (ad td : Int) (cb : InputStateCb)
    (i : Nat) (p : INPUT_DATA) (mode : Nat) (r : PortResult)
    (h : update_3d_pad rescale ad td cb i p mode = some r) :
    ∃ x y l rt,
      stick_deadzone rescale ad
          (input_state cb i RETRO_DEVICE_ANALOG RETRO_DEVICE_INDEX_ANALOG_LEFT
            RETRO_DEVICE_ID_ANALOG_X)
          (input_state cb i RETRO_DEVICE_ANALOG RETRO_DEVICE_INDEX_ANALOG_LEFT
            RETRO_DEVICE_ID_ANALOG_Y) = some (x, y)
      ∧ get_analog_trigger td cb i RETRO_DEVICE_ID_JOYPAD_L2 = some l
      ∧ get_analog_trigger td cb i RETRO_DEVICE_ID_JOYPAD_R2 = some rt
      ∧ r.mode = (mode_switch cb i mode).1
      ∧ r.events = (mode_switch cb i mode).2
      ∧ r.data =
        set_u16 (set_u16 (set_u16 (set_u16 (set_u16 (set_u16
          (if (mode_switch cb i mode).1 &&& INPUT_MODE_3D_PAD_ANALOG ≠ 0 then
            or_buttons ((List.range INPUT_MAP_3D_PAD_SIZE).foldl (fun p b =>
              or_buttons p (if input_state cb i RETRO_DEVICE_JOYPAD 0
                (input_map_3d_pad.getD b 0) ≠ 0 then 1 <<< b else 0)) p) 0x1000
          else (List.range INPUT_MAP_3D_PAD_SIZE).foldl (fun p b =>
              or_buttons p (if input_state cb i RETRO_DEVICE_JOYPAD 0
                (input_map_3d_pad.getD b 0) ≠ 0 then 1 <<< b else 0)) p)
          0x2 (uint16 (if x < 0 then -x else 0)))
          0x4 (uint16 (if x > 0 then x else 0)))
          0x6 (uint16 (if y < 0 then -y else 0)))
          0x8 (uint16 (if y > 0 then y else 0)))
          0xa rt)
          0xc l := by
  unfold update_3d_pad at h
  dsimp only at h
  rcases hs : stick_deadzone rescale ad
      (input_state cb i RETRO_DEVICE_ANALOG RETRO_DEVICE_INDEX_ANALOG_LEFT
        RETRO_DEVICE_ID_ANALOG_X)
      (input_state cb i RETRO_DEVICE_ANALOG RETRO_DEVICE_INDEX_ANALOG_LEFT
        RETRO_DEVICE_ID_ANALOG_Y) with _ | ⟨x, y⟩
  · rw [hs] at h; simp at h
  rcases hl : get_analog_trigger td cb i RETRO_DEVICE_ID_JOYPAD_L2 with _ | l
  · rw [hs, hl] at h; simp at h
  rcases hrt : get_analog_trigger td cb i RETRO_DEVICE_ID_JOYPAD_R2 with _ | rt
  · rw [hs, hl, hrt] at h; simp at h
  rw [hs, hl, hrt] at h
  simp only [Option.some_bind, Option.some.injEq] at h
  subst h
  exact ⟨x, y, l, rt, rfl, rfl, rfl, rfl, rfl, rfl⟩

theorem update_port_3d_pad (rescale : PolarRescale) (ad td : Int) (ms : F32)
    (cb : InputStateCb) (i : Nat) (p : INPUT_DATA) (mode : Nat) :
    update_port rescale ad td ms cb i RETRO_DEVICE_SS_3D_PAD p mode
      = update_3d_pad rescale ad td cb i (set_buttons p 0) mode := by
  unfold update_port
  have h1 : ¬ (RETRO_DEVICE_SS_3D_PAD = RETRO_DEVICE_JOYPAD
      ∨ RETRO_DEVICE_SS_3D_PAD = RETRO_DEVICE_SS_PAD) := by decide
  simp only [if_neg h1, if_true]

/-- After `input_update`, a polled 3D Control Pad port holds what `update_3d_pad` computes
from the port's own contents. -/
theorem input_update_3d_pad (rescale : PolarRescale) (cb : InputStateCb) (s s' : State) (i : Nat)
    (h : input_update rescale cb s = some s') (hi : i < s.players)
    (ht : s.input_type i = RETRO_DEVICE_SS_3D_PAD) :
    ∃ r, update_3d_pad rescale s.astick_deadzone s.trigger_deadzone cb i
        (set_buttons (s.input_data i) 0) (s.input_mode i) = some r
      ∧ s'.input_data i = r.data ∧ s'.input_mode i = r.mode := by
  obtain ⟨r, hr, hd, hm⟩ := input_update_port rescale cb s s' h i hi
  rw [ht, update_port_3d_pad] at hr
  exact ⟨r, hr, hd, hm⟩

/-- The buttons field the 3D Control Pad case leaves: the mapping loop, then bit 12 under
the mode word `m`; the stores of the axes and triggers do not touch it. -/
theorem get_buttons_3d_pad (cb : InputStateCb) (i : Nat) (p : INPUT_DATA) (m v2 v4 v6 v8 va vc : Nat)
    (hp : get_buttons p = 0) :
    get_buttons (set_u16 (set_u16 (set_u16 (set_u16 (set_u16 (set_u16
        (if m &&& INPUT_MODE_3D_PAD_ANALOG ≠ 0 then
          or_buttons ((List.range INPUT_MAP_3D_PAD_SIZE).foldl (fun p b =>
            or_buttons p (if input_state cb i RETRO_DEVICE_JOYPAD 0
              (input_map_3d_pad.getD b 0) ≠ 0 then 1 <<< b else 0)) p) 0x1000
        else (List.range INPUT_MAP_3D_PAD_SIZE).foldl (fun p b =>
            or_buttons p (if input_state cb i RETRO_DEVICE_JOYPAD 0
              (input_map_3d_pad.getD b 0) ≠ 0 then 1 <<< b else 0)) p)
        0x2 v2) 0x4 v4) 0x6 v6) 0x8 v8) 0xa va) 0xc vc)
      = ((List.range 11).foldl (fun acc b => acc |||
            (if input_state cb i RETRO_DEVICE_JOYPAD 0 (input_map_3d_pad.getD b 0) ≠ 0
              then 1 <<< b else 0)) 0)
        ||| (if m &&& INPUT_MODE_3D_PAD_ANALOG ≠ 0 then 0x1000 else 0) := by
  rw [get_buttons_set_u16 _ _ _ (by decide) (by decide),
    get_buttons_set_u16 _ _ _ (by decide) (by decide),
    get_buttons_set_u16 _ _ _ (by decide) (by decide),
    get_buttons_set_u16 _ _ _ (by decide) (by decide),
    get_buttons_set_u16 _ _ _ (by decide) (by decide),
    get_buttons_set_u16 _ _ _ (by decide) (by decide)]
  have hlt := foldl_or_lt
    (fun b => input_state cb i RETRO_DEVICE_JOYPAD 0 (input_map_3d_pad.getD b 0) ≠ 0) 0 11 0
    (by norm_num) (by norm_num)
  simp only [Nat.add_zero] at hlt
  have hf := get_buttons_foldl_or (fun b => if input_state cb i RETRO_DEVICE_JOYPAD 0
      (input_map_3d_pad.getD b 0) ≠ 0 then 1 <<< b else 0) (List.range 11) p
      (by rw [hp]; norm_num)
  rw [hp, Nat.mod_eq_of_lt hlt] at hf
  simp only [INPUT_MAP_3D_PAD_SIZE]
  split_ifs with hm
  · rw [get_buttons_or_buttons, hf]
    exact Nat.mod_eq_of_lt (lor_lt_65536 hlt (by norm_num))
  · rw [hf]; simp

/-- C2: on a polled 3D Control Pad port, after `input_update` the buttons field is the OR
of `1 << i` over the held buttons `input_map_3d_pad[i]`, `i` in 0..10, and of bit 12
(0x1000) exactly when the analog-mode bit of the mode word is set after this poll's mode
switch; bits 11, 13, 14 and 15 are clear. -/
theorem pad3d_buttons_exact (rescale : PolarRescale) (cb : InputStateCb) (s s' : State)
    (i : Nat) (h : input_update rescale cb s = some s') (hi : i < s.players)
    (ht : s.input_type i = RETRO_DEVICE_SS_3D_PAD) :
    s'.input_mode i = (mode_switch cb i (s.input_mode i)).1
    ∧ get_buttons (s'.input_data i)
        = ((List.range 11).foldl (fun acc b => acc |||
              (if input_state cb i RETRO_DEVICE_JOYPAD 0 (input_map_3d_pad.getD b 0) ≠ 0
                then 1 <<< b else 0)) 0)
          ||| (if s'.input_mode i &&& INPUT_MODE_3D_PAD_ANALOG ≠ 0 then 0x1000 else 0)
    ∧ (∀ b, b < 11 → ((get_buttons (s'.input_data i)).testBit b = true
          ↔ input_state cb i RETRO_DEVICE_JOYPAD 0 (input_map_3d_pad.getD b 0) ≠ 0))
    ∧ ((get_buttons (s'.input_data i)).testBit 12 = true
          ↔ s'.input_mode i &&& INPUT_MODE_3D_PAD_ANALOG ≠ 0)
    ∧ (get_buttons (s'.input_data i)).testBit 11 = false
    ∧ (get_buttons (s'.input_data i)).testBit 13 = false
    ∧ (get_buttons (s'.input_data i)).testBit 14 = false
    ∧ (get_buttons (s'.input_data i)).testBit 15 = false
    ∧ get_buttons (s'.input_data i) < 65536 := by
  obtain ⟨r, hr, hd, hm⟩ := input_update_3d_pad rescale cb s s' i h hi ht
  obtain ⟨x, y, l, rt, _, _, _, hmode, _, hdata⟩ := update_3d_pad_spec _ _ _ _ _ _ _ _ hr
  have hv : get_buttons (s'.input_data i)
      = ((List.range 11).foldl (fun acc b => acc |||
            (if input_state cb i RETRO_DEVICE_JOYPAD 0 (input_map_3d_pad.getD b 0) ≠ 0
              then 1 <<< b else 0)) 0)
        ||| (if s'.input_mode i &&& INPUT_MODE_3D_PAD_ANALOG ≠ 0 then 0x1000 else 0) := by
    rw [hd, hdata, hm, hmode]
    exact get_buttons_3d_pad cb i _ _ _ _ _ _ _ _ (by rw [get_buttons_set_buttons])
  have hbit : ∀ k, (get_buttons (s'.input_data i)).testBit k
      = (decide (k < 11 ∧ input_state cb i RETRO_DEVICE_JOYPAD 0 (input_map_3d_pad.getD k 0) ≠ 0)
        || decide (k = 12 ∧ s'.input_mode i &&& INPUT_MODE_3D_PAD_ANALOG ≠ 0)) := by
    intro k
    rw [hv, Nat.testBit_lor]
    have h1 := testBit_foldl_or
      (fun b => input_state cb i RETRO_DEVICE_JOYPAD 0 (input_map_3d_pad.getD b 0) ≠ 0) 0 11 0 k
    simp only [Nat.add_zero, Nat.sub_zero, Nat.zero_testBit, Bool.false_or, Nat.zero_le,
      true_and, Nat.zero_add] at h1
    rw [h1]
    congr 1
    by_cases hc : s'.input_mode i &&& INPUT_MODE_3D_PAD_ANALOG ≠ 0
    · rw [if_pos hc]
      have h4096 : (0x1000 : Nat) = 2 ^ 12 := by norm_num
      rw [h4096, Nat.testBit_two_pow]
      by_cases hk : k = 12
      · subst hk; simp [hc]
      · have : ¬ (12 = k) := fun h => hk h.symm
        simp [hk, this]
    · rw [if_neg hc]
      simp [hc]
  refine ⟨by rw [hm, hmode], hv, ?_, ?_, ?_, ?_, ?_, ?_, ?_⟩
  · intro b hb
    rw [hbit b]
    have : ¬ b = 12 := by omega
    simp [hb, this]
  · rw [hbit 12]; simp
  · rw [hbit 11]; simp
  · rw [hbit 13]; simp
  · rw [hbit 14]; simp
  · rw [hbit 15]; simp
  · rw [hv]
    apply lor_lt_65536
    · exact foldl_or_lt
        (fun b => input_state cb i RETRO_DEVICE_JOYPAD 0 (input_map_3d_pad.getD b 0) ≠ 0) 0 11 0
        (by norm_num) (by norm_num)
    · split_ifs <;> norm_num


/-! ### Mode switch of the 3D Control Pad -/

theorem and_two_pow_ne_zero_iff (x k : Nat) : x &&& 2 ^ k ≠ 0 ↔ x.testBit k = true := by
  constructor
  · intro h
    by_contra hb
    apply h
    apply Nat.eq_of_testBit_eq
    intro j
    rw [Nat.testBit_and, Nat.testBit_two_pow, Nat.zero_testBit]
    by_cases hj : k = j
    · subst hj; simp [hb]
    · simp [hj]
  · intro h h0
    have := congrArg (fun v => Nat.testBit v k) h0
    simp only [Nat.testBit_and, Nat.testBit_two_pow_self, h, Nat.zero_testBit, Bool.and_self] at this
    exact Bool.noConfusion this

theorem analog_bit_iff (m : Nat) : m &&& INPUT_MODE_3D_PAD_ANALOG ≠ 0 ↔ m.testBit 0 = true :=
  and_two_pow_ne_zero_iff m 0

theorem previous_bit_iff (m : Nat) :
    m &&& INPUT_MODE_3D_PAD_PREVIOUS_MASK ≠ 0 ↔ m.testBit 1 = true :=
  and_two_pow_ne_zero_iff m 1

/-- Bits 0 and 1 of the mode word after `mode_switch`, and the notifications it sends. -/
theorem mode_switch_spec (cb : InputStateCb) (i m : Nat) :
    ((mode_switch cb i m).1.testBit 1
        = decide (input_state cb i RETRO_DEVICE_JOYPAD 0 input_map_3d_pad_mode_switch ≠ 0))
    ∧ ((m.testBit 1 = false
          ∧ input_state cb i RETRO_DEVICE_JOYPAD 0 input_map_3d_pad_mode_switch ≠ 0) →
        (mode_switch cb i m).1.testBit 0 = !m.testBit 0
        ∧ (mode_switch cb i m).2 = [Event.message
            (if (mode_switch cb i m).1.testBit 0 = true
              then "Controller " ++ toString (i + 1) ++ ": Analog Mode"
              else "Controller " ++ toString (i + 1) ++ ": Digital Mode") 180])
    ∧ (¬ (m.testBit 1 = false
          ∧ input_state cb i RETRO_DEVICE_JOYPAD 0 input_map_3d_pad_mode_switch ≠ 0) →
        (mode_switch cb i m).1.testBit 0 = m.testBit 0 ∧ (mode_switch cb i m).2 = []) := by
  have hprev : (m &&& INPUT_MODE_3D_PAD_PREVIOUS_MASK = 0) ↔ m.testBit 1 = false := by
    have := previous_bit_iff m
    rw [← not_iff_not, Bool.not_eq_false]
    exact this
  have hmask0 : (65535 - INPUT_MODE_3D_PAD_PREVIOUS_MASK).testBit 0 = true := by decide
  have hmask1 : (65535 - INPUT_MODE_3D_PAD_PREVIOUS_MASK).testBit 1 = false := by decide
  have hm0 : Nat.testBit INPUT_MODE_3D_PAD_PREVIOUS_MASK 0 = false := by decide
  have hm1 : Nat.testBit INPUT_MODE_3D_PAD_PREVIOUS_MASK 1 = true := by decide
  have ha0 : Nat.testBit INPUT_MODE_3D_PAD_ANALOG 0 = true := by decide
  have hne : INPUT_MODE_3D_PAD_PREVIOUS_MASK ≠ 0 := by decide
  by_cases hh : input_state cb i RETRO_DEVICE_JOYPAD 0 input_map_3d_pad_mode_switch ≠ 0
  · by_cases hp : m.testBit 1 = false
    · have hc : m &&& INPUT_MODE_3D_PAD_PREVIOUS_MASK = 0 ∧ INPUT_MODE_3D_PAD_PREVIOUS_MASK ≠ 0 :=
        ⟨hprev.mpr hp, hne⟩
      have hbit0 : (mode_switch cb i m).1.testBit 0 = !m.testBit 0 := by
        unfold mode_switch
        simp only [if_pos hh, if_pos hc, Nat.testBit_lor, Nat.testBit_and, Nat.testBit_xor, hmask0,
          hm0, ha0]
        cases m.testBit 0 <;> rfl
      refine ⟨?_, ?_, ?_⟩
      · unfold mode_switch
        simp only [if_pos hh, if_pos hc, Nat.testBit_lor, Nat.testBit_and, hmask1, hm1]
        simp [hh]
      · intro _
        refine ⟨hbit0, ?_⟩
        have hana : ((m ^^^ INPUT_MODE_3D_PAD_ANALOG) &&& INPUT_MODE_3D_PAD_ANALOG ≠ 0)
            ↔ (mode_switch cb i m).1.testBit 0 = true := by
          rw [analog_bit_iff, hbit0, Nat.testBit_xor, ha0]
          cases m.testBit 0 <;> simp
        unfold mode_switch at hana ⊢
        simp only [if_pos hh, if_pos hc] at hana ⊢
        by_cases hq : (m ^^^ INPUT_MODE_3D_PAD_ANALOG) &&& INPUT_MODE_3D_PAD_ANALOG ≠ 0
        · rw [if_pos hq, if_pos (hana.mp hq)]
        · rw [if_neg hq, if_neg (fun h => hq (hana.mpr h))]
      · intro hcon
        exact absurd ⟨hp, hh⟩ hcon
    · have hc : ¬ (m &&& INPUT_MODE_3D_PAD_PREVIOUS_MASK = 0
          ∧ INPUT_MODE_3D_PAD_PREVIOUS_MASK ≠ 0) := fun h => hp (hprev.mp h.1)
      refine ⟨?_, ?_, ?_⟩
      · unfold mode_switch
        simp only [if_pos hh, if_neg hc, Nat.testBit_lor, Nat.testBit_and, hmask1, hm1]
        simp [hh]
      · intro hcon
        exact absurd hcon.1 hp
      · intro _
        unfold mode_switch
        simp only [if_pos hh, if_neg hc, Nat.testBit_lor, Nat.testBit_and, hmask0, hm0]
        simp
  · have hc : ¬ (m &&& INPUT_MODE_3D_PAD_PREVIOUS_MASK = 0 ∧ (0 : Nat) ≠ 0) := fun h => h.2 rfl
    refine ⟨?_, ?_, ?_⟩
    · unfold mode_switch
      simp only [if_neg hh, if_neg hc, Nat.testBit_lor, Nat.testBit_and, hmask1]
      simp [hh]
    · intro hcon
      exact absurd hcon.2 hh
    · intro _
      unfold mode_switch
      simp only [if_neg hh, if_neg hc, Nat.testBit_lor, Nat.testBit_and, hmask0]
      simp


/-- One poll of a 3D Control Pad port: the new mode word and the notifications are those
of `mode_switch`, and the controller types are untouched. -/
theorem input_update_player_3d_pad (rescale : PolarRescale) (cb : InputStateCb) (s s' : State)
    (i : Nat) (h : input_update_player rescale cb s i = some s')
    (ht : s.input_type i = RETRO_DEVICE_SS_3D_PAD) :
    s'.input_mode i = (mode_switch cb i (s.input_mode i)).1
    ∧ s'.events = s.events ++ (mode_switch cb i (s.input_mode i)).2
    ∧ s'.input_type = s.input_type := by
  obtain ⟨r, hr, hs⟩ := input_update_player_spec rescale cb s s' i h
  rw [ht, update_port_3d_pad] at hr
  obtain ⟨x, y, l, rt, _, _, _, hmode, hev, _⟩ := update_3d_pad_spec _ _ _ _ _ _ _ _ hr
  subst hs
  refine ⟨?_, ?_, rfl⟩
  · simp only [Function.update_same]; exact hmode
  · simp only; rw [hev]

/-- One poll of a 3D Control Pad port: the analog-mode bit is toggled and one notification
naming the new mode is sent when the previous-held bit was clear and the mode button is held;
otherwise the bit keeps its value and nothing is sent; the previous-held bit afterwards
tells whether the button is held. -/
theorem input_update_player_mode_edge (rescale : PolarRescale) (cb : InputStateCb) (s s' : State)
    (i : Nat) (h : input_update_player rescale cb s i = some s')
    (ht : s.input_type i = RETRO_DEVICE_SS_3D_PAD) :
    ((s.input_mode i &&& INPUT_MODE_3D_PAD_PREVIOUS_MASK = 0
        ∧ input_state cb i RETRO_DEVICE_JOYPAD 0 RETRO_DEVICE_ID_JOYPAD_SELECT ≠ 0) →
      ((s'.input_mode i &&& INPUT_MODE_3D_PAD_ANALOG ≠ 0)
          ↔ ¬ (s.input_mode i &&& INPUT_MODE_3D_PAD_ANALOG ≠ 0))
      ∧ s'.events = s.events ++ [Event.message
          (if s'.input_mode i &&& INPUT_MODE_3D_PAD_ANALOG ≠ 0
            then "Controller " ++ toString (i + 1) ++ ": Analog Mode"
            else "Controller " ++ toString (i + 1) ++ ": Digital Mode") 180])
    ∧ (¬ (s.input_mode i &&& INPUT_MODE_3D_PAD_PREVIOUS_MASK = 0
        ∧ input_state cb i RETRO_DEVICE_JOYPAD 0 RETRO_DEVICE_ID_JOYPAD_SELECT ≠ 0) →
      ((s'.input_mode i &&& INPUT_MODE_3D_PAD_ANALOG ≠ 0)
          ↔ (s.input_mode i &&& INPUT_MODE_3D_PAD_ANALOG ≠ 0))
      ∧ s'.events = s.events)
    ∧ ((s'.input_mode i &&& INPUT_MODE_3D_PAD_PREVIOUS_MASK ≠ 0)
        ↔ input_state cb i RETRO_DEVICE_JOYPAD 0 RETRO_DEVICE_ID_JOYPAD_SELECT ≠ 0) := by
  obtain ⟨hm, he, _⟩ := input_update_player_3d_pad rescale cb s s' i h ht
  obtain ⟨h1, h2, h3⟩ := mode_switch_spec cb i (s.input_mode i)
  have hsel : input_map_3d_pad_mode_switch = RETRO_DEVICE_ID_JOYPAD_SELECT := rfl
  rw [hsel] at h1 h2 h3
  have hprev : (s.input_mode i &&& INPUT_MODE_3D_PAD_PREVIOUS_MASK = 0)
      ↔ (s.input_mode i).testBit 1 = false := by
    have := previous_bit_iff (s.input_mode i)
    rw [← not_iff_not, Bool.not_eq_false]
    exact this
  rw [hprev]
  simp only [analog_bit_iff, previous_bit_iff]
  rw [hm, he]
  refine ⟨?_, ?_, ?_⟩
  · intro hc
    obtain ⟨hb, hev⟩ := h2 hc
    refine ⟨?_, by rw [hev]⟩
    rw [hb]
    cases (s.input_mode i).testBit 0 <;> simp
  · intro hc
    obtain ⟨hb, hev⟩ := h3 hc
    refine ⟨by rw [hb], by rw [hev, List.append_nil]⟩
  · rw [h1]; simp

theorem poll_sequence_nil (rescale : PolarRescale) (i : Nat) (s : State) :
    poll_sequence rescale i [] s = some s := rfl

theorem poll_sequence_cons (rescale : PolarRescale) (i : Nat) (cb : InputStateCb)
    (cbs : List InputStateCb) (s : State) :
    poll_sequence rescale i (cb :: cbs) s
      = (input_update_player rescale cb s i).bind (poll_sequence rescale i cbs) := by
  unfold poll_sequence
  rw [List.foldlM_cons]
  rfl

theorem poll_sequence_append (rescale : PolarRescale) (i : Nat) (l1 l2 : List InputStateCb)
    (s : State) :
    poll_sequence rescale i (l1 ++ l2) s
      = (poll_sequence rescale i l1 s).bind (poll_sequence rescale i l2) := by
  unfold poll_sequence
  rw [List.foldlM_append]
  rfl

/-- Polls with the mode button held, from a state whose previous-held bit is set: nothing
is toggled, nothing is sent, and the bit stays set. -/
theorem poll_sequence_held (rescale : PolarRescale) (i : Nat) :
    ∀ (cbs : List InputStateCb) (s s' : State),
      s.input_type i = RETRO_DEVICE_SS_3D_PAD →
      s.input_mode i &&& INPUT_MODE_3D_PAD_PREVIOUS_MASK ≠ 0 →
      (∀ cb ∈ cbs, input_state cb i RETRO_DEVICE_JOYPAD 0 RETRO_DEVICE_ID_JOYPAD_SELECT ≠ 0) →
      poll_sequence rescale i cbs s = some s' →
      s'.input_type i = RETRO_DEVICE_SS_3D_PAD
      ∧ s'.input_mode i &&& INPUT_MODE_3D_PAD_PREVIOUS_MASK ≠ 0
      ∧ ((s'.input_mode i &&& INPUT_MODE_3D_PAD_ANALOG ≠ 0)
          ↔ (s.input_mode i &&& INPUT_MODE_3D_PAD_ANALOG ≠ 0))
      ∧ s'.events = s.events := by
  intro cbs
  induction cbs with
  | nil =>
    intro s s' ht hp _ h
    rw [poll_sequence_nil] at h
    cases h
    exact ⟨ht, hp, Iff.rfl, rfl⟩
  | cons cb cbs ih =>
    intro s s' ht hp hall h
    rw [poll_sequence_cons] at h
    rcases h1 : input_update_player rescale cb s i with _ | t
    · rw [h1] at h; simp at h
    · rw [h1] at h
      simp only [Option.some_bind] at h
      obtain ⟨_, hkeep, hprev⟩ := input_update_player_mode_edge rescale cb s t i h1 ht
      obtain ⟨_, _, htype⟩ := input_update_player_3d_pad rescale cb s t i h1 ht
      have hheld := hall cb (List.mem_cons_self _ _)
      obtain ⟨ha, he⟩ := hkeep (fun hc => hp hc.1)
      obtain ⟨b1, b2, b3, b4⟩ := ih t s' (by rw [htype]; exact ht) (hprev.mpr hheld)
        (fun c hc => hall c (List.mem_cons_of_mem _ hc)) h
      exact ⟨b1, b2, b3.trans ha, by rw [b4, he]⟩

/-- Polls with the mode button released: nothing is toggled, nothing is sent, and after at
least one of them the previous-held bit is clear. -/
theorem poll_sequence_released (rescale : PolarRescale) (i : Nat) :
    ∀ (cbs : List InputStateCb) (s s' : State),
      s.input_type i = RETRO_DEVICE_SS_3D_PAD →
      (∀ cb ∈ cbs, input_state cb i RETRO_DEVICE_JOYPAD 0 RETRO_DEVICE_ID_JOYPAD_SELECT = 0) →
      poll_sequence rescale i cbs s = some s' →
      s'.input_type i = RETRO_DEVICE_SS_3D_PAD
      ∧ (1 ≤ cbs.length → s'.input_mode i &&& INPUT_MODE_3D_PAD_PREVIOUS_MASK = 0)
      ∧ ((s'.input_mode i &&& INPUT_MODE_3D_PAD_ANALOG ≠ 0)
          ↔ (s.input_mode i &&& INPUT_MODE_3D_PAD_ANALOG ≠ 0))
      ∧ s'.events = s.events := by
  intro cbs
  induction cbs using List.reverseRecOn with
  | nil =>
    intro s s' ht _ h
    rw [poll_sequence_nil] at h
    cases h
    exact ⟨ht, fun h => absurd h (by simp), Iff.rfl, rfl⟩
  | append_singleton cbs cb ih =>
    intro s s' ht hall h
    rw [poll_sequence_append] at h
    rcases h1 : poll_sequence rescale i cbs s with _ | t
    · rw [h1] at h; simp at h
    · rw [h1] at h
      simp only [Option.some_bind] at h
      obtain ⟨b1, _, b3, b4⟩ := ih s t ht
        (fun c hc => hall c (List.mem_append_left _ hc)) h1
      rw [poll_sequence_cons] at h
      rcases h2 : input_update_player rescale cb t i with _ | u
      · rw [h2] at h; simp at h
      · rw [h2] at h
        simp only [Option.some_bind, poll_sequence_nil, Option.some.injEq] at h
        subst h
        obtain ⟨_, hkeep, hprev⟩ := input_update_player_mode_edge rescale cb t u i h2 b1
        obtain ⟨_, _, htype⟩ := input_update_player_3d_pad rescale cb t u i h2 b1
        have hrel := hall cb (List.mem_append_right _ (List.mem_singleton_self _))
        obtain ⟨ha, he⟩ := hkeep (fun hc => hc.2 hrel)
        refine ⟨by rw [htype]; exact b1, ?_, ha.trans b3, by rw [he, b4]⟩
        intro _
        by_contra hc
        exact (hprev.mp hc) hrel

/-- C4: on a 3D Control Pad port whose previous-held bit is clear, polls with the mode button
held for `n ≥ 1` consecutive polls and then released for `m ≥ 1` consecutive polls toggle the
analog-mode bit exactly once (its final value is the negation of the initial one) and send
exactly one mode notification, whatever `n` and `m`; the previous-held bit is clear again
at the end. -/
theorem mode_toggle_once_per_press (rescale : PolarRescale) (i : Nat)
    (held released : List InputStateCb) (s s' : State)
    (ht : s.input_type i = RETRO_DEVICE_SS_3D_PAD)
    (hprev : s.input_mode i &&& INPUT_MODE_3D_PAD_PREVIOUS_MASK = 0)
    (hn : 1 ≤ held.length) (hm : 1 ≤ released.length)
    (hheld : ∀ cb ∈ held,
      input_state cb i RETRO_DEVICE_JOYPAD 0 RETRO_DEVICE_ID_JOYPAD_SELECT ≠ 0)
    (hrel : ∀ cb ∈ released,
      input_state cb i RETRO_DEVICE_JOYPAD 0 RETRO_DEVICE_ID_JOYPAD_SELECT = 0)
    (h : poll_sequence rescale i (held ++ released) s = some s') :
    ((s'.input_mode i &&& INPUT_MODE_3D_PAD_ANALOG ≠ 0)
        ↔ ¬ (s.input_mode i &&& INPUT_MODE_3D_PAD_ANALOG ≠ 0))
    ∧ s'.events = s.events ++ [Event.message
        (if s'.input_mode i &&& INPUT_MODE_3D_PAD_ANALOG ≠ 0
          then "Controller " ++ toString (i + 1) ++ ": Analog Mode"
          else "Controller " ++ toString (i + 1) ++ ": Digital Mode") 180]
    ∧ s'.input_mode i &&& INPUT_MODE_3D_PAD_PREVIOUS_MASK = 0 := by
  obtain ⟨cb, rest, rfl⟩ : ∃ cb rest, held = cb :: rest := by
    cases held with
    | nil => simp at hn
    | cons cb rest => exact ⟨cb, rest, rfl⟩
  rw [poll_sequence_append, poll_sequence_cons] at h
  rcases h1 : input_update_player rescale cb s i with _ | t
  · rw [h1] at h; simp at h
  rw [h1] at h
  simp only [Option.some_bind] at h
  rcases h2 : poll_sequence rescale i rest t with _ | u
  · rw [h2] at h; simp at h
  rw [h2] at h
  simp only [Option.some_bind] at h
  obtain ⟨htog, _, hp1⟩ := input_update_player_mode_edge rescale cb s t i h1 ht
  obtain ⟨_, _, htype⟩ := input_update_player_3d_pad rescale cb s t i h1 ht
  have hcb := hheld cb (List.mem_cons_self _ _)
  obtain ⟨ha, he⟩ := htog ⟨hprev, hcb⟩
  have htt : t.input_type i = RETRO_DEVICE_SS_3D_PAD := by rw [htype]; exact ht
  obtain ⟨b1, _, b3, b4⟩ := poll_sequence_held rescale i rest t u htt (hp1.mpr hcb)
    (fun c hc => hheld c (List.mem_cons_of_mem _ hc)) h2
  obtain ⟨_, c2, c3, c4⟩ := poll_sequence_released rescale i released u s' b1 hrel h
  have hiff : (s'.input_mode i &&& INPUT_MODE_3D_PAD_ANALOG ≠ 0)
      ↔ (t.input_mode i &&& INPUT_MODE_3D_PAD_ANALOG ≠ 0) := c3.trans b3
  refine ⟨hiff.trans ha, ?_, c2 hm⟩
  rw [c4, b4, he]
  by_cases hq : t.input_mode i &&& INPUT_MODE_3D_PAD_ANALOG ≠ 0
  · rw [if_pos hq, if_pos (hiff.mpr hq)]
  · rw [if_neg hq, if_neg (fun hc => hq (hiff.mp hc))]


/-! ### Axes and triggers of the 3D Control Pad -/

theorem int16_range (z : Int) : -32768 ≤ int16 z ∧ int16 z ≤ 32767 := by
  unfold int16
  simp only
  split_ifs <;> omega

theorem input_state_range (cb : InputStateCb) (port device index id : Nat) :
    -32768 ≤ input_state cb port device index id
      ∧ input_state cb port device index id ≤ 32767 :=
  int16_range _

theorem uint16_lt (z : Int) : uint16 z < 65536 := by
  unfold uint16; omega

theorem uint16_of_range (z : Int) (h0 : 0 ≤ z) (h1 : z < 65536) : (uint16 z : Int) = z := by
  unfold uint16; omega

theorem clamp_axis_range (v : Int) : -32767 ≤ clamp_axis v ∧ clamp_axis v ≤ 32767 := by
  unfold clamp_axis
  simp only
  split_ifs <;> omega

/-- The shaped stick value stays in the signed 16-bit range. -/
theorem stick_deadzone_range (rescale : PolarRescale) (d ax ay x y : Int)
    (hx : -32768 ≤ ax ∧ ax ≤ 32767) (hy : -32768 ≤ ay ∧ ay ≤ 32767)
    (h : stick_deadzone rescale d ax ay = some (x, y)) :
    (-32768 ≤ x ∧ x ≤ 32767) ∧ (-32768 ≤ y ∧ y ≤ 32767) := by
  unfold stick_deadzone at h
  split_ifs at h with hd
  · rcases hc : checked_int (ax * ax + ay * ay) with _ | n
    · rw [hc] at h; simp at h
    · rw [hc] at h
      simp only [Option.some_bind] at h
      split_ifs at h with hr
      · rcases hp : rescale d ax ay with _ | ⟨rx, ry⟩
        · rw [hp] at h; simp at h
        · rw [hp] at h
          simp only [Option.map_some', Option.some.injEq, Prod.mk.injEq] at h
          obtain ⟨h1, h2⟩ := h
          have c1 := clamp_axis_range rx
          have c2 := clamp_axis_range ry
          rw [← h1, ← h2]
          omega
      · simp only [Option.some.injEq, Prod.mk.injEq] at h
        obtain ⟨h1, h2⟩ := h
        omega
  · simp only [Option.some.injEq, Prod.mk.injEq] at h
    obtain ⟨h1, h2⟩ := h
    omega

/-- A defined result of `apply_trigger_deadzone` on a 16-bit input is a 16-bit value. -/
theorem apply_trigger_deadzone_lt (d : Int) (t r : Nat) (ht : t < 65536)
    (h : apply_trigger_deadzone d t = some r) : r < 65536 := by
  unfold apply_trigger_deadzone at h
  split_ifs at h with hd hgt
  · simp only [Option.map_eq_some'] at h
    obtain ⟨z, _, hz⟩ := h
    rw [← hz]
    split_ifs <;> omega
  · cases h; norm_num
  · cases h; exact ht

theorem get_analog_trigger_lt (d : Int) (cb : InputStateCb) (i id r : Nat)
    (h : get_analog_trigger d cb i id = some r) : r < 65536 := by
  unfold get_analog_trigger at h
  simp only at h
  split_ifs at h with h0 hdig
  · cases h; norm_num
  · cases h; norm_num
  · exact apply_trigger_deadzone_lt d _ r (uint16_lt _) h

/-- The twelve bytes the six 16-bit stores of the 3D Control Pad case leave at offsets
2..13. -/
theorem set_u16_chain_bytes (p : INPUT_DATA) (v2 v4 v6 v8 va vc : Nat) :
    let q := set_u16 (set_u16 (set_u16 (set_u16 (set_u16 (set_u16 p
      0x2 v2) 0x4 v4) 0x6 v6) 0x8 v8) 0xa va) 0xc vc
    q 2 = v2 % 256 ∧ q 3 = v2 / 256 % 256 ∧ q 4 = v4 % 256 ∧ q 5 = v4 / 256 % 256
    ∧ q 6 = v6 % 256 ∧ q 7 = v6 / 256 % 256 ∧ q 8 = v8 % 256 ∧ q 9 = v8 / 256 % 256
    ∧ q 10 = va % 256 ∧ q 11 = va / 256 % 256 ∧ q 12 = vc % 256 ∧ q 13 = vc / 256 % 256 := by
  simp only [set_u16, Function.update_apply]
  refine ⟨?_, ?_, ?_, ?_, ?_, ?_, ?_, ?_, ?_, ?_, ?_, ?_⟩ <;> rfl

theorem two_bytes (v : Nat) (h : v < 65536) : v % 256 + 256 * (v / 256 % 256) = v := by omega

/-- C5: on a polled 3D Control Pad port with shaped stick value `(x, y)` and trigger values
`l`, `rt`, the register image after `input_update` holds, each as a 16-bit little-endian
value, left = max(-x, 0) at bytes 2-3, right = max(x, 0) at bytes 4-5, up = max(-y, 0) at
bytes 6-7, down = max(y, 0) at bytes 8-9, the right trigger at bytes 10-11 and the left
trigger at bytes 12-13; in each of the pairs (left, right) and (up, down) at most one value
is non-zero, right - left = x and down - up = y. -/
theorem pad3d_axes_layout (rescale : PolarRescale) (cb : InputStateCb) (s s' : State) (i : Nat)
    (h : input_update rescale cb s = some s') (hi : i < s.players)
    (ht : s.input_type i = RETRO_DEVICE_SS_3D_PAD) :
    ∃ (x y : Int) (l rt left right up down : Nat),
      stick_deadzone rescale s.astick_deadzone
          (input_state cb i RETRO_DEVICE_ANALOG RETRO_DEVICE_INDEX_ANALOG_LEFT
            RETRO_DEVICE_ID_ANALOG_X)
          (input_state cb i RETRO_DEVICE_ANALOG RETRO_DEVICE_INDEX_ANALOG_LEFT
            RETRO_DEVICE_ID_ANALOG_Y) = some (x, y)
      ∧ get_analog_trigger s.trigger_deadzone cb i RETRO_DEVICE_ID_JOYPAD_L2 = some l
      ∧ get_analog_trigger s.trigger_deadzone cb i RETRO_DEVICE_ID_JOYPAD_R2 = some rt
      ∧ (left : Int) = max (-x) 0 ∧ (right : Int) = max x 0
      ∧ (up : Int) = max (-y) 0 ∧ (down : Int) = max y 0
      ∧ s'.input_data i 2 = left % 256 ∧ s'.input_data i 3 = left / 256
      ∧ s'.input_data i 4 = right % 256 ∧ s'.input_data i 5 = right / 256
      ∧ s'.input_data i 6 = up % 256 ∧ s'.input_data i 7 = up / 256
      ∧ s'.input_data i 8 = down % 256 ∧ s'.input_data i 9 = down / 256
      ∧ s'.input_data i 10 = rt % 256 ∧ s'.input_data i 11 = rt / 256
      ∧ s'.input_data i 12 = l % 256 ∧ s'.input_data i 13 = l / 256
      ∧ left < 65536 ∧ right < 65536 ∧ up < 65536 ∧ down < 65536 ∧ l < 65536 ∧ rt < 65536
      ∧ (left = 0 ∨ right = 0) ∧ (up = 0 ∨ down = 0)
      ∧ (right : Int) - left = x ∧ (down : Int) - up = y := by
  obtain ⟨r, hr, hd, _⟩ := input_update_3d_pad rescale cb s s' i h hi ht
  obtain ⟨x, y, l, rt, hs, hl, hrt, _, _, hdata⟩ := update_3d_pad_spec _ _ _ _ _ _ _ _ hr
  obtain ⟨⟨x0, x1⟩, ⟨y0, y1⟩⟩ := stick_deadzone_range rescale _ _ _ x y
    (input_state_range _ _ _ _ _) (input_state_range _ _ _ _ _) hs
  have hl' := get_analog_trigger_lt _ _ _ _ _ hl
  have hrt' := get_analog_trigger_lt _ _ _ _ _ hrt
  have hb := set_u16_chain_bytes
    (if (mode_switch cb i (s.input_mode i)).1 &&& INPUT_MODE_3D_PAD_ANALOG ≠ 0 then
      or_buttons ((List.range INPUT_MAP_3D_PAD_SIZE).foldl (fun p b =>
        or_buttons p (if input_state cb i RETRO_DEVICE_JOYPAD 0
          (input_map_3d_pad.getD b 0) ≠ 0 then 1 <<< b else 0))
        (set_buttons (s.input_data i) 0)) 0x1000
    else (List.range INPUT_MAP_3D_PAD_SIZE).foldl (fun p b =>
        or_buttons p (if input_state cb i RETRO_DEVICE_JOYPAD 0
          (input_map_3d_pad.getD b 0) ≠ 0 then 1 <<< b else 0))
        (set_buttons (s.input_data i) 0))
    (uint16 (if x < 0 then -x else 0)) (uint16 (if x > 0 then x else 0))
    (uint16 (if y < 0 then -y else 0)) (uint16 (if y > 0 then y else 0)) rt l
  simp only at hb
  rw [← hdata, ← hd] at hb
  obtain ⟨b2, b3, b4, b5, b6, b7, b8, b9, b10, b11, b12, b13⟩ := hb
  have e1 : ((uint16 (if x < 0 then -x else 0) : Nat) : Int) = max (-x) 0 := by
    rw [uint16_of_range _ (by split_ifs <;> omega) (by split_ifs <;> omega)]
    split_ifs <;> omega
  have e2 : ((uint16 (if x > 0 then x else 0) : Nat) : Int) = max x 0 := by
    rw [uint16_of_range _ (by split_ifs <;> omega) (by split_ifs <;> omega)]
    split_ifs <;> omega
  have e3 : ((uint16 (if y < 0 then -y else 0) : Nat) : Int) = max (-y) 0 := by
    rw [uint16_of_range _ (by split_ifs <;> omega) (by split_ifs <;> omega)]
    split_ifs <;> omega
  have e4 : ((uint16 (if y > 0 then y else 0) : Nat) : Int) = max y 0 := by
    rw [uint16_of_range _ (by split_ifs <;> omega) (by split_ifs <;> omega)]
    split_ifs <;> omega
  have u1 := uint16_lt (if x < 0 then -x else 0)
  have u2 := uint16_lt (if x > 0 then x else 0)
  have u3 := uint16_lt (if y < 0 then -y else 0)
  have u4 := uint16_lt (if y > 0 then y else 0)
  refine ⟨x, y, l, rt, uint16 (if x < 0 then -x else 0), uint16 (if x > 0 then x else 0),
    uint16 (if y < 0 then -y else 0), uint16 (if y > 0 then y else 0),
    hs, hl, hrt, e1, e2, e3, e4, b2, ?_, b4, ?_, b6, ?_, b8, ?_, b10, ?_, b12, ?_,
    u1, u2, u3, u4, hl', hrt', ?_, ?_, ?_, ?_⟩
  · rw [b3]; omega
  · rw [b5]; omega
  · rw [b7]; omega
  · rw [b9]; omega
  · rw [b11]; omega
  · rw [b13]; omega
  · omega
  · omega
  · omega
  · omega


/-! ### Analog triggers -/

theorem uint16_eq_zero_iff (z : Int) (h0 : -32768 ≤ z) (h1 : z ≤ 32767) :
    uint16 z = 0 ↔ z = 0 := by
  unfold uint16; omega

/-- C6: `get_analog_trigger` falls back to the digital read exactly when the analog read
of the trigger is 0: the result is then 32767 when the digital read of the same button is
non-zero and 0 when it is zero, whatever the trigger deadzone; when the analog read is not
0, the result is `apply_trigger_deadzone` of that value. In particular an analog read of 0
with a digital read of 1 gives 32767. -/
theorem get_analog_trigger_fallback (d : Int) (cb : InputStateCb) (i id : Nat) :
    (input_state cb i RETRO_DEVICE_ANALOG RETRO_DEVICE_INDEX_ANALOG_BUTTON id = 0 →
      get_analog_trigger d cb i id
        = some (if input_state cb i RETRO_DEVICE_JOYPAD 0 id ≠ 0 then 32767 else 0))
    ∧ (input_state cb i RETRO_DEVICE_ANALOG RETRO_DEVICE_INDEX_ANALOG_BUTTON id ≠ 0 →
      get_analog_trigger d cb i id
        = apply_trigger_deadzone d
            (uint16 (input_state cb i RETRO_DEVICE_ANALOG RETRO_DEVICE_INDEX_ANALOG_BUTTON id)))
    ∧ (input_state cb i RETRO_DEVICE_ANALOG RETRO_DEVICE_INDEX_ANALOG_BUTTON id = 0 →
      input_state cb i RETRO_DEVICE_JOYPAD 0 id = 1 →
      get_analog_trigger d cb i id = some 32767) := by
  have hz := uint16_eq_zero_iff
    (input_state cb i RETRO_DEVICE_ANALOG RETRO_DEVICE_INDEX_ANALOG_BUTTON id)
    (input_state_range _ _ _ _ _).1 (input_state_range _ _ _ _ _).2
  refine ⟨?_, ?_, ?_⟩
  · intro h0
    unfold get_analog_trigger
    simp only [if_pos (hz.mpr h0)]
  · intro h0
    unfold get_analog_trigger
    simp only [if_neg (fun h => h0 (hz.mp h))]
  · intro h0 h1
    unfold get_analog_trigger
    simp only [if_pos (hz.mpr h0), h1]
    rfl


/-! ### Single-precision rescaling `(n - d) * (0x8000 / (0x8000 - d))` -/

theorem F32.ofRat_fin (q : ℚ) (h : |roundBinary32 q| < (2 : ℚ) ^ (128 : Nat)) :
    F32.ofRat q = F32.fin (roundBinary32 q) := by
  unfold F32.ofRat
  simp only [if_pos h]

/-- For `q ≥ 1/2` the binary32 rounding of `q` is within `q * 2^-24` of `q`. -/
theorem roundBinary32_near (q : ℚ) (hq : 1 / 2 ≤ q) :
    |roundBinary32 q - q| ≤ q / 16777216 := by
  have h := roundBinary32_err q (by
    rw [abs_of_pos (by linarith)]
    calc (2 : ℚ) ^ (-126 : Int) ≤ 2 ^ (-1 : Int) := zpow_le_zpow_right₀ (by norm_num) (by norm_num)
      _ = 1 / 2 := by norm_num
      _ ≤ q := hq)
  rw [abs_of_pos (by linarith : (0 : ℚ) < q)] at h
  have e : (2 : ℚ) ^ (-24 : Int) = 1 / 16777216 := by norm_num [zpow_neg]
  rw [e] at h
  linarith

/-- The product `k * (0x8000 / m)` formed in single precision is a finite number, within
a relative error of about `2^-23` of the exact value. -/
theorem rescale_f32 (m k : Int) (hm0 : 1 ≤ m) (hm1 : m ≤ 32768) (hk0 : 1 ≤ k) (hk1 : k ≤ 65535) :
    ∃ v : ℚ, F32.mul (F32.ofInt k) (F32.div (F32.ofInt 0x8000) (F32.ofInt m)) = F32.fin v
      ∧ |v - (k : ℚ) * 32768 / m| ≤ ((k : ℚ) * 32768 / m) / 8000000 := by
  have hmq0 : (1 : ℚ) ≤ m := by exact_mod_cast hm0
  have hmq1 : (m : ℚ) ≤ 32768 := by exact_mod_cast hm1
  have hkq0 : (1 : ℚ) ≤ k := by exact_mod_cast hk0
  have hkq1 : (k : ℚ) ≤ 65535 := by exact_mod_cast hk1
  have hmpos : (0 : ℚ) < m := by linarith
  have e1 : F32.ofInt 0x8000 = F32.fin 32768 := by
    have := F32.ofInt_small 0x8000 (by norm_num)
    simpa using this
  have e2 : F32.ofInt m = F32.fin m :=
    F32.ofInt_small m (by rw [abs_of_pos (by omega)]; omega)
  have e3 : F32.ofInt k = F32.fin k :=
    F32.ofInt_small k (by rw [abs_of_pos (by omega)]; omega)
  -- the scale factor
  have hq1 : (1 : ℚ) ≤ 32768 / m := by
    rw [le_div_iff₀ hmpos]; linarith
  have hq1' : (32768 : ℚ) / m ≤ 32768 := by
    rw [div_le_iff₀ hmpos]; nlinarith
  have hs := roundBinary32_near (32768 / m) (by linarith)
  rw [abs_le] at hs
  obtain ⟨hs0, hs1⟩ := hs
  set q := (32768 : ℚ) / m with hq
  set σ := roundBinary32 q with hσ
  have hσlo : q - q / 16777216 ≤ σ := by linarith
  have hσhi : σ ≤ q + q / 16777216 := by linarith
  have hσpos : (0 : ℚ) < σ := by linarith
  have hσlt : |σ| < (2 : ℚ) ^ (128 : Nat) := by
    rw [abs_of_pos hσpos]
    calc σ ≤ q + q / 16777216 := hσhi
      _ ≤ 32768 + 32768 / 16777216 := by linarith
      _ < 2 ^ (128 : Nat) := by norm_num
  have e4 : F32.div (F32.fin 32768) (F32.fin (m : ℚ)) = F32.fin σ := by
    unfold F32.div
    simp only [if_neg (ne_of_gt hmpos)]
    exact F32.ofRat_fin _ hσlt
  -- the product
  have hkσlo : (k : ℚ) * (q - q / 16777216) ≤ k * σ :=
    mul_le_mul_of_nonneg_left hσlo (by linarith)
  have hkσhi : (k : ℚ) * σ ≤ k * (q + q / 16777216) :=
    mul_le_mul_of_nonneg_left hσhi (by linarith)
  have hkq : (1 : ℚ) ≤ k * q := by nlinarith
  have hkq' : (k : ℚ) * q ≤ 65535 * 32768 := by nlinarith
  have hp := roundBinary32_near (k * σ) (by nlinarith)
  rw [abs_le] at hp
  obtain ⟨hp0, hp1⟩ := hp
  set π := roundBinary32 ((k : ℚ) * σ) with hπ
  have hπlt : |π| < (2 : ℚ) ^ (128 : Nat) := by
    rw [abs_lt]
    constructor
    · have : (0 : ℚ) ≤ π := by nlinarith
      have h2 : (0 : ℚ) < 2 ^ (128 : Nat) := by positivity
      linarith
    · calc π ≤ k * σ + k * σ / 16777216 := by linarith
        _ ≤ 65535 * 32768 * 2 := by nlinarith
        _ < 2 ^ (128 : Nat) := by norm_num
  have e5 : F32.mul (F32.fin (k : ℚ)) (F32.fin σ) = F32.fin π := by
    unfold F32.mul
    exact F32.ofRat_fin _ hπlt
  refine ⟨π, by rw [e1, e2, e3, e4, e5], ?_⟩
  have hv : (k : ℚ) * 32768 / m = k * q := by rw [hq]; ring
  rw [hv, abs_le]
  constructor <;> nlinarith


theorem toInt_round_fin (v : ℚ) (h0 : INT_MIN ≤ roundHalfAway v) (h1 : roundHalfAway v ≤ INT_MAX) :
    F32.toInt (F32.round (F32.fin v)) = some (roundHalfAway v) := by
  unfold F32.round F32.toInt
  simp only [truncQ_intCast]
  unfold checked_int
  rw [if_pos ⟨h0, h1⟩]

/-- Two roundings to the nearest integer of values less than 1/2 apart differ by at most 1. -/
theorem roundHalfAway_close (a b : ℚ) (h : |a - b| < 1 / 2) :
    |roundHalfAway a - roundHalfAway b| ≤ 1 := by
  have ha := roundHalfAway_err a
  have hb := roundHalfAway_err b
  rw [abs_le] at ha hb
  rw [abs_lt] at h
  have h1 : ((roundHalfAway a - roundHalfAway b : Int) : ℚ) < 2 := by push_cast; linarith
  have h2 : (-2 : ℚ) < ((roundHalfAway a - roundHalfAway b : Int) : ℚ) := by push_cast; linarith
  have h1' : roundHalfAway a - roundHalfAway b < 2 := by exact_mod_cast h1
  have h2' : -2 < roundHalfAway a - roundHalfAway b := by exact_mod_cast h2
  rw [abs_le]; omega

/-- Trigger shaping for an in-range trigger value: the result is defined, at most 32767, 0
up to the deadzone, and within 1 of the value of the specification's formula. -/
theorem apply_trigger_deadzone_in_range (d : Int) (t : Nat) (ht : t ≤ 32767) (hd0 : 0 < d)
    (hd1 : d < 0x8000) :
    ∃ r : Nat, apply_trigger_deadzone d t = some r ∧ r ≤ 32767
      ∧ ((t : Int) ≤ d → r = 0)
      ∧ |(r : Int) - spec_trigger_deadzone d t| ≤ 1 := by
  by_cases htd : (t : Int) ≤ d
  · refine ⟨0, ?_, by norm_num, fun _ => rfl, ?_⟩
    · unfold apply_trigger_deadzone
      simp only [gt_iff_lt, if_pos hd0, if_neg (not_lt.mpr htd)]
    · unfold spec_trigger_deadzone
      simp [if_pos htd]
  · push_neg at htd
    have hm0 : 1 ≤ TRIGGER_MAX - d := by unfold TRIGGER_MAX; omega
    have hm1 : TRIGGER_MAX - d ≤ 32768 := by unfold TRIGGER_MAX; omega
    have hk0 : 1 ≤ (t : Int) - d := by omega
    have hk1 : (t : Int) - d ≤ 65535 := by omega
    obtain ⟨v, hv, herr⟩ := rescale_f32 (TRIGGER_MAX - d) ((t : Int) - d) hm0 hm1 hk0 hk1
    have hT : TRIGGER_MAX = 0x8000 := rfl
    -- the exact value and its size
    set e : ℚ := (((t : Int) - d : Int) : ℚ) * 32768 / ((TRIGGER_MAX - d : Int) : ℚ) with he
    have hmq : (0 : ℚ) < ((TRIGGER_MAX - d : Int) : ℚ) := by exact_mod_cast (by omega : 0 < TRIGGER_MAX - d)
    have hkq : (0 : ℚ) < (((t : Int) - d : Int) : ℚ) := by exact_mod_cast (by omega : 0 < (t : Int) - d)
    have hklt : (((t : Int) - d : Int) : ℚ) < ((TRIGGER_MAX - d : Int) : ℚ) := by
      exact_mod_cast (by unfold TRIGGER_MAX; omega : (t : Int) - d < TRIGGER_MAX - d)
    have he0 : 0 < e := by rw [he]; positivity
    have he1 : e < 32768 := by
      rw [he, div_lt_iff₀ hmq]; nlinarith
    rw [abs_le] at herr
    have hclose : |v - e| < 1 / 2 := by
      rw [abs_lt]; constructor <;> linarith
    have hz := roundHalfAway_err v
    rw [abs_le] at hz
    have hz0 : 0 ≤ roundHalfAway v := by
      have : (-1 : ℚ) < (roundHalfAway v : ℚ) := by linarith
      have : (-1 : Int) < roundHalfAway v := by exact_mod_cast this
      omega
    have hz1 : roundHalfAway v ≤ 32768 := by
      have : (roundHalfAway v : ℚ) < 32769 := by linarith
      have : roundHalfAway v < (32769 : Int) := by exact_mod_cast this
      omega
    have hconv := toInt_round_fin v (by unfold INT_MIN; omega) (by unfold INT_MAX; omega)
    have hspec : spec_trigger_deadzone d t = min 32767 (roundHalfAway e) := by
      unfold spec_trigger_deadzone
      rw [if_neg (not_le.mpr htd)]
      congr 2
      rw [he, hT]
      push_cast
      ring
    have hdiff := roundHalfAway_close v e hclose
    rw [abs_le] at hdiff
    have hu : uint16 (roundHalfAway v) = (roundHalfAway v).toNat := by
      unfold uint16; omega
    refine ⟨if uint16 (roundHalfAway v) > 32767 then 32767 else uint16 (roundHalfAway v),
      ?_, ?_, ?_, ?_⟩
    · unfold apply_trigger_deadzone
      simp only [gt_iff_lt, if_pos hd0, if_pos htd]
      rw [show F32.ofInt TRIGGER_MAX = F32.ofInt 32768 from rfl, hv, hconv]
      rfl
    · split_ifs <;> omega
    · intro hc; omega
    · rw [hspec, hu, abs_le]
      split_ifs <;> omega


/-! ### Deadzone settings -/

/-- The deadzone magnitude computed in single precision for each percentage 0..100: the
integer part of `percent * 0.01 * 0x8000`, between 0 and 0x8000, and 0x8000 only at 100. -/
theorem deadzone_of_percent_table : ∀ p : Fin 101,
    deadzone_of_percent (p.val : Int)
        = some (truncQ (((p.val : Int) : ℚ) * (1 / 100) * 0x8000))
    ∧ 0 ≤ truncQ (((p.val : Int) : ℚ) * (1 / 100) * 0x8000)
    ∧ truncQ (((p.val : Int) : ℚ) * (1 / 100) * 0x8000) ≤ 0x8000
    ∧ (truncQ (((p.val : Int) : ℚ) * (1 / 100) * 0x8000) < 0x8000 ↔ p.val < 100) := by
  decide!

theorem deadzone_of_percent_spec (percent : Int) (h0 : 0 ≤ percent) (h1 : percent ≤ 100) :
    deadzone_of_percent percent = some (truncQ ((percent : ℚ) * (1 / 100) * 0x8000))
    ∧ 0 ≤ truncQ ((percent : ℚ) * (1 / 100) * 0x8000)
    ∧ truncQ ((percent : ℚ) * (1 / 100) * 0x8000) ≤ 0x8000
    ∧ (truncQ ((percent : ℚ) * (1 / 100) * 0x8000) < 0x8000 ↔ percent < 100) := by
  obtain ⟨n, hn⟩ : ∃ n : Nat, percent = (n : Int) := ⟨percent.toNat, by omega⟩
  subst hn
  have hlt : n < 101 := by omega
  have h := deadzone_of_percent_table ⟨n, hlt⟩
  simp only at h
  obtain ⟨a, b, c, e⟩ := h
  refine ⟨a, b, c, ?_⟩
  rw [e]; omega


/-! ### When the translation is defined -/

/-- `input_update` is defined exactly when the loop body is defined for every polled port,
each on the port's own initial contents. -/
theorem input_update_loop_defined (rescale : PolarRescale) (cb : InputStateCb) (s : State) :
    ∀ n : Nat,
      (∀ i, i < n → (update_port rescale s.astick_deadzone s.trigger_deadzone
        s.mouse_sensitivity cb i (s.input_type i) (s.input_data i) (s.input_mode i)).isSome
          = true) →
      ∃ s', (List.range n).foldlM (input_update_player rescale cb) s = some s' := by
  intro n
  induction n with
  | zero => intro _; exact ⟨s, rfl⟩
  | succ n ih =>
    intro hall
    obtain ⟨t, ht⟩ := ih (fun i hi => hall i (by omega))
    obtain ⟨a1, a2, a3, a4, a5, _, _, _, a9⟩ := input_update_loop rescale cb s n t ht
    have hn := hall n (by omega)
    obtain ⟨r, hr⟩ := Option.isSome_iff_exists.mp hn
    rw [List.range_succ, List.foldlM_append, ht]
    simp only [Option.some_bind, List.foldlM_cons, List.foldlM_nil, Option.bind_eq_bind]
    unfold input_update_player
    rw [a2, a3, a4, a5, (a9 n le_rfl).1, (a9 n le_rfl).2, hr]
    exact ⟨_, rfl⟩

theorem input_update_defined (rescale : PolarRescale) (cb : InputStateCb) (s : State)
    (h : ∀ i, i < s.players → (update_port rescale s.astick_deadzone s.trigger_deadzone
        s.mouse_sensitivity cb i (s.input_type i) (s.input_data i) (s.input_mode i)).isSome
          = true) :
    ∃ s', input_update rescale cb s = some s' :=
  input_update_loop_defined rescale cb s s.players h

/-- The Control Pad case is always defined. -/
theorem update_port_pad_defined (rescale : PolarRescale) (ad td : Int) (ms : F32)
    (cb : InputStateCb) (i type : Nat) (p : INPUT_DATA) (mode : Nat)
    (ht : type = RETRO_DEVICE_JOYPAD ∨ type = RETRO_DEVICE_SS_PAD) :
    (update_port rescale ad td ms cb i type p mode).isSome = true := by
  unfold update_port
  simp only [if_pos ht, Option.isSome_some]

/-- Trigger shaping with a deadzone in (0, 0x8000) is defined for every 16-bit input, and
its result is at most 32767. -/
theorem apply_trigger_deadzone_defined (d : Int) (t : Nat) (ht : t < 65536) (hd0 : 0 < d)
    (hd1 : d < 0x8000) :
    ∃ r : Nat, apply_trigger_deadzone d t = some r ∧ r ≤ 32767 := by
  by_cases htd : (t : Int) ≤ d
  · refine ⟨0, ?_, by norm_num⟩
    unfold apply_trigger_deadzone
    simp only [gt_iff_lt, if_pos hd0, if_neg (not_lt.mpr htd)]
  · push_neg at htd
    have hm0 : 1 ≤ TRIGGER_MAX - d := by unfold TRIGGER_MAX; omega
    have hm1 : TRIGGER_MAX - d ≤ 32768 := by unfold TRIGGER_MAX; omega
    have hk0 : 1 ≤ (t : Int) - d := by omega
    have hk1 : (t : Int) - d ≤ 65535 := by omega
    obtain ⟨v, hv, herr⟩ := rescale_f32 (TRIGGER_MAX - d) ((t : Int) - d) hm0 hm1 hk0 hk1
    set e : ℚ := (((t : Int) - d : Int) : ℚ) * 32768 / ((TRIGGER_MAX - d : Int) : ℚ) with he
    have hmq : (1 : ℚ) ≤ ((TRIGGER_MAX - d : Int) : ℚ) := by exact_mod_cast hm0
    have hkq0 : (1 : ℚ) ≤ (((t : Int) - d : Int) : ℚ) := by exact_mod_cast hk0
    have hkq1 : (((t : Int) - d : Int) : ℚ) ≤ 65535 := by exact_mod_cast hk1
    have he0 : 0 < e := by rw [he]; positivity
    have he1 : e ≤ 65535 * 32768 := by
      rw [he, div_le_iff₀ (by linarith)]; nlinarith
    rw [abs_le] at herr
    have hz := roundHalfAway_err v
    rw [abs_le] at hz
    have hz0 : 0 ≤ roundHalfAway v := by
      have : (-1 : ℚ) < (roundHalfAway v : ℚ) := by linarith
      have : (-1 : Int) < roundHalfAway v := by exact_mod_cast this
      omega
    have hz1 : roundHalfAway v ≤ 2147483647 := by
      have : (roundHalfAway v : ℚ) < 2147483647 := by linarith
      have : roundHalfAway v < (2147483647 : Int) := by exact_mod_cast this
      omega
    have hconv := toInt_round_fin v (by unfold INT_MIN; omega) (by unfold INT_MAX; omega)
    refine ⟨if uint16 (roundHalfAway v) > 32767 then 32767 else uint16 (roundHalfAway v),
      ?_, ?_⟩
    · unfold apply_trigger_deadzone
      simp only [gt_iff_lt, if_pos hd0, if_pos htd]
      rw [show F32.ofInt TRIGGER_MAX = F32.ofInt 32768 from rfl, hv, hconv]
      rfl
    · split_ifs <;> omega

/-- With a trigger deadzone in (0, 0x8000), `get_analog_trigger` is defined and returns at
most 32767, whatever the poll returns. -/
theorem get_analog_trigger_defined (d : Int) (cb : InputStateCb) (i id : Nat) (hd0 : 0 < d)
    (hd1 : d < 0x8000) :
    ∃ r : Nat, get_analog_trigger d cb i id = some r ∧ r ≤ 32767 := by
  unfold get_analog_trigger
  simp only
  split_ifs with h0 hdig
  · exact ⟨_, rfl, by norm_num⟩
  · exact ⟨_, rfl, by norm_num⟩
  · exact apply_trigger_deadzone_defined d _ (uint16_lt _) hd0 hd1

/-- With a positive stick deadzone the shaped stick value of the 3D Control Pad, when
defined, is clamped into [-32767, 32767]. -/
theorem stick_deadzone_clamped (rescale : PolarRescale) (d ax ay x y : Int) (hd : 0 < d)
    (h : stick_deadzone rescale d ax ay = some (x, y)) :
    (-32767 ≤ x ∧ x ≤ 32767) ∧ (-32767 ≤ y ∧ y ≤ 32767) := by
  unfold stick_deadzone at h
  rw [if_pos hd] at h
  rcases hc : checked_int (ax * ax + ay * ay) with _ | n
  · rw [hc] at h; simp at h
  · rw [hc] at h
    simp only [Option.some_bind] at h
    split_ifs at h with hr
    · rcases hp : rescale d ax ay with _ | ⟨rx, ry⟩
      · rw [hp] at h; simp at h
      · rw [hp] at h
        simp only [Option.map_some', Option.some.injEq, Prod.mk.injEq] at h
        obtain ⟨h1, h2⟩ := h
        rw [← h1, ← h2]
        exact ⟨clamp_axis_range rx, clamp_axis_range ry⟩
    · simp only [Option.some.injEq, Prod.mk.injEq] at h
      obtain ⟨h1, h2⟩ := h
      omega

/-- With a stick deadzone in (0, 0x8000] the shaped steering value of the Arcade Racer is
defined and lies in [-32767, 32767], for every raw reading in the signed 16-bit range. -/
theorem wheel_deadzone_clamped (d x : Int) (hd0 : 0 < d) (hd1 : d ≤ 0x8000)
    (hx0 : -32768 ≤ x) (hx1 : x ≤ 32767) :
    ∃ r : Int, wheel_deadzone d x = some r ∧ -32767 ≤ r ∧ r ≤ 32767 := by
  unfold wheel_deadzone
  rw [if_pos hd0]
  simp only
  by_cases hneg : x < -d
  · rw [if_pos hneg]
    have hm0 : 1 ≤ ASTICK_MAX - d := by unfold ASTICK_MAX; omega
    have hm1 : ASTICK_MAX - d ≤ 32768 := by unfold ASTICK_MAX; omega
    obtain ⟨v, hv, herr⟩ := rescale_f32 (ASTICK_MAX - d) (-x - d) hm0 hm1 (by omega) (by omega)
    set e : ℚ := ((-x - d : Int) : ℚ) * 32768 / ((ASTICK_MAX - d : Int) : ℚ) with he
    have hmq : (1 : ℚ) ≤ ((ASTICK_MAX - d : Int) : ℚ) := by exact_mod_cast hm0
    have hkq0 : (1 : ℚ) ≤ ((-x - d : Int) : ℚ) := by exact_mod_cast (by omega : 1 ≤ -x - d)
    have hkq1 : ((-x - d : Int) : ℚ) ≤ 65535 := by exact_mod_cast (by omega : -x - d ≤ 65535)
    have he0 : 0 < e := by rw [he]; positivity
    have he1 : e ≤ 65535 * 32768 := by
      rw [he, div_le_iff₀ (by linarith)]; nlinarith
    rw [abs_le] at herr
    have hz := roundHalfAway_err (-v)
    rw [abs_le] at hz
    have hz0 : roundHalfAway (-v) ≤ 0 := by
      have : (roundHalfAway (-v) : ℚ) < 1 := by linarith
      have : roundHalfAway (-v) < (1 : Int) := by exact_mod_cast this
      omega
    have hz1 : -2147483647 ≤ roundHalfAway (-v) := by
      have : (-2147483647 : ℚ) < (roundHalfAway (-v) : ℚ) := by linarith
      have : (-2147483647 : Int) < roundHalfAway (-v) := by exact_mod_cast this
      omega
    have hconv := toInt_round_fin (-v) (by unfold INT_MIN; omega) (by unfold INT_MAX; omega)
    refine ⟨if roundHalfAway (-v) < -32767 then -32767 else roundHalfAway (-v), ?_, ?_, ?_⟩
    · rw [show F32.ofInt ASTICK_MAX = F32.ofInt 32768 from rfl, hv]
      have : F32.neg (F32.fin v) = F32.fin (-v) := rfl
      rw [this, hconv]
      rfl
    · split_ifs <;> omega
    · split_ifs <;> omega
  · rw [if_neg hneg]
    by_cases hpos : x > d
    · rw [if_pos hpos]
      have hm0 : 1 ≤ ASTICK_MAX - d := by unfold ASTICK_MAX; omega
      have hm1 : ASTICK_MAX - d ≤ 32768 := by unfold ASTICK_MAX; omega
      obtain ⟨v, hv, herr⟩ := rescale_f32 (ASTICK_MAX - d) (x - d) hm0 hm1 (by omega) (by omega)
      set e : ℚ := ((x - d : Int) : ℚ) * 32768 / ((ASTICK_MAX - d : Int) : ℚ) with he
      have hmq : (1 : ℚ) ≤ ((ASTICK_MAX - d : Int) : ℚ) := by exact_mod_cast hm0
      have hkq0 : (1 : ℚ) ≤ ((x - d : Int) : ℚ) := by exact_mod_cast (by omega : 1 ≤ x - d)
      have hkq1 : ((x - d : Int) : ℚ) ≤ 65535 := by exact_mod_cast (by omega : x - d ≤ 65535)
      have he0 : 0 < e := by rw [he]; positivity
      have he1 : e ≤ 65535 * 32768 := by
        rw [he, div_le_iff₀ (by linarith)]; nlinarith
      rw [abs_le] at herr
      have hz := roundHalfAway_err v
      rw [abs_le] at hz
      have hz0 : 0 ≤ roundHalfAway v := by
        have : (-1 : ℚ) < (roundHalfAway v : ℚ) := by linarith
        have : (-1 : Int) < roundHalfAway v := by exact_mod_cast this
        omega
      have hz1 : roundHalfAway v ≤ 2147483647 := by
        have : (roundHalfAway v : ℚ) < 2147483647 := by linarith
        have : roundHalfAway v < (2147483647 : Int) := by exact_mod_cast this
        omega
      have hconv := toInt_round_fin v (by unfold INT_MIN; omega) (by unfold INT_MAX; omega)
      refine ⟨if roundHalfAway v > 32767 then 32767 else roundHalfAway v, ?_, ?_, ?_⟩
      · rw [show F32.ofInt ASTICK_MAX = F32.ofInt 32768 from rfl, hv, hconv]
        rfl
      · split_ifs <;> omega
      · split_ifs <;> omega
    · rw [if_neg hpos]
      exact ⟨0, rfl, by norm_num, by norm_num⟩

/-! ### Mode switch, trigger shaping, deadzone settings and output range -/

/-- C3: in one poll of a 3D Control Pad port, the analog-mode bit is toggled, and exactly one
notification is sent, reading `Controller <port+1>: Analog Mode` when the new mode is analog
and `Controller <port+1>: Digital Mode` otherwise, if and only if the previous-held bit was
clear and the mode button is held; otherwise the analog-mode bit keeps its value and nothing
is sent; in every case the previous-held bit afterwards tells whether the button is held. -/
theorem mode_toggle_on_rising_edge (rescale : PolarRescale) (cb : InputStateCb) (s s' : State)
    (i : Nat) (h : input_update_player rescale cb s i = some s')
    (ht : s.input_type i = RETRO_DEVICE_SS_3D_PAD) :
    ((s.input_mode i &&& INPUT_MODE_3D_PAD_PREVIOUS_MASK = 0
        ∧ input_state cb i RETRO_DEVICE_JOYPAD 0 RETRO_DEVICE_ID_JOYPAD_SELECT ≠ 0) →
      ((s'.input_mode i &&& INPUT_MODE_3D_PAD_ANALOG ≠ 0)
          ↔ ¬ (s.input_mode i &&& INPUT_MODE_3D_PAD_ANALOG ≠ 0))
      ∧ s'.events = s.events ++ [Event.message
          (if s'.input_mode i &&& INPUT_MODE_3D_PAD_ANALOG ≠ 0
            then "Controller " ++ toString (i + 1) ++ ": Analog Mode"
            else "Controller " ++ toString (i + 1) ++ ": Digital Mode") 180])
    ∧ (¬ (s.input_mode i &&& INPUT_MODE_3D_PAD_PREVIOUS_MASK = 0
        ∧ input_state cb i RETRO_DEVICE_JOYPAD 0 RETRO_DEVICE_ID_JOYPAD_SELECT ≠ 0) →
      ((s'.input_mode i &&& INPUT_MODE_3D_PAD_ANALOG ≠ 0)
          ↔ (s.input_mode i &&& INPUT_MODE_3D_PAD_ANALOG ≠ 0))
      ∧ s'.events = s.events)
    ∧ ((s'.input_mode i &&& INPUT_MODE_3D_PAD_PREVIOUS_MASK ≠ 0)
        ↔ input_state cb i RETRO_DEVICE_JOYPAD 0 RETRO_DEVICE_ID_JOYPAD_SELECT ≠ 0) :=
  input_update_player_mode_edge rescale cb s s' i h ht

/-- C7, as stated, fails: with the deadzone of the 15% setting (d = 4915) and the trigger
value 8403 the code returns 4104, while `round((t - d) * 0x8000 / (0x8000 - d))` is 4103;
with d = 1 and t = 16369 the scale factor rounds to `1 + 2^-15`, the product
`16368 * (1 + 2^-15)` rounds to 16368.5 and the code returns 16369, while the exact
quotient `16368 * 32768 / 32767` rounds to 16368. -/
theorem trigger_deadzone_not_exact :
    (8403 : Nat) ≤ 32767 ∧ (0 : Int) < 4915 ∧ (4915 : Int) < 0x8000
    ∧ deadzone_of_percent 15 = some 4915
    ∧ apply_trigger_deadzone 4915 8403 = some 4104
    ∧ spec_trigger_deadzone 4915 ((8403 : Nat) : Int) = 4103
    ∧ F32.div (F32.ofInt TRIGGER_MAX) (F32.ofInt (TRIGGER_MAX - 1)) = F32.fin (1 + 1 / 32768)
    ∧ F32.mul (F32.ofInt (16369 - 1)) (F32.fin (1 + 1 / 32768)) = F32.fin (16368 + 1 / 2)
    ∧ apply_trigger_deadzone 1 16369 = some 16369
    ∧ spec_trigger_deadzone 1 ((16369 : Nat) : Int) = 16368 := by
  decide!

/-- C7, amended: for every trigger value `t` with `0 ≤ t ≤ 32767` and every deadzone
magnitude `d` with `0 < d < 0x8000`, `apply_trigger_deadzone` returns a value that is at
most 32767, is 0 when `t ≤ d`, and differs by at most 1 from the specification's
`min(32767, round((t - d) * 0x8000 / (0x8000 - d)))` (0 when `t ≤ d`). -/
theorem trigger_deadzone_within_one (d : Int) (t : Nat) (ht : t ≤ 32767) (hd0 : 0 < d)
    (hd1 : d < 0x8000) :
    ∃ r : Nat, apply_trigger_deadzone d t = some r ∧ r ≤ 32767
      ∧ ((t : Int) ≤ d → r = 0)
      ∧ |(r : Int) - spec_trigger_deadzone d t| ≤ 1 :=
  apply_trigger_deadzone_in_range d t ht hd0 hd1

/-- C8, as stated, fails at 100 percent: both setters store the magnitude 0x8000, which is
not below 0x8000, so that the rescale denominator `0x8000 - d` is zero and the scale factor
is an infinity. -/
theorem deadzone_full_percent :
    (input_set_deadzone_stick 100 State.initial).map State.astick_deadzone = some 0x8000
    ∧ (input_set_deadzone_trigger 100 State.initial).map State.trigger_deadzone = some 0x8000
    ∧ ASTICK_MAX - 0x8000 = 0 ∧ TRIGGER_MAX - 0x8000 = 0
    ∧ F32.div (F32.ofInt TRIGGER_MAX) (F32.ofInt (TRIGGER_MAX - 0x8000)) = F32.inf false := by
  decide!

/-- C8, amended: for every percent in [0,100], `input_set_deadzone_stick` and
`input_set_deadzone_trigger` store the magnitude `d = truncate(percent * 0.01 * 0x8000)`,
and that `d` satisfies `0 ≤ d ≤ 0x8000`, with `d < 0x8000` exactly when percent is below
100. -/
theorem deadzone_magnitude (percent : Int) (s : State) (h0 : 0 ≤ percent) (h1 : percent ≤ 100) :
    input_set_deadzone_stick percent s
        = some { s with astick_deadzone := truncQ ((percent : ℚ) * (1 / 100) * 0x8000) }
    ∧ input_set_deadzone_trigger percent s
        = some { s with trigger_deadzone := truncQ ((percent : ℚ) * (1 / 100) * 0x8000) }
    ∧ 0 ≤ truncQ ((percent : ℚ) * (1 / 100) * 0x8000)
    ∧ truncQ ((percent : ℚ) * (1 / 100) * 0x8000) ≤ 0x8000
    ∧ (truncQ ((percent : ℚ) * (1 / 100) * 0x8000) < 0x8000 ↔ percent < 100) := by
  obtain ⟨a, b, c, e⟩ := deadzone_of_percent_spec percent h0 h1
  refine ⟨?_, ?_, b, c, e⟩
  · unfold input_set_deadzone_stick
    rw [if_pos ⟨h0, h1⟩, a]
    rfl
  · unfold input_set_deadzone_trigger
    rw [if_pos ⟨h0, h1⟩, a]
    rfl

/-- C9: with the stick deadzone at its initial value 0 and a raw stick reading of -32768,
the 3D Control Pad translation writes the magnitudes left = 32768 and up = 32768 to the
register image (bytes 2-3 and 6-7), and the Arcade Racer translation writes left = 32768
(bytes 2-3): the magnitude exceeds 32767. -/
theorem axis_magnitude_exceeds_32767 :
    (sample_state RETRO_DEVICE_SS_3D_PAD).astick_deadzone = 0
    ∧ input_state (sample_cb_analog (-32768)) 0 RETRO_DEVICE_ANALOG
        RETRO_DEVICE_INDEX_ANALOG_LEFT RETRO_DEVICE_ID_ANALOG_X = -32768
    ∧ (input_update sample_rescale (sample_cb_analog (-32768))
          (sample_state RETRO_DEVICE_SS_3D_PAD)).map
        (fun s' => (s'.input_data 0 2 + 256 * s'.input_data 0 3,
          s'.input_data 0 6 + 256 * s'.input_data 0 7))
        = some (32768, 32768)
    ∧ (input_update sample_rescale (sample_cb_analog (-32768))
          (sample_state RETRO_DEVICE_SS_WHEEL)).map
        (fun s' => s'.input_data 0 2 + 256 * s'.input_data 0 3)
        = some 32768 := by
  decide!

/-- C10: with the trigger deadzone at its initial value 0, an analog trigger read of
-32768 (0x8000 as `uint16_t`) is returned unchanged by `get_analog_trigger` and written
to bytes 12-13 of the register image: 32768, above 32767. With the deadzone 16384 and the
read -1 (0xFFFF) the rescaled value 98302 is reduced modulo 2^16 to 32766 before the
comparison with 32767: it wraps instead of saturating. -/
theorem trigger_value_exceeds_32767 :
    get_analog_trigger 0 (sample_cb_analog (-32768)) 0 RETRO_DEVICE_ID_JOYPAD_L2 = some 32768
    ∧ (input_update sample_rescale (sample_cb_analog (-32768))
          (sample_state RETRO_DEVICE_SS_3D_PAD)).map
        (fun s' => s'.input_data 0 12 + 256 * s'.input_data 0 13)
        = some 32768
    ∧ F32.toInt (F32.round (F32.mul (F32.ofInt (65535 - 16384))
        (F32.div (F32.ofInt TRIGGER_MAX) (F32.ofInt (TRIGGER_MAX - 16384))))) = some 98302
    ∧ uint16 98302 = 32766
    ∧ get_analog_trigger 16384 (sample_cb_analog (-1)) 0 RETRO_DEVICE_ID_JOYPAD_L2
        = some 32766 := by
  decide!

/-! ## Sample runs -/

theorem sample_pad_defined :
    (input_update sample_rescale (sample_cb_button RETRO_DEVICE_ID_JOYPAD_X)
      (sample_state RETRO_DEVICE_JOYPAD)).isSome = true := by
  decide!

/-- Sample run for C1: both ports Control Pads, only X (mapped to bit 1) held. -/
theorem pad_buttons_exact_witness :
    ∃ s', input_update sample_rescale (sample_cb_button RETRO_DEVICE_ID_JOYPAD_X)
        (sample_state RETRO_DEVICE_JOYPAD) = some s'
      ∧ 0 < (sample_state RETRO_DEVICE_JOYPAD).players
      ∧ get_buttons (s'.input_data 0) = 0b10 :=
  ⟨Option.get _ sample_pad_defined, (Option.some_get sample_pad_defined).symm, by decide,
    (pad_buttons_exact sample_rescale (sample_cb_button RETRO_DEVICE_ID_JOYPAD_X)
      (sample_state RETRO_DEVICE_JOYPAD) _ 0 (Option.some_get sample_pad_defined).symm
      (by decide) (Or.inl rfl)).2.2.2.2.2.2.2
      (by
        intro id
        unfold input_state sample_cb_button
        by_cases h : id = RETRO_DEVICE_ID_JOYPAD_X
        · subst h; decide
        · have h' : ¬ id = input_map_pad.getD 1 0 := h
          constructor
          · intro hne
            exfalso
            apply hne
            rw [if_neg (fun hc => h hc.2)]
            rfl
          · intro hc
            exact absurd hc h')⟩

theorem sample_3d_pad_defined :
    (input_update sample_rescale (sample_cb_button RETRO_DEVICE_ID_JOYPAD_X)
      (sample_state RETRO_DEVICE_SS_3D_PAD)).isSome = true := by
  decide!

/-- Sample run for C2: both ports 3D Control Pads in digital mode, only X held. -/
theorem pad3d_buttons_exact_witness :
    ∃ s', input_update sample_rescale (sample_cb_button RETRO_DEVICE_ID_JOYPAD_X)
        (sample_state RETRO_DEVICE_SS_3D_PAD) = some s'
      ∧ 0 < (sample_state RETRO_DEVICE_SS_3D_PAD).players
      ∧ (get_buttons (s'.input_data 0)).testBit 11 = false :=
  ⟨Option.get _ sample_3d_pad_defined, (Option.some_get sample_3d_pad_defined).symm, by decide,
    (pad3d_buttons_exact sample_rescale (sample_cb_button RETRO_DEVICE_ID_JOYPAD_X)
      (sample_state RETRO_DEVICE_SS_3D_PAD) _ 0 (Option.some_get sample_3d_pad_defined).symm
      (by decide) rfl).2.2.2.2.1⟩

theorem sample_mode_press_defined :
    (input_update_player sample_rescale (sample_cb_button RETRO_DEVICE_ID_JOYPAD_SELECT)
      (sample_state RETRO_DEVICE_SS_3D_PAD) 0).isSome = true := by
  decide!

/-- Sample run for C3: one poll of a 3D Control Pad port with the mode button pressed. -/
theorem mode_toggle_on_rising_edge_witness :
    ∃ s', input_update_player sample_rescale (sample_cb_button RETRO_DEVICE_ID_JOYPAD_SELECT)
        (sample_state RETRO_DEVICE_SS_3D_PAD) 0 = some s'
      ∧ ((s'.input_mode 0 &&& INPUT_MODE_3D_PAD_PREVIOUS_MASK ≠ 0)
        ↔ input_state (sample_cb_button RETRO_DEVICE_ID_JOYPAD_SELECT) 0 RETRO_DEVICE_JOYPAD 0
            RETRO_DEVICE_ID_JOYPAD_SELECT ≠ 0) :=
  ⟨Option.get _ sample_mode_press_defined, (Option.some_get sample_mode_press_defined).symm,
    (mode_toggle_on_rising_edge sample_rescale (sample_cb_button RETRO_DEVICE_ID_JOYPAD_SELECT)
      (sample_state RETRO_DEVICE_SS_3D_PAD) _ 0
      (Option.some_get sample_mode_press_defined).symm rfl).2.2⟩

theorem sample_press_release_defined :
    (poll_sequence sample_rescale 0
      ([sample_cb_button RETRO_DEVICE_ID_JOYPAD_SELECT,
          sample_cb_button RETRO_DEVICE_ID_JOYPAD_SELECT] ++ [sample_cb_idle])
      (sample_state RETRO_DEVICE_SS_3D_PAD)).isSome = true := by
  decide!

/-- Sample run for C4: the mode button held for two polls, then released for one. -/
theorem mode_toggle_once_per_press_witness :
    ∃ s', poll_sequence sample_rescale 0
        ([sample_cb_button RETRO_DEVICE_ID_JOYPAD_SELECT,
            sample_cb_button RETRO_DEVICE_ID_JOYPAD_SELECT] ++ [sample_cb_idle])
        (sample_state RETRO_DEVICE_SS_3D_PAD) = some s'
      ∧ s'.input_mode 0 &&& INPUT_MODE_3D_PAD_PREVIOUS_MASK = 0 :=
  ⟨Option.get _ sample_press_release_defined,
    (Option.some_get sample_press_release_defined).symm,
    (mode_toggle_once_per_press sample_rescale 0
      [sample_cb_button RETRO_DEVICE_ID_JOYPAD_SELECT,
        sample_cb_button RETRO_DEVICE_ID_JOYPAD_SELECT] [sample_cb_idle]
      (sample_state RETRO_DEVICE_SS_3D_PAD) _ rfl (by decide) (by decide) (by decide)
      (by
        intro cb hcb
        simp only [List.mem_cons, List.mem_singleton, List.not_mem_nil, or_false, or_self] at hcb
        subst hcb
        decide)
      (by
        intro cb hcb
        simp only [List.mem_singleton] at hcb
        subst hcb
        decide)
      (Option.some_get sample_press_release_defined).symm).2.2⟩

theorem sample_analog_defined :
    (input_update sample_rescale (sample_cb_analog 1000)
      (sample_state RETRO_DEVICE_SS_3D_PAD)).isSome = true := by
  decide!

/-- Sample run for C5: both ports 3D Control Pads, every analog read 1000. -/
theorem pad3d_axes_layout_witness :
    ∃ s', input_update sample_rescale (sample_cb_analog 1000)
        (sample_state RETRO_DEVICE_SS_3D_PAD) = some s'
      ∧ 0 < (sample_state RETRO_DEVICE_SS_3D_PAD).players
      ∧ ∃ (x y : Int) (l rt left right up down : Nat),
        stick_deadzone sample_rescale (sample_state RETRO_DEVICE_SS_3D_PAD).astick_deadzone
            (input_state (sample_cb_analog 1000) 0 RETRO_DEVICE_ANALOG
              RETRO_DEVICE_INDEX_ANALOG_LEFT RETRO_DEVICE_ID_ANALOG_X)
            (input_state (sample_cb_analog 1000) 0 RETRO_DEVICE_ANALOG
              RETRO_DEVICE_INDEX_ANALOG_LEFT RETRO_DEVICE_ID_ANALOG_Y) = some (x, y)
        ∧ get_analog_trigger (sample_state RETRO_DEVICE_SS_3D_PAD).trigger_deadzone
            (sample_cb_analog 1000) 0 RETRO_DEVICE_ID_JOYPAD_L2 = some l
        ∧ get_analog_trigger (sample_state RETRO_DEVICE_SS_3D_PAD).trigger_deadzone
            (sample_cb_analog 1000) 0 RETRO_DEVICE_ID_JOYPAD_R2 = some rt
        ∧ (left : Int) = max (-x) 0 ∧ (right : Int) = max x 0
        ∧ (up : Int) = max (-y) 0 ∧ (down : Int) = max y 0
        ∧ s'.input_data 0 2 = left % 256 ∧ s'.input_data 0 3 = left / 256
        ∧ s'.input_data 0 4 = right % 256 ∧ s'.input_data 0 5 = right / 256
        ∧ s'.input_data 0 6 = up % 256 ∧ s'.input_data 0 7 = up / 256
        ∧ s'.input_data 0 8 = down % 256 ∧ s'.input_data 0 9 = down / 256
        ∧ s'.input_data 0 10 = rt % 256 ∧ s'.input_data 0 11 = rt / 256
        ∧ s'.input_data 0 12 = l % 256 ∧ s'.input_data 0 13 = l / 256
        ∧ left < 65536 ∧ right < 65536 ∧ up < 65536 ∧ down < 65536 ∧ l < 65536 ∧ rt < 65536
        ∧ (left = 0 ∨ right = 0) ∧ (up = 0 ∨ down = 0)
        ∧ (right : Int) - left = x ∧ (down : Int) - up = y :=
  ⟨Option.get _ sample_analog_defined, (Option.some_get sample_analog_defined).symm, by decide,
    pad3d_axes_layout sample_rescale (sample_cb_analog 1000)
      (sample_state RETRO_DEVICE_SS_3D_PAD) _ 0 (Option.some_get sample_analog_defined).symm
      (by decide) rfl⟩

/-- Sample input for C7: the deadzone of the 15% setting and the trigger value 8403. -/
theorem trigger_deadzone_within_one_witness :
    (8403 : Nat) ≤ 32767 ∧ (0 : Int) < 4915 ∧ (4915 : Int) < 0x8000
    ∧ ∃ r : Nat, apply_trigger_deadzone 4915 8403 = some r ∧ r ≤ 32767
      ∧ (((8403 : Nat) : Int) ≤ 4915 → r = 0)
      ∧ |(r : Int) - spec_trigger_deadzone 4915 ((8403 : Nat) : Int)| ≤ 1 :=
  ⟨by decide, by decide, by decide,
    trigger_deadzone_within_one 4915 8403 (by decide) (by decide) (by decide)⟩

/-- Sample input for C8: the 15% setting. -/
theorem deadzone_magnitude_witness :
    (0 : Int) ≤ 15 ∧ (15 : Int) ≤ 100
    ∧ (truncQ (((15 : Int) : ℚ) * (1 / 100) * 0x8000) < 0x8000 ↔ (15 : Int) < 100) :=
  ⟨by decide, by decide,
    (deadzone_magnitude 15 State.initial (by decide) (by decide)).2.2.2.2⟩

/-! ### Shaping at deadzone 0, at the deadzone boundary, and symmetry of the wheel -/

theorem roundHalfAway_neg (v : ℚ) : roundHalfAway (-v) = -roundHalfAway v := by
  unfold roundHalfAway
  rcases lt_trichotomy v 0 with h | h | h
  · have h1 : (0 : ℚ) ≤ -v := by linarith
    have h2 : ¬ (0 : ℚ) ≤ v := by linarith
    rw [if_pos h1, if_neg h2]; ring
  · subst h
    have hf : Rat.floor ((0 : ℚ) + 1 / 2) = 0 := by
      rw [ratFloor_eq, Int.floor_eq_iff]; norm_num
    simp only [neg_zero, le_refl, if_true, hf]
  · have h1 : ¬ (0 : ℚ) ≤ -v := by linarith
    have h2 : (0 : ℚ) ≤ v := by linarith
    rw [if_neg h1, if_pos h2, neg_neg]

/-- The rescaled value beyond the deadzone, in single precision: a finite number whose
nearest integer is at least 1 and converts to `int`, for either sign. -/
theorem rescale_f32_round (m k : Int) (hm0 : 1 ≤ m) (hm1 : m ≤ 32768) (hk0 : 1 ≤ k)
    (hk1 : k ≤ 65535) :
    ∃ v : ℚ, F32.mul (F32.ofInt k) (F32.div (F32.ofInt 0x8000) (F32.ofInt m)) = F32.fin v
      ∧ 1 ≤ roundHalfAway v ∧ roundHalfAway v ≤ 2147483647
      ∧ F32.toInt (F32.round (F32.fin v)) = some (roundHalfAway v)
      ∧ F32.toInt (F32.round (F32.neg (F32.fin v))) = some (-roundHalfAway v) := by
  obtain ⟨v, hv, herr⟩ := rescale_f32 m k hm0 hm1 hk0 hk1
  have hmq0 : (1 : ℚ) ≤ m := by exact_mod_cast hm0
  have hmq1 : (m : ℚ) ≤ 32768 := by exact_mod_cast hm1
  have hkq0 : (1 : ℚ) ≤ k := by exact_mod_cast hk0
  have hkq1 : (k : ℚ) ≤ 65535 := by exact_mod_cast hk1
  set e : ℚ := (k : ℚ) * 32768 / m with he
  have he0 : 1 ≤ e := by
    rw [he, le_div_iff₀ (by linarith)]; nlinarith
  have he1 : e ≤ 65535 * 32768 := by
    rw [he, div_le_iff₀ (by linarith)]; nlinarith
  rw [abs_le] at herr
  have hz := roundHalfAway_err v
  rw [abs_le] at hz
  have hz0 : 1 ≤ roundHalfAway v := by
    have : (0 : ℚ) < (roundHalfAway v : ℚ) := by linarith
    have : (0 : Int) < roundHalfAway v := by exact_mod_cast this
    omega
  have hz1 : roundHalfAway v ≤ 2147483647 := by
    have : (roundHalfAway v : ℚ) < 2147483647 := by linarith
    have : roundHalfAway v < (2147483647 : Int) := by exact_mod_cast this
    omega
  refine ⟨v, hv, hz0, hz1, ?_, ?_⟩
  · exact toInt_round_fin v (by unfold INT_MIN; omega) (by unfold INT_MAX; omega)
  · have hn : F32.neg (F32.fin v) = F32.fin (-v) := rfl
    rw [hn, ← roundHalfAway_neg]
    exact toInt_round_fin (-v) (by rw [roundHalfAway_neg]; unfold INT_MIN; omega)
      (by rw [roundHalfAway_neg]; unfold INT_MAX; omega)

/-- The wheel shaping beyond a deadzone in (0, 0x8000), on either side: with `n` the nearest
integer to the single-precision product for the distance `k` beyond the deadzone, the
positive side gives `min(n, 32767)` and the negative side `-min(n, 32767)`. -/
theorem wheel_deadzone_sides (d k : Int) (hd0 : 0 < d) (hd1 : d < 0x8000) (hk0 : 1 ≤ k)
    (hk1 : k ≤ 65535) :
    ∃ n : Int, 1 ≤ n
      ∧ wheel_deadzone d (d + k) = some (if n > 32767 then 32767 else n)
      ∧ wheel_deadzone d (-(d + k)) = some (-(if n > 32767 then 32767 else n)) := by
  have hm0 : 1 ≤ ASTICK_MAX - d := by unfold ASTICK_MAX; omega
  have hm1 : ASTICK_MAX - d ≤ 32768 := by unfold ASTICK_MAX; omega
  obtain ⟨v, hv, hz0, hz1, hpos, hneg⟩ := rescale_f32_round (ASTICK_MAX - d) k hm0 hm1 hk0 hk1
  refine ⟨roundHalfAway v, hz0, ?_, ?_⟩
  · unfold wheel_deadzone
    have c1 : ¬ (d + k < -d) := by omega
    have c2 : d + k > d := by omega
    have e1 : d + k - d = k := by ring
    simp only [gt_iff_lt, if_pos hd0, if_neg c1]
    rw [if_pos c2, e1, show F32.ofInt ASTICK_MAX = F32.ofInt 32768 from rfl, hv, hpos]
    rfl
  · unfold wheel_deadzone
    have c1 : -(d + k) < -d := by omega
    have e1 : -(-(d + k)) - d = k := by ring
    simp only [gt_iff_lt, if_pos hd0, if_pos c1]
    rw [e1, show F32.ofInt ASTICK_MAX = F32.ofInt 32768 from rfl, hv, hneg]
    simp only [Option.map_some', Option.some.injEq]
    split_ifs <;> omega

theorem wheel_deadzone_inside (d x : Int) (hd0 : 0 < d) (h0 : -d ≤ x) (h1 : x ≤ d) :
    wheel_deadzone d x = some 0 := by
  unfold wheel_deadzone
  simp only [gt_iff_lt, if_pos hd0, if_neg (not_lt.mpr h0), if_neg (not_lt.mpr h1)]

/-- The trigger shaping beyond a deadzone in (0, 0x8000), for a trigger value up to 0x8000:
a value of at least 1. -/
theorem apply_trigger_deadzone_beyond (d : Int) (t : Nat) (hd0 : 0 < d) (hd1 : d < 0x8000)
    (ht0 : d < t) (ht1 : t ≤ 32768) :
    ∃ r : Nat, apply_trigger_deadzone d t = some r ∧ 1 ≤ r ∧ r ≤ 32767 := by
  have hm0 : 1 ≤ TRIGGER_MAX - d := by unfold TRIGGER_MAX; omega
  have hm1 : TRIGGER_MAX - d ≤ 32768 := by unfold TRIGGER_MAX; omega
  have hk0 : 1 ≤ (t : Int) - d := by omega
  obtain ⟨v, hv, herr⟩ := rescale_f32 (TRIGGER_MAX - d) ((t : Int) - d) hm0 hm1 hk0 (by omega)
  set e : ℚ := (((t : Int) - d : Int) : ℚ) * 32768 / ((TRIGGER_MAX - d : Int) : ℚ) with he
  have hmq : (1 : ℚ) ≤ ((TRIGGER_MAX - d : Int) : ℚ) := by exact_mod_cast hm0
  have hmq1 : ((TRIGGER_MAX - d : Int) : ℚ) ≤ 32768 := by exact_mod_cast hm1
  have hkq0 : (1 : ℚ) ≤ (((t : Int) - d : Int) : ℚ) := by exact_mod_cast hk0
  have hkm : (((t : Int) - d : Int) : ℚ) ≤ ((TRIGGER_MAX - d : Int) : ℚ) := by
    exact_mod_cast (by unfold TRIGGER_MAX; omega : (t : Int) - d ≤ TRIGGER_MAX - d)
  have he0 : 1 ≤ e := by
    rw [he, le_div_iff₀ (by linarith)]; nlinarith
  have he1 : e ≤ 32768 := by
    rw [he, div_le_iff₀ (by linarith)]; nlinarith
  rw [abs_le] at herr
  have hz := roundHalfAway_err v
  rw [abs_le] at hz
  have hz0 : 1 ≤ roundHalfAway v := by
    have : (0 : ℚ) < (roundHalfAway v : ℚ) := by linarith
    have : (0 : Int) < roundHalfAway v := by exact_mod_cast this
    omega
  have hz1 : roundHalfAway v ≤ 32768 := by
    have : (roundHalfAway v : ℚ) < 32769 := by linarith
    have : roundHalfAway v < (32769 : Int) := by exact_mod_cast this
    omega
  have hconv := toInt_round_fin v (by unfold INT_MIN; omega) (by unfold INT_MAX; omega)
  have hu : uint16 (roundHalfAway v) = (roundHalfAway v).toNat := by
    unfold uint16; omega
  refine ⟨if uint16 (roundHalfAway v) > 32767 then 32767 else uint16 (roundHalfAway v),
    ?_, ?_, ?_⟩
  · unfold apply_trigger_deadzone
    simp only [gt_iff_lt, if_pos hd0, if_pos ht0]
    rw [show F32.ofInt TRIGGER_MAX = F32.ofInt 32768 from rfl, hv, hconv]
    rfl
  · rw [hu]; split_ifs <;> omega
  · rw [hu]; split_ifs <;> omega

/-- C11: with the stored deadzone 0 (what the 0% setting stores) the three shapings are the
identity: the stick value `(x, y)` of the 3D Control Pad and the steering value `x` of the
Arcade Racer are passed through unchanged, and `apply_trigger_deadzone(t) = t` for every
`t`. -/
theorem deadzone_zero_identity (rescale : PolarRescale) (x y : Int) (t : Nat) :
    deadzone_of_percent 0 = some 0
    ∧ stick_deadzone rescale 0 x y = some (x, y)
    ∧ wheel_deadzone 0 x = some x
    ∧ apply_trigger_deadzone 0 t = some t := by
  refine ⟨by decide!, ?_, ?_, ?_⟩
  · unfold stick_deadzone
    simp only [gt_iff_lt, lt_self_iff_false, if_false]
  · unfold wheel_deadzone
    simp only [gt_iff_lt, lt_self_iff_false, if_false]
  · unfold apply_trigger_deadzone
    simp only [gt_iff_lt, lt_self_iff_false, if_false]

/-- C12: for every deadzone magnitude `d` with `0 < d < 0x8000`, an input exactly at the
boundary yields 0 (trigger `t = d`; wheel `x = d` and `x = -d`; a stick vector whose squared
radius is at most `d * d` gives `(0, 0)`), and the next integer input beyond it yields a
non-zero magnitude of the right sign (trigger `t = d + 1` a value `> 0`, wheel `x = d + 1` a
value `> 0`, wheel `x = -(d + 1)` a value `< 0`). -/
theorem deadzone_boundary (rescale : PolarRescale) (d : Nat) (x y : Int) (hd0 : 0 < d)
    (hd1 : d < 0x8000) :
    apply_trigger_deadzone d d = some 0
    ∧ wheel_deadzone d d = some 0 ∧ wheel_deadzone d (-(d : Int)) = some 0
    ∧ (x * x + y * y ≤ (d : Int) * d → stick_deadzone rescale d x y = some (0, 0))
    ∧ (∃ r : Nat, apply_trigger_deadzone d (d + 1) = some r ∧ 0 < r)
    ∧ (∃ r : Int, wheel_deadzone d ((d : Int) + 1) = some r ∧ 0 < r)
    ∧ (∃ r : Int, wheel_deadzone d (-((d : Int) + 1)) = some r ∧ r < 0) := by
  have hdi0 : (0 : Int) < d := by exact_mod_cast hd0
  have hdi1 : (d : Int) < 0x8000 := by exact_mod_cast hd1
  refine ⟨?_, ?_, ?_, ?_, ?_, ?_, ?_⟩
  · unfold apply_trigger_deadzone
    simp only [gt_iff_lt, if_pos hdi0, lt_self_iff_false, if_false]
  · exact wheel_deadzone_inside d d hdi0 (by omega) le_rfl
  · exact wheel_deadzone_inside d (-(d : Int)) hdi0 le_rfl (by omega)
  · intro hr
    unfold stick_deadzone
    have hsq : (d : Int) * d < 1073741824 := by nlinarith
    have hnn : 0 ≤ x * x + y * y := by nlinarith [mul_self_nonneg x, mul_self_nonneg y]
    have hc : checked_int (x * x + y * y) = some (x * x + y * y) := by
      unfold checked_int INT_MIN INT_MAX
      rw [if_pos ⟨by omega, by omega⟩]
    simp only [gt_iff_lt, if_pos hdi0, hc, Option.some_bind, if_neg (not_lt.mpr hr)]
  · obtain ⟨r, hr, h1, _⟩ := apply_trigger_deadzone_beyond d (d + 1) hdi0 hdi1
      (by push_cast; omega) (by omega)
    exact ⟨r, hr, by omega⟩
  · obtain ⟨n, hn, hp, _⟩ := wheel_deadzone_sides d 1 hdi0 hdi1 le_rfl (by norm_num)
    exact ⟨_, hp, by split_ifs <;> omega⟩
  · obtain ⟨n, hn, _, hm⟩ := wheel_deadzone_sides d 1 hdi0 hdi1 le_rfl (by norm_num)
    exact ⟨_, hm, by split_ifs <;> omega⟩

/-- C13: the linear deadzone shaping of the Arcade Racer is an odd function: for every
deadzone magnitude `d` in (0, 0x8000) and every steering value `x` in [-32767, 32767], the
shaping is defined at `x` and at `-x` and `shape(-x) = -shape(x)`. -/
theorem wheel_deadzone_odd (d x : Int) (hd0 : 0 < d) (hd1 : d < 0x8000) (hx0 : -32767 ≤ x)
    (hx1 : x ≤ 32767) :
    ∃ r : Int, wheel_deadzone d x = some r ∧ wheel_deadzone d (-x) = some (-r) := by
  by_cases hpos : d < x
  · obtain ⟨n, _, hp, hm⟩ := wheel_deadzone_sides d (x - d) hd0 hd1 (by omega) (by omega)
    have e : d + (x - d) = x := by ring
    rw [e] at hp hm
    exact ⟨_, hp, hm⟩
  · by_cases hneg : x < -d
    · obtain ⟨n, _, hp, hm⟩ := wheel_deadzone_sides d (-x - d) hd0 hd1 (by omega) (by omega)
      have e1 : d + (-x - d) = -x := by ring
      have e2 : -(d + (-x - d)) = x := by ring
      rw [e1] at hp
      rw [e2] at hm
      exact ⟨_, hm, by rw [neg_neg]; exact hp⟩
    · refine ⟨0, wheel_deadzone_inside d x hd0 (by omega) (by omega), ?_⟩
      rw [neg_zero]
      exact wheel_deadzone_inside d (-x) hd0 (by omega) (by omega)

/-! ### Arcade Racer -/

/-- The wheel shaping is defined for every raw reading in the signed 16-bit range, whatever
the deadzone, and its result stays in that range. -/
theorem wheel_deadzone_range (d x : Int) (hx0 : -32768 ≤ x) (hx1 : x ≤ 32767) :
    ∃ r : Int, wheel_deadzone d x = some r ∧ -32768 ≤ r ∧ r ≤ 32767 := by
  by_cases hd0 : 0 < d
  · by_cases hd1 : d ≤ 0x8000
    · obtain ⟨r, hr, h0, h1⟩ := wheel_deadzone_clamped d x hd0 hd1 hx0 hx1
      exact ⟨r, hr, by omega, h1⟩
    · exact ⟨0, wheel_deadzone_inside d x hd0 (by omega) (by omega), by norm_num, by norm_num⟩
  · refine ⟨x, ?_, hx0, hx1⟩
    unfold wheel_deadzone
    simp only [gt_iff_lt, if_neg hd0]

theorem update_port_wheel (rescale : PolarRescale) (ad td : Int) (ms : F32)
    (cb : InputStateCb) (i : Nat) (p : INPUT_DATA) (mode : Nat) :
    update_port rescale ad td ms cb i RETRO_DEVICE_SS_WHEEL p mode
      = (update_wheel ad cb i (set_buttons p 0)).map fun q =>
          { data := q, mode := mode, events := [] } := by
  unfold update_port
  have h1 : ¬ (RETRO_DEVICE_SS_WHEEL = RETRO_DEVICE_JOYPAD
      ∨ RETRO_DEVICE_SS_WHEEL = RETRO_DEVICE_SS_PAD) := by decide
  have h2 : ¬ (RETRO_DEVICE_SS_WHEEL = RETRO_DEVICE_SS_3D_PAD) := by decide
  simp only [if_neg h1, if_neg h2, if_true]

/-- What the Arcade Racer case computes: the shaped steering value and the register image
assembled from the buttons and from it. The case is always defined. -/
theorem update_wheel_spec (ad : Int) (cb : InputStateCb) (i : Nat) (p : INPUT_DATA) :
    ∃ x : Int,
      wheel_deadzone ad (input_state cb i RETRO_DEVICE_ANALOG RETRO_DEVICE_INDEX_ANALOG_LEFT
        RETRO_DEVICE_ID_ANALOG_X) = some x
      ∧ -32768 ≤ x ∧ x ≤ 32767
      ∧ update_wheel ad cb i p = some
        (set_u16 (set_u16
          (or_buttons (or_buttons
            ((List.range 7).foldl (fun p b =>
              or_buttons p (if input_state cb i RETRO_DEVICE_JOYPAD 0
                (input_map_wheel.getD b 0) ≠ 0 then 1 <<< (b + 4) else 0)) p)
            (if input_state cb i RETRO_DEVICE_JOYPAD 0 RETRO_DEVICE_ID_JOYPAD_L2 ≠ 0
              then 1 <<< 0 else 0))
            (if input_state cb i RETRO_DEVICE_JOYPAD 0 RETRO_DEVICE_ID_JOYPAD_R2 ≠ 0
              then 1 <<< 1 else 0))
          0x2 (uint16 (if x < 0 then -x else 0)))
          0x4 (uint16 (if x > 0 then x else 0))) := by
  obtain ⟨x, hx, h0, h1⟩ := wheel_deadzone_range ad
    (input_state cb i RETRO_DEVICE_ANALOG RETRO_DEVICE_INDEX_ANALOG_LEFT
      RETRO_DEVICE_ID_ANALOG_X) (input_state_range _ _ _ _ _).1 (input_state_range _ _ _ _ _).2
  refine ⟨x, hx, h0, h1, ?_⟩
  unfold update_wheel
  dsimp only
  rw [hx]
  rfl

/-- After `input_update`, a polled Arcade Racer port holds what `update_wheel` computes from
the port's own contents, and its mode word is untouched. -/
theorem input_update_wheel (rescale : PolarRescale) (cb : InputStateCb) (s s' : State) (i : Nat)
    (h : input_update rescale cb s = some s') (hi : i < s.players)
    (ht : s.input_type i = RETRO_DEVICE_SS_WHEEL) :
    update_wheel s.astick_deadzone cb i (set_buttons (s.input_data i) 0)
        = some (s'.input_data i)
      ∧ s'.input_mode i = s.input_mode i := by
  obtain ⟨r, hr, hd, hm⟩ := input_update_port rescale cb s s' h i hi
  rw [ht, update_port_wheel] at hr
  obtain ⟨x, _, _, _, hw⟩ := update_wheel_spec s.astick_deadzone cb i
    (set_buttons (s.input_data i) 0)
  rw [hw] at hr ⊢
  simp only [Option.map_some', Option.some.injEq] at hr
  subst hr
  simp only at hd hm
  rw [hd, hm]
  exact ⟨rfl, rfl⟩

/-- The buttons field the Arcade Racer case leaves, when the field was zero before. -/
theorem get_buttons_wheel (cb : InputStateCb) (i : Nat) (p : INPUT_DATA) (v2 v4 : Nat)
    (hp : get_buttons p = 0) :
    get_buttons (set_u16 (set_u16
        (or_buttons (or_buttons
          ((List.range 7).foldl (fun p b =>
            or_buttons p (if input_state cb i RETRO_DEVICE_JOYPAD 0
              (input_map_wheel.getD b 0) ≠ 0 then 1 <<< (b + 4) else 0)) p)
          (if input_state cb i RETRO_DEVICE_JOYPAD 0 RETRO_DEVICE_ID_JOYPAD_L2 ≠ 0
            then 1 <<< 0 else 0))
          (if input_state cb i RETRO_DEVICE_JOYPAD 0 RETRO_DEVICE_ID_JOYPAD_R2 ≠ 0
            then 1 <<< 1 else 0))
        0x2 v2) 0x4 v4)
      = (((List.range 7).foldl (fun acc b => acc |||
            (if input_state cb i RETRO_DEVICE_JOYPAD 0 (input_map_wheel.getD b 0) ≠ 0
              then 1 <<< (b + 4) else 0)) 0)
          ||| (if input_state cb i RETRO_DEVICE_JOYPAD 0 RETRO_DEVICE_ID_JOYPAD_L2 ≠ 0
            then 1 <<< 0 else 0))
          ||| (if input_state cb i RETRO_DEVICE_JOYPAD 0 RETRO_DEVICE_ID_JOYPAD_R2 ≠ 0
            then 1 <<< 1 else 0) := by
  rw [get_buttons_set_u16 _ _ _ (by decide) (by decide),
    get_buttons_set_u16 _ _ _ (by decide) (by decide),
    get_buttons_or_buttons, get_buttons_or_buttons, mod_lor_mod]
  have hlt := foldl_or_lt
    (fun b => input_state cb i RETRO_DEVICE_JOYPAD 0 (input_map_wheel.getD b 0) ≠ 0) 4 7 0
    (by norm_num) (by norm_num)
  have hf := get_buttons_foldl_or (fun b => if input_state cb i RETRO_DEVICE_JOYPAD 0
      (input_map_wheel.getD b 0) ≠ 0 then 1 <<< (b + 4) else 0) (List.range 7) p
      (by rw [hp]; norm_num)
  rw [hp, Nat.mod_eq_of_lt hlt] at hf
  rw [hf]
  apply Nat.mod_eq_of_lt
  apply lor_lt_65536 (lor_lt_65536 hlt _)
  · split_ifs <;> decide
  · split_ifs <;> decide

/-- C14: on a polled Arcade Racer port, after `input_update` the buttons field is the OR of
`1 << (i + 4)` over the held buttons `input_map_wheel[i]`, `i` in 0..6, of bit 0 when the
left shift paddle (L2) is held and of bit 1 when the right shift paddle (R2) is held: bit
`i + 4` is set exactly when `input_map_wheel[i]` is held, bit 0 exactly when L2 is held, bit
1 exactly when R2 is held, and bits 2, 3 and 11 and above are clear. -/
theorem wheel_buttons_exact (rescale : PolarRescale) (cb : InputStateCb) (s s' : State)
    (i : Nat) (h : input_update rescale cb s = some s') (hi : i < s.players)
    (ht : s.input_type i = RETRO_DEVICE_SS_WHEEL) :
    get_buttons (s'.input_data i)
        = (((List.range 7).foldl (fun acc b => acc |||
              (if input_state cb i RETRO_DEVICE_JOYPAD 0 (input_map_wheel.getD b 0) ≠ 0
                then 1 <<< (b + 4) else 0)) 0)
            ||| (if input_state cb i RETRO_DEVICE_JOYPAD 0 RETRO_DEVICE_ID_JOYPAD_L2 ≠ 0
              then 1 <<< 0 else 0))
            ||| (if input_state cb i RETRO_DEVICE_JOYPAD 0 RETRO_DEVICE_ID_JOYPAD_R2 ≠ 0
              then 1 <<< 1 else 0)
    ∧ (∀ b, b < 7 → ((get_buttons (s'.input_data i)).testBit (b + 4) = true
          ↔ input_state cb i RETRO_DEVICE_JOYPAD 0 (input_map_wheel.getD b 0) ≠ 0))
    ∧ ((get_buttons (s'.input_data i)).testBit 0 = true
          ↔ input_state cb i RETRO_DEVICE_JOYPAD 0 RETRO_DEVICE_ID_JOYPAD_L2 ≠ 0)
    ∧ ((get_buttons (s'.input_data i)).testBit 1 = true
          ↔ input_state cb i RETRO_DEVICE_JOYPAD 0 RETRO_DEVICE_ID_JOYPAD_R2 ≠ 0)
    ∧ (get_buttons (s'.input_data i)).testBit 2 = false
    ∧ (get_buttons (s'.input_data i)).testBit 3 = false
    ∧ (∀ k, 11 ≤ k → (get_buttons (s'.input_data i)).testBit k = false)
    ∧ get_buttons (s'.input_data i) < 65536 := by
  obtain ⟨hw, _⟩ := input_update_wheel rescale cb s s' i h hi ht
  obtain ⟨x, _, _, _, hspec⟩ := update_wheel_spec s.astick_deadzone cb i
    (set_buttons (s.input_data i) 0)
  rw [hspec, Option.some.injEq] at hw
  have hv := get_buttons_wheel cb i (set_buttons (s.input_data i) 0)
    (uint16 (if x < 0 then -x else 0)) (uint16 (if x > 0 then x else 0))
    (by rw [get_buttons_set_buttons])
  rw [hw] at hv
  have hbit : ∀ k, (get_buttons (s'.input_data i)).testBit k
      = ((decide (4 ≤ k ∧ k < 11
            ∧ input_state cb i RETRO_DEVICE_JOYPAD 0 (input_map_wheel.getD (k - 4) 0) ≠ 0)
          || decide (k = 0
            ∧ input_state cb i RETRO_DEVICE_JOYPAD 0 RETRO_DEVICE_ID_JOYPAD_L2 ≠ 0))
        || decide (k = 1
            ∧ input_state cb i RETRO_DEVICE_JOYPAD 0 RETRO_DEVICE_ID_JOYPAD_R2 ≠ 0)) := by
    intro k
    rw [hv, Nat.testBit_lor, Nat.testBit_lor]
    have h1 := testBit_foldl_or
      (fun b => input_state cb i RETRO_DEVICE_JOYPAD 0 (input_map_wheel.getD b 0) ≠ 0) 4 7 0 k
    simp only [Nat.zero_testBit, Bool.false_or] at h1
    rw [h1]
    congr 1
    · congr 1
      by_cases hc : input_state cb i RETRO_DEVICE_JOYPAD 0 RETRO_DEVICE_ID_JOYPAD_L2 ≠ 0
      · rw [if_pos hc, Nat.one_shiftLeft, Nat.testBit_two_pow]
        by_cases hk : k = 0
        · subst hk; simp [hc]
        · have : ¬ (0 = k) := fun h => hk h.symm
          simp [hk, this]
      · rw [if_neg hc]
        simp [hc]
    · by_cases hc : input_state cb i RETRO_DEVICE_JOYPAD 0 RETRO_DEVICE_ID_JOYPAD_R2 ≠ 0
      · rw [if_pos hc, Nat.one_shiftLeft, Nat.testBit_two_pow]
        by_cases hk : k = 1
        · subst hk; simp [hc]
        · have : ¬ (1 = k) := fun h => hk h.symm
          simp [hk, this]
      · rw [if_neg hc]
        simp [hc]
  refine ⟨hv, ?_, ?_, ?_, ?_, ?_, ?_, ?_⟩
  · intro b hb
    rw [hbit (b + 4)]
    have e : b + 4 - 4 = b := by omega
    have h1 : ¬ (b + 4 = 0) := by omega
    have h2 : ¬ (b + 4 = 1) := by omega
    have h3 : b + 4 < 11 := by omega
    simp [e, h1, h2, h3]
  · rw [hbit 0]; simp
  · rw [hbit 1]; simp
  · rw [hbit 2]; simp
  · rw [hbit 3]; simp
  · intro k hk
    rw [hbit k]
    have h1 : ¬ (k < 11) := by omega
    have h2 : ¬ (k = 0) := by omega
    have h3 : ¬ (k = 1) := by omega
    simp [h1, h2, h3]
  · rw [hv]
    apply lor_lt_65536 (lor_lt_65536 _ _)
    · split_ifs <;> decide
    · exact foldl_or_lt
        (fun b => input_state cb i RETRO_DEVICE_JOYPAD 0 (input_map_wheel.getD b 0) ≠ 0) 4 7 0
        (by norm_num) (by norm_num)
    · split_ifs <;> decide

theorem set_u16_pair_bytes (p : INPUT_DATA) (v2 v4 : Nat) :
    let q := set_u16 (set_u16 p 0x2 v2) 0x4 v4
    q 2 = v2 % 256 ∧ q 3 = v2 / 256 % 256 ∧ q 4 = v4 % 256 ∧ q 5 = v4 / 256 % 256 := by
  simp only [set_u16, Function.update_apply]
  refine ⟨?_, ?_, ?_, ?_⟩ <;> rfl

/-- C15: on a polled Arcade Racer port with shaped steering value `x`, the register image
after `input_update` holds left = max(-x, 0) at bytes 2-3 and right = max(x, 0) at bytes
4-5, each as a 16-bit little-endian value; at most one of left and right is non-zero and
right - left = x. -/
theorem wheel_axis_layout (rescale : PolarRescale) (cb : InputStateCb) (s s' : State) (i : Nat)
    (h : input_update rescale cb s = some s') (hi : i < s.players)
    (ht : s.input_type i = RETRO_DEVICE_SS_WHEEL) :
    ∃ (x : Int) (left right : Nat),
      wheel_deadzone s.astick_deadzone
          (input_state cb i RETRO_DEVICE_ANALOG RETRO_DEVICE_INDEX_ANALOG_LEFT
            RETRO_DEVICE_ID_ANALOG_X) = some x
      ∧ (left : Int) = max (-x) 0 ∧ (right : Int) = max x 0
      ∧ s'.input_data i 2 = left % 256 ∧ s'.input_data i 3 = left / 256
      ∧ s'.input_data i 4 = right % 256 ∧ s'.input_data i 5 = right / 256
      ∧ left < 65536 ∧ right < 65536
      ∧ (left = 0 ∨ right = 0)
      ∧ (right : Int) - left = x := by
  obtain ⟨hw, _⟩ := input_update_wheel rescale cb s s' i h hi ht
  obtain ⟨x, hx, x0, x1, hspec⟩ := update_wheel_spec s.astick_deadzone cb i
    (set_buttons (s.input_data i) 0)
  rw [hspec, Option.some.injEq] at hw
  have hb := set_u16_pair_bytes
    (or_buttons (or_buttons
      ((List.range 7).foldl (fun p b =>
        or_buttons p (if input_state cb i RETRO_DEVICE_JOYPAD 0
          (input_map_wheel.getD b 0) ≠ 0 then 1 <<< (b + 4) else 0))
        (set_buttons (s.input_data i) 0))
      (if input_state cb i RETRO_DEVICE_JOYPAD 0 RETRO_DEVICE_ID_JOYPAD_L2 ≠ 0
        then 1 <<< 0 else 0))
      (if input_state cb i RETRO_DEVICE_JOYPAD 0 RETRO_DEVICE_ID_JOYPAD_R2 ≠ 0
        then 1 <<< 1 else 0))
    (uint16 (if x < 0 then -x else 0)) (uint16 (if x > 0 then x else 0))
  simp only at hb
  rw [hw] at hb
  obtain ⟨b2, b3, b4, b5⟩ := hb
  have e1 : ((uint16 (if x < 0 then -x else 0) : Nat) : Int) = max (-x) 0 := by
    rw [uint16_of_range _ (by split_ifs <;> omega) (by split_ifs <;> omega)]
    split_ifs <;> omega
  have e2 : ((uint16 (if x > 0 then x else 0) : Nat) : Int) = max x 0 := by
    rw [uint16_of_range _ (by split_ifs <;> omega) (by split_ifs <;> omega)]
    split_ifs <;> omega
  have u1 := uint16_lt (if x < 0 then -x else 0)
  have u2 := uint16_lt (if x > 0 then x else 0)
  refine ⟨x, uint16 (if x < 0 then -x else 0), uint16 (if x > 0 then x else 0),
    hx, e1, e2, b2, ?_, b4, ?_, u1, u2, ?_, ?_⟩
  · rw [b3]; omega
  · rw [b5]; omega
  · omega
  · omega

/-! ### Mouse -/

theorem update_port_mouse (rescale : PolarRescale) (ad td : Int) (ms : F32)
    (cb : InputStateCb) (i : Nat) (p : INPUT_DATA) (mode : Nat) :
    update_port rescale ad td ms cb i RETRO_DEVICE_SS_MOUSE p mode
      = (update_mouse ms cb i (set_buttons p 0)).map fun q =>
          { data := q, mode := mode, events := [] } := by
  unfold update_port
  have h1 : ¬ (RETRO_DEVICE_SS_MOUSE = RETRO_DEVICE_JOYPAD
      ∨ RETRO_DEVICE_SS_MOUSE = RETRO_DEVICE_SS_PAD) := by decide
  have h2 : ¬ (RETRO_DEVICE_SS_MOUSE = RETRO_DEVICE_SS_3D_PAD) := by decide
  have h3 : ¬ (RETRO_DEVICE_SS_MOUSE = RETRO_DEVICE_SS_WHEEL) := by decide
  simp only [if_neg h1, if_neg h2, if_neg h3, if_true]

/-- After `input_update`, a polled Mouse port holds what `update_mouse` computes from the
port's own contents, and its mode word is untouched. -/
theorem input_update_mouse (rescale : PolarRescale) (cb : InputStateCb) (s s' : State) (i : Nat)
    (h : input_update rescale cb s = some s') (hi : i < s.players)
    (ht : s.input_type i = RETRO_DEVICE_SS_MOUSE) :
    update_mouse s.mouse_sensitivity cb i (set_buttons (s.input_data i) 0)
        = some (s'.input_data i)
      ∧ s'.input_mode i = s.input_mode i := by
  obtain ⟨r, hr, hd, hm⟩ := input_update_port rescale cb s s' h i hi
  rw [ht, update_port_mouse] at hr
  rcases hu : update_mouse s.mouse_sensitivity cb i (set_buttons (s.input_data i) 0) with _ | q
  · rw [hu] at hr; simp at hr
  · rw [hu] at hr
    simp only [Option.map_some', Option.some.injEq] at hr
    subst hr
    simp only at hd hm
    rw [hd, hm]
    exact ⟨rfl, rfl⟩

theorem toInt_range (x : F32) (z : Int) (h : F32.toInt x = some z) :
    -2147483648 ≤ z ∧ z ≤ 2147483647 := by
  cases x with
  | fin q =>
    unfold F32.toInt checked_int INT_MIN INT_MAX at h
    simp only at h
    split_ifs at h with hc
    cases h
    exact hc
  | inf s => simp [F32.toInt] at h
  | nan => simp [F32.toInt] at h

/-- The eight bytes that two C `int` stores at offsets 0 and 4 leave. -/
theorem get_i32_set_i32_bytes (p : INPUT_DATA) (z0 z1 : Int) :
    (set_i32 (set_i32 p 0 z0) 4 z1) 0 = (z0 % 4294967296).toNat % 256
      ∧ (set_i32 (set_i32 p 0 z0) 4 z1) 1 = (z0 % 4294967296).toNat / 256 % 256
      ∧ (set_i32 (set_i32 p 0 z0) 4 z1) 2 = (z0 % 4294967296).toNat / 65536 % 256
      ∧ (set_i32 (set_i32 p 0 z0) 4 z1) 3 = (z0 % 4294967296).toNat / 16777216 % 256
      ∧ (set_i32 (set_i32 p 0 z0) 4 z1) 4 = (z1 % 4294967296).toNat % 256
      ∧ (set_i32 (set_i32 p 0 z0) 4 z1) 5 = (z1 % 4294967296).toNat / 256 % 256
      ∧ (set_i32 (set_i32 p 0 z0) 4 z1) 6 = (z1 % 4294967296).toNat / 65536 % 256
      ∧ (set_i32 (set_i32 p 0 z0) 4 z1) 7 = (z1 % 4294967296).toNat / 16777216 % 256 := by
  simp only [set_i32, Function.update_apply]
  refine ⟨?_, ?_, ?_, ?_, ?_, ?_, ?_, ?_⟩ <;> rfl

/-- A C `int` stored at offset 0 and another at offset 4 are read back unchanged. -/
theorem get_i32_set_i32_pair (p : INPUT_DATA) (z0 z1 : Int)
    (h0 : -2147483648 ≤ z0 ∧ z0 ≤ 2147483647) (h1 : -2147483648 ≤ z1 ∧ z1 ≤ 2147483647) :
    get_i32 (set_i32 (set_i32 p 0 z0) 4 z1) 0 = z0
    ∧ get_i32 (set_i32 (set_i32 p 0 z0) 4 z1) 4 = z1 := by
  have e0 : ∀ q : INPUT_DATA, get_i32 q 0
      = (let v : Int := ((q 0 + 256 * q 1 + 65536 * q 2 + 16777216 * q 3 : Nat) : Int)
         if v < 2147483648 then v else v - 4294967296) := fun q => rfl
  have e4 : ∀ q : INPUT_DATA, get_i32 q 4
      = (let v : Int := ((q 4 + 256 * q 5 + 65536 * q 6 + 16777216 * q 7 : Nat) : Int)
         if v < 2147483648 then v else v - 4294967296) := fun q => rfl
  obtain ⟨b0, b1, b2, b3, b4, b5, b6, b7⟩ := get_i32_set_i32_bytes p z0 z1
  constructor
  · rw [e0, b0, b1, b2, b3]
    simp only
    split_ifs <;> omega
  · rw [e4, b4, b5, b6, b7]
    simp only
    split_ifs <;> omega

theorem set_i32_pair_other (p : INPUT_DATA) (z0 z1 : Int) (k : Fin 32) (hk : 8 ≤ k.val) :
    (set_i32 (set_i32 p 0 z0) 4 z1) k = p k := by
  have h : ∀ j : Fin 32, j.val < 8 → k ≠ j := by
    intro j hj hkj
    rw [hkj] at hk
    omega
  simp only [set_i32]
  rw [Function.update_noteq (h _ (by decide)), Function.update_noteq (h _ (by decide)),
    Function.update_noteq (h _ (by decide)), Function.update_noteq (h _ (by decide)),
    Function.update_noteq (h _ (by decide)), Function.update_noteq (h _ (by decide)),
    Function.update_noteq (h _ (by decide)), Function.update_noteq (h _ (by decide))]

theorem set_i32_pair_byte_lt (p : INPUT_DATA) (z0 z1 : Int) (k : Fin 32) (hk : k.val < 8) :
    (set_i32 (set_i32 p 0 z0) 4 z1) k < 256 := by
  have hcases : k = 0 ∨ k = 1 ∨ k = 2 ∨ k = 3 ∨ k = 4 ∨ k = 5 ∨ k = 6 ∨ k = 7 := by
    revert k
    decide
  have b := get_i32_set_i32_bytes p z0 z1
  obtain ⟨b0, b1, b2, b3, b4, b5, b6, b7⟩ := b
  rcases hcases with h | h | h | h | h | h | h | h <;> subst h
  · rw [b0]; exact Nat.mod_lt _ (by norm_num)
  · rw [b1]; exact Nat.mod_lt _ (by norm_num)
  · rw [b2]; exact Nat.mod_lt _ (by norm_num)
  · rw [b3]; exact Nat.mod_lt _ (by norm_num)
  · rw [b4]; exact Nat.mod_lt _ (by norm_num)
  · rw [b5]; exact Nat.mod_lt _ (by norm_num)
  · rw [b6]; exact Nat.mod_lt _ (by norm_num)
  · rw [b7]; exact Nat.mod_lt _ (by norm_num)

theorem or_u8_ite_same (c : Prop) [Decidable c] (p : INPUT_DATA) (k : Fin 32) (x y : Nat)
    (hp : p k = y) (hy : y < 256) (hx : x < 256) :
    (if c then or_u8 p k x else p) k = y ||| (if c then x else 0)
    ∧ (y ||| (if c then x else 0)) < 256 := by
  have hl : y ||| x < 256 := Nat.or_lt_two_pow (n := 8) hy hx
  by_cases hc : c
  · simp only [if_pos hc, or_u8, Function.update_same, hp]
    exact ⟨Nat.mod_eq_of_lt hl, hl⟩
  · simp only [if_neg hc, hp, Nat.or_zero]
    exact ⟨trivial, hy⟩

theorem or_u8_ite_other (c : Prop) [Decidable c] (p : INPUT_DATA) (k j : Fin 32) (x : Nat)
    (hj : j ≠ k) : (if c then or_u8 p k x else p) j = p j := by
  by_cases hc : c
  · simp only [if_pos hc, or_u8, Function.update_noteq hj]
  · simp only [if_neg hc]

/-- What `update_mouse` leaves in the image when it returns: the two converted products read
back as C `int`s at offsets 0 and 4 (eight proper bytes), the status byte at offset 8 built
from 0, and every byte from offset 9 on untouched. -/
theorem update_mouse_spec (ms : F32) (cb : InputStateCb) (i : Nat) (p q : INPUT_DATA)
    (h : update_mouse ms cb i p = some q) :
    ∃ d0 d1 : Int,
      F32.toInt (F32.round (F32.mul
        (F32.ofInt (input_state cb i RETRO_DEVICE_MOUSE 0 RETRO_DEVICE_ID_MOUSE_X)) ms)) = some d0
      ∧ F32.toInt (F32.round (F32.mul
        (F32.ofInt (input_state cb i RETRO_DEVICE_MOUSE 0 RETRO_DEVICE_ID_MOUSE_Y)) ms)) = some d1
      ∧ get_i32 q 0 = d0 ∧ get_i32 q 4 = d1
      ∧ q 8 = (((0 |||
          (if input_state cb i RETRO_DEVICE_MOUSE 0 RETRO_DEVICE_ID_MOUSE_LEFT ≠ 0
            then 1 <<< 0 else 0)) |||
          (if input_state cb i RETRO_DEVICE_MOUSE 0 RETRO_DEVICE_ID_MOUSE_RIGHT ≠ 0
            then 1 <<< 1 else 0)) |||
          (if input_state cb i RETRO_DEVICE_MOUSE 0 RETRO_DEVICE_ID_MOUSE_MIDDLE ≠ 0
            then 1 <<< 2 else 0)) |||
          (if input_state cb i RETRO_DEVICE_JOYPAD 0 RETRO_DEVICE_ID_JOYPAD_START ≠ 0
              ∨ input_state cb i RETRO_DEVICE_MOUSE 0 RETRO_DEVICE_ID_MOUSE_BUTTON_4 ≠ 0
              ∨ input_state cb i RETRO_DEVICE_MOUSE 0 RETRO_DEVICE_ID_MOUSE_BUTTON_5 ≠ 0
            then 1 <<< 3 else 0)
      ∧ (∀ k : Fin 32, k.val < 8 → q k < 256)
      ∧ ∀ k : Fin 32, 9 ≤ k.val → q k = p k := by
  unfold update_mouse at h
  simp only at h
  rcases h0 : F32.toInt (F32.round (F32.mul
    (F32.ofInt (input_state cb i RETRO_DEVICE_MOUSE 0 RETRO_DEVICE_ID_MOUSE_X)) ms)) with _ | d0
  · rw [h0] at h; simp at h
  rcases h1 : F32.toInt (F32.round (F32.mul
    (F32.ofInt (input_state cb i RETRO_DEVICE_MOUSE 0 RETRO_DEVICE_ID_MOUSE_Y)) ms)) with _ | d1
  · rw [h0, h1] at h; simp at h
  rw [h0, h1] at h
  simp only [Option.some_bind, Option.map_some', Option.some.injEq] at h
  obtain ⟨g0, g4⟩ := get_i32_set_i32_pair _ d0 d1 (toInt_range _ _ h0) (toInt_range _ _ h1)
  rw [h] at g0 g4
  refine ⟨d0, d1, rfl, rfl, g0, g4, ?_, ?_, ?_⟩
  · rw [← h, set_i32_pair_other _ _ _ 8 (by decide)]
    have s0 : (Function.update p (0x8 : Fin 32) 0) 8 = 0 := Function.update_same _ _ _
    obtain ⟨e1, l1⟩ := or_u8_ite_same
      (input_state cb i RETRO_DEVICE_MOUSE 0 RETRO_DEVICE_ID_MOUSE_LEFT ≠ 0)
      _ 8 (1 <<< 0) 0 s0 (by decide) (by decide)
    obtain ⟨e2, l2⟩ := or_u8_ite_same
      (input_state cb i RETRO_DEVICE_MOUSE 0 RETRO_DEVICE_ID_MOUSE_RIGHT ≠ 0)
      _ 8 (1 <<< 1) _ e1 l1 (by decide)
    obtain ⟨e3, l3⟩ := or_u8_ite_same
      (input_state cb i RETRO_DEVICE_MOUSE 0 RETRO_DEVICE_ID_MOUSE_MIDDLE ≠ 0)
      _ 8 (1 <<< 2) _ e2 l2 (by decide)
    obtain ⟨e4, _⟩ := or_u8_ite_same
      (input_state cb i RETRO_DEVICE_JOYPAD 0 RETRO_DEVICE_ID_JOYPAD_START ≠ 0
        ∨ input_state cb i RETRO_DEVICE_MOUSE 0 RETRO_DEVICE_ID_MOUSE_BUTTON_4 ≠ 0
        ∨ input_state cb i RETRO_DEVICE_MOUSE 0 RETRO_DEVICE_ID_MOUSE_BUTTON_5 ≠ 0)
      _ 8 (1 <<< 3) _ e3 l3 (by decide)
    exact e4
  · intro k hk
    rw [← h]
    exact set_i32_pair_byte_lt _ d0 d1 k hk
  · intro k hk
    have hk8 : k ≠ 8 := by
      intro e
      rw [e] at hk
      revert hk
      decide
    rw [← h, set_i32_pair_other _ _ _ k (by omega)]
    rw [or_u8_ite_other _ _ 8 k _ hk8, or_u8_ite_other _ _ 8 k _ hk8,
      or_u8_ite_other _ _ 8 k _ hk8, or_u8_ite_other _ _ 8 k _ hk8]
    exact Function.update_noteq hk8 _ _

theorem roundHalfAway_intCast (z : Int) : roundHalfAway (z : ℚ) = z := by
  have h := roundHalfAway_err (z : ℚ)
  rw [abs_le] at h
  obtain ⟨h0, h1⟩ := h
  have a : ((roundHalfAway (z : ℚ) : Int) : ℚ) < ((z + 1 : Int) : ℚ) := by
    push_cast; linarith
  have b : ((z - 1 : Int) : ℚ) < ((roundHalfAway (z : ℚ) : Int) : ℚ) := by
    push_cast; linarith
  have a' := Int.cast_lt.mp a
  have b' := Int.cast_lt.mp b
  omega

/-- The expression `(int)roundf( d * mouse_sensitivity )` for a raw motion `d` and a finite
sensitivity `q` between 1/128 and 4: it is defined, it is the rounding of the binary32
product, and it is within 1 of the rounding of the exact product. -/
theorem mouse_delta (d : Int) (q : ℚ) (hd0 : -32768 ≤ d) (hd1 : d ≤ 32767)
    (hq0 : 1 / 128 ≤ q) (hq1 : q ≤ 4) :
    F32.toInt (F32.round (F32.mul (F32.ofInt d) (F32.fin q)))
        = some (roundHalfAway (roundBinary32 ((d : ℚ) * q)))
      ∧ |roundHalfAway (roundBinary32 ((d : ℚ) * q)) - roundHalfAway ((d : ℚ) * q)| ≤ 1
      ∧ (q = 1 → roundHalfAway (roundBinary32 ((d : ℚ) * q)) = d) := by
  have hdabs : |d| < 2 ^ 24 := by rw [abs_lt]; constructor <;> omega
  have hdq : |(d : ℚ)| ≤ 32768 := by
    rw [abs_le]
    have a : ((-32768 : Int) : ℚ) ≤ (d : ℚ) := Int.cast_le.mpr hd0
    have b : (d : ℚ) ≤ ((32767 : Int) : ℚ) := Int.cast_le.mpr hd1
    push_cast at a b
    constructor <;> linarith
  have hqpos : (0 : ℚ) < q := by linarith
  have hv : |(d : ℚ) * q| ≤ 131072 := by
    rw [abs_mul, abs_of_pos hqpos]
    have : |(d : ℚ)| * q ≤ 32768 * 4 := mul_le_mul hdq hq1 hqpos.le (by norm_num)
    linarith
  have herr : |roundBinary32 ((d : ℚ) * q) - (d : ℚ) * q| ≤ 1 / 128 := by
    by_cases hz : d = 0
    · subst hz
      simp [roundBinary32]
    · have hd1' : (1 : ℚ) ≤ |(d : ℚ)| := by
        have : (1 : Int) ≤ |d| := Int.one_le_abs hz
        have h' : ((1 : Int) : ℚ) ≤ ((|d| : Int) : ℚ) := Int.cast_le.mpr this
        rw [Int.cast_abs] at h'
        simpa using h'
      have hlow : (1 : ℚ) / 128 ≤ |(d : ℚ) * q| := by
        rw [abs_mul, abs_of_pos hqpos]
        have : (1 : ℚ) * (1 / 128) ≤ |(d : ℚ)| * q :=
          mul_le_mul hd1' hq0 (by norm_num) (by linarith)
        linarith
      have h126 : (2 : ℚ) ^ (-126 : Int) ≤ |(d : ℚ) * q| := by
        refine le_trans ?_ hlow
        rw [show (1 : ℚ) / 128 = (2 : ℚ) ^ (-7 : Int) by norm_num]
        exact zpow_le_zpow_right₀ (by norm_num) (by norm_num)
      have e := roundBinary32_err _ h126
      have e2 : |(d : ℚ) * q| * (2 : ℚ) ^ (-24 : Int) ≤ 131072 * (2 : ℚ) ^ (-24 : Int) :=
        mul_le_mul_of_nonneg_right hv (by positivity)
      have e3 : (131072 : ℚ) * (2 : ℚ) ^ (-24 : Int) = 1 / 128 := by norm_num
      exact le_trans e (le_trans e2 (le_of_eq e3))
  have hr : |roundBinary32 ((d : ℚ) * q)| ≤ 131073 := by
    have := abs_sub_abs_le_abs_sub (roundBinary32 ((d : ℚ) * q)) ((d : ℚ) * q)
    linarith
  have hfin : F32.ofRat ((d : ℚ) * q) = F32.fin (roundBinary32 ((d : ℚ) * q)) := by
    apply F32.ofRat_fin
    refine lt_of_le_of_lt hr ?_
    norm_num
  have hra := roundHalfAway_err (roundBinary32 ((d : ℚ) * q))
  have hrz : |((roundHalfAway (roundBinary32 ((d : ℚ) * q)) : Int) : ℚ)| ≤ 131074 := by
    have := abs_sub_abs_le_abs_sub
      ((roundHalfAway (roundBinary32 ((d : ℚ) * q)) : Int) : ℚ) (roundBinary32 ((d : ℚ) * q))
    linarith
  have hrz' : |roundHalfAway (roundBinary32 ((d : ℚ) * q))| ≤ 131074 := by
    rw [← Int.cast_abs] at hrz
    exact_mod_cast hrz
  rw [abs_le] at hrz'
  refine ⟨?_, ?_, ?_⟩
  · rw [F32.ofInt_small d hdabs]
    rw [show F32.mul (F32.fin (d : ℚ)) (F32.fin q) = F32.ofRat ((d : ℚ) * q) from rfl, hfin]
    apply toInt_round_fin
    · unfold INT_MIN; omega
    · unfold INT_MAX; omega
  · apply roundHalfAway_close
    refine lt_of_le_of_lt herr ?_
    norm_num
  · intro h1
    subst h1
    rw [mul_one, roundBinary32_intCast d hdabs, roundHalfAway_intCast]

/-- Every sensitivity that `input_set_mouse_sensitivity` stores is finite, between 1/128 and
4, and the binary32 nearest to `percent / 100`; 100 percent stores exactly 1. -/
theorem input_set_mouse_sensitivity_spec (percent : Int) (s : State)
    (h0 : 0 < percent) (h1 : percent ≤ 200) :
    ∃ q : ℚ, (input_set_mouse_sensitivity percent s).mouse_sensitivity = F32.fin q
      ∧ q = roundBinary32 ((percent : ℚ) / 100)
      ∧ 1 / 128 ≤ q ∧ q ≤ 4 ∧ (percent = 100 → q = 1) := by
  have hp : |percent| < 2 ^ 24 := by rw [abs_lt]; constructor <;> omega
  have c0 : ((1 : Int) : ℚ) ≤ (percent : ℚ) := Int.cast_le.mpr (by omega)
  have c1 : (percent : ℚ) ≤ ((200 : Int) : ℚ) := Int.cast_le.mpr h1
  push_cast at c0 c1
  have hc : F32.ofRat 100 = F32.fin 100 := by
    have := F32.ofInt_small 100 (by norm_num)
    unfold F32.ofInt at this
    simpa using this
  have hv0 : (1 : ℚ) / 100 ≤ (percent : ℚ) / 100 := by
    apply div_le_div_of_nonneg_right c0; norm_num
  have hv1 : (percent : ℚ) / 100 ≤ 2 := by
    rw [div_le_iff₀ (by norm_num)]; linarith
  have habs : |(percent : ℚ) / 100| = (percent : ℚ) / 100 := abs_of_nonneg (by linarith)
  have h126 : (2 : ℚ) ^ (-126 : Int) ≤ |(percent : ℚ) / 100| := by
    rw [habs]
    refine le_trans ?_ hv0
    refine le_trans (zpow_le_zpow_right₀ (by norm_num) (show (-126 : Int) ≤ -7 by norm_num)) ?_
    norm_num
  have e := roundBinary32_err _ h126
  rw [habs, abs_le] at e
  have e24 : (2 : ℚ) ^ (-24 : Int) ≤ 1 / 8 := by norm_num
  have em : (percent : ℚ) / 100 * (2 : ℚ) ^ (-24 : Int) ≤ (percent : ℚ) / 100 * (1 / 8) :=
    mul_le_mul_of_nonneg_left e24 (by linarith)
  have hfin : F32.ofRat ((percent : ℚ) / 100) = F32.fin (roundBinary32 ((percent : ℚ) / 100)) := by
    apply F32.ofRat_fin
    rw [abs_lt]
    constructor
    · have : (0 : ℚ) < (2 : ℚ) ^ (128 : Nat) := by positivity
      linarith [e.1]
    · have : (3 : ℚ) < (2 : ℚ) ^ (128 : Nat) := by norm_num
      linarith [e.2]
  refine ⟨roundBinary32 ((percent : ℚ) / 100), ?_, rfl, ?_, ?_, ?_⟩
  · unfold input_set_mouse_sensitivity
    rw [if_pos ⟨h0, h1⟩]
    simp only
    rw [F32.ofInt_small percent hp, hc]
    unfold F32.div
    simp only
    rw [if_neg (by norm_num), hfin]
  · linarith [e.1]
  · linarith [e.2]
  · intro h100
    subst h100
    have : ((100 : Int) : ℚ) / 100 = ((1 : Int) : ℚ) := by norm_num
    rw [this, roundBinary32_intCast 1 (by norm_num)]
    norm_num

/-- The Mouse case is defined whenever the sensitivity is finite and between 1/128 and 4,
as every sensitivity stored by `input_set_mouse_sensitivity` is. -/
theorem update_port_mouse_defined (rescale : PolarRescale) (ad td : Int) (q : ℚ)
    (cb : InputStateCb) (i : Nat) (p : INPUT_DATA) (mode : Nat)
    (hq0 : 1 / 128 ≤ q) (hq1 : q ≤ 4) :
    (update_port rescale ad td (F32.fin q) cb i RETRO_DEVICE_SS_MOUSE p mode).isSome = true := by
  rw [update_port_mouse]
  unfold update_mouse
  simp only
  obtain ⟨hx0, hx1⟩ := input_state_range cb i RETRO_DEVICE_MOUSE 0 RETRO_DEVICE_ID_MOUSE_X
  obtain ⟨hy0, hy1⟩ := input_state_range cb i RETRO_DEVICE_MOUSE 0 RETRO_DEVICE_ID_MOUSE_Y
  rw [(mouse_delta _ q hx0 hx1 hq0 hq1).1, (mouse_delta _ q hy0 hy1 hq0 hq1).1]
  rfl

/-- The status byte of the Mouse as a value: bit 0 left, bit 1 right, bit 2 middle, bit 3
start, nothing above. -/
theorem mouse_status_bits (a b c d : Prop) [Decidable a] [Decidable b] [Decidable c]
    [Decidable d] (v : Nat)
    (hv : v = (((0 ||| (if a then 1 <<< 0 else 0)) ||| (if b then 1 <<< 1 else 0))
      ||| (if c then 1 <<< 2 else 0)) ||| (if d then 1 <<< 3 else 0)) :
    (v.testBit 0 = true ↔ a) ∧ (v.testBit 1 = true ↔ b) ∧ (v.testBit 2 = true ↔ c)
      ∧ (v.testBit 3 = true ↔ d) ∧ (∀ k, 4 ≤ k → v.testBit k = false) ∧ v < 16 := by
  have hlt : v < 16 := by
    rw [hv]
    by_cases ha : a <;> by_cases hb : b <;> by_cases hc : c <;> by_cases hd : d <;>
      simp only [ha, hb, hc, hd, if_true, if_false] <;> decide
  refine ⟨?_, ?_, ?_, ?_, ?_, hlt⟩
  · rw [hv]
    by_cases ha : a <;> by_cases hb : b <;> by_cases hc : c <;> by_cases hd : d <;>
      simp only [ha, hb, hc, hd, if_true, if_false, iff_true, iff_false] <;> decide
  · rw [hv]
    by_cases ha : a <;> by_cases hb : b <;> by_cases hc : c <;> by_cases hd : d <;>
      simp only [ha, hb, hc, hd, if_true, if_false, iff_true, iff_false] <;> decide
  · rw [hv]
    by_cases ha : a <;> by_cases hb : b <;> by_cases hc : c <;> by_cases hd : d <;>
      simp only [ha, hb, hc, hd, if_true, if_false, iff_true, iff_false] <;> decide
  · rw [hv]
    by_cases ha : a <;> by_cases hb : b <;> by_cases hc : c <;> by_cases hd : d <;>
      simp only [ha, hb, hc, hd, if_true, if_false, iff_true, iff_false] <;> decide
  · intro k hk
    apply Nat.testBit_lt_two_pow
    calc v < 16 := hlt
      _ = 2 ^ 4 := by norm_num
      _ ≤ 2 ^ k := Nat.pow_le_pow_right (by norm_num) hk

/-- C16: for every polled Mouse port, after `input_update` the status byte at offset 8 has
bit 0 set iff the left button is held, bit 1 iff the right button is held, bit 2 iff the
middle button is held, bit 3 iff the joypad start button or mouse button 4 or mouse button 5
is held, and bits 4..7 (every bit from 4 on) are 0, whatever the byte held before. -/
theorem mouse_status_exact (rescale : PolarRescale) (cb : InputStateCb) (s s' : State) (i : Nat)
    (h : input_update rescale cb s = some s') (hi : i < s.players)
    (ht : s.input_type i = RETRO_DEVICE_SS_MOUSE) :
    ((s'.input_data i 8).testBit 0 = true
        ↔ input_state cb i RETRO_DEVICE_MOUSE 0 RETRO_DEVICE_ID_MOUSE_LEFT ≠ 0)
      ∧ ((s'.input_data i 8).testBit 1 = true
        ↔ input_state cb i RETRO_DEVICE_MOUSE 0 RETRO_DEVICE_ID_MOUSE_RIGHT ≠ 0)
      ∧ ((s'.input_data i 8).testBit 2 = true
        ↔ input_state cb i RETRO_DEVICE_MOUSE 0 RETRO_DEVICE_ID_MOUSE_MIDDLE ≠ 0)
      ∧ ((s'.input_data i 8).testBit 3 = true
        ↔ (input_state cb i RETRO_DEVICE_JOYPAD 0 RETRO_DEVICE_ID_JOYPAD_START ≠ 0
          ∨ input_state cb i RETRO_DEVICE_MOUSE 0 RETRO_DEVICE_ID_MOUSE_BUTTON_4 ≠ 0
          ∨ input_state cb i RETRO_DEVICE_MOUSE 0 RETRO_DEVICE_ID_MOUSE_BUTTON_5 ≠ 0))
      ∧ (∀ k, 4 ≤ k → (s'.input_data i 8).testBit k = false)
      ∧ s'.input_data i 8 < 16 := by
  obtain ⟨hu, _⟩ := input_update_mouse rescale cb s s' i h hi ht
  obtain ⟨d0, d1, _, _, _, _, h8, _, _⟩ := update_mouse_spec _ cb i _ _ hu
  exact mouse_status_bits _ _ _ _ _ h8

/-- C17 (as corrected): for every polled Mouse port with raw relative motion `(dx, dy)` and
a finite sensitivity `q` between 1/128 and 4 (every sensitivity that can be set is one): the
port's update is defined, and after `input_update` bytes 0-3 of the image hold, as a signed
32-bit integer, the rounding (ties away from zero) of the single-precision product of `dx`
and `q`, bytes 4-7 the same for `dy`; each is within 1 of the rounding of the exact product;
with the sensitivity 1 (the default, and 100 percent) the stored deltas equal `dx` and `dy`
exactly; the eight bytes are proper bytes, and the status byte at offset 8 is the one the
buttons give, unaltered by this write. -/
theorem mouse_delta_within_one (rescale : PolarRescale) (cb : InputStateCb) (s s' : State)
    (i : Nat) (q : ℚ)
    (h : input_update rescale cb s = some s') (hi : i < s.players)
    (ht : s.input_type i = RETRO_DEVICE_SS_MOUSE)
    (hq : s.mouse_sensitivity = F32.fin q) (hq0 : 1 / 128 ≤ q) (hq1 : q ≤ 4) :
    (update_port rescale s.astick_deadzone s.trigger_deadzone s.mouse_sensitivity cb i
        (s.input_type i) (s.input_data i) (s.input_mode i)).isSome = true
      ∧ get_i32 (s'.input_data i) 0 = roundHalfAway (roundBinary32
          ((input_state cb i RETRO_DEVICE_MOUSE 0 RETRO_DEVICE_ID_MOUSE_X : ℚ) * q))
      ∧ get_i32 (s'.input_data i) 4 = roundHalfAway (roundBinary32
          ((input_state cb i RETRO_DEVICE_MOUSE 0 RETRO_DEVICE_ID_MOUSE_Y : ℚ) * q))
      ∧ |get_i32 (s'.input_data i) 0 - roundHalfAway
          ((input_state cb i RETRO_DEVICE_MOUSE 0 RETRO_DEVICE_ID_MOUSE_X : ℚ) * q)| ≤ 1
      ∧ |get_i32 (s'.input_data i) 4 - roundHalfAway
          ((input_state cb i RETRO_DEVICE_MOUSE 0 RETRO_DEVICE_ID_MOUSE_Y : ℚ) * q)| ≤ 1
      ∧ (q = 1 → get_i32 (s'.input_data i) 0
            = input_state cb i RETRO_DEVICE_MOUSE 0 RETRO_DEVICE_ID_MOUSE_X
          ∧ get_i32 (s'.input_data i) 4
            = input_state cb i RETRO_DEVICE_MOUSE 0 RETRO_DEVICE_ID_MOUSE_Y)
      ∧ (∀ k : Fin 32, k.val < 8 → s'.input_data i k < 256)
      ∧ s'.input_data i 8 = (((0 |||
          (if input_state cb i RETRO_DEVICE_MOUSE 0 RETRO_DEVICE_ID_MOUSE_LEFT ≠ 0
            then 1 <<< 0 else 0)) |||
          (if input_state cb i RETRO_DEVICE_MOUSE 0 RETRO_DEVICE_ID_MOUSE_RIGHT ≠ 0
            then 1 <<< 1 else 0)) |||
          (if input_state cb i RETRO_DEVICE_MOUSE 0 RETRO_DEVICE_ID_MOUSE_MIDDLE ≠ 0
            then 1 <<< 2 else 0)) |||
          (if input_state cb i RETRO_DEVICE_JOYPAD 0 RETRO_DEVICE_ID_JOYPAD_START ≠ 0
              ∨ input_state cb i RETRO_DEVICE_MOUSE 0 RETRO_DEVICE_ID_MOUSE_BUTTON_4 ≠ 0
              ∨ input_state cb i RETRO_DEVICE_MOUSE 0 RETRO_DEVICE_ID_MOUSE_BUTTON_5 ≠ 0
            then 1 <<< 3 else 0) := by
  obtain ⟨hu, _⟩ := input_update_mouse rescale cb s s' i h hi ht
  obtain ⟨d0, d1, c0, c1, g0, g4, h8, hb, _⟩ := update_mouse_spec _ cb i _ _ hu
  obtain ⟨hx0, hx1⟩ := input_state_range cb i RETRO_DEVICE_MOUSE 0 RETRO_DEVICE_ID_MOUSE_X
  obtain ⟨hy0, hy1⟩ := input_state_range cb i RETRO_DEVICE_MOUSE 0 RETRO_DEVICE_ID_MOUSE_Y
  obtain ⟨mx, nx, ox⟩ := mouse_delta _ q hx0 hx1 hq0 hq1
  obtain ⟨my, ny, oy⟩ := mouse_delta _ q hy0 hy1 hq0 hq1
  rw [hq, mx] at c0
  rw [hq, my] at c1
  have e0 := Option.some.inj c0
  have e1 := Option.some.inj c1
  rw [g0, g4, ← e0, ← e1]
  refine ⟨?_, rfl, rfl, nx, ny, fun h1 => ⟨ox h1, oy h1⟩, hb, h8⟩
  rw [ht, hq]
  exact update_port_mouse_defined rescale _ _ q cb i _ _ hq0 hq1

/-- C17, the claim as worded fails: at 70 percent the stored sensitivity is the binary32
value 11744051/16777216; a motion of 5 stores the delta 4, while the product of 5 and that
sensitivity rounds to 3; and at 130 percent a motion of 45 stores 58, while the product of
45 and 130/100 rounds to 59. -/
theorem mouse_delta_not_exact :
    (input_set_mouse_sensitivity 70 (sample_state RETRO_DEVICE_SS_MOUSE)).mouse_sensitivity
        = F32.fin (11744051 / 16777216)
      ∧ (input_update sample_rescale (sample_cb_mouse 5 0)
          (input_set_mouse_sensitivity 70 (sample_state RETRO_DEVICE_SS_MOUSE))).map
            (fun s' => get_i32 (s'.input_data 0) 0) = some 4
      ∧ roundHalfAway ((5 : ℚ) * (11744051 / 16777216)) = 3
      ∧ (input_update sample_rescale (sample_cb_mouse 45 0)
          (input_set_mouse_sensitivity 130 (sample_state RETRO_DEVICE_SS_MOUSE))).map
            (fun s' => get_i32 (s'.input_data 0) 0) = some 58
      ∧ roundHalfAway ((45 : ℚ) * (130 / 100)) = 59 := by
  refine ⟨?_, ?_, ?_, ?_, ?_⟩ <;> decide!

/-! ### Virtua Gun -/

theorem update_port_gun (rescale : PolarRescale) (ad td : Int) (ms : F32)
    (cb : InputStateCb) (i : Nat) (p : INPUT_DATA) (mode : Nat) :
    update_port rescale ad td ms cb i RETRO_DEVICE_SS_GUN p mode
      = some { data := update_gun cb i (set_buttons p 0), mode := mode, events := [] } := by
  unfold update_port
  have h1 : ¬ (RETRO_DEVICE_SS_GUN = RETRO_DEVICE_JOYPAD
      ∨ RETRO_DEVICE_SS_GUN = RETRO_DEVICE_SS_PAD) := by decide
  have h2 : ¬ (RETRO_DEVICE_SS_GUN = RETRO_DEVICE_SS_3D_PAD) := by decide
  have h3 : ¬ (RETRO_DEVICE_SS_GUN = RETRO_DEVICE_SS_WHEEL) := by decide
  have h4 : ¬ (RETRO_DEVICE_SS_GUN = RETRO_DEVICE_SS_MOUSE) := by decide
  simp only [if_neg h1, if_neg h2, if_neg h3, if_neg h4, if_true]

/-- The Gun case is always defined. -/
theorem update_port_gun_defined (rescale : PolarRescale) (ad td : Int) (ms : F32)
    (cb : InputStateCb) (i : Nat) (p : INPUT_DATA) (mode : Nat) :
    (update_port rescale ad td ms cb i RETRO_DEVICE_SS_GUN p mode).isSome = true := by
  rw [update_port_gun]
  rfl

/-- After `input_update`, a polled Gun port holds what `update_gun` computes from the port's
own contents, and its mode word is untouched. -/
theorem input_update_gun (rescale : PolarRescale) (cb : InputStateCb) (s s' : State) (i : Nat)
    (h : input_update rescale cb s = some s') (hi : i < s.players)
    (ht : s.input_type i = RETRO_DEVICE_SS_GUN) :
    s'.input_data i = update_gun cb i (set_buttons (s.input_data i) 0)
      ∧ s'.input_mode i = s.input_mode i := by
  obtain ⟨r, hr, hd, hm⟩ := input_update_port rescale cb s s' h i hi
  rw [ht, update_port_gun] at hr
  simp only [Option.some.injEq] at hr
  subst hr
  simp only at hd hm
  exact ⟨hd, hm⟩

theorem set_u16_gun_bytes (p : INPUT_DATA) (v0 v2 : Nat) :
    let q := set_u16 (set_u16 p 0 v0) 2 v2
    q 0 = v0 % 256 ∧ q 1 = v0 / 256 % 256 ∧ q 2 = v2 % 256 ∧ q 3 = v2 / 256 % 256 := by
  simp only [set_u16, Function.update_apply]
  refine ⟨?_, ?_, ?_, ?_⟩ <;> rfl

/-- The tail of the Gun case, after the position `(gx, gy)` and the shot type are chosen:
the two position words, the status byte built from 0, and every later byte untouched. -/
theorem gun_store_spec (p : INPUT_DATA) (gx gy shot : Nat) (c1 c2 : Prop) [Decidable c1]
    [Decidable c2] (hs : shot < 256) (q : INPUT_DATA)
    (hq : q = (if c2 then or_u8 (if c1 then or_u8
        (Function.update (set_u16 (set_u16 p 0 gx) 2 gy) 4 0) 4 shot
      else Function.update (set_u16 (set_u16 p 0 gx) 2 gy) 4 0) 4 0x2
      else (if c1 then or_u8
        (Function.update (set_u16 (set_u16 p 0 gx) 2 gy) 4 0) 4 shot
      else Function.update (set_u16 (set_u16 p 0 gx) 2 gy) 4 0))) :
    q 0 = gx % 256 ∧ q 1 = gx / 256 % 256 ∧ q 2 = gy % 256 ∧ q 3 = gy / 256 % 256
      ∧ q 4 = (0 ||| (if c1 then shot else 0)) ||| (if c2 then 0x2 else 0)
      ∧ ∀ k : Fin 32, 5 ≤ k.val → q k = p k := by
  have other : ∀ k : Fin 32, k ≠ 4 →
      q k = (set_u16 (set_u16 p 0 gx) 2 gy) k := by
    intro k hk
    rw [hq, or_u8_ite_other _ _ 4 k _ hk, or_u8_ite_other _ _ 4 k _ hk]
    exact Function.update_noteq hk _ _
  obtain ⟨b0, b1, b2, b3⟩ := set_u16_gun_bytes p gx gy
  refine ⟨?_, ?_, ?_, ?_, ?_, ?_⟩
  · rw [other 0 (by decide)]; exact b0
  · rw [other 1 (by decide)]; exact b1
  · rw [other 2 (by decide)]; exact b2
  · rw [other 3 (by decide)]; exact b3
  · have s0 : (Function.update (set_u16 (set_u16 p 0 gx) 2 gy) (4 : Fin 32) 0) 4 = 0 :=
      Function.update_same _ _ _
    obtain ⟨e1, l1⟩ := or_u8_ite_same c1 _ 4 shot 0 s0 (by decide) hs
    obtain ⟨e2, _⟩ := or_u8_ite_same c2 _ 4 0x2 _ e1 l1 (by decide)
    rw [hq]
    exact e2
  · intro k hk
    have hk4 : k ≠ 4 := by
      intro e; rw [e] at hk; revert hk; decide
    have hk0 : k ≠ 0 := by
      intro e; rw [e] at hk; revert hk; decide
    have hk1 : k ≠ 0 + 1 := by
      intro e; rw [e] at hk; revert hk; decide
    have hk2 : k ≠ 2 := by
      intro e; rw [e] at hk; revert hk; decide
    have hk3 : k ≠ 2 + 1 := by
      intro e; rw [e] at hk; revert hk; decide
    rw [other k hk4, set_u16_other _ _ _ _ hk2 hk3, set_u16_other _ _ _ _ hk0 hk1]

/-- The Gun case with the off-screen flag or the reload flag set. -/
theorem update_gun_offscreen (cb : InputStateCb) (i : Nat) (p : INPUT_DATA)
    (hoff : input_state cb i RETRO_DEVICE_LIGHTGUN 0 RETRO_DEVICE_ID_LIGHTGUN_IS_OFFSCREEN ≠ 0
      ∨ input_state cb i RETRO_DEVICE_LIGHTGUN 0 RETRO_DEVICE_ID_LIGHTGUN_RELOAD ≠ 0) :
    update_gun cb i p 0 = uint16 (-16384) % 256
      ∧ update_gun cb i p 1 = uint16 (-16384) / 256 % 256
      ∧ update_gun cb i p 2 = uint16 (-16384) % 256
      ∧ update_gun cb i p 3 = uint16 (-16384) / 256 % 256
      ∧ update_gun cb i p 4 = (0 |||
          (if input_state cb i RETRO_DEVICE_LIGHTGUN 0 RETRO_DEVICE_ID_LIGHTGUN_TRIGGER ≠ 0
              ∨ input_state cb i RETRO_DEVICE_LIGHTGUN 0 RETRO_DEVICE_ID_LIGHTGUN_RELOAD ≠ 0
            then 0x4 else 0)) |||
          (if input_state cb i RETRO_DEVICE_LIGHTGUN 0 RETRO_DEVICE_ID_LIGHTGUN_START ≠ 0
            then 0x2 else 0)
      ∧ ∀ k : Fin 32, 5 ≤ k.val → update_gun cb i p k = p k := by
  apply gun_store_spec p _ _ 0x4 _ _ (by decide)
  unfold update_gun
  simp only [if_pos hoff]

/-- The Gun case with neither the off-screen flag nor the reload flag set. -/
theorem update_gun_onscreen (cb : InputStateCb) (i : Nat) (p : INPUT_DATA)
    (hoff : input_state cb i RETRO_DEVICE_LIGHTGUN 0 RETRO_DEVICE_ID_LIGHTGUN_IS_OFFSCREEN = 0)
    (hrel : input_state cb i RETRO_DEVICE_LIGHTGUN 0 RETRO_DEVICE_ID_LIGHTGUN_RELOAD = 0) :
    update_gun cb i p 0 = uint16 (Int.tdiv
        ((input_state cb i RETRO_DEVICE_LIGHTGUN 0 RETRO_DEVICE_ID_LIGHTGUN_SCREEN_X
          + 60 + 0x7fff) * 21472) (0x7fff * 2)) % 256
      ∧ update_gun cb i p 1 = uint16 (Int.tdiv
        ((input_state cb i RETRO_DEVICE_LIGHTGUN 0 RETRO_DEVICE_ID_LIGHTGUN_SCREEN_X
          + 60 + 0x7fff) * 21472) (0x7fff * 2)) / 256 % 256
      ∧ update_gun cb i p 2 = uint16 (Int.tdiv
        ((input_state cb i RETRO_DEVICE_LIGHTGUN 0 RETRO_DEVICE_ID_LIGHTGUN_SCREEN_Y
          + 0x7fff) * 240) (0x7fff * 2)) % 256
      ∧ update_gun cb i p 3 = uint16 (Int.tdiv
        ((input_state cb i RETRO_DEVICE_LIGHTGUN 0 RETRO_DEVICE_ID_LIGHTGUN_SCREEN_Y
          + 0x7fff) * 240) (0x7fff * 2)) / 256 % 256
      ∧ update_gun cb i p 4 = (0 |||
          (if input_state cb i RETRO_DEVICE_LIGHTGUN 0 RETRO_DEVICE_ID_LIGHTGUN_TRIGGER ≠ 0
              ∨ input_state cb i RETRO_DEVICE_LIGHTGUN 0 RETRO_DEVICE_ID_LIGHTGUN_RELOAD ≠ 0
            then 0x1 else 0)) |||
          (if input_state cb i RETRO_DEVICE_LIGHTGUN 0 RETRO_DEVICE_ID_LIGHTGUN_START ≠ 0
            then 0x2 else 0)
      ∧ ∀ k : Fin 32, 5 ≤ k.val → update_gun cb i p k = p k := by
  have hn : ¬ (input_state cb i RETRO_DEVICE_LIGHTGUN 0 RETRO_DEVICE_ID_LIGHTGUN_IS_OFFSCREEN ≠ 0
      ∨ input_state cb i RETRO_DEVICE_LIGHTGUN 0 RETRO_DEVICE_ID_LIGHTGUN_RELOAD ≠ 0) := by
    rw [hoff, hrel]; simp
  apply gun_store_spec p _ _ 0x1 _ _ (by decide)
  unfold update_gun
  simp only [if_neg hn]

/-- The scaling of the Gun: for raw coordinates in the `int16_t` range no intermediate value
leaves the range of `int`, the scaled x is between 19 and 21491 and the scaled y between 0
and 240. -/
theorem gun_scale_range (rx ry : Int) (hx0 : -32768 ≤ rx) (hx1 : rx ≤ 32767)
    (hy0 : -32768 ≤ ry) (hy1 : ry ≤ 32767) :
    (INT_MIN ≤ (rx + 60 + 0x7fff) * 21472 ∧ (rx + 60 + 0x7fff) * 21472 ≤ INT_MAX)
      ∧ (INT_MIN ≤ (ry + 0x7fff) * 240 ∧ (ry + 0x7fff) * 240 ≤ INT_MAX)
      ∧ 19 ≤ Int.tdiv ((rx + 60 + 0x7fff) * 21472) (0x7fff * 2)
      ∧ Int.tdiv ((rx + 60 + 0x7fff) * 21472) (0x7fff * 2) ≤ 21491
      ∧ 0 ≤ Int.tdiv ((ry + 0x7fff) * 240) (0x7fff * 2)
      ∧ Int.tdiv ((ry + 0x7fff) * 240) (0x7fff * 2) ≤ 240 := by
  unfold INT_MIN INT_MAX
  have hxn : (0 : Int) ≤ (rx + 60 + 0x7fff) * 21472 := by omega
  rw [Int.tdiv_eq_ediv hxn (by norm_num)]
  refine ⟨⟨by omega, by omega⟩, ⟨by omega, by omega⟩, by omega, by omega, ?_, ?_⟩
  · by_cases hm : ry = -32768
    · subst hm; decide
    · have hyn : (0 : Int) ≤ (ry + 0x7fff) * 240 := by omega
      rw [Int.tdiv_eq_ediv hyn (by norm_num)]
      omega
  · by_cases hm : ry = -32768
    · subst hm; decide
    · have hyn : (0 : Int) ≤ (ry + 0x7fff) * 240 := by omega
      rw [Int.tdiv_eq_ediv hyn (by norm_num)]
      omega

/-- The status byte of the Gun as a value, for a shot type that is 0x1 or 0x4. -/
theorem gun_status_bits (c1 c2 : Prop) [Decidable c1] [Decidable c2] (shot v : Nat)
    (hs : shot = 0x1 ∨ shot = 0x4)
    (hv : v = (0 ||| (if c1 then shot else 0)) ||| (if c2 then 0x2 else 0)) :
    (v.testBit 0 = true ↔ c1 ∧ shot = 0x1) ∧ (v.testBit 1 = true ↔ c2)
      ∧ (v.testBit 2 = true ↔ c1 ∧ shot = 0x4)
      ∧ (∀ k, 3 ≤ k → v.testBit k = false) ∧ v < 8
      ∧ ¬ (v.testBit 0 = true ∧ v.testBit 2 = true) := by
  have hlt : v < 8 := by
    rw [hv]
    rcases hs with hs | hs <;> subst hs <;> by_cases h1 : c1 <;> by_cases h2 : c2 <;>
      simp only [h1, h2, if_true, if_false] <;> decide
  refine ⟨?_, ?_, ?_, ?_, hlt, ?_⟩
  · rw [hv]
    rcases hs with hs | hs <;> subst hs <;> by_cases h1 : c1 <;> by_cases h2 : c2 <;>
      simp only [h1, h2, if_true, if_false, true_and, false_and, iff_false] <;> decide
  · rw [hv]
    rcases hs with hs | hs <;> subst hs <;> by_cases h1 : c1 <;> by_cases h2 : c2 <;>
      simp only [h1, h2, if_true, if_false, iff_true, iff_false] <;> decide
  · rw [hv]
    rcases hs with hs | hs <;> subst hs <;> by_cases h1 : c1 <;> by_cases h2 : c2 <;>
      simp only [h1, h2, if_true, if_false, true_and, false_and, iff_false] <;> decide
  · intro k hk
    apply Nat.testBit_lt_two_pow
    calc v < 8 := hlt
      _ = 2 ^ 3 := by norm_num
      _ ≤ 2 ^ k := Nat.pow_le_pow_right (by norm_num) hk
  · rw [hv]
    rcases hs with hs | hs <;> subst hs <;> by_cases h1 : c1 <;> by_cases h2 : c2 <;>
      simp only [h1, h2, if_true, if_false] <;> decide

/-- C18: for every polled Gun port, if the off-screen flag or the reload flag is non-zero,
then after `input_update` each of the two 16-bit position words equals 0xC000, the 16-bit
form of -16384 (bytes 0x00 0xC0 0x00 0xC0), whatever the callback reports as the screen
coordinates, and the shot type used is the off-screen one: the status byte is 0x4 when the
trigger is held or reload is forced, OR 0x2 when start is held, so its on-screen bit 0x1 is
clear. -/
theorem gun_offscreen_position (rescale : PolarRescale) (cb : InputStateCb) (s s' : State)
    (i : Nat) (h : input_update rescale cb s = some s') (hi : i < s.players)
    (ht : s.input_type i = RETRO_DEVICE_SS_GUN)
    (hoff : input_state cb i RETRO_DEVICE_LIGHTGUN 0 RETRO_DEVICE_ID_LIGHTGUN_IS_OFFSCREEN ≠ 0
      ∨ input_state cb i RETRO_DEVICE_LIGHTGUN 0 RETRO_DEVICE_ID_LIGHTGUN_RELOAD ≠ 0) :
    get_u16 (s'.input_data i) 0 = 0xC000 ∧ get_u16 (s'.input_data i) 2 = 0xC000
      ∧ s'.input_data i 0 = 0x00 ∧ s'.input_data i 1 = 0xC0
      ∧ s'.input_data i 2 = 0x00 ∧ s'.input_data i 3 = 0xC0
      ∧ uint16 (-16384) = 0xC000 ∧ int16 0xC000 = -16384
      ∧ s'.input_data i 4 = (0 |||
          (if input_state cb i RETRO_DEVICE_LIGHTGUN 0 RETRO_DEVICE_ID_LIGHTGUN_TRIGGER ≠ 0
              ∨ input_state cb i RETRO_DEVICE_LIGHTGUN 0 RETRO_DEVICE_ID_LIGHTGUN_RELOAD ≠ 0
            then 0x4 else 0)) |||
          (if input_state cb i RETRO_DEVICE_LIGHTGUN 0 RETRO_DEVICE_ID_LIGHTGUN_START ≠ 0
            then 0x2 else 0)
      ∧ (s'.input_data i 4).testBit 0 = false := by
  obtain ⟨hd, _⟩ := input_update_gun rescale cb s s' i h hi ht
  obtain ⟨b0, b1, b2, b3, b4, _⟩ := update_gun_offscreen cb i
    (set_buttons (s.input_data i) 0) hoff
  rw [← hd] at b0 b1 b2 b3 b4
  have u : uint16 (-16384) = 0xC000 := by decide
  rw [u] at b0 b1 b2 b3
  have e0 : s'.input_data i 0 = 0 := b0
  have e1 : s'.input_data i 1 = 0xC0 := b1
  have e2 : s'.input_data i 2 = 0 := b2
  have e3 : s'.input_data i 3 = 0xC0 := b3
  have g0 : get_u16 (s'.input_data i) 0 = s'.input_data i 0 + 256 * s'.input_data i 1 := rfl
  have g2 : get_u16 (s'.input_data i) 2 = s'.input_data i 2 + 256 * s'.input_data i 3 := rfl
  have hbit := (gun_status_bits _ _ 0x4 _ (Or.inr rfl) b4).1
  refine ⟨by rw [g0, e0, e1], by rw [g2, e2, e3], e0, e1, e2, e3, u, by decide, b4, ?_⟩
  rcases hb : (s'.input_data i 4).testBit 0 with _ | _
  · rfl
  · exact absurd (hbit.mp hb).2 (by decide)

/-- C19: for every polled Gun port with neither the off-screen nor the reload flag set and
raw screen coordinates `(rx, ry)`: after `input_update` the position words hold
x = ((rx + 60 + 0x7fff) * 21472) / 65534 and y = ((ry + 0x7fff) * 240) / 65534 with the
division truncating toward zero; the products stay inside the range of `int`, x is between
19 and 21491 and y between 0 and 240, so each word stores its value unchanged; and the shot
type used is the on-screen one: the status byte is 0x1 when the trigger is held, OR 0x2
when start is held. -/
theorem gun_onscreen_position (rescale : PolarRescale) (cb : InputStateCb) (s s' : State)
    (i : Nat) (h : input_update rescale cb s = some s') (hi : i < s.players)
    (ht : s.input_type i = RETRO_DEVICE_SS_GUN)
    (hoff : input_state cb i RETRO_DEVICE_LIGHTGUN 0 RETRO_DEVICE_ID_LIGHTGUN_IS_OFFSCREEN = 0)
    (hrel : input_state cb i RETRO_DEVICE_LIGHTGUN 0 RETRO_DEVICE_ID_LIGHTGUN_RELOAD = 0) :
    ∃ x y : Int,
      x = Int.tdiv ((input_state cb i RETRO_DEVICE_LIGHTGUN 0 RETRO_DEVICE_ID_LIGHTGUN_SCREEN_X
          + 60 + 0x7fff) * 21472) 65534
      ∧ y = Int.tdiv ((input_state cb i RETRO_DEVICE_LIGHTGUN 0 RETRO_DEVICE_ID_LIGHTGUN_SCREEN_Y
          + 0x7fff) * 240) 65534
      ∧ (get_u16 (s'.input_data i) 0 : Int) = x ∧ (get_u16 (s'.input_data i) 2 : Int) = y
      ∧ s'.input_data i 0 = x.toNat % 256 ∧ s'.input_data i 1 = x.toNat / 256
      ∧ s'.input_data i 2 = y.toNat % 256 ∧ s'.input_data i 3 = y.toNat / 256
      ∧ 19 ≤ x ∧ x ≤ 21491 ∧ 0 ≤ y ∧ y ≤ 240
      ∧ (INT_MIN ≤ (input_state cb i RETRO_DEVICE_LIGHTGUN 0 RETRO_DEVICE_ID_LIGHTGUN_SCREEN_X
            + 60 + 0x7fff) * 21472
        ∧ (input_state cb i RETRO_DEVICE_LIGHTGUN 0 RETRO_DEVICE_ID_LIGHTGUN_SCREEN_X
            + 60 + 0x7fff) * 21472 ≤ INT_MAX)
      ∧ (INT_MIN ≤ (input_state cb i RETRO_DEVICE_LIGHTGUN 0 RETRO_DEVICE_ID_LIGHTGUN_SCREEN_Y
            + 0x7fff) * 240
        ∧ (input_state cb i RETRO_DEVICE_LIGHTGUN 0 RETRO_DEVICE_ID_LIGHTGUN_SCREEN_Y
            + 0x7fff) * 240 ≤ INT_MAX)
      ∧ s'.input_data i 4 = (0 |||
          (if input_state cb i RETRO_DEVICE_LIGHTGUN 0 RETRO_DEVICE_ID_LIGHTGUN_TRIGGER ≠ 0
            then 0x1 else 0)) |||
          (if input_state cb i RETRO_DEVICE_LIGHTGUN 0 RETRO_DEVICE_ID_LIGHTGUN_START ≠ 0
            then 0x2 else 0)
      ∧ (s'.input_data i 4).testBit 2 = false := by
  obtain ⟨hd, _⟩ := input_update_gun rescale cb s s' i h hi ht
  obtain ⟨b0, b1, b2, b3, b4, _⟩ := update_gun_onscreen cb i
    (set_buttons (s.input_data i) 0) hoff hrel
  rw [← hd] at b0 b1 b2 b3 b4
  obtain ⟨hx0, hx1⟩ := input_state_range cb i RETRO_DEVICE_LIGHTGUN 0
    RETRO_DEVICE_ID_LIGHTGUN_SCREEN_X
  obtain ⟨hy0, hy1⟩ := input_state_range cb i RETRO_DEVICE_LIGHTGUN 0
    RETRO_DEVICE_ID_LIGHTGUN_SCREEN_Y
  obtain ⟨ox, oy, x0, x1, y0, y1⟩ := gun_scale_range _ _ hx0 hx1 hy0 hy1
  have c : ((0x7fff : Int) * 2) = 65534 := by norm_num
  rw [c] at b0 b1 b2 b3 x0 x1 y0 y1
  generalize Int.tdiv ((input_state cb i RETRO_DEVICE_LIGHTGUN 0
    RETRO_DEVICE_ID_LIGHTGUN_SCREEN_X + 60 + 0x7fff) * 21472) 65534 = x at b0 b1 x0 x1 ⊢
  generalize Int.tdiv ((input_state cb i RETRO_DEVICE_LIGHTGUN 0
    RETRO_DEVICE_ID_LIGHTGUN_SCREEN_Y + 0x7fff) * 240) 65534 = y at b2 b3 y0 y1 ⊢
  have ux : uint16 x = x.toNat := by
    unfold uint16
    rw [Int.emod_eq_of_lt (by omega) (by omega)]
  have uy : uint16 y = y.toNat := by
    unfold uint16
    rw [Int.emod_eq_of_lt (by omega) (by omega)]
  rw [ux] at b0 b1
  rw [uy] at b2 b3
  have g0 : get_u16 (s'.input_data i) 0 = s'.input_data i 0 + 256 * s'.input_data i 1 := rfl
  have g2 : get_u16 (s'.input_data i) 2 = s'.input_data i 2 + 256 * s'.input_data i 3 := rfl
  have e0 : s'.input_data i 0 = x.toNat % 256 := b0
  have e1 : s'.input_data i 1 = x.toNat / 256 % 256 := b1
  have e2 : s'.input_data i 2 = y.toNat % 256 := b2
  have e3 : s'.input_data i 3 = y.toNat / 256 % 256 := b3
  have hc : (input_state cb i RETRO_DEVICE_LIGHTGUN 0 RETRO_DEVICE_ID_LIGHTGUN_TRIGGER ≠ 0
      ∨ input_state cb i RETRO_DEVICE_LIGHTGUN 0 RETRO_DEVICE_ID_LIGHTGUN_RELOAD ≠ 0)
      ↔ input_state cb i RETRO_DEVICE_LIGHTGUN 0 RETRO_DEVICE_ID_LIGHTGUN_TRIGGER ≠ 0 := by
    rw [hrel]; simp
  have hbit := (gun_status_bits _ _ 0x1 _ (Or.inl rfl) b4).2.2.1
  refine ⟨x, y, rfl, rfl, ?_, ?_, e0, ?_, e2, ?_, x0, x1, y0, y1, ox, oy, ?_, ?_⟩
  · rw [g0, e0, e1]; omega
  · rw [g2, e2, e3]; omega
  · rw [e1]; omega
  · rw [e3]; omega
  · rw [b4]
    simp only [hc]
  · rcases hb : (s'.input_data i 4).testBit 2 with _ | _
    · rfl
    · exact absurd (hbit.mp hb).2 (by decide)

/-- C20: for every polled Gun port, after `input_update` the status byte at offset 4
equals (shot_type if the trigger is held or reload is forced, else 0) OR (0x2 if start is
held, else 0), where shot_type is 0x4 when the off-screen flag or the reload flag is set and
0x1 otherwise; bit 1 is the start button, bits 3..7 (every bit from 3 on) are 0, and the
on-screen bit 0x1 and the off-screen bit 0x4 are never both set. -/
theorem gun_status_exact (rescale : PolarRescale) (cb : InputStateCb) (s s' : State)
    (i : Nat) (h : input_update rescale cb s = some s') (hi : i < s.players)
    (ht : s.input_type i = RETRO_DEVICE_SS_GUN) :
    ∃ shot_type : Nat,
      shot_type = (if input_state cb i RETRO_DEVICE_LIGHTGUN 0
            RETRO_DEVICE_ID_LIGHTGUN_IS_OFFSCREEN ≠ 0
          ∨ input_state cb i RETRO_DEVICE_LIGHTGUN 0 RETRO_DEVICE_ID_LIGHTGUN_RELOAD ≠ 0
        then 0x4 else 0x1)
      ∧ s'.input_data i 4 =
          (if input_state cb i RETRO_DEVICE_LIGHTGUN 0 RETRO_DEVICE_ID_LIGHTGUN_TRIGGER ≠ 0
              ∨ input_state cb i RETRO_DEVICE_LIGHTGUN 0 RETRO_DEVICE_ID_LIGHTGUN_RELOAD ≠ 0
            then shot_type else 0) |||
          (if input_state cb i RETRO_DEVICE_LIGHTGUN 0 RETRO_DEVICE_ID_LIGHTGUN_START ≠ 0
            then 0x2 else 0)
      ∧ ((s'.input_data i 4).testBit 1 = true
          ↔ input_state cb i RETRO_DEVICE_LIGHTGUN 0 RETRO_DEVICE_ID_LIGHTGUN_START ≠ 0)
      ∧ (∀ k, 3 ≤ k → (s'.input_data i 4).testBit k = false)
      ∧ s'.input_data i 4 < 8
      ∧ ¬ ((s'.input_data i 4).testBit 0 = true ∧ (s'.input_data i 4).testBit 2 = true) := by
  obtain ⟨hd, _⟩ := input_update_gun rescale cb s s' i h hi ht
  by_cases hoff : input_state cb i RETRO_DEVICE_LIGHTGUN 0
      RETRO_DEVICE_ID_LIGHTGUN_IS_OFFSCREEN ≠ 0
    ∨ input_state cb i RETRO_DEVICE_LIGHTGUN 0 RETRO_DEVICE_ID_LIGHTGUN_RELOAD ≠ 0
  · obtain ⟨_, _, _, _, b4, _⟩ := update_gun_offscreen cb i
      (set_buttons (s.input_data i) 0) hoff
    rw [← hd] at b4
    obtain ⟨_, t1, _, t3, lt, ex⟩ := gun_status_bits _ _ 0x4 _ (Or.inr rfl) b4
    refine ⟨0x4, by rw [if_pos hoff], ?_, t1, t3, lt, ex⟩
    rw [b4, Nat.zero_or]
  · have hoff' := hoff
    rw [not_or, not_not, not_not] at hoff'
    obtain ⟨_, _, _, _, b4, _⟩ := update_gun_onscreen cb i
      (set_buttons (s.input_data i) 0) hoff'.1 hoff'.2
    rw [← hd] at b4
    obtain ⟨_, t1, _, t3, lt, ex⟩ := gun_status_bits _ _ 0x1 _ (Or.inl rfl) b4
    refine ⟨0x1, by rw [if_neg hoff], ?_, t1, t3, lt, ex⟩
    rw [b4, Nat.zero_or]

/-! ## Sample runs of the shaping, the wheel, the mouse and the gun -/

/-- Sample values for C12: the deadzone magnitude 4915 (15 percent). -/
theorem deadzone_boundary_witness :
    (0 : Nat) < 4915 ∧ (4915 : Nat) < 0x8000
      ∧ apply_trigger_deadzone ((4915 : Nat) : Int) 4915 = some 0
      ∧ (∃ r : Int, wheel_deadzone ((4915 : Nat) : Int) (((4915 : Nat) : Int) + 1) = some r
          ∧ 0 < r) :=
  ⟨by decide, by decide,
    (deadzone_boundary sample_rescale 4915 3000 (-3000) (by decide) (by decide)).1,
    (deadzone_boundary sample_rescale 4915 3000 (-3000) (by decide) (by decide)).2.2.2.2.2.1⟩

/-- Sample values for C13: the deadzone magnitude 4915 and the steering value 20000. -/
theorem wheel_deadzone_odd_witness :
    (0 : Int) < 4915 ∧ (4915 : Int) < 0x8000 ∧ (-32767 : Int) ≤ 20000 ∧ (20000 : Int) ≤ 32767
      ∧ ∃ r : Int, wheel_deadzone 4915 20000 = some r
          ∧ wheel_deadzone 4915 (-20000) = some (-r) :=
  ⟨by decide, by decide, by decide, by decide,
    wheel_deadzone_odd 4915 20000 (by decide) (by decide) (by decide) (by decide)⟩

theorem sample_wheel_defined :
    (input_update sample_rescale (sample_cb_button RETRO_DEVICE_ID_JOYPAD_L2)
      (sample_state RETRO_DEVICE_SS_WHEEL)).isSome = true := by
  decide!

/-- Sample run for C14: both ports Arcade Racers, only the left shift paddle (L2) held. -/
theorem wheel_buttons_exact_witness :
    ∃ s', input_update sample_rescale (sample_cb_button RETRO_DEVICE_ID_JOYPAD_L2)
        (sample_state RETRO_DEVICE_SS_WHEEL) = some s'
      ∧ 0 < (sample_state RETRO_DEVICE_SS_WHEEL).players
      ∧ (sample_state RETRO_DEVICE_SS_WHEEL).input_type 0 = RETRO_DEVICE_SS_WHEEL
      ∧ ((get_buttons (s'.input_data 0)).testBit 0 = true
          ↔ input_state (sample_cb_button RETRO_DEVICE_ID_JOYPAD_L2) 0 RETRO_DEVICE_JOYPAD 0
              RETRO_DEVICE_ID_JOYPAD_L2 ≠ 0) :=
  ⟨Option.get _ sample_wheel_defined, (Option.some_get sample_wheel_defined).symm, by decide,
    rfl,
    (wheel_buttons_exact sample_rescale (sample_cb_button RETRO_DEVICE_ID_JOYPAD_L2)
      (sample_state RETRO_DEVICE_SS_WHEEL) _ 0 (Option.some_get sample_wheel_defined).symm
      (by decide) rfl).2.2.1⟩

theorem sample_wheel_steer_defined :
    (input_update sample_rescale (sample_cb_analog 20000)
      (sample_state RETRO_DEVICE_SS_WHEEL)).isSome = true := by
  decide!

/-- Sample run for C15: both ports Arcade Racers, the wheel turned to 20000. -/
theorem wheel_axis_layout_witness :
    ∃ s', input_update sample_rescale (sample_cb_analog 20000)
        (sample_state RETRO_DEVICE_SS_WHEEL) = some s'
      ∧ 0 < (sample_state RETRO_DEVICE_SS_WHEEL).players
      ∧ (sample_state RETRO_DEVICE_SS_WHEEL).input_type 0 = RETRO_DEVICE_SS_WHEEL
      ∧ ∃ (x : Int) (left right : Nat),
          wheel_deadzone (sample_state RETRO_DEVICE_SS_WHEEL).astick_deadzone
              (input_state (sample_cb_analog 20000) 0 RETRO_DEVICE_ANALOG
                RETRO_DEVICE_INDEX_ANALOG_LEFT RETRO_DEVICE_ID_ANALOG_X) = some x
          ∧ (left : Int) = max (-x) 0 ∧ (right : Int) = max x 0
          ∧ s'.input_data 0 2 = left % 256 ∧ s'.input_data 0 3 = left / 256
          ∧ s'.input_data 0 4 = right % 256 ∧ s'.input_data 0 5 = right / 256
          ∧ left < 65536 ∧ right < 65536
          ∧ (left = 0 ∨ right = 0)
          ∧ (right : Int) - left = x :=
  ⟨Option.get _ sample_wheel_steer_defined,
    (Option.some_get sample_wheel_steer_defined).symm, by decide, rfl,
    wheel_axis_layout sample_rescale (sample_cb_analog 20000)
      (sample_state RETRO_DEVICE_SS_WHEEL) _ 0
      (Option.some_get sample_wheel_steer_defined).symm (by decide) rfl⟩

theorem sample_mouse_defined :
    (input_update sample_rescale (sample_cb_button RETRO_DEVICE_ID_JOYPAD_START)
      (sample_state RETRO_DEVICE_SS_MOUSE)).isSome = true := by
  decide!

/-- Sample run for C16: both ports Mice, only the joypad start button held. -/
theorem mouse_status_exact_witness :
    ∃ s', input_update sample_rescale (sample_cb_button RETRO_DEVICE_ID_JOYPAD_START)
        (sample_state RETRO_DEVICE_SS_MOUSE) = some s'
      ∧ 0 < (sample_state RETRO_DEVICE_SS_MOUSE).players
      ∧ (sample_state RETRO_DEVICE_SS_MOUSE).input_type 0 = RETRO_DEVICE_SS_MOUSE
      ∧ ((s'.input_data 0 8).testBit 0 = true
          ↔ input_state (sample_cb_button RETRO_DEVICE_ID_JOYPAD_START) 0 RETRO_DEVICE_MOUSE 0
              RETRO_DEVICE_ID_MOUSE_LEFT ≠ 0)
      ∧ s'.input_data 0 8 < 16 :=
  ⟨Option.get _ sample_mouse_defined, (Option.some_get sample_mouse_defined).symm, by decide,
    rfl,
    (mouse_status_exact sample_rescale (sample_cb_button RETRO_DEVICE_ID_JOYPAD_START)
      (sample_state RETRO_DEVICE_SS_MOUSE) _ 0 (Option.some_get sample_mouse_defined).symm
      (by decide) rfl).1,
    (mouse_status_exact sample_rescale (sample_cb_button RETRO_DEVICE_ID_JOYPAD_START)
      (sample_state RETRO_DEVICE_SS_MOUSE) _ 0 (Option.some_get sample_mouse_defined).symm
      (by decide) rfl).2.2.2.2.2⟩

theorem sample_mouse_motion_defined :
    (input_update sample_rescale (sample_cb_mouse 5 (-5))
      (input_set_mouse_sensitivity 70 (sample_state RETRO_DEVICE_SS_MOUSE))).isSome = true := by
  decide!

theorem sample_mouse_sensitivity :
    (input_set_mouse_sensitivity 70 (sample_state RETRO_DEVICE_SS_MOUSE)).mouse_sensitivity
      = F32.fin (11744051 / 16777216) := by
  decide!

/-- Sample run for C17: both ports Mice at 70 percent sensitivity, a motion of (5, -5). -/
theorem mouse_delta_within_one_witness :
    ∃ s', input_update sample_rescale (sample_cb_mouse 5 (-5))
        (input_set_mouse_sensitivity 70 (sample_state RETRO_DEVICE_SS_MOUSE)) = some s'
      ∧ 0 < (input_set_mouse_sensitivity 70 (sample_state RETRO_DEVICE_SS_MOUSE)).players
      ∧ (input_set_mouse_sensitivity 70 (sample_state RETRO_DEVICE_SS_MOUSE)).input_type 0
          = RETRO_DEVICE_SS_MOUSE
      ∧ (input_set_mouse_sensitivity 70 (sample_state RETRO_DEVICE_SS_MOUSE)).mouse_sensitivity
          = F32.fin (11744051 / 16777216)
      ∧ (1 : ℚ) / 128 ≤ 11744051 / 16777216 ∧ (11744051 : ℚ) / 16777216 ≤ 4
      ∧ |get_i32 (s'.input_data 0) 0 - roundHalfAway
          ((input_state (sample_cb_mouse 5 (-5)) 0 RETRO_DEVICE_MOUSE 0
            RETRO_DEVICE_ID_MOUSE_X : ℚ) * (11744051 / 16777216))| ≤ 1 :=
  ⟨Option.get _ sample_mouse_motion_defined,
    (Option.some_get sample_mouse_motion_defined).symm, by decide, rfl,
    sample_mouse_sensitivity, by norm_num, by norm_num,
    (mouse_delta_within_one sample_rescale (sample_cb_mouse 5 (-5))
      (input_set_mouse_sensitivity 70 (sample_state RETRO_DEVICE_SS_MOUSE)) _ 0
      (11744051 / 16777216) (Option.some_get sample_mouse_motion_defined).symm (by decide) rfl
      sample_mouse_sensitivity (by norm_num) (by norm_num)).2.2.2.1⟩

theorem sample_gun_offscreen_defined :
    (input_update sample_rescale (sample_cb_gun 1 0 1 100 200)
      (sample_state RETRO_DEVICE_SS_GUN)).isSome = true := by
  decide!

/-- Sample run for C18: both ports Guns, aimed off-screen with the trigger held. -/
theorem gun_offscreen_position_witness :
    ∃ s', input_update sample_rescale (sample_cb_gun 1 0 1 100 200)
        (sample_state RETRO_DEVICE_SS_GUN) = some s'
      ∧ 0 < (sample_state RETRO_DEVICE_SS_GUN).players
      ∧ (sample_state RETRO_DEVICE_SS_GUN).input_type 0 = RETRO_DEVICE_SS_GUN
      ∧ (input_state (sample_cb_gun 1 0 1 100 200) 0 RETRO_DEVICE_LIGHTGUN 0
            RETRO_DEVICE_ID_LIGHTGUN_IS_OFFSCREEN ≠ 0
          ∨ input_state (sample_cb_gun 1 0 1 100 200) 0 RETRO_DEVICE_LIGHTGUN 0
            RETRO_DEVICE_ID_LIGHTGUN_RELOAD ≠ 0)
      ∧ get_u16 (s'.input_data 0) 0 = 0xC000 ∧ get_u16 (s'.input_data 0) 2 = 0xC000 :=
  ⟨Option.get _ sample_gun_offscreen_defined,
    (Option.some_get sample_gun_offscreen_defined).symm, by decide, rfl,
    Or.inl (by decide),
    (gun_offscreen_position sample_rescale (sample_cb_gun 1 0 1 100 200)
      (sample_state RETRO_DEVICE_SS_GUN) _ 0
      (Option.some_get sample_gun_offscreen_defined).symm (by decide) rfl
      (Or.inl (by decide))).1,
    (gun_offscreen_position sample_rescale (sample_cb_gun 1 0 1 100 200)
      (sample_state RETRO_DEVICE_SS_GUN) _ 0
      (Option.some_get sample_gun_offscreen_defined).symm (by decide) rfl
      (Or.inl (by decide))).2.1⟩

theorem sample_gun_onscreen_defined :
    (input_update sample_rescale (sample_cb_gun 0 0 1 100 200)
      (sample_state RETRO_DEVICE_SS_GUN)).isSome = true := by
  decide!

/-- Sample run for C19: both ports Guns, aimed on-screen at (100, 200) with the trigger
held. -/
theorem gun_onscreen_position_witness :
    ∃ s', input_update sample_rescale (sample_cb_gun 0 0 1 100 200)
        (sample_state RETRO_DEVICE_SS_GUN) = some s'
      ∧ 0 < (sample_state RETRO_DEVICE_SS_GUN).players
      ∧ (sample_state RETRO_DEVICE_SS_GUN).input_type 0 = RETRO_DEVICE_SS_GUN
      ∧ input_state (sample_cb_gun 0 0 1 100 200) 0 RETRO_DEVICE_LIGHTGUN 0
            RETRO_DEVICE_ID_LIGHTGUN_IS_OFFSCREEN = 0
      ∧ input_state (sample_cb_gun 0 0 1 100 200) 0 RETRO_DEVICE_LIGHTGUN 0
            RETRO_DEVICE_ID_LIGHTGUN_RELOAD = 0
      ∧ ∃ x y : Int,
          x = Int.tdiv ((input_state (sample_cb_gun 0 0 1 100 200) 0 RETRO_DEVICE_LIGHTGUN 0
              RETRO_DEVICE_ID_LIGHTGUN_SCREEN_X + 60 + 0x7fff) * 21472) 65534
          ∧ y = Int.tdiv ((input_state (sample_cb_gun 0 0 1 100 200) 0 RETRO_DEVICE_LIGHTGUN 0
              RETRO_DEVICE_ID_LIGHTGUN_SCREEN_Y + 0x7fff) * 240) 65534
          ∧ (get_u16 (s'.input_data 0) 0 : Int) = x ∧ (get_u16 (s'.input_data 0) 2 : Int) = y :=
  ⟨Option.get _ sample_gun_onscreen_defined,
    (Option.some_get sample_gun_onscreen_defined).symm, by decide, rfl,
    by decide, by decide,
    (gun_onscreen_position sample_rescale (sample_cb_gun 0 0 1 100 200)
      (sample_state RETRO_DEVICE_SS_GUN) _ 0
      (Option.some_get sample_gun_onscreen_defined).symm (by decide) rfl
      (by decide) (by decide)).imp fun _ hx => hx.imp fun _ hy =>
        ⟨hy.1, hy.2.1, hy.2.2.1, hy.2.2.2.1⟩⟩

theorem sample_gun_reload_defined :
    (input_update sample_rescale (sample_cb_gun 0 1 0 100 200)
      (sample_state RETRO_DEVICE_SS_GUN)).isSome = true := by
  decide!

/-- Sample run for C20: both ports Guns, reload forced while aiming on-screen. -/
theorem gun_status_exact_witness :
    ∃ s', input_update sample_rescale (sample_cb_gun 0 1 0 100 200)
        (sample_state RETRO_DEVICE_SS_GUN) = some s'
      ∧ 0 < (sample_state RETRO_DEVICE_SS_GUN).players
      ∧ (sample_state RETRO_DEVICE_SS_GUN).input_type 0 = RETRO_DEVICE_SS_GUN
      ∧ ∃ shot_type : Nat,
          shot_type = (if input_state (sample_cb_gun 0 1 0 100 200) 0 RETRO_DEVICE_LIGHTGUN 0
                RETRO_DEVICE_ID_LIGHTGUN_IS_OFFSCREEN ≠ 0
              ∨ input_state (sample_cb_gun 0 1 0 100 200) 0 RETRO_DEVICE_LIGHTGUN 0
                RETRO_DEVICE_ID_LIGHTGUN_RELOAD ≠ 0
            then 0x4 else 0x1)
          ∧ s'.input_data 0 4 < 8
          ∧ ¬ ((s'.input_data 0 4).testBit 0 = true ∧ (s'.input_data 0 4).testBit 2 = true) :=
  ⟨Option.get _ sample_gun_reload_defined,
    (Option.some_get sample_gun_reload_defined).symm, by decide, rfl,
    (gun_status_exact sample_rescale (sample_cb_gun 0 1 0 100 200)
      (sample_state RETRO_DEVICE_SS_GUN) _ 0
      (Option.some_get sample_gun_reload_defined).symm (by decide) rfl).imp fun _ hs =>
        ⟨hs.1, hs.2.2.2.2.1, hs.2.2.2.2.2⟩⟩

/-! ### Port topology: `input_multitap` -/

/-- The player count that goes with the two multitap flags. -/
theorem players_of_flags (m1 m2 : Bool) :
    (if m2 = true then (if m1 = true then 2 + 5 else 2) + 5 else (if m1 = true then 2 + 5 else 2))
      = 2 + 5 * (if m1 = true then 1 else 0) + 5 * (if m2 = true then 1 else 0) := by
  cases m1 <;> cases m2 <;> rfl

/-- Everything `input_multitap` does: the flag of the port named is set to `enabled`, the
other flag is kept, the player count is recomputed from the two flags, a log line and one
`SMPC_SetMultitap` call are appended exactly when the flag changes, and nothing else is
touched. -/
theorem input_multitap_spec (port : Int) (enabled : Bool) (s : State) :
    (input_multitap port enabled s).setting_multitap_port1
        = (if port = 1 then enabled else s.setting_multitap_port1)
      ∧ (input_multitap port enabled s).setting_multitap_port2
        = (if port = 2 then enabled else s.setting_multitap_port2)
      ∧ (input_multitap port enabled s).players
        = 2 + 5 * (if (input_multitap port enabled s).setting_multitap_port1 = true then 1 else 0)
            + 5 * (if (input_multitap port enabled s).setting_multitap_port2 = true then 1 else 0)
      ∧ (input_multitap port enabled s).events
        = s.events ++
          (if port = 1 ∧ enabled ≠ s.setting_multitap_port1 then
            [Event.log false (if enabled = true then "Connected 6Player Adaptor to Port 1\n"
                else "Removed 6Player Adaptor from Port 1\n"),
              Event.smpc_set_multitap 0 enabled]
          else if port = 2 ∧ enabled ≠ s.setting_multitap_port2 then
            [Event.log false (if enabled = true then "Connected 6Player Adaptor to Port 2\n"
                else "Removed 6Player Adaptor from Port 2\n"),
              Event.smpc_set_multitap 1 enabled]
          else [])
      ∧ (input_multitap port enabled s).input_type = s.input_type
      ∧ (input_multitap port enabled s).input_data = s.input_data
      ∧ (input_multitap port enabled s).input_mode = s.input_mode
      ∧ (input_multitap port enabled s).astick_deadzone = s.astick_deadzone
      ∧ (input_multitap port enabled s).trigger_deadzone = s.trigger_deadzone
      ∧ (input_multitap port enabled s).mouse_sensitivity = s.mouse_sensitivity := by
  by_cases h1 : port = 1
  · subst h1
    by_cases hc : enabled = s.setting_multitap_port1
    · simp [input_multitap, hc, players_of_flags]
    · simp [input_multitap, hc, players_of_flags]
  · by_cases h2 : port = 2
    · subst h2
      by_cases hc : enabled = s.setting_multitap_port2
      · simp [input_multitap, hc, players_of_flags]
      · simp [input_multitap, hc, players_of_flags]
    · simp [input_multitap, h1, h2, players_of_flags]

/-! ### Device assignment: `retro_set_controller_port_device` -/

/-- The mode word the `switch ( device )` stores: only the 3D Control Pad case stores
one. -/
theorem device_binding_mode (in_port device : Nat) :
    (device_binding in_port device).2.2
      = (if device = RETRO_DEVICE_SS_3D_PAD then some INPUT_MODE_DEFAULT_3D_PAD else none) := by
  unfold device_binding
  by_cases h : device = RETRO_DEVICE_SS_3D_PAD
  · subst h
    rfl
  · rw [if_neg h]
    split_ifs <;> rfl

/-- The key the `switch ( device )` hands to `SMPC_SetInput`, and whether the line it logs
is a warning. -/
theorem device_binding_key (in_port device : Nat) :
    ((device = RETRO_DEVICE_JOYPAD ∨ device = RETRO_DEVICE_SS_PAD)
        → (device_binding in_port device).2.1 = "gamepad"
          ∧ (device_binding in_port device).1.1 = false)
      ∧ (device = RETRO_DEVICE_SS_3D_PAD → (device_binding in_port device).2.1 = "3dpad"
          ∧ (device_binding in_port device).1.1 = false)
      ∧ (device = RETRO_DEVICE_SS_WHEEL → (device_binding in_port device).2.1 = "wheel"
          ∧ (device_binding in_port device).1.1 = false)
      ∧ (device = RETRO_DEVICE_SS_MOUSE → (device_binding in_port device).2.1 = "mouse"
          ∧ (device_binding in_port device).1.1 = false)
      ∧ (device = RETRO_DEVICE_SS_GUN → (device_binding in_port device).2.1 = "gun"
          ∧ (device_binding in_port device).1.1 = false)
      ∧ (device = RETRO_DEVICE_NONE → (device_binding in_port device).2.1 = "none"
          ∧ (device_binding in_port device).1.1 = false)
      ∧ (device ≠ RETRO_DEVICE_NONE → device ≠ RETRO_DEVICE_JOYPAD
          → device ≠ RETRO_DEVICE_SS_PAD → device ≠ RETRO_DEVICE_SS_3D_PAD
          → device ≠ RETRO_DEVICE_SS_WHEEL → device ≠ RETRO_DEVICE_SS_MOUSE
          → device ≠ RETRO_DEVICE_SS_GUN
          → (device_binding in_port device).2.1 = "none"
            ∧ (device_binding in_port device).1.1 = true
            ∧ (device_binding in_port device).1.2 = "Controller " ++ toString (in_port + 1)
                ++ ": Unsupported Device (" ++ toString device ++ ")\n") := by
  refine ⟨?_, ?_, ?_, ?_, ?_, ?_, ?_⟩
  · rintro (h | h) <;> subst h <;> exact ⟨rfl, rfl⟩
  · intro h; subst h; exact ⟨rfl, rfl⟩
  · intro h; subst h; exact ⟨rfl, rfl⟩
  · intro h; subst h; exact ⟨rfl, rfl⟩
  · intro h; subst h; exact ⟨rfl, rfl⟩
  · intro h; subst h; exact ⟨rfl, rfl⟩
  · intro h0 h1 h2 h3 h4 h5 h6
    unfold device_binding
    rw [if_neg h0, if_neg (not_or.mpr ⟨h1, h2⟩), if_neg h3, if_neg h4, if_neg h5, if_neg h6]
    exact ⟨rfl, rfl, rfl⟩

/-- Everything `retro_set_controller_port_device` does for a port below MAX_CONTROLLERS:
the type and the mode word of that port are stored, one log line and one `SMPC_SetInput`
call are appended, and nothing else is touched, the register images included. -/
theorem retro_set_controller_port_device_spec (in_port device : Nat) (s : State)
    (hp : in_port < MAX_CONTROLLERS) :
    (retro_set_controller_port_device in_port device s).input_type
        = Function.update s.input_type in_port device
      ∧ (retro_set_controller_port_device in_port device s).input_mode
        = Function.update s.input_mode in_port
            (if device = RETRO_DEVICE_SS_3D_PAD then INPUT_MODE_DEFAULT_3D_PAD
              else INPUT_MODE_DEFAULT)
      ∧ (retro_set_controller_port_device in_port device s).events
        = s.events ++ [Event.log (device_binding in_port device).1.1
            (device_binding in_port device).1.2,
            Event.smpc_set_input in_port (device_binding in_port device).2.1]
      ∧ (retro_set_controller_port_device in_port device s).input_data = s.input_data
      ∧ (retro_set_controller_port_device in_port device s).players = s.players
      ∧ (retro_set_controller_port_device in_port device s).setting_multitap_port1
          = s.setting_multitap_port1
      ∧ (retro_set_controller_port_device in_port device s).setting_multitap_port2
          = s.setting_multitap_port2
      ∧ (retro_set_controller_port_device in_port device s).astick_deadzone = s.astick_deadzone
      ∧ (retro_set_controller_port_device in_port device s).trigger_deadzone
          = s.trigger_deadzone
      ∧ (retro_set_controller_port_device in_port device s).mouse_sensitivity
          = s.mouse_sensitivity := by
  unfold retro_set_controller_port_device
  rw [if_pos hp]
  simp only [device_binding_mode]
  by_cases h : device = RETRO_DEVICE_SS_3D_PAD
  · simp only [if_pos h, Function.update_idem]
    refine ⟨?_, ?_, ?_, ?_, ?_, ?_, ?_, ?_, ?_, ?_⟩ <;> first | rfl | trivial
  · simp only [if_neg h]
    refine ⟨?_, ?_, ?_, ?_, ?_, ?_, ?_, ?_, ?_, ?_⟩ <;> first | rfl | trivial

/-! ### Initialisation and sequences of calls -/

/-- Everything `input_init` does: the ports below MAX_CONTROLLERS become Control Pads in
the default mode, one `SMPC_SetInput` call per port is appended, and nothing else is
touched. -/
theorem input_init_spec (s : State) :
    (input_init s).players = s.players
      ∧ (input_init s).setting_multitap_port1 = s.setting_multitap_port1
      ∧ (input_init s).setting_multitap_port2 = s.setting_multitap_port2
      ∧ (input_init s).input_data = s.input_data
      ∧ (input_init s).astick_deadzone = s.astick_deadzone
      ∧ (input_init s).trigger_deadzone = s.trigger_deadzone
      ∧ (input_init s).mouse_sensitivity = s.mouse_sensitivity
      ∧ (∀ i, (input_init s).input_type i
          = if i < MAX_CONTROLLERS then RETRO_DEVICE_JOYPAD else s.input_type i)
      ∧ (∀ i, (input_init s).input_mode i
          = if i < MAX_CONTROLLERS then INPUT_MODE_DEFAULT else s.input_mode i)
      ∧ (input_init s).events
          = s.events ++ (List.range MAX_CONTROLLERS).map
              fun i => Event.smpc_set_input i "gamepad" := by
  unfold input_init
  generalize MAX_CONTROLLERS = n
  induction n with
  | zero =>
    simp
  | succ n ih =>
    rw [List.range_succ, List.foldl_append, List.map_append]
    simp only [List.foldl_cons, List.foldl_nil, List.map_cons, List.map_nil]
    obtain ⟨a1, a2, a3, a4, a5, a6, a7, a8, a9, a10⟩ := ih
    refine ⟨a1, a2, a3, a4, a5, a6, a7, ?_, ?_, ?_⟩
    · intro i
      by_cases hin : i = n
      · subst hin
        simp
      · simp only [Function.update_noteq hin, a8 i]
        by_cases hl : i < n
        · rw [if_pos hl, if_pos (by omega)]
        · rw [if_neg hl, if_neg (by omega)]
    · intro i
      by_cases hin : i = n
      · subst hin
        simp
      · simp only [Function.update_noteq hin, a9 i]
        by_cases hl : i < n
        · rw [if_pos hl, if_pos (by omega)]
        · rw [if_neg hl, if_neg (by omega)]
    · simp only [a10, List.append_assoc]

/-- The deadzone setters touch nothing but their deadzone. -/
theorem input_set_deadzone_stick_frame (percent : Int) (s s' : State)
    (h : input_set_deadzone_stick percent s = some s') :
    s'.players = s.players ∧ s'.setting_multitap_port1 = s.setting_multitap_port1
      ∧ s'.setting_multitap_port2 = s.setting_multitap_port2
      ∧ s'.input_data = s.input_data ∧ s'.input_type = s.input_type
      ∧ s'.input_mode = s.input_mode ∧ s'.events = s.events := by
  unfold input_set_deadzone_stick at h
  split_ifs at h
  · rcases hd : deadzone_of_percent percent with _ | d
    · rw [hd] at h; simp at h
    · rw [hd] at h
      simp only [Option.map_some', Option.some.injEq] at h
      subst h
      exact ⟨rfl, rfl, rfl, rfl, rfl, rfl, rfl⟩
  · simp only [Option.some.injEq] at h
    subst h
    exact ⟨rfl, rfl, rfl, rfl, rfl, rfl, rfl⟩

theorem input_set_deadzone_trigger_frame (percent : Int) (s s' : State)
    (h : input_set_deadzone_trigger percent s = some s') :
    s'.players = s.players ∧ s'.setting_multitap_port1 = s.setting_multitap_port1
      ∧ s'.setting_multitap_port2 = s.setting_multitap_port2
      ∧ s'.input_data = s.input_data ∧ s'.input_type = s.input_type
      ∧ s'.input_mode = s.input_mode ∧ s'.events = s.events := by
  unfold input_set_deadzone_trigger at h
  split_ifs at h
  · rcases hd : deadzone_of_percent percent with _ | d
    · rw [hd] at h; simp at h
    · rw [hd] at h
      simp only [Option.map_some', Option.some.injEq] at h
      subst h
      exact ⟨rfl, rfl, rfl, rfl, rfl, rfl, rfl⟩
  · simp only [Option.some.injEq] at h
    subst h
    exact ⟨rfl, rfl, rfl, rfl, rfl, rfl, rfl⟩

theorem input_set_mouse_sensitivity_frame (percent : Int) (s : State) :
    (input_set_mouse_sensitivity percent s).players = s.players
      ∧ (input_set_mouse_sensitivity percent s).setting_multitap_port1
          = s.setting_multitap_port1
      ∧ (input_set_mouse_sensitivity percent s).setting_multitap_port2
          = s.setting_multitap_port2
      ∧ (input_set_mouse_sensitivity percent s).input_data = s.input_data
      ∧ (input_set_mouse_sensitivity percent s).input_type = s.input_type
      ∧ (input_set_mouse_sensitivity percent s).input_mode = s.input_mode
      ∧ (input_set_mouse_sensitivity percent s).events = s.events := by
  unfold input_set_mouse_sensitivity
  split_ifs <;> exact ⟨rfl, rfl, rfl, rfl, rfl, rfl, rfl⟩

/-- A property of the variables kept by every call holds after every sequence of calls. -/
theorem run_calls_invariant (rescale : PolarRescale) (P : State → Prop)
    (hstep : ∀ c s s', P s → Call.run rescale c s = some s' → P s') :
    ∀ (calls : List Call) (s s' : State), P s → run_calls rescale calls s = some s' → P s' := by
  intro calls
  induction calls with
  | nil =>
    intro s s' hs h
    simp only [run_calls, List.foldlM_nil, pure, Option.some.injEq] at h
    subst h
    exact hs
  | cons c rest ih =>
    intro s s' hs h
    simp only [run_calls, List.foldlM_cons, Option.bind_eq_bind] at h
    rcases hc : Call.run rescale c s with _ | t
    · rw [hc] at h; simp at h
    · rw [hc] at h
      simp only [Option.some_bind] at h
      exact ih t s' (hstep c s t hs hc) h

/-- Every call leaves the player count equal to 2, plus 5 per multitap flag set, if it was
so before. -/
theorem call_keeps_player_count (rescale : PolarRescale) (c : Call) (s s' : State)
    (hs : s.players = 2 + 5 * (if s.setting_multitap_port1 = true then 1 else 0)
      + 5 * (if s.setting_multitap_port2 = true then 1 else 0))
    (h : Call.run rescale c s = some s') :
    s'.players = 2 + 5 * (if s'.setting_multitap_port1 = true then 1 else 0)
      + 5 * (if s'.setting_multitap_port2 = true then 1 else 0) := by
  cases c with
  | init =>
    simp only [Call.run, Option.some.injEq] at h
    subst h
    obtain ⟨a1, a2, a3, _⟩ := input_init_spec s
    rw [a1, a2, a3]; exact hs
  | set_deadzone_stick percent =>
    obtain ⟨a1, a2, a3, _⟩ := input_set_deadzone_stick_frame percent s s' h
    rw [a1, a2, a3]; exact hs
  | set_deadzone_trigger percent =>
    obtain ⟨a1, a2, a3, _⟩ := input_set_deadzone_trigger_frame percent s s' h
    rw [a1, a2, a3]; exact hs
  | set_mouse_sensitivity percent =>
    simp only [Call.run, Option.some.injEq] at h
    subst h
    obtain ⟨a1, a2, a3, _⟩ := input_set_mouse_sensitivity_frame percent s
    rw [a1, a2, a3]; exact hs
  | update cb =>
    obtain ⟨a1, _, _, _, _, a6, a7, _⟩ := input_update_loop rescale cb s s.players s' h
    rw [a1, a6, a7]; exact hs
  | set_controller_port_device in_port device =>
    simp only [Call.run, Option.some.injEq] at h
    subst h
    by_cases hp : in_port < MAX_CONTROLLERS
    · obtain ⟨_, _, _, _, a5, a6, a7, _⟩ :=
        retro_set_controller_port_device_spec in_port device s hp
      rw [a5, a6, a7]; exact hs
    · unfold retro_set_controller_port_device
      rw [if_neg hp]; exact hs
  | multitap port enabled =>
    simp only [Call.run, Option.some.injEq] at h
    subst h
    exact (input_multitap_spec port enabled s).2.2.1

/-- In every state reached from the initial one the player count is 2, plus 5 per multitap
flag set. -/
theorem reachable_player_count (rescale : PolarRescale) (calls : List Call) (s : State)
    (h : run_calls rescale calls State.initial = some s) :
    s.players = 2 + 5 * (if s.setting_multitap_port1 = true then 1 else 0)
      + 5 * (if s.setting_multitap_port2 = true then 1 else 0) :=
  run_calls_invariant rescale
    (fun s => s.players = 2 + 5 * (if s.setting_multitap_port1 = true then 1 else 0)
      + 5 * (if s.setting_multitap_port2 = true then 1 else 0))
    (call_keeps_player_count rescale) calls State.initial s rfl h

/-- When `enabled` is the flag already stored and the player count goes with the flags,
`input_multitap` changes nothing. -/
theorem input_multitap_same (port : Int) (enabled : Bool) (s : State)
    (hs : s.players = 2 + 5 * (if s.setting_multitap_port1 = true then 1 else 0)
      + 5 * (if s.setting_multitap_port2 = true then 1 else 0))
    (he : enabled = if port = 1 then s.setting_multitap_port1 else s.setting_multitap_port2)
    (hp : port = 1 ∨ port = 2) :
    input_multitap port enabled s = s := by
  obtain ⟨players, ad, td, ms, data, type, mode, m1, m2, ev⟩ := s
  simp only at hs he
  rcases hp with hp | hp
  · subst hp
    simp only [if_true] at he
    subst he
    unfold input_multitap
    simp only [ne_eq, not_true_eq_false, if_false, if_true, players_of_flags]
    rw [← hs]
  · subst hp
    simp only [show ¬ ((2 : Int) = 1) by decide, if_false] at he
    subst he
    unfold input_multitap
    simp only [show ¬ ((2 : Int) = 1) by decide, ne_eq, not_true_eq_false, if_false, if_true,
      players_of_flags]
    rw [← hs]

/-- C21: after every call `input_multitap(port, enabled)` the player count is 2, plus 5
when the multitap flag of port 1 is set, plus 5 when the flag of port 2 is set, computed
from the flags as the call leaves them; with both flags set it is 12, so it is 12 once both
adapters have been enabled, in either order. -/
theorem input_multitap_players (port : Int) (enabled : Bool) (s : State) :
    (input_multitap port enabled s).players
        = 2 + 5 * (if (input_multitap port enabled s).setting_multitap_port1 = true then 1 else 0)
            + 5 * (if (input_multitap port enabled s).setting_multitap_port2 = true then 1 else 0)
      ∧ ((input_multitap port enabled s).setting_multitap_port1 = true
          ∧ (input_multitap port enabled s).setting_multitap_port2 = true
          → (input_multitap port enabled s).players = 12)
      ∧ (input_multitap 2 true (input_multitap 1 true s)).players = 12
      ∧ (input_multitap 1 true (input_multitap 2 true s)).players = 12 := by
  have key : ∀ (p : Int) (e : Bool) (t : State),
      (input_multitap p e t).setting_multitap_port1 = true
        ∧ (input_multitap p e t).setting_multitap_port2 = true
      → (input_multitap p e t).players = 12 := by
    intro p e t ⟨h1, h2⟩
    rw [(input_multitap_spec p e t).2.2.1, h1, h2]
    rfl
  refine ⟨(input_multitap_spec port enabled s).2.2.1, key port enabled s, ?_, ?_⟩
  · apply key
    obtain ⟨a1, a2, _⟩ := input_multitap_spec 2 true (input_multitap 1 true s)
    obtain ⟨b1, _, _⟩ := input_multitap_spec 1 true s
    rw [a1, a2, b1]
    exact ⟨rfl, rfl⟩
  · apply key
    obtain ⟨a1, a2, _⟩ := input_multitap_spec 1 true (input_multitap 2 true s)
    obtain ⟨_, b2, _⟩ := input_multitap_spec 2 true s
    rw [a1, a2, b2]
    exact ⟨rfl, rfl⟩

theorem count_set_multitap_append (a b : List Event) :
    count_set_multitap (a ++ b) = count_set_multitap a + count_set_multitap b := by
  unfold count_set_multitap
  rw [List.filter_append, List.length_append]

/-- C22: in a state reached from the initial one, for `port` 1 or 2:
`input_multitap(port, enabled)` changes nothing at all when `enabled` is the flag stored
for that port (no `SMPC_SetMultitap` call either); otherwise it stores the new flag, keeps
the flag of the other port, and appends one log line and exactly one `SMPC_SetMultitap`
call, with the adapter index `port - 1` and the new value. A second consecutive
`input_multitap(1, true)` changes nothing, and the two calls together make exactly one
`SMPC_SetMultitap` call when the adapter was not connected before them (none when it
was). -/
theorem input_multitap_idempotent (rescale : PolarRescale) (calls : List Call) (s : State)
    (port : Int) (enabled : Bool)
    (hr : run_calls rescale calls State.initial = some s) (hp : port = 1 ∨ port = 2) :
    (enabled = (if port = 1 then s.setting_multitap_port1 else s.setting_multitap_port2)
        → input_multitap port enabled s = s)
      ∧ (enabled ≠ (if port = 1 then s.setting_multitap_port1 else s.setting_multitap_port2)
        → (if port = 1 then (input_multitap port enabled s).setting_multitap_port1
              else (input_multitap port enabled s).setting_multitap_port2) = enabled
          ∧ (if port = 1 then (input_multitap port enabled s).setting_multitap_port2
              else (input_multitap port enabled s).setting_multitap_port1)
            = (if port = 1 then s.setting_multitap_port2 else s.setting_multitap_port1)
          ∧ (∃ text, (input_multitap port enabled s).events
              = s.events ++ [Event.log false text,
                  Event.smpc_set_multitap (port - 1).toNat enabled])
          ∧ count_set_multitap (input_multitap port enabled s).events
              = count_set_multitap s.events + 1)
      ∧ input_multitap 1 true (input_multitap 1 true s) = input_multitap 1 true s
      ∧ count_set_multitap (input_multitap 1 true (input_multitap 1 true s)).events
          = count_set_multitap s.events + (if s.setting_multitap_port1 = true then 0 else 1) := by
  have hs := reachable_player_count rescale calls s hr
  have hsame : input_multitap 1 true (input_multitap 1 true s) = input_multitap 1 true s := by
    apply input_multitap_same 1 true _ (input_multitap_spec 1 true s).2.2.1 _ (Or.inl rfl)
    rw [(input_multitap_spec 1 true s).1]
    rfl
  refine ⟨fun he => input_multitap_same port enabled s hs he hp, ?_, hsame, ?_⟩
  · intro hne
    obtain ⟨a1, a2, _, a4, _⟩ := input_multitap_spec port enabled s
    rcases hp with hp | hp
    · subst hp
      simp only [if_true] at hne ⊢
      have h2 : ¬ ((1 : Int) = 2) := by decide
      rw [a1, a2, a4]
      simp only [if_true, h2, if_false, true_and, ne_eq, hne, not_false_eq_true]
      refine ⟨⟨_, rfl⟩, ?_⟩
      rw [count_set_multitap_append]
      rfl
    · subst hp
      have h1 : ¬ ((2 : Int) = 1) := by decide
      simp only [h1, if_false] at hne ⊢
      rw [a1, a2, a4]
      simp only [if_true, h1, if_false, true_and, false_and, ne_eq, hne, not_false_eq_true]
      refine ⟨⟨_, rfl⟩, ?_⟩
      rw [count_set_multitap_append]
      rfl
  · rw [hsame, (input_multitap_spec 1 true s).2.2.2.1, count_set_multitap_append]
    cases hm : s.setting_multitap_port1
    · simp only [true_and, ne_eq, Bool.true_eq_false, not_false_eq_true, if_true,
        Bool.false_eq_true, if_false]
      rfl
    · simp only [true_and, ne_eq, not_true_eq_false, if_false, if_true]
      have h2 : ¬ ((1 : Int) = 2) := by decide
      simp only [h2, false_and, if_false]
      rfl

/-- C23: in every state reached from the initial one through the global functions
(`input_init`, `input_multitap`, `retro_set_controller_port_device`, `input_update` and the
setters of the deadzones and of the mouse sensitivity) the player count is 2, 7 or 12, so
at most MAX_CONTROLLERS = 12, and every port index the loop of `input_update` visits is
below 12. -/
theorem players_at_most_max (rescale : PolarRescale) (calls : List Call) (s : State)
    (hr : run_calls rescale calls State.initial = some s) :
    (s.players = 2 ∨ s.players = 7 ∨ s.players = 12)
      ∧ s.players ≤ MAX_CONTROLLERS
      ∧ MAX_CONTROLLERS = 12
      ∧ ∀ iplayer, iplayer ∈ List.range s.players → iplayer < 12 := by
  have hs := reachable_player_count rescale calls s hr
  have h3 : s.players = 2 ∨ s.players = 7 ∨ s.players = 12 := by
    rw [hs]
    cases s.setting_multitap_port1 <;> cases s.setting_multitap_port2 <;> decide
  refine ⟨h3, ?_, rfl, ?_⟩
  · unfold MAX_CONTROLLERS
    omega
  · intro i hi
    rw [List.mem_range] at hi
    omega

theorem set_input_calls_append (a b : List Event) :
    set_input_calls (a ++ b) = set_input_calls a ++ set_input_calls b := by
  unfold set_input_calls
  rw [List.filterMap_append]

/-- C24: `retro_set_controller_port_device(port, device)` with `port >= 12` is ignored: for
every device the variables are exactly what they were, so no port's type, mode word or
register image changes, nothing is logged and no `SMPC_SetInput` call is made. -/
theorem set_device_out_of_range_ignored (in_port device : Nat) (s : State)
    (hp : 12 ≤ in_port) :
    retro_set_controller_port_device in_port device s = s
      ∧ (retro_set_controller_port_device in_port device s).input_type = s.input_type
      ∧ (retro_set_controller_port_device in_port device s).input_mode = s.input_mode
      ∧ (retro_set_controller_port_device in_port device s).input_data = s.input_data
      ∧ (retro_set_controller_port_device in_port device s).events = s.events
      ∧ set_input_calls (retro_set_controller_port_device in_port device s).events
          = set_input_calls s.events := by
  have h : retro_set_controller_port_device in_port device s = s := by
    unfold retro_set_controller_port_device
    rw [if_neg (by unfold MAX_CONTROLLERS; omega)]
  rw [h]
  exact ⟨rfl, rfl, rfl, rfl, rfl, rfl⟩

/-- C25: for every port below 12 and every device id,
`retro_set_controller_port_device(port, device)` stores `device` as the type of the port
and leaves the mode word of the port with the analog bit set exactly when `device` is the
3D Control Pad id and with the previous-state bit clear (the word is 1 or 0), whatever it
was before; the type and the mode word of every other port are unchanged. -/
theorem set_device_mode_reset (in_port device : Nat) (s : State) (hp : in_port < 12) :
    (retro_set_controller_port_device in_port device s).input_type in_port = device
      ∧ (retro_set_controller_port_device in_port device s).input_mode in_port
          = (if device = RETRO_DEVICE_SS_3D_PAD then INPUT_MODE_3D_PAD_ANALOG else 0)
      ∧ (((retro_set_controller_port_device in_port device s).input_mode in_port
            &&& INPUT_MODE_3D_PAD_ANALOG ≠ 0) ↔ device = RETRO_DEVICE_SS_3D_PAD)
      ∧ (retro_set_controller_port_device in_port device s).input_mode in_port
            &&& INPUT_MODE_3D_PAD_PREVIOUS_MASK = 0
      ∧ (∀ j, j ≠ in_port →
          (retro_set_controller_port_device in_port device s).input_type j = s.input_type j
          ∧ (retro_set_controller_port_device in_port device s).input_mode j
              = s.input_mode j) := by
  obtain ⟨a1, a2, _⟩ := retro_set_controller_port_device_spec in_port device s hp
  rw [a1, a2]
  simp only [Function.update_same]
  refine ⟨trivial, ?_, ?_, ?_, ?_⟩
  · by_cases h : device = RETRO_DEVICE_SS_3D_PAD
    · rw [if_pos h, if_pos h]; rfl
    · rw [if_neg h, if_neg h]; rfl
  · by_cases h : device = RETRO_DEVICE_SS_3D_PAD
    · rw [if_pos h]
      exact ⟨fun _ => h, fun _ => by decide⟩
    · rw [if_neg h]
      exact ⟨fun hc => absurd rfl hc, fun hc => absurd hc h⟩
  · by_cases h : device = RETRO_DEVICE_SS_3D_PAD
    · rw [if_pos h]; rfl
    · rw [if_neg h]; rfl
  · intro j hj
    exact ⟨Function.update_noteq hj _ _, Function.update_noteq hj _ _⟩

/-- C26: for every port below 12, `retro_set_controller_port_device(port, device)` appends
one log line and exactly one `SMPC_SetInput` call, for that port (whose buffer the call
binds), with the key "gamepad" for the two Control Pad ids, "3dpad" for the 3D Control Pad,
"wheel" for the Arcade Racer, "mouse" for the Mouse, "gun" for the Virtua Gun, "none" for
RETRO_DEVICE_NONE, and for every other device id the key "none" with the log line a
warning; for the recognised ids the log line is not a warning. -/
theorem set_device_binding (in_port device : Nat) (s : State) (hp : in_port < 12) :
    ∃ (warn : Bool) (text key : String),
      (retro_set_controller_port_device in_port device s).events
          = s.events ++ [Event.log warn text, Event.smpc_set_input in_port key]
      ∧ set_input_calls (retro_set_controller_port_device in_port device s).events
          = set_input_calls s.events ++ [(in_port, key)]
      ∧ ((device = RETRO_DEVICE_JOYPAD ∨ device = RETRO_DEVICE_SS_PAD)
          → key = "gamepad" ∧ warn = false)
      ∧ (device = RETRO_DEVICE_SS_3D_PAD → key = "3dpad" ∧ warn = false)
      ∧ (device = RETRO_DEVICE_SS_WHEEL → key = "wheel" ∧ warn = false)
      ∧ (device = RETRO_DEVICE_SS_MOUSE → key = "mouse" ∧ warn = false)
      ∧ (device = RETRO_DEVICE_SS_GUN → key = "gun" ∧ warn = false)
      ∧ (device = RETRO_DEVICE_NONE → key = "none" ∧ warn = false)
      ∧ (device ≠ RETRO_DEVICE_NONE → device ≠ RETRO_DEVICE_JOYPAD
          → device ≠ RETRO_DEVICE_SS_PAD → device ≠ RETRO_DEVICE_SS_3D_PAD
          → device ≠ RETRO_DEVICE_SS_WHEEL → device ≠ RETRO_DEVICE_SS_MOUSE
          → device ≠ RETRO_DEVICE_SS_GUN
          → key = "none" ∧ warn = true
            ∧ text = "Controller " ++ toString (in_port + 1)
                ++ ": Unsupported Device (" ++ toString device ++ ")\n") := by
  obtain ⟨_, _, a3, _⟩ := retro_set_controller_port_device_spec in_port device s hp
  obtain ⟨k1, k2, k3, k4, k5, k6, k7⟩ := device_binding_key in_port device
  refine ⟨(device_binding in_port device).1.1, (device_binding in_port device).1.2,
    (device_binding in_port device).2.1, a3, ?_, k1, k2, k3, k4, k5, k6, k7⟩
  rw [a3, set_input_calls_append]
  rfl

/-- C27, the claim as worded fails: after a poll of a Control Pad with X held, byte 0 of
the register image of port 0 is 2, and it is still 2 after
`retro_set_controller_port_device(0, RETRO_DEVICE_SS_MOUSE)`. -/
theorem set_device_image_not_zeroed :
    (input_update sample_rescale (sample_cb_button RETRO_DEVICE_ID_JOYPAD_X)
        (sample_state RETRO_DEVICE_JOYPAD)).map
      (fun s => ((retro_set_controller_port_device 0 RETRO_DEVICE_SS_MOUSE s).input_data 0 0,
        (retro_set_controller_port_device 0 RETRO_DEVICE_SS_MOUSE s).input_type 0))
      = some (2, RETRO_DEVICE_SS_MOUSE) := by
  decide!

/-- C27 (as corrected): for every port and every device id,
`retro_set_controller_port_device(port, device)` leaves all 32 bytes of the register image
of every port exactly as they were before the assignment; in particular a port whose image
is all zero, as every image is in the initial state, still has an all-zero image after
it. -/
theorem set_device_keeps_image (in_port device : Nat) (s : State) :
    (retro_set_controller_port_device in_port device s).input_data = s.input_data
      ∧ (∀ (j : Nat) (k : Fin 32),
          (retro_set_controller_port_device in_port device s).input_data j k
            = s.input_data j k)
      ∧ (∀ (j : Nat) (k : Fin 32),
          (retro_set_controller_port_device in_port device State.initial).input_data j k
            = 0) := by
  have h : ∀ t : State, (retro_set_controller_port_device in_port device t).input_data
      = t.input_data := by
    intro t
    by_cases hp : in_port < MAX_CONTROLLERS
    · exact (retro_set_controller_port_device_spec in_port device t hp).2.2.2.1
    · unfold retro_set_controller_port_device
      rw [if_neg hp]
  refine ⟨h s, ?_, ?_⟩
  · intro j k
    rw [h s]
  · intro j k
    rw [h State.initial]
    rfl

/-! ### Bytes a poll leaves alone -/

theorem set_u16_above (p : INPUT_DATA) (off : Fin 32) (v : Nat) (k : Fin 32)
    (h : off.val + 1 < k.val) : set_u16 p off v k = p k := by
  apply set_u16_other
  · intro e
    rw [e] at h
    omega
  · intro e
    have e' := congrArg Fin.val e
    rw [Fin.val_add] at e'
    have h1 : (1 : Fin 32).val = 1 := rfl
    rw [h1] at e'
    have hk := k.isLt
    omega

/-- The Control Pad case writes the buttons field only. -/
theorem update_pad_frame (cb : InputStateCb) (i : Nat) (p : INPUT_DATA) (k : Fin 32)
    (hk : 2 ≤ k.val) : update_pad cb i p k = p k := by
  unfold update_pad
  rw [or_buttons_other _ _ k hk, foldl_or_buttons_other _ _ _ k hk]

/-- The 3D Control Pad case writes bytes 0-13 only. -/
theorem update_3d_pad_frame (rescale : PolarRescale) (ad td : Int) (cb : InputStateCb)
    (i : Nat) (p : INPUT_DATA) (mode : Nat) (r : PortResult)
    (h : update_3d_pad rescale ad td cb i p mode = some r) (k : Fin 32) (hk : 14 ≤ k.val) :
    r.data k = p k := by
  obtain ⟨x, y, l, rt, _, _, _, _, _, hd⟩ := update_3d_pad_spec rescale ad td cb i p mode r h
  have h2 : 2 ≤ k.val := by omega
  rw [hd]
  rw [set_u16_above _ _ _ k (lt_of_lt_of_le (by decide) hk),
    set_u16_above _ _ _ k (lt_of_lt_of_le (by decide) hk),
    set_u16_above _ _ _ k (lt_of_lt_of_le (by decide) hk),
    set_u16_above _ _ _ k (lt_of_lt_of_le (by decide) hk),
    set_u16_above _ _ _ k (lt_of_lt_of_le (by decide) hk),
    set_u16_above _ _ _ k (lt_of_lt_of_le (by decide) hk)]
  split_ifs
  · rw [or_buttons_other _ _ k h2, foldl_or_buttons_other _ _ _ k h2]
  · rw [foldl_or_buttons_other _ _ _ k h2]

/-- The Arcade Racer case writes bytes 0-5 only. -/
theorem update_wheel_frame (ad : Int) (cb : InputStateCb) (i : Nat) (p q : INPUT_DATA)
    (h : update_wheel ad cb i p = some q) (k : Fin 32) (hk : 6 ≤ k.val) :
    q k = p k := by
  obtain ⟨x, _, _, _, hs⟩ := update_wheel_spec ad cb i p
  rw [hs, Option.some.injEq] at h
  have h2 : 2 ≤ k.val := by omega
  rw [← h, set_u16_above _ _ _ k (lt_of_lt_of_le (by decide) hk),
    set_u16_above _ _ _ k (lt_of_lt_of_le (by decide) hk),
    or_buttons_other _ _ k h2, or_buttons_other _ _ k h2, foldl_or_buttons_other _ _ _ k h2]

/-- The Virtua Gun case writes bytes 0-4 only. -/
theorem update_gun_frame (cb : InputStateCb) (i : Nat) (p : INPUT_DATA) (k : Fin 32)
    (hk : 5 ≤ k.val) : update_gun cb i p k = p k := by
  by_cases hoff : input_state cb i RETRO_DEVICE_LIGHTGUN 0
      RETRO_DEVICE_ID_LIGHTGUN_IS_OFFSCREEN ≠ 0
    ∨ input_state cb i RETRO_DEVICE_LIGHTGUN 0 RETRO_DEVICE_ID_LIGHTGUN_RELOAD ≠ 0
  · exact (update_gun_offscreen cb i p hoff).2.2.2.2.2 k hk
  · rw [not_or, not_not, not_not] at hoff
    exact (update_gun_onscreen cb i p hoff.1 hoff.2).2.2.2.2.2 k hk

/-- The controller types the `switch` of `input_update` has a case for. -/
theorem update_port_other (rescale : PolarRescale) (ad td : Int) (ms : F32)
    (cb : InputStateCb) (i type : Nat) (p : INPUT_DATA) (mode : Nat)
    (h1 : type ≠ RETRO_DEVICE_JOYPAD) (h2 : type ≠ RETRO_DEVICE_SS_PAD)
    (h3 : type ≠ RETRO_DEVICE_SS_3D_PAD) (h4 : type ≠ RETRO_DEVICE_SS_WHEEL)
    (h5 : type ≠ RETRO_DEVICE_SS_MOUSE) (h6 : type ≠ RETRO_DEVICE_SS_GUN) :
    update_port rescale ad td ms cb i type p mode
      = some { data := set_buttons p 0, mode := mode, events := [] } := by
  unfold update_port
  simp only [if_neg (not_or.mpr ⟨h1, h2⟩), if_neg h3, if_neg h4, if_neg h5, if_neg h6]

theorem update_port_pad (rescale : PolarRescale) (ad td : Int) (ms : F32)
    (cb : InputStateCb) (i type : Nat) (p : INPUT_DATA) (mode : Nat)
    (ht : type = RETRO_DEVICE_JOYPAD ∨ type = RETRO_DEVICE_SS_PAD) :
    update_port rescale ad td ms cb i type p mode
      = some { data := update_pad cb i (set_buttons p 0), mode := mode, events := [] } := by
  unfold update_port
  simp only [if_pos ht]

/-- What the loop body of `input_update` leaves alone in the register image of its port:
bytes 2-31 for a Control Pad, bytes 14-31 for a 3D Control Pad, bytes 6-31 for an Arcade
Racer, bytes 9-31 for a Mouse, bytes 5-31 for a Virtua Gun, bytes 2-31 for every other
type. -/
theorem update_port_frame (rescale : PolarRescale) (ad td : Int) (ms : F32)
    (cb : InputStateCb) (i type : Nat) (p : INPUT_DATA) (mode : Nat) (r : PortResult)
    (h : update_port rescale ad td ms cb i type p mode = some r) (k : Fin 32) :
    ((type = RETRO_DEVICE_JOYPAD ∨ type = RETRO_DEVICE_SS_PAD) → 2 ≤ k.val → r.data k = p k)
      ∧ (type = RETRO_DEVICE_SS_3D_PAD → 14 ≤ k.val → r.data k = p k)
      ∧ (type = RETRO_DEVICE_SS_WHEEL → 6 ≤ k.val → r.data k = p k)
      ∧ (type = RETRO_DEVICE_SS_MOUSE → 9 ≤ k.val → r.data k = p k)
      ∧ (type = RETRO_DEVICE_SS_GUN → 5 ≤ k.val → r.data k = p k)
      ∧ (type ≠ RETRO_DEVICE_JOYPAD → type ≠ RETRO_DEVICE_SS_PAD
          → type ≠ RETRO_DEVICE_SS_3D_PAD → type ≠ RETRO_DEVICE_SS_WHEEL
          → type ≠ RETRO_DEVICE_SS_MOUSE → type ≠ RETRO_DEVICE_SS_GUN
          → 2 ≤ k.val → r.data k = p k) := by
  refine ⟨?_, ?_, ?_, ?_, ?_, ?_⟩
  · intro ht hk
    rw [update_port_pad rescale ad td ms cb i type p mode ht, Option.some.injEq] at h
    rw [← h]
    simp only
    rw [update_pad_frame cb i _ k hk, set_buttons_other _ _ k hk]
  · intro ht hk
    subst ht
    rw [update_port_3d_pad] at h
    rw [update_3d_pad_frame rescale ad td cb i _ mode r h k hk,
      set_buttons_other _ _ k (by omega)]
  · intro ht hk
    subst ht
    rw [update_port_wheel] at h
    rcases hw : update_wheel ad cb i (set_buttons p 0) with _ | q
    · rw [hw] at h; simp at h
    · rw [hw] at h
      simp only [Option.map_some', Option.some.injEq] at h
      rw [← h]
      simp only
      rw [update_wheel_frame ad cb i _ q hw k hk, set_buttons_other _ _ k (by omega)]
  · intro ht hk
    subst ht
    rw [update_port_mouse] at h
    rcases hw : update_mouse ms cb i (set_buttons p 0) with _ | q
    · rw [hw] at h; simp at h
    · rw [hw] at h
      simp only [Option.map_some', Option.some.injEq] at h
      rw [← h]
      simp only
      obtain ⟨_, _, _, _, _, _, _, _, hf⟩ := update_mouse_spec ms cb i _ q hw
      rw [hf k hk, set_buttons_other _ _ k (by omega)]
  · intro ht hk
    subst ht
    rw [update_port_gun, Option.some.injEq] at h
    rw [← h]
    simp only
    rw [update_gun_frame cb i _ k hk, set_buttons_other _ _ k (by omega)]
  · intro h1 h2 h3 h4 h5 h6 hk
    rw [update_port_other rescale ad td ms cb i type p mode h1 h2 h3 h4 h5 h6,
      Option.some.injEq] at h
    rw [← h]
    simp only
    rw [set_buttons_other _ _ k hk]

/-- C28: `input_update` leaves unchanged every byte of the register image of a polled port
that the case of the port's type does not write: bytes 2..31 for a Control Pad (only the
buttons field, bytes 0-1, can change), bytes 6..31 for an Arcade Racer, bytes 14..31 for a
3D Control Pad, bytes 5..31 for a Virtua Gun and bytes 9..31 for a Mouse keep their previous
value. -/
theorem input_update_frame (rescale : PolarRescale) (cb : InputStateCb) (s s' : State)
    (i : Nat) (h : input_update rescale cb s = some s') (hi : i < s.players) (k : Fin 32) :
    ((s.input_type i = RETRO_DEVICE_JOYPAD ∨ s.input_type i = RETRO_DEVICE_SS_PAD)
        → 2 ≤ k.val → s'.input_data i k = s.input_data i k)
      ∧ (s.input_type i = RETRO_DEVICE_SS_WHEEL
        → 6 ≤ k.val → s'.input_data i k = s.input_data i k)
      ∧ (s.input_type i = RETRO_DEVICE_SS_3D_PAD
        → 14 ≤ k.val → s'.input_data i k = s.input_data i k)
      ∧ (s.input_type i = RETRO_DEVICE_SS_GUN
        → 5 ≤ k.val → s'.input_data i k = s.input_data i k)
      ∧ (s.input_type i = RETRO_DEVICE_SS_MOUSE
        → 9 ≤ k.val → s'.input_data i k = s.input_data i k) := by
  obtain ⟨r, hr, hd, _⟩ := input_update_port rescale cb s s' h i hi
  obtain ⟨f1, f2, f3, f4, f5, _⟩ := update_port_frame rescale _ _ _ cb i _ _ _ r hr k
  rw [hd]
  exact ⟨f1, f3, f2, f5, f4⟩

/-! ### Ports that are not polled, and what the poll callback is asked -/

/-- The loop body for port `i` asks the poll callback about port `i` only. -/
theorem update_port_congr (rescale : PolarRescale) (ad td : Int) (ms : F32)
    (cb cb' : InputStateCb) (i type : Nat) (p : INPUT_DATA) (mode : Nat)
    (hcb : ∀ device index id, cb' i device index id = cb i device index id) :
    update_port rescale ad td ms cb' i type p mode
      = update_port rescale ad td ms cb i type p mode := by
  have e : input_state cb' i = input_state cb i := by
    funext device index id
    unfold input_state
    rw [hcb]
  unfold update_port update_pad update_3d_pad update_wheel update_mouse update_gun mode_switch
    get_analog_trigger
  simp only [e]

theorem input_update_player_congr (rescale : PolarRescale) (cb cb' : InputStateCb) (s : State)
    (i : Nat) (hcb : ∀ device index id, cb' i device index id = cb i device index id) :
    input_update_player rescale cb' s i = input_update_player rescale cb s i := by
  unfold input_update_player
  rw [update_port_congr rescale _ _ _ cb cb' i _ _ _ hcb]

theorem foldlM_option_congr (f g : State → Nat → Option State) :
    ∀ (l : List Nat) (s : State), (∀ j, j ∈ l → ∀ t, f t j = g t j) →
      l.foldlM f s = l.foldlM g s := by
  intro l
  induction l with
  | nil => intro s _; rfl
  | cons a rest ih =>
    intro s hfg
    simp only [List.foldlM_cons, Option.bind_eq_bind]
    rw [hfg a (List.mem_cons_self a rest) s]
    rcases hg : g s a with _ | t
    · rfl
    · simp only [Option.some_bind]
      exact ih t (fun j hj u => hfg j (List.mem_cons_of_mem a hj) u)

/-- The result of `input_update` is the same for two poll callbacks that answer alike
for the ports below the player count: no other port is asked about. -/
theorem input_update_congr (rescale : PolarRescale) (cb cb' : InputStateCb) (s : State)
    (hcb : ∀ port device index id, port < s.players →
      cb' port device index id = cb port device index id) :
    input_update rescale cb' s = input_update rescale cb s := by
  unfold input_update
  apply foldlM_option_congr
  intro j hj t
  rw [List.mem_range] at hj
  exact input_update_player_congr rescale cb cb' t j (fun d idx id => hcb j d idx id hj)

/-- C29: for every port index `i` from the player count on (so for `players <= i < 12`),
`input_update` leaves the register image, the mode word and the controller type of port
`i` unchanged, and its result does not depend on what the poll callback answers for such
a port: the callback is asked about the ports below the player count only. Neither
`input_update` nor `input_multitap` changes the controller type of any port. -/
theorem unpolled_ports_untouched (rescale : PolarRescale) (cb : InputStateCb) (s s' : State)
    (h : input_update rescale cb s = some s') :
    (∀ i, s.players ≤ i → s'.input_data i = s.input_data i
        ∧ s'.input_mode i = s.input_mode i ∧ s'.input_type i = s.input_type i)
      ∧ (∀ cb' : InputStateCb,
          (∀ port device index id, port < s.players →
            cb' port device index id = cb port device index id)
          → input_update rescale cb' s = some s')
      ∧ s'.input_type = s.input_type
      ∧ (∀ (port : Int) (enabled : Bool) (t : State),
          (input_multitap port enabled t).input_type = t.input_type) := by
  obtain ⟨_, _, _, _, a5, _, _, _, a9⟩ := input_update_loop rescale cb s s.players s' h
  refine ⟨?_, ?_, a5, ?_⟩
  · intro i hi
    exact ⟨(a9 i hi).1, (a9 i hi).2, by rw [a5]⟩
  · intro cb' hcb
    rw [input_update_congr rescale cb cb' s hcb]
    exact h
  · intro port enabled t
    exact (input_multitap_spec port enabled t).2.2.2.2.1

/-! ### The buttons field is zeroed before it is filled -/

theorem set_buttons_set_buttons (p : INPUT_DATA) (v w : Nat) :
    set_buttons (set_buttons p v) w = set_buttons p w := by
  funext k
  unfold set_buttons set_u16
  simp only [Function.update_apply]
  split_ifs <;> rfl

/-- The loop body for a port does not depend on what the buttons field held. -/
theorem update_port_set_buttons (rescale : PolarRescale) (ad td : Int) (ms : F32)
    (cb : InputStateCb) (i type : Nat) (p : INPUT_DATA) (mode v : Nat) :
    update_port rescale ad td ms cb i type (set_buttons p v) mode
      = update_port rescale ad td ms cb i type p mode := by
  unfold update_port
  simp only [set_buttons_set_buttons]

theorem input_update_player_with_buttons_same (rescale : PolarRescale) (cb : InputStateCb)
    (t : State) (i v : Nat) :
    input_update_player rescale cb (with_buttons t i v) i = input_update_player rescale cb t i := by
  unfold input_update_player with_buttons
  simp only [Function.update_same, update_port_set_buttons, Function.update_idem]

theorem input_update_player_with_buttons_other (rescale : PolarRescale) (cb : InputStateCb)
    (t : State) (i v j : Nat) (hj : j ≠ i) :
    input_update_player rescale cb (with_buttons t i v) j
      = (input_update_player rescale cb t j).map fun u => with_buttons u i v := by
  unfold input_update_player with_buttons
  simp only [Function.update_noteq hj, Option.map_map]
  congr 1
  funext r
  simp only [Function.comp_apply, Function.update_noteq (Ne.symm hj)]
  rw [Function.update_comm hj]

theorem foldlM_with_buttons (rescale : PolarRescale) (cb : InputStateCb) (i v : Nat) :
    ∀ (l : List Nat) (t : State), i ∉ l →
      l.foldlM (input_update_player rescale cb) (with_buttons t i v)
        = (l.foldlM (input_update_player rescale cb) t).map fun u => with_buttons u i v := by
  intro l
  induction l with
  | nil =>
    intro t _
    rfl
  | cons a rest ih =>
    intro t hl
    have ha : a ≠ i := fun e => hl (by rw [e]; exact List.mem_cons_self i rest)
    have hrest : i ∉ rest := fun e => hl (List.mem_cons_of_mem a e)
    simp only [List.foldlM_cons, Option.bind_eq_bind]
    rw [input_update_player_with_buttons_other rescale cb t i v a ha]
    rcases hu : input_update_player rescale cb t a with _ | u
    · rfl
    · simp only [Option.map_some', Option.some_bind]
      exact ih u hrest

/-- The whole result of `input_update` is the same whatever the buttons field of a polled
port held before. -/
theorem input_update_with_buttons (rescale : PolarRescale) (cb : InputStateCb) (s : State)
    (i v : Nat) (hi : i < s.players) :
    input_update rescale cb (with_buttons s i v) = input_update rescale cb s := by
  unfold input_update
  have hp : (with_buttons s i v).players = s.players := rfl
  rw [hp]
  obtain ⟨m, hm⟩ : ∃ m, s.players = (i + 1) + m := ⟨s.players - (i + 1), by omega⟩
  rw [hm, List.range_add, List.range_succ, List.foldlM_append, List.foldlM_append,
    List.foldlM_append, List.foldlM_append]
  rw [foldlM_with_buttons rescale cb i v (List.range i) s (by simp)]
  rcases hu : (List.range i).foldlM (input_update_player rescale cb) s with _ | u
  · rfl
  · simp only [Option.map_some', Option.some_bind, List.foldlM_cons, List.foldlM_nil,
      Option.bind_eq_bind]
    rw [input_update_player_with_buttons_same]

/-- C30: for every polled port the result of `input_update`, its buttons field included,
is the same whatever value the buttons field held before the poll (the field is zeroed
first); and for a polled port whose type is none of the ids the `switch` has a case for
(RETRO_DEVICE_NONE or an unrecognised id), after `input_update` the buttons field is 0 and
bytes 2..31 and the mode word are unchanged. -/
theorem buttons_zeroed_first (rescale : PolarRescale) (cb : InputStateCb) (s : State)
    (i v : Nat) (hi : i < s.players) :
    input_update rescale cb (with_buttons s i v) = input_update rescale cb s
      ∧ (∀ s', input_update rescale cb s = some s'
          → s.input_type i ≠ RETRO_DEVICE_JOYPAD → s.input_type i ≠ RETRO_DEVICE_SS_PAD
          → s.input_type i ≠ RETRO_DEVICE_SS_3D_PAD → s.input_type i ≠ RETRO_DEVICE_SS_WHEEL
          → s.input_type i ≠ RETRO_DEVICE_SS_MOUSE → s.input_type i ≠ RETRO_DEVICE_SS_GUN
          → get_buttons (s'.input_data i) = 0
            ∧ s'.input_data i 0 = 0 ∧ s'.input_data i 1 = 0
            ∧ (∀ k : Fin 32, 2 ≤ k.val → s'.input_data i k = s.input_data i k)
            ∧ s'.input_mode i = s.input_mode i) := by
  refine ⟨input_update_with_buttons rescale cb s i v hi, ?_⟩
  intro s' h h1 h2 h3 h4 h5 h6
  obtain ⟨r, hr, hd, hm⟩ := input_update_port rescale cb s s' h i hi
  rw [update_port_other rescale _ _ _ cb i _ _ _ h1 h2 h3 h4 h5 h6, Option.some.injEq] at hr
  rw [hd, hm, ← hr]
  simp only
  refine ⟨by rw [get_buttons_set_buttons], ?_, ?_, ?_, trivial⟩
  · exact set_u16_lo _ 0 0
  · exact set_u16_hi _ 0 0
  · intro k hk
    exact set_buttons_other _ _ k hk

/-! ## Sample runs of the port topology, the device assignment and the frame of a poll -/

/-- Sample run for C22: `input_multitap(1, true)` called a second time, right after the
first call on the initial state. -/
theorem input_multitap_idempotent_witness :
    run_calls sample_rescale [Call.multitap 1 true] State.initial
        = some (input_multitap 1 true State.initial)
      ∧ ((1 : Int) = 1 ∨ (1 : Int) = 2)
      ∧ input_multitap 1 true (input_multitap 1 true State.initial)
          = input_multitap 1 true State.initial :=
  ⟨rfl, Or.inl rfl,
    (input_multitap_idempotent sample_rescale [Call.multitap 1 true]
      (input_multitap 1 true State.initial) 1 true rfl (Or.inl rfl)).1 rfl⟩

theorem sample_topology_defined :
    (run_calls sample_rescale
      [Call.init, Call.multitap 1 true, Call.multitap 2 true, Call.update sample_cb_idle]
      State.initial).isSome = true := by
  decide!

/-- Sample run for C23: initialisation, both adapters connected, then a poll of the twelve
ports. -/
theorem players_at_most_max_witness :
    ∃ s, run_calls sample_rescale
        [Call.init, Call.multitap 1 true, Call.multitap 2 true, Call.update sample_cb_idle]
        State.initial = some s
      ∧ s.players ≤ MAX_CONTROLLERS :=
  ⟨Option.get _ sample_topology_defined, (Option.some_get sample_topology_defined).symm,
    (players_at_most_max sample_rescale
      [Call.init, Call.multitap 1 true, Call.multitap 2 true, Call.update sample_cb_idle]
      _ (Option.some_get sample_topology_defined).symm).2.1⟩

/-- Sample values for C24: port 12, the first port index out of range. -/
theorem set_device_out_of_range_ignored_witness :
    12 ≤ 12
      ∧ retro_set_controller_port_device 12 RETRO_DEVICE_SS_MOUSE State.initial
          = State.initial :=
  ⟨le_refl 12,
    (set_device_out_of_range_ignored 12 RETRO_DEVICE_SS_MOUSE State.initial (le_refl 12)).1⟩

/-- Sample values for C25: port 3 is assigned a 3D Control Pad. -/
theorem set_device_mode_reset_witness :
    3 < 12
      ∧ (retro_set_controller_port_device 3 RETRO_DEVICE_SS_3D_PAD State.initial).input_type 3
          = RETRO_DEVICE_SS_3D_PAD
      ∧ (retro_set_controller_port_device 3 RETRO_DEVICE_SS_3D_PAD State.initial).input_mode 3
          = (if RETRO_DEVICE_SS_3D_PAD = RETRO_DEVICE_SS_3D_PAD then INPUT_MODE_3D_PAD_ANALOG
              else 0) :=
  ⟨by decide,
    (set_device_mode_reset 3 RETRO_DEVICE_SS_3D_PAD State.initial (by decide)).1,
    (set_device_mode_reset 3 RETRO_DEVICE_SS_3D_PAD State.initial (by decide)).2.1⟩

/-- Sample values for C26: port 3 is assigned the unrecognised device id 999. -/
theorem set_device_binding_witness :
    3 < 12
      ∧ ∃ (warn : Bool) (text key : String),
          (retro_set_controller_port_device 3 999 State.initial).events
            = State.initial.events ++ [Event.log warn text, Event.smpc_set_input 3 key]
          ∧ set_input_calls (retro_set_controller_port_device 3 999 State.initial).events
            = set_input_calls State.initial.events ++ [(3, key)] :=
  ⟨by decide,
    (set_device_binding 3 999 State.initial (by decide)).imp fun _ hw =>
      hw.imp fun _ ht => ht.imp fun _ hk => ⟨hk.1, hk.2.1⟩⟩

/-- Sample run for C28: both ports Control Pads, X held; byte 5 of port 0 is left alone. -/
theorem input_update_frame_witness :
    ∃ s', input_update sample_rescale (sample_cb_button RETRO_DEVICE_ID_JOYPAD_X)
        (sample_state RETRO_DEVICE_JOYPAD) = some s'
      ∧ 0 < (sample_state RETRO_DEVICE_JOYPAD).players
      ∧ s'.input_data 0 5 = (sample_state RETRO_DEVICE_JOYPAD).input_data 0 5 :=
  ⟨Option.get _ sample_pad_defined, (Option.some_get sample_pad_defined).symm, by decide,
    (input_update_frame sample_rescale (sample_cb_button RETRO_DEVICE_ID_JOYPAD_X)
      (sample_state RETRO_DEVICE_JOYPAD) _ 0 (Option.some_get sample_pad_defined).symm
      (by decide) 5).1 (Or.inl rfl) (by decide)⟩

/-- Sample run for C29: both ports Control Pads, X held; port 2 is not polled. -/
theorem unpolled_ports_untouched_witness :
    ∃ s', input_update sample_rescale (sample_cb_button RETRO_DEVICE_ID_JOYPAD_X)
        (sample_state RETRO_DEVICE_JOYPAD) = some s'
      ∧ (sample_state RETRO_DEVICE_JOYPAD).players ≤ 2
      ∧ s'.input_data 2 = (sample_state RETRO_DEVICE_JOYPAD).input_data 2
      ∧ s'.input_mode 2 = (sample_state RETRO_DEVICE_JOYPAD).input_mode 2
      ∧ s'.input_type 2 = (sample_state RETRO_DEVICE_JOYPAD).input_type 2 :=
  ⟨Option.get _ sample_pad_defined, (Option.some_get sample_pad_defined).symm, by decide,
    (unpolled_ports_untouched sample_rescale (sample_cb_button RETRO_DEVICE_ID_JOYPAD_X)
      (sample_state RETRO_DEVICE_JOYPAD) _ (Option.some_get sample_pad_defined).symm).1 2
      (by decide)⟩

/-- Sample values for C30: port 0 of two unplugged ports, its buttons field first set to
0xFFFF. -/
theorem buttons_zeroed_first_witness :
    0 < (sample_state RETRO_DEVICE_NONE).players
      ∧ input_update sample_rescale sample_cb_idle
          (with_buttons (sample_state RETRO_DEVICE_NONE) 0 0xFFFF)
        = input_update sample_rescale sample_cb_idle (sample_state RETRO_DEVICE_NONE) :=
  ⟨by decide,
    (buttons_zeroed_first sample_rescale sample_cb_idle (sample_state RETRO_DEVICE_NONE)
      0 0xFFFF (by decide)).1⟩

/-! ### Independence of the ports, and the mode word outside the 3D Control Pad -/

/-- C31: the translation of a polled port is independent of the other ports: for two
states and two poll callbacks that agree on the register image, the mode word and the type
of port `i`, on the two deadzones and the mouse sensitivity, and on every poll result for
port `i`, with `i` below the player count of both, the loop body for port `i` gives the
same result (or is undefined in both), and after `input_update` the register image and
the mode word of port `i` are equal. -/
theorem port_translation_independent (rescale : PolarRescale) (cb1 cb2 : InputStateCb)
    (s1 s2 s1' s2' : State) (i : Nat)
    (h1 : input_update rescale cb1 s1 = some s1') (h2 : input_update rescale cb2 s2 = some s2')
    (hi1 : i < s1.players) (hi2 : i < s2.players)
    (hdata : s1.input_data i = s2.input_data i) (hmode : s1.input_mode i = s2.input_mode i)
    (htype : s1.input_type i = s2.input_type i)
    (hstick : s1.astick_deadzone = s2.astick_deadzone)
    (htrigger : s1.trigger_deadzone = s2.trigger_deadzone)
    (hmouse : s1.mouse_sensitivity = s2.mouse_sensitivity)
    (hcb : ∀ device index id, cb1 i device index id = cb2 i device index id) :
    update_port rescale s1.astick_deadzone s1.trigger_deadzone s1.mouse_sensitivity cb1 i
        (s1.input_type i) (s1.input_data i) (s1.input_mode i)
      = update_port rescale s2.astick_deadzone s2.trigger_deadzone s2.mouse_sensitivity cb2 i
        (s2.input_type i) (s2.input_data i) (s2.input_mode i)
      ∧ s1'.input_data i = s2'.input_data i
      ∧ s1'.input_mode i = s2'.input_mode i := by
  have hu : update_port rescale s1.astick_deadzone s1.trigger_deadzone s1.mouse_sensitivity
      cb1 i (s1.input_type i) (s1.input_data i) (s1.input_mode i)
    = update_port rescale s2.astick_deadzone s2.trigger_deadzone s2.mouse_sensitivity cb2 i
      (s2.input_type i) (s2.input_data i) (s2.input_mode i) := by
    rw [hdata, hmode, htype, hstick, htrigger, hmouse]
    exact update_port_congr rescale _ _ _ cb2 cb1 i _ _ _ hcb
  obtain ⟨r1, hr1, hd1, hm1⟩ := input_update_port rescale cb1 s1 s1' h1 i hi1
  obtain ⟨r2, hr2, hd2, hm2⟩ := input_update_port rescale cb2 s2 s2' h2 i hi2
  rw [hu, hr2, Option.some.injEq] at hr1
  refine ⟨hu, ?_, ?_⟩
  · rw [hd1, hd2, hr1]
  · rw [hm1, hm2, hr1]

/-- The loop body returns the mode word unchanged for every type but the 3D Control Pad. -/
theorem update_port_mode (rescale : PolarRescale) (ad td : Int) (ms : F32)
    (cb : InputStateCb) (i type : Nat) (p : INPUT_DATA) (mode : Nat) (r : PortResult)
    (h : update_port rescale ad td ms cb i type p mode = some r)
    (ht : type ≠ RETRO_DEVICE_SS_3D_PAD) : r.mode = mode ∧ r.events = [] := by
  unfold update_port at h
  simp only [if_neg ht] at h
  split_ifs at h
  · simp only [Option.some.injEq] at h
    rw [← h]
    exact ⟨rfl, rfl⟩
  · rcases hw : update_wheel ad cb i (set_buttons p 0) with _ | q
    · rw [hw] at h; simp at h
    · rw [hw] at h
      simp only [Option.map_some', Option.some.injEq] at h
      rw [← h]
      exact ⟨rfl, rfl⟩
  · rcases hw : update_mouse ms cb i (set_buttons p 0) with _ | q
    · rw [hw] at h; simp at h
    · rw [hw] at h
      simp only [Option.map_some', Option.some.injEq] at h
      rw [← h]
      exact ⟨rfl, rfl⟩
  · simp only [Option.some.injEq] at h
    rw [← h]
    exact ⟨rfl, rfl⟩
  · simp only [Option.some.injEq] at h
    rw [← h]
    exact ⟨rfl, rfl⟩

/-- C38: `input_update` changes the mode word of a port only when the type of the port is
the 3D Control Pad: for every polled port of any other type (Control Pad, Arcade Racer,
Mouse, Virtua Gun, none or unrecognised) the mode word, so both its analog bit and its
previous-state bit, is the same after the poll as before, whatever the poll callback
answers, the mode button being held included. -/
theorem mode_changes_only_for_3d_pad (rescale : PolarRescale) (cb : InputStateCb)
    (s s' : State) (i : Nat) (h : input_update rescale cb s = some s') (hi : i < s.players)
    (ht : s.input_type i ≠ RETRO_DEVICE_SS_3D_PAD) :
    s'.input_mode i = s.input_mode i
      ∧ s'.input_mode i &&& INPUT_MODE_3D_PAD_ANALOG
          = s.input_mode i &&& INPUT_MODE_3D_PAD_ANALOG
      ∧ s'.input_mode i &&& INPUT_MODE_3D_PAD_PREVIOUS_MASK
          = s.input_mode i &&& INPUT_MODE_3D_PAD_PREVIOUS_MASK := by
  obtain ⟨r, hr, _, hm⟩ := input_update_port rescale cb s s' h i hi
  have e : s'.input_mode i = s.input_mode i := by
    rw [hm]
    exact (update_port_mode rescale _ _ _ cb i _ _ _ r hr ht).1
  rw [e]
  exact ⟨rfl, rfl, rfl⟩

/-! ### Analog trigger inside the deadzone -/

/-- C37: when the analog read `t` of a trigger is non-zero and not above the trigger
deadzone `d` (`0 < t <= d`), `get_analog_trigger` returns 0 whatever the poll callback
answers to the digital read of the button, held included: the digital read is made only
when the analog read is exactly 0. -/
theorem get_analog_trigger_inside_deadzone (d : Int) (cb : InputStateCb) (i id : Nat)
    (h0 : 0 < uint16 (input_state cb i RETRO_DEVICE_ANALOG RETRO_DEVICE_INDEX_ANALOG_BUTTON id))
    (h1 : (uint16 (input_state cb i RETRO_DEVICE_ANALOG RETRO_DEVICE_INDEX_ANALOG_BUTTON id)
      : Int) ≤ d) :
    get_analog_trigger d cb i id = some 0
      ∧ (∀ cb' : InputStateCb,
          (∀ index id', cb' i RETRO_DEVICE_ANALOG index id' = cb i RETRO_DEVICE_ANALOG index id')
          → get_analog_trigger d cb' i id = some 0) := by
  have key : ∀ c : InputStateCb,
      0 < uint16 (input_state c i RETRO_DEVICE_ANALOG RETRO_DEVICE_INDEX_ANALOG_BUTTON id) →
      (uint16 (input_state c i RETRO_DEVICE_ANALOG RETRO_DEVICE_INDEX_ANALOG_BUTTON id) : Int)
        ≤ d →
      get_analog_trigger d c i id = some 0 := by
    intro c c0 c1
    unfold get_analog_trigger
    simp only
    rw [if_neg (by omega)]
    unfold apply_trigger_deadzone
    have hd : d > 0 := by omega
    simp only [if_pos hd, if_neg (not_lt.mpr c1)]
  refine ⟨key cb h0 h1, ?_⟩
  · intro cb' hcb
    have e : input_state cb' i RETRO_DEVICE_ANALOG RETRO_DEVICE_INDEX_ANALOG_BUTTON id
        = input_state cb i RETRO_DEVICE_ANALOG RETRO_DEVICE_INDEX_ANALOG_BUTTON id := by
      unfold input_state
      rw [hcb]
    apply key cb'
    · rw [e]; exact h0
    · rw [e]; exact h1

/-! ### Settings out of range -/

/-- The sensitivity stored for each percentage from 1 to 200: the binary32 value nearest
to `percent / 100`, above 0 and at most 2, within one part in 2^24 of `percent / 100`. -/
theorem mouse_sensitivity_table : ∀ p : Fin 201, 0 < p.val →
    F32.div (F32.ofInt (p.val : Int)) (F32.ofRat 100)
        = F32.fin (roundBinary32 (((p.val : Int) : ℚ) / 100))
    ∧ 0 < roundBinary32 (((p.val : Int) : ℚ) / 100)
    ∧ roundBinary32 (((p.val : Int) : ℚ) / 100) ≤ 2
    ∧ (roundBinary32 (((p.val : Int) : ℚ) / 100) - ((p.val : Int) : ℚ) / 100) * 16777216
        ≤ ((p.val : Int) : ℚ) / 100
    ∧ (((p.val : Int) : ℚ) / 100 - roundBinary32 (((p.val : Int) : ℚ) / 100)) * 16777216
        ≤ ((p.val : Int) : ℚ) / 100 := by
  decide!

theorem mouse_sensitivity_value (percent : Int) (h0 : 0 < percent) (h1 : percent ≤ 200) :
    F32.div (F32.ofInt percent) (F32.ofRat 100)
        = F32.fin (roundBinary32 ((percent : ℚ) / 100))
    ∧ 0 < roundBinary32 ((percent : ℚ) / 100)
    ∧ roundBinary32 ((percent : ℚ) / 100) ≤ 2
    ∧ (roundBinary32 ((percent : ℚ) / 100) - (percent : ℚ) / 100) * 16777216
        ≤ (percent : ℚ) / 100
    ∧ ((percent : ℚ) / 100 - roundBinary32 ((percent : ℚ) / 100)) * 16777216
        ≤ (percent : ℚ) / 100 := by
  obtain ⟨n, hn⟩ : ∃ n : Nat, percent = (n : Int) := ⟨percent.toNat, by omega⟩
  subst hn
  have hlt : n < 201 := by omega
  exact mouse_sensitivity_table ⟨n, hlt⟩ (by simp only; omega)

/-- C32: out-of-range settings are ignored, the prior value retained:
`input_set_deadzone_stick(p)` and `input_set_deadzone_trigger(p)` assign the stored
deadzone exactly when `0 <= p <= 100` (then it becomes `truncate(p * 0.01 * 0x8000)`, so
the stored value differs after the call exactly when `p` is in range and that value
differs from the one before), `input_set_mouse_sensitivity(p)` assigns the stored
sensitivity exactly when `0 < p <= 200` (then it becomes the single-precision quotient of
`p` by 100, a factor above 0 and at most 2, within one part in 2^24 of `p / 100`); for
every other `p` the call returns the variables exactly as they were. -/
theorem settings_out_of_range_ignored (percent : Int) (s : State) :
    ((0 ≤ percent ∧ percent ≤ 100) →
        input_set_deadzone_stick percent s = some { s with
          astick_deadzone := truncQ ((percent : ℚ) * (1 / 100) * 0x8000) }
        ∧ input_set_deadzone_trigger percent s = some { s with
          trigger_deadzone := truncQ ((percent : ℚ) * (1 / 100) * 0x8000) })
      ∧ (¬ (0 ≤ percent ∧ percent ≤ 100) →
        input_set_deadzone_stick percent s = some s
        ∧ input_set_deadzone_trigger percent s = some s)
      ∧ (∀ s', input_set_deadzone_stick percent s = some s' →
          (s'.astick_deadzone ≠ s.astick_deadzone
            ↔ (0 ≤ percent ∧ percent ≤ 100)
              ∧ truncQ ((percent : ℚ) * (1 / 100) * 0x8000) ≠ s.astick_deadzone))
      ∧ (∀ s', input_set_deadzone_trigger percent s = some s' →
          (s'.trigger_deadzone ≠ s.trigger_deadzone
            ↔ (0 ≤ percent ∧ percent ≤ 100)
              ∧ truncQ ((percent : ℚ) * (1 / 100) * 0x8000) ≠ s.trigger_deadzone))
      ∧ ((0 < percent ∧ percent ≤ 200) →
          input_set_mouse_sensitivity percent s = { s with
            mouse_sensitivity := F32.fin (roundBinary32 ((percent : ℚ) / 100)) }
          ∧ 0 < roundBinary32 ((percent : ℚ) / 100)
          ∧ roundBinary32 ((percent : ℚ) / 100) ≤ 2
          ∧ |roundBinary32 ((percent : ℚ) / 100) - (percent : ℚ) / 100|
              ≤ (percent : ℚ) / 100 / 16777216)
      ∧ (¬ (0 < percent ∧ percent ≤ 200) → input_set_mouse_sensitivity percent s = s)
      ∧ ((input_set_mouse_sensitivity percent s).mouse_sensitivity ≠ s.mouse_sensitivity
          ↔ (0 < percent ∧ percent ≤ 200)
            ∧ F32.fin (roundBinary32 ((percent : ℚ) / 100)) ≠ s.mouse_sensitivity) := by
  have hstick : (0 ≤ percent ∧ percent ≤ 100) →
      input_set_deadzone_stick percent s = some { s with
        astick_deadzone := truncQ ((percent : ℚ) * (1 / 100) * 0x8000) } := by
    intro hr
    unfold input_set_deadzone_stick
    rw [if_pos hr, (deadzone_of_percent_spec percent hr.1 hr.2).1]
    rfl
  have htrig : (0 ≤ percent ∧ percent ≤ 100) →
      input_set_deadzone_trigger percent s = some { s with
        trigger_deadzone := truncQ ((percent : ℚ) * (1 / 100) * 0x8000) } := by
    intro hr
    unfold input_set_deadzone_trigger
    rw [if_pos hr, (deadzone_of_percent_spec percent hr.1 hr.2).1]
    rfl
  have hstick' : ¬ (0 ≤ percent ∧ percent ≤ 100) →
      input_set_deadzone_stick percent s = some s := by
    intro hr
    unfold input_set_deadzone_stick
    rw [if_neg hr]
  have htrig' : ¬ (0 ≤ percent ∧ percent ≤ 100) →
      input_set_deadzone_trigger percent s = some s := by
    intro hr
    unfold input_set_deadzone_trigger
    rw [if_neg hr]
  have hms : (0 < percent ∧ percent ≤ 200) →
      input_set_mouse_sensitivity percent s = { s with
        mouse_sensitivity := F32.fin (roundBinary32 ((percent : ℚ) / 100)) } := by
    intro hr
    unfold input_set_mouse_sensitivity
    rw [if_pos hr, (mouse_sensitivity_value percent hr.1 hr.2).1]
  have hms' : ¬ (0 < percent ∧ percent ≤ 200) → input_set_mouse_sensitivity percent s = s := by
    intro hr
    unfold input_set_mouse_sensitivity
    rw [if_neg hr]
  refine ⟨fun hr => ⟨hstick hr, htrig hr⟩, fun hr => ⟨hstick' hr, htrig' hr⟩, ?_, ?_, ?_,
    hms', ?_⟩
  · intro s' hs'
    by_cases hr : 0 ≤ percent ∧ percent ≤ 100
    · rw [hstick hr, Option.some.injEq] at hs'
      rw [← hs']
      simp only [hr, and_self, true_and]
    · rw [hstick' hr, Option.some.injEq] at hs'
      rw [← hs']
      simp only [ne_eq, not_true_eq_false, hr, false_and]
  · intro s' hs'
    by_cases hr : 0 ≤ percent ∧ percent ≤ 100
    · rw [htrig hr, Option.some.injEq] at hs'
      rw [← hs']
      simp only [hr, and_self, true_and]
    · rw [htrig' hr, Option.some.injEq] at hs'
      rw [← hs']
      simp only [ne_eq, not_true_eq_false, hr, false_and]
  · intro hr
    obtain ⟨_, v0, v1, v2, v3⟩ := mouse_sensitivity_value percent hr.1 hr.2
    refine ⟨hms hr, v0, v1, ?_⟩
    rw [abs_le]
    constructor
    · rw [le_div_iff₀ (by norm_num)] at *
      linarith
    · rw [le_div_iff₀ (by norm_num)]
      linarith
  · by_cases hr : 0 < percent ∧ percent ≤ 200
    · rw [hms hr]
      simp only [hr, and_self, true_and]
    · rw [hms' hr]
      simp only [ne_eq, not_true_eq_false, hr, false_and]

/-! ### Ranges of the integer arithmetic -/

/-- The squared radius of a stick reading stays inside the range of `int` for every reading
in the `int16_t` range but the corner `(-32768, -32768)`. -/
theorem stick_radius_in_range (x y : Int) (hx0 : -32768 ≤ x) (hx1 : x ≤ 32767)
    (hy0 : -32768 ≤ y) (hy1 : y ≤ 32767) (hc : ¬ (x = -32768 ∧ y = -32768)) :
    checked_int (x * x + y * y) = some (x * x + y * y) := by
  have hxx : x * x ≤ 1073741824 := by nlinarith
  have hyy : y * y ≤ 1073741824 := by nlinarith
  have h0 : 0 ≤ x * x + y * y := by nlinarith [mul_self_nonneg x, mul_self_nonneg y]
  have hsum : x * x + y * y ≤ 2147483647 := by
    by_cases hx : x = -32768
    · have hy : -32767 ≤ y := by
        by_cases h : y = -32768
        · exact absurd ⟨hx, h⟩ hc
        · omega
      have : y * y ≤ 1073676289 := by nlinarith
      omega
    · have hx' : -32767 ≤ x := by omega
      have : x * x ≤ 1073676289 := by nlinarith
      omega
  unfold checked_int INT_MIN INT_MAX
  rw [if_pos ⟨by omega, hsum⟩]

/-- C35, where the code fails the claim: with a stick deadzone above 0 and the stick reading
`(-32768, -32768)`, the `int` expression `analog_x * analog_x + analog_y * analog_y` is
2^31, one more than INT_MAX: it overflows, so the 3D Control Pad case has no defined
result, whatever the re-scaling; the poll of such a port at the 15 percent deadzone is
undefined. Every other reading in the `int16_t` range stays in range. -/
theorem stick_radius_overflow (rescale : PolarRescale) (d : Int) :
    (-32768 : Int) * (-32768) + (-32768) * (-32768) = 2147483648
      ∧ (2147483648 : Int) = INT_MAX + 1
      ∧ checked_int ((-32768 : Int) * (-32768) + (-32768) * (-32768)) = none
      ∧ (0 < d → stick_deadzone rescale d (-32768) (-32768) = none)
      ∧ (input_set_deadzone_stick 15 (sample_state RETRO_DEVICE_SS_3D_PAD)).map
          (fun s => s.astick_deadzone) = some 4915
      ∧ ((input_set_deadzone_stick 15 (sample_state RETRO_DEVICE_SS_3D_PAD)).bind
          (input_update sample_rescale_total (sample_cb_analog (-32768)))).isSome = false
      ∧ (∀ x y : Int, -32768 ≤ x → x ≤ 32767 → -32768 ≤ y → y ≤ 32767
          → ¬ (x = -32768 ∧ y = -32768)
          → checked_int (x * x + y * y) = some (x * x + y * y)) := by
  refine ⟨by decide, by decide, by decide, ?_, by decide!, by decide!, ?_⟩
  · intro hd
    unfold stick_deadzone
    rw [if_pos hd]
    rfl
  · intro x y hx0 hx1 hy0 hy1 hc
    exact stick_radius_in_range x y hx0 hx1 hy0 hy1 hc

/-- C36: for every polled Gun port with neither the off-screen nor the reload flag set and
raw coordinates `rx`, `ry` (in the `int16_t` range, as every poll result is): the products
`(rx + 60 + 0x7fff) * 21472` and `(ry + 0x7fff) * 240` fit in `int`, the results satisfy
`19 <= x <= 21491` and `0 <= y <= 240`, the two 16-bit position words hold exactly these
results, and neither word equals the off-screen value 0xC000. -/
theorem gun_onscreen_range (rescale : PolarRescale) (cb : InputStateCb) (s s' : State)
    (i : Nat) (h : input_update rescale cb s = some s') (hi : i < s.players)
    (ht : s.input_type i = RETRO_DEVICE_SS_GUN)
    (hoff : input_state cb i RETRO_DEVICE_LIGHTGUN 0 RETRO_DEVICE_ID_LIGHTGUN_IS_OFFSCREEN = 0)
    (hrel : input_state cb i RETRO_DEVICE_LIGHTGUN 0 RETRO_DEVICE_ID_LIGHTGUN_RELOAD = 0) :
    (INT_MIN ≤ (input_state cb i RETRO_DEVICE_LIGHTGUN 0 RETRO_DEVICE_ID_LIGHTGUN_SCREEN_X
          + 60 + 0x7fff) * 21472
        ∧ (input_state cb i RETRO_DEVICE_LIGHTGUN 0 RETRO_DEVICE_ID_LIGHTGUN_SCREEN_X
          + 60 + 0x7fff) * 21472 ≤ INT_MAX)
      ∧ (INT_MIN ≤ (input_state cb i RETRO_DEVICE_LIGHTGUN 0 RETRO_DEVICE_ID_LIGHTGUN_SCREEN_Y
          + 0x7fff) * 240
        ∧ (input_state cb i RETRO_DEVICE_LIGHTGUN 0 RETRO_DEVICE_ID_LIGHTGUN_SCREEN_Y
          + 0x7fff) * 240 ≤ INT_MAX)
      ∧ (get_u16 (s'.input_data i) 0 : Int)
          = Int.tdiv ((input_state cb i RETRO_DEVICE_LIGHTGUN 0
              RETRO_DEVICE_ID_LIGHTGUN_SCREEN_X + 60 + 0x7fff) * 21472) 65534
      ∧ (get_u16 (s'.input_data i) 2 : Int)
          = Int.tdiv ((input_state cb i RETRO_DEVICE_LIGHTGUN 0
              RETRO_DEVICE_ID_LIGHTGUN_SCREEN_Y + 0x7fff) * 240) 65534
      ∧ 19 ≤ get_u16 (s'.input_data i) 0 ∧ get_u16 (s'.input_data i) 0 ≤ 21491
      ∧ get_u16 (s'.input_data i) 2 ≤ 240
      ∧ get_u16 (s'.input_data i) 0 ≠ 0xC000 ∧ get_u16 (s'.input_data i) 2 ≠ 0xC000 := by
  obtain ⟨hd, _⟩ := input_update_gun rescale cb s s' i h hi ht
  obtain ⟨b0, b1, b2, b3, _, _⟩ := update_gun_onscreen cb i
    (set_buttons (s.input_data i) 0) hoff hrel
  rw [← hd] at b0 b1 b2 b3
  obtain ⟨hx0, hx1⟩ := input_state_range cb i RETRO_DEVICE_LIGHTGUN 0
    RETRO_DEVICE_ID_LIGHTGUN_SCREEN_X
  obtain ⟨hy0, hy1⟩ := input_state_range cb i RETRO_DEVICE_LIGHTGUN 0
    RETRO_DEVICE_ID_LIGHTGUN_SCREEN_Y
  obtain ⟨ox, oy, x0, x1, y0, y1⟩ := gun_scale_range _ _ hx0 hx1 hy0 hy1
  have c : ((0x7fff : Int) * 2) = 65534 := by norm_num
  rw [c] at b0 b1 b2 b3 x0 x1 y0 y1
  generalize Int.tdiv ((input_state cb i RETRO_DEVICE_LIGHTGUN 0
    RETRO_DEVICE_ID_LIGHTGUN_SCREEN_X + 60 + 0x7fff) * 21472) 65534 = x at b0 b1 x0 x1 ⊢
  generalize Int.tdiv ((input_state cb i RETRO_DEVICE_LIGHTGUN 0
    RETRO_DEVICE_ID_LIGHTGUN_SCREEN_Y + 0x7fff) * 240) 65534 = y at b2 b3 y0 y1 ⊢
  have ux : uint16 x = x.toNat := by
    unfold uint16
    rw [Int.emod_eq_of_lt (by omega) (by omega)]
  have uy : uint16 y = y.toNat := by
    unfold uint16
    rw [Int.emod_eq_of_lt (by omega) (by omega)]
  rw [ux] at b0 b1
  rw [uy] at b2 b3
  have g0 : get_u16 (s'.input_data i) 0 = s'.input_data i 0 + 256 * s'.input_data i 1 := rfl
  have g2 : get_u16 (s'.input_data i) 2 = s'.input_data i 2 + 256 * s'.input_data i 3 := rfl
  have e0 : s'.input_data i 0 = x.toNat % 256 := b0
  have e1 : s'.input_data i 1 = x.toNat / 256 % 256 := b1
  have e2 : s'.input_data i 2 = y.toNat % 256 := b2
  have e3 : s'.input_data i 3 = y.toNat / 256 % 256 := b3
  have gx : (get_u16 (s'.input_data i) 0 : Int) = x := by rw [g0, e0, e1]; omega
  have gy : (get_u16 (s'.input_data i) 2 : Int) = y := by rw [g2, e2, e3]; omega
  refine ⟨ox, oy, gx, gy, ?_, ?_, ?_, ?_, ?_⟩ <;> omega

/-! ### Compatibility database -/

theorem entry_matches_eq_spec (e_sgid : Option String) (e_fd_id : List Nat) (sgid : String)
    (fd_id : List Nat) :
    entry_matches e_sgid e_fd_id sgid fd_id = spec_entry_matches e_sgid e_fd_id sgid fd_id := by
  cases e_sgid with
  | none => simp [entry_matches, spec_entry_matches, memcmp16]
  | some s => simp [entry_matches, spec_entry_matches, strcmp_eq]

/-- The first loop of `DB_Lookup` ends with the area of the first entry whose disc id
agrees with `fd_id`, and with the value it started from when there is none. -/
theorem scan_regiondb_find (fd_id : List Nat) :
    ∀ (l : List RegionEntry) (region : Nat),
      scan_regiondb fd_id l region
        = ((l.find? fun re => decide (re.id.take 16 = fd_id.take 16)).map
            fun re => re.area).getD region := by
  intro l
  induction l with
  | nil => intro region; rfl
  | cons re rest ih =>
    intro region
    unfold scan_regiondb
    by_cases h : re.id.take 16 = fd_id.take 16
    · simp [memcmp16, h, List.find?_cons]
    · simp [memcmp16, h, List.find?_cons, ih]

theorem scan_cartdb_find (sgid : String) (fd_id : List Nat) :
    ∀ (l : List CartEntry) (cart_type : Int),
      scan_cartdb sgid fd_id l cart_type
        = ((l.find? fun ca => spec_entry_matches ca.sgid ca.fd_id sgid fd_id).map
            fun ca => ca.cart_type).getD cart_type := by
  intro l
  induction l with
  | nil => intro cart_type; rfl
  | cons ca rest ih =>
    intro cart_type
    unfold scan_cartdb
    rw [entry_matches_eq_spec, List.find?_cons]
    cases hm : spec_entry_matches ca.sgid ca.fd_id sgid fd_id
    · simp [ih]
    · simp

theorem scan_cemdb_find (sgid : String) (fd_id : List Nat) :
    ∀ (l : List CemEntry) (cpucache_emumode : Nat),
      scan_cemdb sgid fd_id l cpucache_emumode
        = ((l.find? fun c => spec_entry_matches c.sgid c.fd_id sgid fd_id).map
            fun c => c.mode).getD cpucache_emumode := by
  intro l
  induction l with
  | nil => intro cpucache_emumode; rfl
  | cons c rest ih =>
    intro cpucache_emumode
    unfold scan_cemdb
    rw [entry_matches_eq_spec, List.find?_cons]
    cases hm : spec_entry_matches c.sgid c.fd_id sgid fd_id
    · simp [ih]
    · simp

theorem scan_hhdb_find (sgid : String) (fd_id : List Nat) :
    ∀ (l : List HhEntry),
      scan_hhdb sgid fd_id l
        = ((l.find? fun hh => spec_entry_matches hh.sgid hh.fd_id sgid fd_id).map
            fun hh => hh.horrible_hacks).getD 0 := by
  intro l
  induction l with
  | nil => rfl
  | cons hh rest ih =>
    unfold scan_hhdb
    rw [entry_matches_eq_spec, List.find?_cons]
    cases hm : spec_entry_matches hh.sgid hh.fd_id sgid fd_id
    · simp [ih]
    · simp

/-- C34: `DB_Lookup` makes three independent first-match scans: `*region` becomes the
area of the first `regiondb` entry whose 16-byte id equals `fd_id`, `*cart_type` the cart
type of the first matching `cartdb` entry and `*cpucache_emumode` the mode of the first
matching `cemdb` entry, an entry matching by exact string equality of its `sgid` when it
has one and by 16-byte equality of `fd_id` when it has none; an output whose table has no
matching entry keeps the value the caller supplied; and each output is the same whatever
the caller supplied for the other two (and whatever `path` is), the region also whatever
`sgid` is. -/
theorem db_lookup_first_match (k : DbConstants) (path sgid : String) (fd_id : List Nat)
    (region : Nat) (cart_type : Int) (cpucache_emumode : Nat) :
    (DB_Lookup k path sgid fd_id region cart_type cpucache_emumode).1
        = (((regiondb k).find? fun re => decide (re.id.take 16 = fd_id.take 16)).map
            fun re => re.area).getD region
      ∧ (DB_Lookup k path sgid fd_id region cart_type cpucache_emumode).2.1
        = (((cartdb k).find? fun ca => spec_entry_matches ca.sgid ca.fd_id sgid fd_id).map
            fun ca => ca.cart_type).getD cart_type
      ∧ (DB_Lookup k path sgid fd_id region cart_type cpucache_emumode).2.2
        = (((cemdb k).find? fun c => spec_entry_matches c.sgid c.fd_id sgid fd_id).map
            fun c => c.mode).getD cpucache_emumode
      ∧ (∀ (path' sgid' : String) (cart_type' : Int) (cpucache_emumode' : Nat),
          (DB_Lookup k path' sgid' fd_id region cart_type' cpucache_emumode').1
            = (DB_Lookup k path sgid fd_id region cart_type cpucache_emumode).1)
      ∧ (∀ (path' : String) (region' cpucache_emumode' : Nat),
          (DB_Lookup k path' sgid fd_id region' cart_type cpucache_emumode').2.1
            = (DB_Lookup k path sgid fd_id region cart_type cpucache_emumode).2.1)
      ∧ (∀ (path' : String) (region' : Nat) (cart_type' : Int),
          (DB_Lookup k path' sgid fd_id region' cart_type' cpucache_emumode).2.2
            = (DB_Lookup k path sgid fd_id region cart_type cpucache_emumode).2.2) := by
  refine ⟨scan_regiondb_find fd_id _ region, scan_cartdb_find sgid fd_id _ cart_type,
    scan_cemdb_find sgid fd_id _ cpucache_emumode, ?_, ?_, ?_⟩
  · intro _ _ _ _; rfl
  · intro _ _ _; rfl
  · intro _ _ _; rfl

/-- Every entry of `hhdb` has a game id. -/
theorem hhdb_sgid (k : DbConstants) : ∀ hh, hh ∈ hhdb k → hh.sgid.isSome = true := by
  have h : (hhdb k).all (fun hh => hh.sgid.isSome) = true := rfl
  intro hh hm
  exact List.all_eq_true.mp h hh hm

/-- A scan over entries that all have a game id does not read the disc id. -/
theorem scan_hhdb_fd_id (sgid : String) (fd_id fd_id' : List Nat) :
    ∀ (l : List HhEntry), (∀ hh, hh ∈ l → hh.sgid.isSome = true) →
      scan_hhdb sgid fd_id' l = scan_hhdb sgid fd_id l := by
  intro l
  induction l with
  | nil => intro _; rfl
  | cons hh rest ih =>
    intro hall
    have hs := hall hh (List.mem_cons_self hh rest)
    have hr := ih (fun e he => hall e (List.mem_cons_of_mem hh he))
    unfold scan_hhdb
    rw [hr]
    rcases hsg : hh.sgid with _ | g
    · rw [hsg] at hs; simp at hs
    · simp [entry_matches]

theorem find_hhdb_sgid (sgid : String) (fd_id : List Nat) :
    ∀ (l : List HhEntry), (∀ hh, hh ∈ l → hh.sgid.isSome = true) →
      (l.find? fun hh => spec_entry_matches hh.sgid hh.fd_id sgid fd_id)
        = l.find? fun hh => decide (hh.sgid = some sgid) := by
  intro l
  induction l with
  | nil => intro _; rfl
  | cons hh rest ih =>
    intro hall
    have hs := hall hh (List.mem_cons_self hh rest)
    have hr := ih (fun e he => hall e (List.mem_cons_of_mem hh he))
    rw [List.find?_cons, List.find?_cons, hr]
    rcases hsg : hh.sgid with _ | g
    · rw [hsg] at hs; simp at hs
    · simp [spec_entry_matches]

/-- C39: `DB_LookupHH(sgid, fd_id)` returns the `horrible_hacks` flags of the first `hhdb`
entry whose `sgid` equals the given `sgid` exactly, and 0 when no entry matches; every
`hhdb` entry has a non-null `sgid`, so the result does not depend on `fd_id`. -/
theorem db_lookup_hh_first_match (k : DbConstants) (sgid : String) (fd_id : List Nat) :
    DB_LookupHH k sgid fd_id
        = (((hhdb k).find? fun hh => decide (hh.sgid = some sgid)).map
            fun hh => hh.horrible_hacks).getD 0
      ∧ (∀ hh, hh ∈ hhdb k → hh.sgid ≠ none)
      ∧ (∀ fd_id' : List Nat, DB_LookupHH k sgid fd_id' = DB_LookupHH k sgid fd_id) := by
  refine ⟨?_, ?_, ?_⟩
  · unfold DB_LookupHH
    rw [scan_hhdb_find, find_hhdb_sgid sgid fd_id _ (hhdb_sgid k)]
  · intro hh hm hn
    have := hhdb_sgid k hh hm
    rw [hn] at this
    simp at this
  · intro fd_id'
    exact scan_hhdb_fd_id sgid fd_id fd_id' _ (hhdb_sgid k)

/-- Sample lookups: "GS-9123" is in `cartdb` and `cemdb` and not in `regiondb`; the disc id
of the first entry without a game id is found in `cartdb` only; "T-6006G" has two hack
flags; an unknown game id has none. -/
theorem sample_db_lookups :
    DB_Lookup sample_db_constants "" "GS-9123" (List.replicate 16 0) 99 98 97
        = (99, sample_db_constants.CART_BACKUP_MEM, sample_db_constants.CPUCACHE_EMUMODE_FULL)
      ∧ DB_Lookup sample_db_constants "" "unknown"
          [0x4a, 0xf9, 0xff, 0x30, 0xea, 0x54, 0xfe, 0x3a,
            0x79, 0xa7, 0x68, 0x69, 0xae, 0xde, 0x55, 0xbb] 99 98 97
        = (99, sample_db_constants.CART_CS1RAM_16M, 97)
      ∧ DB_LookupHH sample_db_constants "T-6006G" [] = 17
      ∧ DB_LookupHH sample_db_constants "unknown" [] = 0 := by
  decide!

/-! ### Save states -/

theorem encode_u16s_length (regs : Nat → Nat) :
    ∀ count, (encode_u16s regs count).length = 2 * count := by
  intro count
  induction count with
  | zero => rfl
  | succ n ih =>
    unfold encode_u16s
    rw [List.length_append, ih]
    simp only [List.length_cons, List.length_nil]
    omega

/-- Reading back an entry of an array of 16-bit values from its bytes. -/
theorem decode_encode_u16s (regs : Nat → Nat) :
    ∀ count i, i < count → regs i < 65536 →
      decode_u16 (encode_u16s regs count) i = regs i := by
  intro count
  induction count with
  | zero => intro i hi; omega
  | succ n ih =>
    intro i hi hr
    unfold encode_u16s decode_u16
    have hl := encode_u16s_length regs n
    by_cases hin : i < n
    · rw [List.getD_append _ _ _ _ (by omega), List.getD_append _ _ _ _ (by omega)]
      exact ih i hin hr
    · have e : i = n := by omega
      subst e
      rw [List.getD_append_right _ _ _ _ (by omega),
        List.getD_append_right _ _ _ _ (by omega), hl]
      have e0 : 2 * i - 2 * i = 0 := by omega
      have e1 : 2 * i + 1 - 2 * i = 1 := by omega
      rw [e0, e1]
      simp only [List.getD_cons_zero, List.getD_cons_succ]
      omega

/-- A save with `input_StateAction` leaves the variables alone and succeeds; loading the
store it leaves gives back the first MAX_CONTROLLERS entries of the array saved, over
whatever the array holds at the time of the load, and touches nothing else. -/
theorem input_StateAction_save_load (sm : StateMem) (s t : State) (d1 d2 : Bool) :
    (input_StateAction sm 0 d1 s).2.1 = s
      ∧ (input_StateAction sm 0 d1 s).2.2 = 1
      ∧ (input_StateAction (input_StateAction sm 0 d1 s).1 1 d2 t).2.2 = 1
      ∧ (input_StateAction (input_StateAction sm 0 d1 s).1 1 d2 t).2.1
          = { t with input_mode := fun i =>
              if i < MAX_CONTROLLERS then
                decode_u16 (encode_u16s s.input_mode MAX_CONTROLLERS) i
              else t.input_mode i } := by
  have hlen := encode_u16s_length s.input_mode MAX_CONTROLLERS
  refine ⟨rfl, rfl, ?_, ?_⟩
  · unfold input_StateAction MDFNSS_StateAction
    simp [hlen]
  · unfold input_StateAction MDFNSS_StateAction
    simp [hlen]

/-- C33: save-state round trip: for every array `input_mode` of twelve 16-bit values,
saving it with `input_StateAction` (load = 0), overwriting the array in memory with
arbitrary values and then loading the saved record with `input_StateAction` (load = 1)
restores the twelve entries to exactly the original values; both calls report success,
the save does not change the variables and the load changes nothing but the array. -/
theorem save_state_round_trip (sm : StateMem) (s : State) (corrupt : Nat → Nat)
    (d1 d2 : Bool) (hm : ∀ i, i < 12 → s.input_mode i < 65536) :
    (input_StateAction sm 0 d1 s).2.2 = 1
      ∧ (input_StateAction sm 0 d1 s).2.1 = s
      ∧ (input_StateAction (input_StateAction sm 0 d1 s).1 1 d2
          { s with input_mode := corrupt }).2.2 = 1
      ∧ (∀ i, i < 12 →
          (input_StateAction (input_StateAction sm 0 d1 s).1 1 d2
            { s with input_mode := corrupt }).2.1.input_mode i = s.input_mode i)
      ∧ (input_StateAction (input_StateAction sm 0 d1 s).1 1 d2
          { s with input_mode := corrupt }).2.1.input_data = s.input_data
      ∧ (input_StateAction (input_StateAction sm 0 d1 s).1 1 d2
          { s with input_mode := corrupt }).2.1.input_type = s.input_type := by
  obtain ⟨a1, a2, a3, a4⟩ := input_StateAction_save_load sm s
    { s with input_mode := corrupt } d1 d2
  refine ⟨a2, a1, a3, ?_, ?_, ?_⟩
  · intro i hi
    rw [a4]
    simp only
    have hi' : i < MAX_CONTROLLERS := hi
    rw [if_pos hi']
    exact decode_encode_u16s s.input_mode MAX_CONTROLLERS i hi' (hm i hi)
  · rw [a4]
  · rw [a4]

/-! ## Sample runs of the independence of the ports, the save states and the ranges -/

theorem sample_pad_gun_defined :
    (input_update sample_rescale (sample_cb_button RETRO_DEVICE_ID_JOYPAD_X)
      (retro_set_controller_port_device 1 RETRO_DEVICE_SS_GUN
        (sample_state RETRO_DEVICE_JOYPAD))).isSome = true := by
  decide!

/-- Sample run for C31: port 0 a Control Pad with X held, port 1 a Control Pad in one state
and a Virtua Gun in the other. -/
theorem port_translation_independent_witness :
    ∃ s1' s2',
      input_update sample_rescale (sample_cb_button RETRO_DEVICE_ID_JOYPAD_X)
          (sample_state RETRO_DEVICE_JOYPAD) = some s1'
      ∧ input_update sample_rescale (sample_cb_button RETRO_DEVICE_ID_JOYPAD_X)
          (retro_set_controller_port_device 1 RETRO_DEVICE_SS_GUN
            (sample_state RETRO_DEVICE_JOYPAD)) = some s2'
      ∧ s1'.input_data 0 = s2'.input_data 0 ∧ s1'.input_mode 0 = s2'.input_mode 0 :=
  ⟨Option.get _ sample_pad_defined, Option.get _ sample_pad_gun_defined,
    (Option.some_get sample_pad_defined).symm, (Option.some_get sample_pad_gun_defined).symm,
    (port_translation_independent sample_rescale (sample_cb_button RETRO_DEVICE_ID_JOYPAD_X)
      (sample_cb_button RETRO_DEVICE_ID_JOYPAD_X) (sample_state RETRO_DEVICE_JOYPAD)
      (retro_set_controller_port_device 1 RETRO_DEVICE_SS_GUN
        (sample_state RETRO_DEVICE_JOYPAD)) _ _ 0
      (Option.some_get sample_pad_defined).symm (Option.some_get sample_pad_gun_defined).symm
      (by decide) (by decide) rfl rfl rfl rfl rfl rfl (fun _ _ _ => rfl)).2⟩

theorem sample_modes_range : ∀ i, i < 12 →
    (retro_set_controller_port_device 0 RETRO_DEVICE_SS_3D_PAD State.initial).input_mode i
      < 65536 := by
  intro i hi
  interval_cases i <;> decide

/-- Sample run for C33: port 0 a 3D Control Pad in analog mode, the array overwritten
with 0xFFFF between the save and the load. -/
theorem save_state_round_trip_witness :
    (∀ i, i < 12 →
        (retro_set_controller_port_device 0 RETRO_DEVICE_SS_3D_PAD State.initial).input_mode i
          < 65536)
      ∧ ∀ i, i < 12 →
          (input_StateAction
            (input_StateAction [] 0 false
              (retro_set_controller_port_device 0 RETRO_DEVICE_SS_3D_PAD State.initial)).1
            1 false
            { retro_set_controller_port_device 0 RETRO_DEVICE_SS_3D_PAD State.initial with
              input_mode := fun _ => 0xFFFF }).2.1.input_mode i
          = (retro_set_controller_port_device 0 RETRO_DEVICE_SS_3D_PAD
              State.initial).input_mode i :=
  ⟨sample_modes_range,
    (save_state_round_trip []
      (retro_set_controller_port_device 0 RETRO_DEVICE_SS_3D_PAD State.initial)
      (fun _ => 0xFFFF) false false sample_modes_range).2.2.2.1⟩

/-- Sample run for C36: both ports Guns, aimed on-screen at (100, 200). -/
theorem gun_onscreen_range_witness :
    ∃ s', input_update sample_rescale (sample_cb_gun 0 0 1 100 200)
        (sample_state RETRO_DEVICE_SS_GUN) = some s'
      ∧ 0 < (sample_state RETRO_DEVICE_SS_GUN).players
      ∧ 19 ≤ get_u16 (s'.input_data 0) 0 ∧ get_u16 (s'.input_data 0) 0 ≤ 21491
      ∧ get_u16 (s'.input_data 0) 2 ≤ 240 :=
  ⟨Option.get _ sample_gun_onscreen_defined,
    (Option.some_get sample_gun_onscreen_defined).symm, by decide,
    (gun_onscreen_range sample_rescale (sample_cb_gun 0 0 1 100 200)
      (sample_state RETRO_DEVICE_SS_GUN) _ 0
      (Option.some_get sample_gun_onscreen_defined).symm (by decide) rfl
      (by decide) (by decide)).2.2.2.2.1,
    (gun_onscreen_range sample_rescale (sample_cb_gun 0 0 1 100 200)
      (sample_state RETRO_DEVICE_SS_GUN) _ 0
      (Option.some_get sample_gun_onscreen_defined).symm (by decide) rfl
      (by decide) (by decide)).2.2.2.2.2.1,
    (gun_onscreen_range sample_rescale (sample_cb_gun 0 0 1 100 200)
      (sample_state RETRO_DEVICE_SS_GUN) _ 0
      (Option.some_get sample_gun_onscreen_defined).symm (by decide) rfl
      (by decide) (by decide)).2.2.2.2.2.2.1⟩

/-- Sample values for C37: the 15 percent deadzone (4915), an analog read of 100 and the
digital read reporting the button as held. -/
theorem get_analog_trigger_inside_deadzone_witness :
    0 < uint16 (input_state (sample_cb_trigger 100 1) 0 RETRO_DEVICE_ANALOG
        RETRO_DEVICE_INDEX_ANALOG_BUTTON RETRO_DEVICE_ID_JOYPAD_L2)
      ∧ input_state (sample_cb_trigger 100 1) 0 RETRO_DEVICE_JOYPAD 0
          RETRO_DEVICE_ID_JOYPAD_L2 = 1
      ∧ get_analog_trigger 4915 (sample_cb_trigger 100 1) 0 RETRO_DEVICE_ID_JOYPAD_L2
          = some 0 :=
  ⟨by decide, by decide,
    (get_analog_trigger_inside_deadzone 4915 (sample_cb_trigger 100 1) 0
      RETRO_DEVICE_ID_JOYPAD_L2 (by decide) (by decide)).1⟩

theorem sample_pad_select_defined :
    (input_update sample_rescale (sample_cb_button RETRO_DEVICE_ID_JOYPAD_SELECT)
      (sample_state RETRO_DEVICE_JOYPAD)).isSome = true := by
  decide!

/-- Sample run for C38: both ports Control Pads, the mode button held. -/
theorem mode_changes_only_for_3d_pad_witness :
    ∃ s', input_update sample_rescale (sample_cb_button RETRO_DEVICE_ID_JOYPAD_SELECT)
        (sample_state RETRO_DEVICE_JOYPAD) = some s'
      ∧ 0 < (sample_state RETRO_DEVICE_JOYPAD).players
      ∧ (sample_state RETRO_DEVICE_JOYPAD).input_type 0 ≠ RETRO_DEVICE_SS_3D_PAD
      ∧ s'.input_mode 0 = (sample_state RETRO_DEVICE_JOYPAD).input_mode 0 :=
  ⟨Option.get _ sample_pad_select_defined,
    (Option.some_get sample_pad_select_defined).symm, by decide, by decide,
    (mode_changes_only_for_3d_pad sample_rescale
      (sample_cb_button RETRO_DEVICE_ID_JOYPAD_SELECT) (sample_state RETRO_DEVICE_JOYPAD) _ 0
      (Option.some_get sample_pad_select_defined).symm (by decide) (by decide)).1⟩

end BeetleSaturn
